import Mathlib

/-!
# A shallow embedding of `oden::oden_present_graphics`

The program is the Vulkan back end of the `oden` command interpreter
(`Source/vk_oden.cpp`) together with the producer loop and the `MatrixStack`
helper of `Source/sample_code.cpp`.

Conventions of the embedding.

* A Vulkan handle or a pointer is a natural number; `0` is `VK_NULL_HANDLE`
  (`nullptr`).
* A `std::map<std::string, Handle>` that the code reads only through
  `operator[]` is a function `String → Nat`: an absent key and a key bound to
  the null handle read the same (`operator[]` inserts the null handle on a
  miss).  `mmemreqs`, which the code tests with `count`, is a function into
  `Option`.
* The Vulkan driver is an oracle indexed by the number of calls already
  answered (`State.tick`): the n-th answer may be any value, so every theorem
  quantified over the oracle covers every behaviour of the driver.
* Every Vulkan call the code performs is appended to `State.trace`, with the
  arguments that matter and the answer of the driver.
* `exit(1)` is the outcome `exited`; undefined behaviour of C++ (indexing the
  slot vector out of range, `% 0`) is the outcome `undefined`.
* Fixed-width integers are natural numbers reduced modulo `2^32` or `2^64`
  where the code can wrap.
-/

namespace Oden

/-! ## Vulkan constants used by the code -/

def VK_FORMAT_B8G8R8A8_UNORM : Nat := 44
def VK_FORMAT_D32_SFLOAT : Nat := 126

def VK_IMAGE_USAGE_TRANSFER_DST_BIT : Nat := 0x2
def VK_IMAGE_USAGE_SAMPLED_BIT : Nat := 0x4
def VK_IMAGE_USAGE_COLOR_ATTACHMENT_BIT : Nat := 0x10
def VK_IMAGE_USAGE_DEPTH_STENCIL_ATTACHMENT_BIT : Nat := 0x20
def VK_IMAGE_USAGE_INPUT_ATTACHMENT_BIT : Nat := 0x80

def VK_IMAGE_ASPECT_COLOR_BIT : Nat := 0x1
def VK_IMAGE_ASPECT_DEPTH_BIT : Nat := 0x2

def VK_MEMORY_PROPERTY_DEVICE_LOCAL_BIT : Nat := 0x1
def VK_MEMORY_PROPERTY_HOST_VISIBLE_BIT : Nat := 0x2
def VK_MEMORY_PROPERTY_HOST_COHERENT_BIT : Nat := 0x4

def VK_ACCESS_INPUT_ATTACHMENT_READ_BIT : Nat := 0x10
def VK_ACCESS_SHADER_READ_BIT : Nat := 0x20
def VK_ACCESS_COLOR_ATTACHMENT_WRITE_BIT : Nat := 0x100
def VK_ACCESS_DEPTH_STENCIL_ATTACHMENT_WRITE_BIT : Nat := 0x400
def VK_ACCESS_TRANSFER_READ_BIT : Nat := 0x800
def VK_ACCESS_TRANSFER_WRITE_BIT : Nat := 0x1000
def VK_ACCESS_MEMORY_READ_BIT : Nat := 0x8000

def VK_PIPELINE_STAGE_TOP_OF_PIPE_BIT : Nat := 0x1
def VK_PIPELINE_STAGE_FRAGMENT_SHADER_BIT : Nat := 0x80
def VK_PIPELINE_STAGE_TRANSFER_BIT : Nat := 0x1000

/-- The image layouts named in the code. -/
inductive VkImageLayout where
  | UNDEFINED
  | GENERAL
  | COLOR_ATTACHMENT_OPTIMAL
  | DEPTH_STENCIL_ATTACHMENT_OPTIMAL
  | SHADER_READ_ONLY_OPTIMAL
  | TRANSFER_SRC_OPTIMAL
  | TRANSFER_DST_OPTIMAL
  | PREINITIALIZED
  | PRESENT_SRC_KHR
  deriving DecidableEq, Repr

/-- The descriptor types the code writes or declares in the set layout. -/
inductive VkDescriptorType where
  | COMBINED_IMAGE_SAMPLER
  | UNIFORM_BUFFER
  | STORAGE_TEXEL_BUFFER
  deriving DecidableEq, Repr

/-- The answers of `vkGetFenceStatus` the code distinguishes. -/
inductive VkResult where
  | VK_SUCCESS
  | VK_NOT_READY
  | VK_ERROR_DEVICE_LOST
  deriving DecidableEq, Repr

/-- The anonymous enum `RDT_SLOT_SRV, RDT_SLOT_CBV, RDT_SLOT_UAV, RDT_SLOT_MAX`. -/
def RDT_SLOT_SRV : Nat := 0
def RDT_SLOT_CBV : Nat := 1
def RDT_SLOT_UAV : Nat := 2
def RDT_SLOT_MAX : Nat := 3

/-- Range of `uint32_t`. -/
def U32 : Nat := 2 ^ 32
/-- Range of `uint64_t`. -/
def U64 : Nat := 2 ^ 64
/-- Largest value of `int`. -/
def INT_MAX : Nat := 2 ^ 31 - 1

/-- The struct `VkMemoryRequirements`. -/
structure VkMemoryRequirements where
  size : Nat := 0
  alignment : Nat := 0
  memoryTypeBits : Nat := 0
  deriving DecidableEq, Repr

/-- The struct `VkImageMemoryBarrier`, the fields `get_barrier` fills. -/
structure VkImageMemoryBarrier where
  srcAccessMask : Nat
  dstAccessMask : Nat
  oldLayout : VkImageLayout
  newLayout : VkImageLayout
  image : Nat
  aspectMask : Nat
  deriving DecidableEq, Repr

/-! ## The command stream (`ODEN.h`, not part of the sources) -/

/-- Modelled from the spec: the tag of a command; `ODEN.h`, which declares the
enum, is missing.  The names are the ones `vk_oden.cpp` tests, and the spec's
`SetBarrierToPresent`, which `vk_oden.cpp` never names. -/
inductive cmd_type where
  | CMD_SET_RENDER_TARGET
  | CMD_SET_TEXTURE
  | CMD_SET_TEXTURE_UAV
  | CMD_SET_CONSTANT
  | CMD_SET_VERTEX
  | CMD_SET_INDEX
  | CMD_SET_SHADER
  | CMD_CLEAR
  | CMD_CLEAR_DEPTH
  | CMD_DRAW_INDEX
  | CMD_DRAW
  | CMD_DISPATCH
  | CMD_SET_BARRIER
  deriving DecidableEq, Repr

/-- The rectangle of a command, `rect.x, rect.y, rect.w, rect.h`. -/
structure rect_t where
  x : Nat := 0
  y : Nat := 0
  w : Nat := 0
  h : Nat := 0
  deriving DecidableEq, Repr

/-- Modelled from the spec: a command, `struct cmd` of the missing `ODEN.h`.
The members are the ones `vk_oden.cpp` reads (`c.type`, `c.name`,
`c.set_render_target.rect`, `c.set_texture.slot`, ...); the members of the C++
union are flattened, each payload under its own prefix.  `data` is the payload
pointer: `none` is the null pointer, otherwise the bytes it points to.  A float
is kept as an abstract value (the code only copies it). -/
structure cmd where
  type : cmd_type
  name : String
  set_render_target_rect : rect_t := {}
  set_texture_rect : rect_t := {}
  set_texture_slot : Nat := 0
  set_texture_data : Option (List Nat) := none
  set_texture_size : Nat := 0
  set_constant_slot : Nat := 0
  set_constant_data : Option (List Nat) := none
  set_constant_size : Nat := 0
  set_vertex_data : Option (List Nat) := none
  set_vertex_size : Nat := 0
  set_index_data : Option (List Nat) := none
  set_index_size : Nat := 0
  clear_color : Fin 4 → Nat := fun _ => 0
  clear_depth_value : Nat := 0
  draw_index_start : Nat := 0
  draw_index_count : Nat := 0
  draw_vertex_count : Nat := 0
  dispatch_x : Nat := 0
  dispatch_y : Nat := 0
  dispatch_z : Nat := 0

/-! ## The trace of Vulkan calls -/

/-- One call of the Vulkan API (or of `memcpy`, `Sleep`): the arguments that
matter and, last, the answer of the driver.  The bindings of
`vkCreateDescriptorSetLayout` are `none` when the loop that builds them is
undefined.  The width and the height of `vkCmdSetViewport` are floats, given
as the integers they are.  The last five are calls the code never performs;
they are here so that their absence can be stated. -/
inductive Op where
  | vkCreateInstance (inst : Nat)
  | vkEnumeratePhysicalDevices (gpu_count : Nat)
  | vkCreateDevice (device : Nat)
  | vkCreateWin32SurfaceKHR (hwnd surface : Nat)
  | vkCreateSwapchainKHR (minImageCount w h swapchain : Nat)
  | vkGetSwapchainImagesKHR (images : List Nat)
  | vkCreateCommandPool (cmd_pool : Nat)
  | vkAllocateCommandBuffers (cmdbuf : Nat)
  | vkCreateFence (signaled : Bool) (fence : Nat)
  | vkCreateSampler (linear : Bool) (sampler : Nat)
  | vkCreateDescriptorPool (heapcount pool : Nat)
  | vkCreateDescriptorSetLayout (bindings : Option (List (Nat × VkDescriptorType)))
      (layout : Nat)
  | vkCreatePipelineLayout (pipeline_layout : Nat)
  | vkGetFenceStatus (fence : Nat) (status : VkResult)
  | vkWaitForFences (fence : Nat)
  | vkResetFences (fence : Nat)
  | vkAcquireNextImageKHR (fence present_index : Nat)
  | vkDestroyBuffer (buffer : Nat)
  | vkFreeMemory (devmem : Nat)
  | vkResetCommandBuffer (cmdbuf : Nat)
  | vkBeginCommandBuffer (cmdbuf : Nat)
  | vkEndCommandBuffer (cmdbuf : Nat)
  | vkQueueSubmit (cmdbuf fence : Nat)
  | vkQueuePresentKHR (present_index : Nat)
  | vkCreateImage (width height format usage image : Nat)
  | vkGetImageMemoryRequirements (image : Nat) (memreqs : VkMemoryRequirements)
  | vkGetBufferMemoryRequirements (buffer : Nat) (memreqs : VkMemoryRequirements)
  | vkAllocateMemory (allocationSize memoryTypeIndex devmem : Nat)
  | vkBindImageMemory (image devmem : Nat)
  | vkBindBufferMemory (buffer devmem : Nat)
  | vkCreateImageView (image format aspectMask view : Nat)
  | vkCreateRenderPass (color_num : Nat) (finalLayout depthFinalLayout : VkImageLayout)
      (renderpass : Nat)
  | vkCreateFramebuffer (renderpass : Nat) (views : List Nat) (width height framebuffer : Nat)
  | vkAllocateDescriptorSets (pool layout set : Nat)
  | vkCreateBuffer (size buffer : Nat)
  | vkMapMemory (devmem size dest : Nat)
  | memcpy (dest : Nat) (data : Option (List Nat)) (size : Nat)
  | vkUnmapMemory (devmem : Nat)
  | Sleep (ms : Nat)
  | vkUpdateDescriptorSets (dstSet dstBinding : Nat) (descriptorType : VkDescriptorType)
      (resource range : Nat)
  | vkCmdSetViewport (cmdbuf x y width height : Nat)
  | vkCmdSetScissor (cmdbuf x y width height : Nat)
  | vkCmdBeginRenderPass (cmdbuf renderpass framebuffer width height : Nat)
  | vkCmdEndRenderPass (cmdbuf : Nat)
  | vkCmdBindDescriptorSets (cmdbuf set : Nat)
  | vkCmdPipelineBarrier (cmdbuf srcStage dstStage : Nat) (barrier : VkImageMemoryBarrier)
  | vkCmdCopyBufferToImage (cmdbuf buffer image : Nat) (dstLayout : VkImageLayout)
      (width height depth : Nat)
  | vkCmdBindVertexBuffers (cmdbuf buffer : Nat)
  | vkCmdBindIndexBuffer (cmdbuf buffer : Nat)
  | vkCmdClearColorImage (cmdbuf image : Nat) (layout : VkImageLayout) (c0 c1 c2 c3 : Nat)
  | vkCmdClearDepthStencilImage (cmdbuf image depth : Nat)
  | vkCmdDrawIndexed (cmdbuf indexCount firstIndex : Nat)
  | vkCmdDraw (cmdbuf vertexCount : Nat)
  | vkCmdDispatch (cmdbuf x y z : Nat)
  | vkCreateGraphicsPipelines (renderpass pipeline : Nat)
  deriving Repr

/-! ## The environment: the driver and the functions of the missing header -/

/-- The environment of the program.  The `n`-th call answered by the driver may
return anything: `handle n` when it returns a handle or a pointer, and the
field of the right type otherwise.  `oden_get_backbuffer_name` and
`oden_get_depth_render_target_name` are declared in the missing `ODEN.h` and
are parameters. -/
structure Env where
  handle : Nat → Nat
  gpu_count : Nat → Nat
  memoryTypes : Nat → List Nat
  swapchainImages : Nat → List Nat
  memreqs : Nat → VkMemoryRequirements
  fence_status : Nat → VkResult
  present_index : Nat → Nat
  oden_get_backbuffer_name : Nat → String
  oden_get_depth_render_target_name : String → String

/-! ## The static state of `oden_present_graphics` -/

/-- The struct `DeviceBuffer`: one frame slot. -/
structure DeviceBuffer where
  value : Nat := 0
  cmdbuf : Nat := 0
  fence : Nat := 0
  framebuffer : Nat := 0
  vscratch_buffers : List Nat := []
  vscratch_devmems : List Nat := []
  deriving DecidableEq, Repr

/-- The function-local statics of `oden_present_graphics`, with the two ghost
fields `tick` (calls answered by the driver so far) and `trace`. -/
structure State where
  inst : Nat := 0
  gpudev : Nat := 0
  device : Nat := 0
  graphics_queue : Nat := 0
  surface : Nat := 0
  swapchain : Nat := 0
  cmd_pool : Nat := 0
  sampler_nearest : Nat := 0
  sampler_linear : Nat := 0
  desc_pool : Nat := 0
  layout : Nat := 0
  pipeline_layout : Nat := 0
  devicememoryprop : List Nat := []
  mrenderpasses : String → Nat := fun _ => 0
  mframebuffers : String → Nat := fun _ => 0
  mimages : String → Nat := fun _ => 0
  mimageviews : String → Nat := fun _ => 0
  mbuffers : String → Nat := fun _ => 0
  mmemreqs : String → Option VkMemoryRequirements := fun _ => none
  mdevmem : String → Nat := fun _ => 0
  mdescriptor_sets : String → Nat := fun _ => 0
  mgraphics_pipelines : String → Nat := fun _ => 0
  backbuffer_index : Nat := 0
  frame_count : Nat := 0
  devicebuffer : List DeviceBuffer := []
  tick : Nat := 0
  trace : List Op := []

/-- The state of the statics before the first call. -/
def State.initial : State := {}

/-- Assignment `m[k] = v` on a name-keyed map. -/
def mset {α : Type} (m : String → α) (k : String) (v : α) : String → α :=
  fun n => if n = k then v else m n

/-- A Vulkan call that returns nothing the code uses: recorded in the trace. -/
def State.emit (s : State) (o : Op) : State :=
  { s with trace := s.trace ++ [o] }

/-- A Vulkan call answered by the driver: recorded, and the oracle advances. -/
def State.call (s : State) (o : Op) : State :=
  { s with trace := s.trace ++ [o], tick := s.tick + 1 }

/-- The slot `ref = devicebuffer[backbuffer_index]`. -/
def State.ref (s : State) : DeviceBuffer :=
  s.devicebuffer.getD s.backbuffer_index {}

/-- An update of the slot through the reference `ref`. -/
def State.modifyRef (s : State) (f : DeviceBuffer → DeviceBuffer) : State :=
  { s with devicebuffer := s.devicebuffer.modify f s.backbuffer_index }

/-! ## The helpers of `vk_oden.cpp` -/

/-- The constant `info.initialLayout = VK_IMAGE_LAYOUT_UNDEFINED` of
`create_image`: the layout in which every image of the directory is created. -/
def create_image_initialLayout : VkImageLayout := .UNDEFINED

/-- The function `create_image`: `info.usage = usageFlags | TRANSFER_DST`. -/
def create_image (E : Env) (width height format usageFlags : Nat) (s : State) : Nat × State :=
  let ret := E.handle s.tick
  (ret, s.call (.vkCreateImage width height format
    (usageFlags ||| VK_IMAGE_USAGE_TRANSFER_DST_BIT) ret))

/-- The function `create_image_view`. -/
def create_image_view (E : Env) (image format aspectMask : Nat) (s : State) : Nat × State :=
  let ret := E.handle s.tick
  (ret, s.call (.vkCreateImageView image format aspectMask ret))

/-- The function `create_buffer`. -/
def create_buffer (E : Env) (size : Nat) (s : State) : Nat × State :=
  let ret := E.handle s.tick
  (ret, s.call (.vkCreateBuffer size ret))

/-- The function `get_barrier`: the destination access mask follows the new
layout; the two stage arguments are not used by the function. -/
def get_barrier (image aspectMask : Nat) (old_image_layout new_image_layout : VkImageLayout)
    (srcAccessMask _src_stages _dest_stages : Nat) : VkImageMemoryBarrier :=
  { srcAccessMask := srcAccessMask
    dstAccessMask :=
      match new_image_layout with
      | .TRANSFER_DST_OPTIMAL => VK_ACCESS_TRANSFER_WRITE_BIT
      | .COLOR_ATTACHMENT_OPTIMAL => VK_ACCESS_COLOR_ATTACHMENT_WRITE_BIT
      | .DEPTH_STENCIL_ATTACHMENT_OPTIMAL => VK_ACCESS_DEPTH_STENCIL_ATTACHMENT_WRITE_BIT
      | .SHADER_READ_ONLY_OPTIMAL =>
          VK_ACCESS_SHADER_READ_BIT ||| VK_ACCESS_INPUT_ATTACHMENT_READ_BIT
      | .TRANSFER_SRC_OPTIMAL => VK_ACCESS_TRANSFER_READ_BIT
      | .PRESENT_SRC_KHR => VK_ACCESS_MEMORY_READ_BIT
      | _ => 0
    oldLayout := old_image_layout
    newLayout := new_image_layout
    image := image
    aspectMask := aspectMask }

/-- The function `create_renderpass`: the final layout of the colour
attachments is `PRESENT_SRC_KHR` when presentable, `SHADER_READ_ONLY_OPTIMAL`
otherwise; the final layout of the depth attachment is
`DEPTH_STENCIL_ATTACHMENT_OPTIMAL`. -/
def create_renderpass (E : Env) (color_num : Nat) (is_presentable : Bool) (s : State) :
    Nat × State :=
  let finalLayout :=
    if is_presentable then VkImageLayout.PRESENT_SRC_KHR
    else VkImageLayout.SHADER_READ_ONLY_OPTIMAL
  let ret := E.handle s.tick
  (ret, s.call (.vkCreateRenderPass color_num finalLayout
    VkImageLayout.DEPTH_STENCIL_ATTACHMENT_OPTIMAL ret))

/-- The function `create_framebuffer`. -/
def create_framebuffer (E : Env) (renderpass : Nat) (vimageview : List Nat)
    (width height : Nat) (s : State) : Nat × State :=
  let fb := E.handle s.tick
  (fb, s.call (.vkCreateFramebuffer renderpass vimageview width height fb))

/-- The scan of `alloc_devmem` over `devicememoryprop.memoryTypes`, from index
`i`: the first index whose flags contain `flags`; `memoryTypeIndex` keeps its
initial `0` when the scan finds none. -/
def memory_type_scan (flags : Nat) : List Nat → Nat → Nat
  | [], _ => 0
  | propertyFlags :: rest, i =>
    if propertyFlags &&& flags = flags then i else memory_type_scan flags rest (i + 1)

/-- The lambda `alloc_devmem`. -/
def alloc_devmem (E : Env) (name : String) (size flags : Nat) (is_entry : Bool) (s : State) :
    Nat × State :=
  let memoryTypeIndex := memory_type_scan flags s.devicememoryprop 0
  let devmem := E.handle s.tick
  let s1 := s.call (.vkAllocateMemory size memoryTypeIndex devmem)
  (devmem,
    if is_entry = true ∧ devmem ≠ 0 then { s1 with mdevmem := mset s1.mdevmem name devmem }
    else s1)

/-- The rounding `size = size + (alignment - 1); size &= ~(alignment - 1)` on
`VkDeviceSize` (64 bits, unsigned). -/
def round_size (size alignment : Nat) : Nat :=
  let m := (alignment + U64 - 1) % U64
  ((size + m) % U64) &&& (U64 - 1 - m)

/-! ## The blocks the command handlers repeat -/

/-- The block `auto image = mimages[name]; if (image == nullptr) ...`: the image
bound to `name`, created and bound when the entry is null. -/
def resolve_image (E : Env) (name : String) (w h format usage : Nat) (s : State) :
    Nat × State :=
  if s.mimages name = 0 then
    let r := create_image E w h format usage s
    (r.1, { r.2 with mimages := mset r.2.mimages name r.1 })
  else (s.mimages name, s)

/-- The body of `if (mmemreqs.count(name) == 0)` for an image: query, round,
record the requirements, allocate device-local memory and bind it. -/
def image_memory (E : Env) (name : String) (image : Nat) (s : State) : State :=
  let got := E.memreqs s.tick
  let s1 := s.call (.vkGetImageMemoryRequirements image got)
  let memreqs : VkMemoryRequirements := { got with size := round_size got.size got.alignment }
  let s2 := { s1 with mmemreqs := mset s1.mmemreqs name (some memreqs) }
  let r := alloc_devmem E name memreqs.size VK_MEMORY_PROPERTY_DEVICE_LOCAL_BIT true s2
  r.2.emit (.vkBindImageMemory image r.1)

/-- The block `auto view = mimageviews[name]; if (view == nullptr) ...`. -/
def resolve_image_view (E : Env) (name : String) (image format aspectMask : Nat) (s : State) :
    Nat × State :=
  if s.mimageviews name = 0 then
    let r := create_image_view E image format aspectMask s
    (r.1, { r.2 with mimageviews := mset r.2.mimageviews name r.1 })
  else (s.mimageviews name, s)

/-- The block `auto buffer = mbuffers[name]; if (buffer == nullptr) ...`. -/
def resolve_buffer (E : Env) (name : String) (size : Nat) (s : State) : Nat × State :=
  if s.mbuffers name = 0 then
    let r := create_buffer E size s
    (r.1, { r.2 with mbuffers := mset r.2.mbuffers name r.1 })
  else (s.mbuffers name, s)

/-- The tail `vkMapMemory; if (dest) (memcpy; vkUnmapMemory) else Sleep(1000)`. -/
def map_and_copy (E : Env) (devmem mapSize : Nat) (data : Option (List Nat)) (size : Nat)
    (s : State) : State :=
  let dest := E.handle s.tick
  let s1 := s.call (.vkMapMemory devmem mapSize dest)
  if dest ≠ 0 then (s1.emit (.memcpy dest data size)).emit (.vkUnmapMemory devmem)
  else s1.emit (.Sleep 1000)

/-- The block `if (mmemreqs.count(name) == 0)` of `CMD_SET_CONSTANT`,
`CMD_SET_VERTEX` and `CMD_SET_INDEX`: query, round, record, allocate
host-visible memory, bind, map and copy the payload. -/
def buffer_memory (E : Env) (name : String) (buffer : Nat) (data : Option (List Nat))
    (size : Nat) (s : State) : State :=
  if s.mmemreqs name = none then
    let got := E.memreqs s.tick
    let s1 := s.call (.vkGetBufferMemoryRequirements buffer got)
    let memreqs : VkMemoryRequirements := { got with size := round_size got.size got.alignment }
    let s2 := { s1 with mmemreqs := mset s1.mmemreqs name (some memreqs) }
    let r := alloc_devmem E name memreqs.size
      (VK_MEMORY_PROPERTY_HOST_VISIBLE_BIT ||| VK_MEMORY_PROPERTY_HOST_COHERENT_BIT) true s2
    let s3 := r.2.emit (.vkBindBufferMemory buffer r.1)
    map_and_copy E r.1 memreqs.size data size s3
  else s

/-- The block "create stating textures" of `CMD_SET_TEXTURE`: the scratch
buffer and memory, registered on the slot, the copy of the payload and the
three recorded commands. -/
def texture_staging (E : Env) (c : cmd) (cmdbuf image_color w h : Nat) (s : State) : State :=
  let rb := create_buffer E c.set_texture_size s
  let scratch_buffer := rb.1
  let s1 := rb.2.modifyRef
    (fun r => { r with vscratch_buffers := r.vscratch_buffers ++ [scratch_buffer] })
  let got := E.memreqs s1.tick
  let s2 := s1.call (.vkGetBufferMemoryRequirements scratch_buffer got)
  let memreqs : VkMemoryRequirements := { got with size := round_size got.size got.alignment }
  let ra := alloc_devmem E (c.name ++ "_staging") memreqs.size
    (VK_MEMORY_PROPERTY_HOST_VISIBLE_BIT ||| VK_MEMORY_PROPERTY_HOST_COHERENT_BIT) false s2
  let devmem := ra.1
  let s3 := ra.2.modifyRef
    (fun r => { r with vscratch_devmems := r.vscratch_devmems ++ [devmem] })
  let s4 := s3.emit (.vkBindBufferMemory scratch_buffer devmem)
  let s5 := map_and_copy E devmem memreqs.size c.set_texture_data c.set_texture_size s4
  let before_barrier := get_barrier image_color VK_IMAGE_ASPECT_COLOR_BIT
    .PREINITIALIZED .TRANSFER_DST_OPTIMAL 0
    VK_PIPELINE_STAGE_TOP_OF_PIPE_BIT VK_PIPELINE_STAGE_TRANSFER_BIT
  let s6 := s5.emit (.vkCmdPipelineBarrier cmdbuf
    VK_PIPELINE_STAGE_TOP_OF_PIPE_BIT VK_PIPELINE_STAGE_TRANSFER_BIT before_barrier)
  let s7 := s6.emit (.vkCmdCopyBufferToImage cmdbuf scratch_buffer image_color
    .TRANSFER_DST_OPTIMAL w h 1)
  let after_barrier := get_barrier image_color VK_IMAGE_ASPECT_COLOR_BIT
    .TRANSFER_DST_OPTIMAL .SHADER_READ_ONLY_OPTIMAL VK_ACCESS_TRANSFER_WRITE_BIT
    VK_PIPELINE_STAGE_TRANSFER_BIT VK_PIPELINE_STAGE_FRAGMENT_SHADER_BIT
  s7.emit (.vkCmdPipelineBarrier cmdbuf
    VK_PIPELINE_STAGE_TRANSFER_BIT VK_PIPELINE_STAGE_FRAGMENT_SHADER_BIT after_barrier)

/-! ## The command interpreter: the loop `for (auto & c : vcmd)` -/

/-- The struct `record` local to a call: `rec = {}` before the loop. -/
structure record where
  descriptor_sets : Nat := 0
  renderpass : Nat := 0
  deriving DecidableEq, Repr

/-- The variables of the loop: the statics, `rec` (here `rec_`) and `cmd_index`. -/
structure Interp where
  s : State
  rec_ : record := {}
  cmd_index : Nat := 0

/-- How one iteration of the loop ends: it falls through to the next command,
or the process terminates in `exit(1)`. -/
inductive StepResult where
  | next (st : Interp)
  | exit (st : Interp)

/-- The statement `if (renderpass) vkCmdEndRenderPass(ref.cmdbuf);`, in
`CMD_SET_RENDER_TARGET` and after the loop. -/
def end_open_pass (cmdbuf renderpass : Nat) (s : State) : State :=
  if renderpass ≠ 0 then s.emit (.vkCmdEndRenderPass cmdbuf) else s

/-- The block `if (mmemreqs.count(name) == 0)` of a render-target image. -/
def ensure_image_memory (E : Env) (name : String) (image : Nat) (s : State) : State :=
  if s.mmemreqs name = none then image_memory E name image s else s

/-- The block `if (mmemreqs.count(name_color) == 0)` of `CMD_SET_TEXTURE`: the
image memory and then, in the same block, the staging upload. -/
def ensure_texture_memory (E : Env) (c : cmd) (cmdbuf image_color w h : Nat) (s : State) :
    State :=
  if s.mmemreqs c.name = none then
    texture_staging E c cmdbuf image_color w h (image_memory E c.name image_color s)
  else s

/-- The block `auto renderpass = mrenderpasses[name]; if (renderpass == nullptr) ...`. -/
def resolve_renderpass (E : Env) (name : String) (is_backbuffer : Bool) (s : State) :
    Nat × State :=
  if s.mrenderpasses name = 0 then
    let r := create_renderpass E 1 is_backbuffer s
    (r.1, { r.2 with mrenderpasses := mset r.2.mrenderpasses name r.1 })
  else (s.mrenderpasses name, s)

/-- The block `auto framebuffer = mframebuffers[name];
if (framebuffer == nullptr && renderpass) ...`. -/
def resolve_framebuffer (E : Env) (name : String) (renderpass : Nat) (imageviews : List Nat)
    (w h : Nat) (s : State) : Nat × State :=
  if s.mframebuffers name = 0 ∧ renderpass ≠ 0 then
    let r := create_framebuffer E renderpass imageviews w h s
    (r.1, { r.2 with mframebuffers := mset r.2.mframebuffers name r.1 })
  else (s.mframebuffers name, s)

/-- The block `if (renderpass && framebuffer) vkCmdBeginRenderPass(...)`; the
render area has offset `(0, 0)` and extent `(w, h)`. -/
def begin_pass (cmdbuf renderpass framebuffer w h : Nat) (s : State) : State :=
  if renderpass ≠ 0 ∧ framebuffer ≠ 0 then
    s.emit (.vkCmdBeginRenderPass cmdbuf renderpass framebuffer w h)
  else s

/-- The block `auto descriptor_sets = mdescriptor_sets[name];
if (descriptor_sets == nullptr) ...`: one allocation attempt, stored whatever
it returns. -/
def resolve_descriptor_set (E : Env) (name : String) (s : State) : Nat × State :=
  if s.mdescriptor_sets name = 0 then
    let d := E.handle s.tick
    let s1 := s.call (.vkAllocateDescriptorSets s.desc_pool s.layout d)
    (d, { s1 with mdescriptor_sets := mset s1.mdescriptor_sets name d })
  else (s.mdescriptor_sets name, s)

/-- The number of low bits that the conversion of `n` to a 32-bit float drops:
the least `e` with `n / 2 ^ e < 2 ^ 24` (the first argument bounds the search
and is never reached when it is at least `n`). -/
def float_exponent : Nat → Nat → Nat
  | 0, _ => 0
  | k + 1, n => if n < 2 ^ 24 then 0 else float_exponent k (n / 2) + 1

/-- The conversion `(float)n` of a non-negative integer to a 32-bit float, whose
significand has 24 bits, given as the integer the float is: `n` is rounded to
a multiple of `2 ^ e`, `e` the number of bits dropped, to the nearest one and
to the even one of two nearest (the default rounding of IEEE 754).  It is
exact up to `2 ^ 24`. -/
def float_of_nat (n : Nat) : Nat :=
  let e := float_exponent n n
  let q := n / 2 ^ e
  let r := n % 2 ^ e
  let up : Bool := decide (2 ^ e < 2 * r) || (decide (2 * r = 2 ^ e) && decide (q % 2 = 1))
  (if up then q + 1 else q) * 2 ^ e

/-- The handler `if (type == CMD_SET_RENDER_TARGET)`. -/
def cmd_set_render_target (E : Env) (c : cmd) (st : Interp) : StepResult :=
  let name := c.name
  let cmdbuf := st.s.ref.cmdbuf
  -- if (rec.renderpass) { vkCmdEndRenderPass(ref.cmdbuf); rec.renderpass = nullptr; }
  let s0 := end_open_pass cmdbuf st.rec_.renderpass st.s
  let w := c.set_render_target_rect.w
  let h := c.set_render_target_rect.h
  let is_backbuffer : Bool := decide (E.oden_get_backbuffer_name st.s.backbuffer_index = name)
  -- VkViewport viewport = {}; VkRect2D scissor = {}: the origin stays (0, 0);
  -- viewport.width = (float)w; viewport.height = (float)h;
  let s1 := (s0.emit (.vkCmdSetViewport cmdbuf 0 0 (float_of_nat w) (float_of_nat h))).emit
    (.vkCmdSetScissor cmdbuf 0 0 w h)
  -- COLOR
  let name_color := name
  let fmt_color := VK_FORMAT_B8G8R8A8_UNORM
  let rc := resolve_image E name_color w h fmt_color
    (VK_IMAGE_USAGE_INPUT_ATTACHMENT_BIT ||| VK_IMAGE_USAGE_COLOR_ATTACHMENT_BIT |||
      VK_IMAGE_USAGE_SAMPLED_BIT) s1
  let image_color := rc.1
  let s2 := ensure_image_memory E name_color image_color rc.2
  -- COLOR VIEW
  let rcv := resolve_image_view E name_color image_color fmt_color VK_IMAGE_ASPECT_COLOR_BIT s2
  let imageview_color := rcv.1
  -- DEPTH
  let name_depth := E.oden_get_depth_render_target_name name
  let fmt_depth := VK_FORMAT_D32_SFLOAT
  let rd := resolve_image E name_depth w h fmt_depth
    VK_IMAGE_USAGE_DEPTH_STENCIL_ATTACHMENT_BIT rcv.2
  let image_depth := rd.1
  let s3 := ensure_image_memory E name_depth image_depth rd.2
  -- DEPTH VIEW
  let rdv := resolve_image_view E name_depth image_depth fmt_depth VK_IMAGE_ASPECT_DEPTH_BIT s3
  let imageview_depth := rdv.1
  -- RENDER PASS
  let rp := resolve_renderpass E name is_backbuffer rdv.2
  let renderpass := rp.1
  -- FRAMEBUFFER
  let rf := resolve_framebuffer E name renderpass [imageview_color, imageview_depth] w h rp.2
  let framebuffer := rf.1
  -- BeginRenderPass ... rec.renderpass = renderpass;
  let s4 := begin_pass cmdbuf renderpass framebuffer w h rf.2
  let rec_renderpass := if renderpass ≠ 0 ∧ framebuffer ≠ 0 then renderpass else 0
  -- Descriptor sets
  let rs := resolve_descriptor_set E name s4
  let descriptor_sets := rs.1
  if descriptor_sets = 0 then
    .exit { s := rs.2
            rec_ := ⟨st.rec_.descriptor_sets, rec_renderpass⟩
            cmd_index := st.cmd_index }
  else
    .next { s := rs.2.emit (.vkCmdBindDescriptorSets cmdbuf descriptor_sets)
            rec_ := ⟨descriptor_sets, rec_renderpass⟩
            cmd_index := st.cmd_index }

/-- The handler `if (type == CMD_SET_TEXTURE || type == CMD_SET_TEXTURE_UAV)`. -/
def cmd_set_texture (E : Env) (c : cmd) (st : Interp) : StepResult :=
  let name := c.name
  let cmdbuf := st.s.ref.cmdbuf
  let w := c.set_texture_rect.w % U32
  let h := c.set_texture_rect.h % U32
  let slot := c.set_texture_slot
  -- COLOR
  let name_color := name
  let fmt_color := VK_FORMAT_B8G8R8A8_UNORM
  let rc := resolve_image E name_color w h fmt_color
    (VK_IMAGE_USAGE_INPUT_ATTACHMENT_BIT ||| VK_IMAGE_USAGE_COLOR_ATTACHMENT_BIT |||
      VK_IMAGE_USAGE_SAMPLED_BIT) st.s
  let image_color := rc.1
  -- allocate color memreq and Bind, then the staging upload
  let s1 := ensure_texture_memory E c cmdbuf image_color w h rc.2
  -- COLOR VIEW
  let rcv := resolve_image_view E name_color image_color fmt_color VK_IMAGE_ASPECT_COLOR_BIT s1
  let imageview_color := rcv.1
  let descriptor_sets := st.rec_.descriptor_sets
  if descriptor_sets = 0 then .exit { st with s := rcv.2 }
  else
    let binding := ((RDT_SLOT_MAX * slot) + RDT_SLOT_SRV) % U32
    .next { st with s := rcv.2.emit (.vkUpdateDescriptorSets descriptor_sets binding
      .COMBINED_IMAGE_SAMPLER imageview_color 0) }

/-- The handler `if (type == CMD_SET_CONSTANT)`. -/
def cmd_set_constant (E : Env) (c : cmd) (st : Interp) : StepResult :=
  let name := c.name
  let slot := c.set_constant_slot
  let data := c.set_constant_data
  let size := c.set_constant_size
  let rb := resolve_buffer E name size st.s
  let buffer := rb.1
  let s1 := buffer_memory E name buffer data size rb.2
  let descriptor_sets := st.rec_.descriptor_sets
  if descriptor_sets = 0 then .exit { st with s := s1 }
  else
    let binding := ((RDT_SLOT_MAX * slot) + RDT_SLOT_CBV) % U32
    .next { st with s := s1.emit (.vkUpdateDescriptorSets descriptor_sets binding
      .UNIFORM_BUFFER buffer size) }

/-- The handler `if (type == CMD_SET_VERTEX)`. -/
def cmd_set_vertex (E : Env) (c : cmd) (st : Interp) : StepResult :=
  let name := c.name
  let rb := resolve_buffer E name c.set_vertex_size st.s
  let buffer := rb.1
  let s1 := buffer_memory E name buffer c.set_vertex_data c.set_vertex_size rb.2
  .next { st with s := s1.emit (.vkCmdBindVertexBuffers st.s.ref.cmdbuf buffer) }

/-- The handler `if (type == CMD_SET_INDEX)`. -/
def cmd_set_index (E : Env) (c : cmd) (st : Interp) : StepResult :=
  let name := c.name
  let rb := resolve_buffer E name c.set_index_size st.s
  let buffer := rb.1
  let s1 := buffer_memory E name buffer c.set_index_data c.set_index_size rb.2
  .next { st with s := s1.emit (.vkCmdBindIndexBuffer st.s.ref.cmdbuf buffer) }

/-- The handler `if (type == CMD_SET_SHADER)`: the pipeline entry is read; when
it is null the create-info is filled in and nothing is called
(`vkCreateGraphicsPipelines` is commented out, both shader modules are null),
and the entry is not assigned. -/
def cmd_set_shader (_E : Env) (_c : cmd) (st : Interp) : StepResult :=
  .next st

/-- The handler `if (type == CMD_CLEAR)`. -/
def cmd_clear (_E : Env) (c : cmd) (st : Interp) : StepResult :=
  let name_color := c.name
  let image_color := st.s.mimages name_color
  .next { st with s := st.s.emit (.vkCmdClearColorImage st.s.ref.cmdbuf image_color .GENERAL
    (c.clear_color 0) (c.clear_color 1) (c.clear_color 2) (c.clear_color 3)) }

/-- One iteration of the loop: `cmd_index++`, then the handler of `c.type`.
The bodies of `CMD_CLEAR_DEPTH` (empty), `CMD_DRAW_INDEX`, `CMD_DRAW` and
`CMD_DISPATCH` (a local copy of the parameters and nothing else) change nothing;
no handler tests the tag of `SetBarrierToPresent`. -/
def proc_command (E : Env) (c : cmd) (st0 : Interp) : StepResult :=
  let st := { st0 with cmd_index := st0.cmd_index + 1 }
  match c.type with
  | .CMD_SET_RENDER_TARGET => cmd_set_render_target E c st
  | .CMD_SET_TEXTURE => cmd_set_texture E c st
  | .CMD_SET_TEXTURE_UAV => cmd_set_texture E c st
  | .CMD_SET_CONSTANT => cmd_set_constant E c st
  | .CMD_SET_VERTEX => cmd_set_vertex E c st
  | .CMD_SET_INDEX => cmd_set_index E c st
  | .CMD_SET_SHADER => cmd_set_shader E c st
  | .CMD_CLEAR => cmd_clear E c st
  | .CMD_CLEAR_DEPTH => .next st
  | .CMD_DRAW_INDEX => .next st
  | .CMD_DRAW => .next st
  | .CMD_DISPATCH => .next st
  | .CMD_SET_BARRIER => .next st

/-- The loop `for (auto & c : vcmd)`. -/
def proc_commands (E : Env) : List cmd → Interp → StepResult
  | [], st => .next st
  | c :: rest, st =>
    match proc_command E c st with
    | .next st1 => proc_commands E rest st1
    | .exit st1 => .exit st1

/-! ## One call of `oden_present_graphics` -/

/-- The arguments of a call (`appname` is only passed on to the driver). -/
structure Args where
  vcmd : List cmd
  handle : Nat := 0
  w : Nat := 0
  h : Nat := 0
  count : Nat
  heapcount : Nat := 0
  slotmax : Nat := 0

/-- How a call ends: it returns, the process terminates in `exit(1)`, or the
behaviour is undefined in C++. -/
inductive Outcome where
  | returned (s : State)
  | exited (s : State)
  | undefined

/-- Several calls that return nothing, in order. -/
def State.emits (s : State) (os : List Op) : State :=
  { s with trace := s.trace ++ os }

/-- The loop "Get BackBuffer Images": `mimages[name] = temp[i]` and a zeroed
`mmemreqs[name]` for the backbuffer name of every swapchain image, from `i`. -/
def register_backbuffers (E : Env) : List Nat → Nat → State → State
  | [], _, s => s
  | image :: rest, i, s =>
    let name_color := E.oden_get_backbuffer_name i
    register_backbuffers E rest (i + 1)
      { s with mimages := mset s.mimages name_color image
               mmemreqs := mset s.mmemreqs name_color (some {}) }

/-- The call `devicebuffer.resize(count)`. -/
def resize (v : List DeviceBuffer) (count : Nat) : List DeviceBuffer :=
  v.take count ++ List.replicate (count - v.length) ({} : DeviceBuffer)

/-- The loop "Create Frame Resources" over the slots `i, i + 1, ...` (`k` of
them): a command buffer, a fence created with `VK_FENCE_CREATE_SIGNALED_BIT`,
and `vkResetFences` on that fence. -/
def create_frame_resources (E : Env) : Nat → Nat → State → State
  | 0, _, s => s
  | k + 1, i, s =>
    let cmdbuf := E.handle s.tick
    let s1 := s.call (.vkAllocateCommandBuffers cmdbuf)
    let fence := E.handle s1.tick
    let s2 := s1.call (.vkCreateFence true fence)
    let s3 := s2.emit (.vkResetFences fence)
    create_frame_resources E k (i + 1)
      { s3 with devicebuffer :=
          s3.devicebuffer.modify (fun r => { r with cmdbuf := cmdbuf, fence := fence }) i }

/-- The vector `vdesc_setlayout_binding` after the loop
`for (int i = 0 ; i < slotmax; i++)`, when no product `i * RDT_SLOT_MAX`
overflows: `(uint32_t)RDT_SLOT_SRV + offset` is a sum of `uint32_t`. -/
def vdesc_setlayout_binding (slotmax : Nat) : List (Nat × VkDescriptorType) :=
  (List.range slotmax).flatMap fun i =>
    let offset := i * RDT_SLOT_MAX
    [ ((RDT_SLOT_SRV + offset) % U32, VkDescriptorType.COMBINED_IMAGE_SAMPLER),
      ((RDT_SLOT_CBV + offset) % U32, VkDescriptorType.UNIFORM_BUFFER),
      ((RDT_SLOT_UAV + offset) % U32, VkDescriptorType.STORAGE_TEXEL_BUFFER) ]

/-- The bindings passed to `vkCreateDescriptorSetLayout`.  In
`auto offset = i * RDT_SLOT_MAX` both factors are `int`: the product overflows,
which is undefined, when it exceeds `INT_MAX`.  The products grow with `i`, so
the loop overflows exactly when the product of its last index `slotmax - 1`
does; the result is then `none`, and nothing is said of the vector. -/
def layout_bindings (slotmax : Nat) : Option (List (Nat × VkDescriptorType)) :=
  if (slotmax - 1) * RDT_SLOT_MAX ≤ INT_MAX then some (vdesc_setlayout_binding slotmax)
  else none

/-- The block `if (inst == nullptr)`, first part: `vkCreateInstance` and the
first `vkEnumeratePhysicalDevices`.  The first component is `gpu_count`.  The
enumeration of extensions only feeds arguments of the driver and is left out. -/
def init_instance (E : Env) (s : State) : Nat × State :=
  let inst := E.handle s.tick
  let gpu_count := E.gpu_count (s.tick + 1)
  (gpu_count,
    { s with inst := inst
             tick := s.tick + 2
             trace := s.trace ++ [.vkCreateInstance inst, .vkEnumeratePhysicalDevices gpu_count] })

/-- Second part: the physical device (second `vkEnumeratePhysicalDevices`),
`vkCreateDevice`, `vkGetPhysicalDeviceMemoryProperties`, `vkGetDeviceQueue`. -/
def init_device (E : Env) (s : State) : State :=
  let gpudev := E.handle s.tick
  let device := E.handle (s.tick + 1)
  let devicememoryprop := E.memoryTypes (s.tick + 2)
  let graphics_queue := E.handle (s.tick + 3)
  { s with gpudev := gpudev
           device := device
           devicememoryprop := devicememoryprop
           graphics_queue := graphics_queue
           tick := s.tick + 4
           trace := s.trace ++ [.vkCreateDevice device] }

/-- Third part: surface, swapchain, the backbuffer images and the command pool. -/
def init_swapchain (E : Env) (a : Args) (s : State) : State :=
  let surface := E.handle s.tick
  let swapchain := E.handle (s.tick + 1)
  let temp := E.swapchainImages (s.tick + 2)
  let s1 : State :=
    { s with surface := surface
             swapchain := swapchain
             tick := s.tick + 3
             trace := s.trace ++ [.vkCreateWin32SurfaceKHR a.handle surface,
               .vkCreateSwapchainKHR a.count a.w a.h swapchain, .vkGetSwapchainImagesKHR temp] }
  let s2 := register_backbuffers E temp 0 s1
  let cmd_pool := E.handle s2.tick
  { s2.call (.vkCreateCommandPool cmd_pool) with cmd_pool := cmd_pool }

/-- Fourth part: the frame slots (`devicebuffer.resize(count)` and the loop). -/
def init_slots (E : Env) (a : Args) (s : State) : State :=
  create_frame_resources E a.count 0
    { s with devicebuffer := resize s.devicebuffer a.count }

/-- Last part: samplers, descriptor pool, set layout and pipeline layout. -/
def init_descriptors (E : Env) (a : Args) (s : State) : State :=
  let sampler_nearest := E.handle s.tick
  let sampler_linear := E.handle (s.tick + 1)
  let desc_pool := E.handle (s.tick + 2)
  let layout := E.handle (s.tick + 3)
  let pipeline_layout := E.handle (s.tick + 4)
  { s with sampler_nearest := sampler_nearest
           sampler_linear := sampler_linear
           desc_pool := desc_pool
           layout := layout
           pipeline_layout := pipeline_layout
           tick := s.tick + 5
           trace := s.trace ++ [.vkCreateSampler false sampler_nearest,
             .vkCreateSampler true sampler_linear,
             .vkCreateDescriptorPool a.heapcount desc_pool,
             .vkCreateDescriptorSetLayout (layout_bindings a.slotmax) layout,
             .vkCreatePipelineLayout pipeline_layout] }

/-- The whole block `if (inst == nullptr)`: `exit(1)` right after the first
`vkEnumeratePhysicalDevices` unless `gpu_count` is one. -/
def init_block (E : Env) (a : Args) (s : State) : Outcome :=
  let r := init_instance E s
  if r.1 ≠ 1 then .exited r.2
  else .returned (init_descriptors E a (init_slots E a (init_swapchain E a (init_device E r.2))))

/-- The step on the slot's fence: `vkGetFenceStatus`, and `vkWaitForFences`
and `vkResetFences` when the status is `VK_SUCCESS`; `VK_NOT_READY` and
`VK_ERROR_DEVICE_LOST` are only logged. -/
def wait_slot (E : Env) (fence : Nat) (s : State) : State :=
  let fence_status := E.fence_status s.tick
  let s1 := s.call (.vkGetFenceStatus fence fence_status)
  if fence_status = .VK_SUCCESS then
    (s1.emit (.vkWaitForFences fence)).emit (.vkResetFences fence)
  else s1

/-- The call `vkAcquireNextImageKHR` with the slot's fence; the first component
is `present_index`. -/
def acquire (E : Env) (fence : Nat) (s : State) : Nat × State :=
  let present_index := E.present_index s.tick
  (present_index, s.call (.vkAcquireNextImageKHR fence present_index))

/-- The block "Destroy scratch resources": every scratch buffer of the slot is
destroyed and the list cleared, then every scratch memory freed and the list
cleared. -/
def release_scratch (s : State) : State :=
  let s1 := (s.emits (s.ref.vscratch_buffers.map Op.vkDestroyBuffer)).modifyRef
    (fun r => { r with vscratch_buffers := [] })
  (s1.emits (s1.ref.vscratch_devmems.map Op.vkFreeMemory)).modifyRef
    (fun r => { r with vscratch_devmems := [] })

/-- The part of a call between the initialisation and the loop: the step on
the fence, the acquisition, the release of the scratch allocations, and
`vkResetCommandBuffer`, `vkBeginCommandBuffer` on the slot's command buffer.
The first component is `present_index`. -/
def frame_begin (E : Env) (s : State) : Nat × State :=
  let cmdbuf := s.ref.cmdbuf
  let fence := s.ref.fence
  let r := acquire E fence (wait_slot E fence s)
  let s1 := release_scratch r.2
  (r.1, (s1.emit (.vkResetCommandBuffer cmdbuf)).emit (.vkBeginCommandBuffer cmdbuf))

/-- The part of a call after the loop: end of the open pass, end of the
command buffer, `vkGetFenceStatus` (logged) and `vkResetFences`, submit with
the slot's fence, present. -/
def frame_end (E : Env) (present_index : Nat) (st : Interp) : State :=
  let cmdbuf := st.s.ref.cmdbuf
  let fence := st.s.ref.fence
  let s1 := (end_open_pass cmdbuf st.rec_.renderpass st.s).emit (.vkEndCommandBuffer cmdbuf)
  let s2 := (s1.call (.vkGetFenceStatus fence (E.fence_status s1.tick))).emit
    (.vkResetFences fence)
  (s2.emit (.vkQueueSubmit cmdbuf fence)).emit (.vkQueuePresentKHR present_index)

/-- The statements `frame_count++; backbuffer_index = frame_count % count;` on
a 64-bit counter; `% 0` is undefined. -/
def advance (a : Args) (s : State) : Outcome :=
  if a.count = 0 then .undefined
  else
    let frame_count := (s.frame_count + 1) % U64
    .returned { s with frame_count := frame_count
                       backbuffer_index := frame_count % a.count }

/-- The part of a call after the initialisation.  `auto & ref =
devicebuffer[backbuffer_index]` is undefined when the index is out of range;
`record rec = {}` and `cmd_index = 0` start the loop. -/
def present_frame (E : Env) (a : Args) (s : State) : Outcome :=
  if s.backbuffer_index < s.devicebuffer.length then
    let b := frame_begin E s
    match proc_commands E a.vcmd { s := b.2 } with
    | .exit st => .exited st.s
    | .next st => advance a (frame_end E b.1 st)
  else .undefined

/-- The function `oden::oden_present_graphics`. -/
def oden_present_graphics (E : Env) (a : Args) (s : State) : Outcome :=
  if s.inst = 0 then
    match init_block E a s with
    | .returned s1 => present_frame E a s1
    | .exited s1 => .exited s1
    | .undefined => .undefined
  else present_frame E a s

/-- Successive calls of `oden_present_graphics`, one per element of the list;
a call is made only if all earlier calls returned. -/
def present_calls (E : Env) : List Args → State → Outcome
  | [], s => .returned s
  | a :: rest, s =>
    match oden_present_graphics E a s with
    | .returned s1 => present_calls E rest s1
    | .exited s1 => .exited s1
    | .undefined => .undefined

/-! ## The producer: `main` and `MatrixStack` of `sample_code.cpp` -/

/-- The enum of `main`: `Width`, `Height`, `BufferMax`, `ShaderSlotMax`,
`ResourceMax`. -/
def Width : Nat := 1280
def Height : Nat := 720
def BufferMax : Nat := 2
def ShaderSlotMax : Nat := 8
def ResourceMax : Nat := 1024

/-- The arguments of the call `oden_present_graphics(app_name, vcmd, hwnd,
Width, Height, BufferMax, ResourceMax, ShaderSlotMax)` of the main loop. -/
def main_args (vcmd : List cmd) (hwnd : Nat) : Args :=
  { vcmd := vcmd, handle := hwnd, w := Width, h := Height, count := BufferMax,
    heapcount := ResourceMax, slotmax := ShaderSlotMax }

/-- The loop `while (Update())` of `main`, for `n` iterations from the value
`frame` of the 64-bit counter: `buffer_index = frame % BufferMax`, the command
vector is built (`build frame buffer_index` stands for the calls of the
helpers of the missing `oden_util.h`), `oden_present_graphics` is called once,
`vcmd.clear(); frame++`.  The result lists, for every iteration that is
reached, the producer's `buffer_index` and the state of the core with which
the call starts. -/
def main_loop (E : Env) (build : Nat → Nat → List cmd) (hwnd : Nat) :
    Nat → Nat → State → List (Nat × State)
  | 0, _, _ => []
  | n + 1, frame, s =>
    let buffer_index := frame % BufferMax
    let vcmd := build frame buffer_index
    (buffer_index, s) ::
      match oden_present_graphics E (main_args vcmd hwnd) s with
      | .returned s1 => main_loop E build hwnd n ((frame + 1) % U64) s1
      | _ => []

/-- The struct `MatrixStack`: `unsigned index` and `data[Max]`, over an
abstract type of matrices. -/
structure MatrixStack (M : Type) where
  index : Nat
  data : Nat → M

/-- The enumerator `MatrixStack::Max`. -/
def MatrixStack.Max : Nat := 32

/-- The member `Get(int i)`: `data[i]`. -/
def MatrixStack.Get {M : Type} (s : MatrixStack M) (i : Nat) : M :=
  s.data i

/-- The member `GetTop()`: `Get(index)`. -/
def MatrixStack.GetTop {M : Type} (s : MatrixStack M) : M :=
  s.Get s.index

/-- The member `Reset()`: `index = 0` and every one of the `Max` matrices set
to the identity. -/
def MatrixStack.Reset {M : Type} (identity : M) (s : MatrixStack M) : MatrixStack M :=
  { index := 0, data := fun i => if i < MatrixStack.Max then identity else s.data i }

/-- The member `Push()`: `mb = GetTop(); index = (index + 1) % Max;
GetTop() = mb`, with the sum taken on `unsigned`. -/
def MatrixStack.Push {M : Type} (s : MatrixStack M) : MatrixStack M :=
  let mb := s.GetTop
  let index := ((s.index + 1) % U32) % MatrixStack.Max
  { index := index, data := fun i => if i = index then mb else s.data i }

/-- The member `Pop()`: `index = (index - 1) % Max` with the difference taken
on `unsigned`; the second component is the test `index < 0` that guards the
message "under flow". -/
def MatrixStack.Pop {M : Type} (s : MatrixStack M) : MatrixStack M × Bool :=
  let index := ((s.index + U32 - 1) % U32) % MatrixStack.Max
  ({ s with index := index }, decide (index < 0))

/-- The constructor `MatrixStack()`: `index = 0`, then `Reset()`. -/
def MatrixStack.new {M : Type} (identity : M) : MatrixStack M :=
  MatrixStack.Reset identity { index := 0, data := fun _ => identity }

/-- A call of one of the members `Reset`, `Push`, `Pop`. -/
inductive StackOp where
  | Reset
  | Push
  | Pop
  deriving DecidableEq, Repr

/-- One call of `Reset`, `Push` or `Pop` on a stack. -/
def MatrixStack.step {M : Type} (identity : M) (s : MatrixStack M) : StackOp → MatrixStack M
  | .Reset => s.Reset identity
  | .Push => s.Push
  | .Pop => s.Pop.1

/-- A sequence of calls of `Reset`, `Push` and `Pop` on a stack. -/
def MatrixStack.run {M : Type} (identity : M) (ops : List StackOp) (s : MatrixStack M) :
    MatrixStack M :=
  ops.foldl (MatrixStack.step identity) s

/-! ## Observations on states, outcomes and traces -/

/-- The state an outcome carries (the initial state for `undefined`). -/
def Outcome.state : Outcome → State
  | .returned s => s
  | .exited s => s
  | .undefined => State.initial

/-- The loop variables with which the loop of a call starts: the state after
the initialisation block (run when `inst` is null) and the begin of the frame,
`rec = {}` and `cmd_index = 0`. -/
def loop_start (E : Env) (a : Args) (s : State) : Interp :=
  { s := (frame_begin E (if s.inst = 0 then (init_block E a s).state else s)).2 }

/-- Whether the call returned. -/
def Outcome.returns : Outcome → Bool
  | .returned _ => true
  | _ => false

/-- Whether the call returned or exited, that is, did nothing undefined. -/
def Outcome.defined : Outcome → Bool
  | .undefined => false
  | _ => true

/-- The loop variables a step result carries. -/
def StepResult.st : StepResult → Interp
  | .next st => st
  | .exit st => st

/-- Whether the step ended in `exit(1)`. -/
def StepResult.exits : StepResult → Bool
  | .next _ => false
  | .exit _ => true

/-- What a trace says about command buffers and render passes. -/
inductive PassEvent where
  | begin_buffer
  | begin_pass
  | end_pass
  | end_buffer
  deriving DecidableEq, Repr

/-- The pass event of a call, if it is one. -/
def pass_event : Op → Option PassEvent
  | .vkBeginCommandBuffer _ => some .begin_buffer
  | .vkCmdBeginRenderPass _ _ _ _ _ => some .begin_pass
  | .vkCmdEndRenderPass _ => some .end_pass
  | .vkEndCommandBuffer _ => some .end_buffer
  | _ => none

/-- The pass events of a trace, in order. -/
def pass_events (trace : List Op) : List PassEvent :=
  trace.filterMap pass_event

/-- The sequence begin, end, begin, end, ... of `n` complete passes. -/
def alternation : Nat → List PassEvent
  | 0 => []
  | n + 1 => alternation n ++ [.begin_pass, .end_pass]

/-- The events still unmatched when `rec.renderpass` has the given value. -/
def open_pass (renderpass : Nat) : List PassEvent :=
  if renderpass ≠ 0 then [.begin_pass] else []

/-- A map, a copy into mapped memory, or a buffer-to-image copy. -/
def Op.is_upload : Op → Bool
  | .vkMapMemory _ _ _ => true
  | .memcpy _ _ _ => true
  | .vkCmdCopyBufferToImage _ _ _ _ _ _ _ => true
  | _ => false

/-- A creation of an image, a view, a render pass or a framebuffer, or an
allocation of a descriptor set. -/
def Op.is_create : Op → Bool
  | .vkCreateImage _ _ _ _ _ => true
  | .vkCreateImageView _ _ _ _ => true
  | .vkCreateRenderPass _ _ _ _ => true
  | .vkCreateFramebuffer _ _ _ _ _ => true
  | .vkAllocateDescriptorSets _ _ _ => true
  | _ => false

/-- A draw, an indexed draw or a dispatch. -/
def Op.is_draw : Op → Bool
  | .vkCmdDrawIndexed _ _ _ => true
  | .vkCmdDraw _ _ => true
  | .vkCmdDispatch _ _ _ _ => true
  | _ => false

/-- A clear of a depth image. -/
def Op.is_depth_clear : Op → Bool
  | .vkCmdClearDepthStencilImage _ _ _ => true
  | _ => false

/-- A creation of a graphics pipeline. -/
def Op.is_pipeline_create : Op → Bool
  | .vkCreateGraphicsPipelines _ _ => true
  | _ => false

/-- A draw, an indexed draw, a dispatch, a clear of a depth image or a
creation of a graphics pipeline. -/
def Op.is_absent (o : Op) : Bool :=
  o.is_draw || o.is_depth_clear || o.is_pipeline_create

/-- A write of a descriptor into a descriptor set. -/
def Op.is_descriptor_write : Op → Bool
  | .vkUpdateDescriptorSets _ _ _ _ _ => true
  | _ => false

/-- The statics no command handler writes, and the handles of the slot. -/
structure FixedPart where
  inst : Nat
  frame_count : Nat
  backbuffer_index : Nat
  slots : Nat
  cmdbuf : Nat
  fence : Nat
  desc_pool : Nat
  layout : Nat
  devicememoryprop : List Nat

/-- The fixed part of a state. -/
def State.fixed (s : State) : FixedPart :=
  { inst := s.inst
    frame_count := s.frame_count
    backbuffer_index := s.backbuffer_index
    slots := s.devicebuffer.length
    cmdbuf := s.ref.cmdbuf
    fence := s.ref.fence
    desc_pool := s.desc_pool
    layout := s.layout
    devicememoryprop := s.devicememoryprop }

/-- Everything the directory stores under one name. -/
structure Entry where
  image : Nat
  imageview : Nat
  buffer : Nat
  memreqs : Option VkMemoryRequirements
  devmem : Nat
  renderpass : Nat
  framebuffer : Nat
  descriptor_set : Nat
  pipeline : Nat
  deriving DecidableEq, Repr

/-- The entries of the directory maps under the name `n`. -/
def State.entry (s : State) (n : String) : Entry :=
  { image := s.mimages n
    imageview := s.mimageviews n
    buffer := s.mbuffers n
    memreqs := s.mmemreqs n
    devmem := s.mdevmem n
    renderpass := s.mrenderpasses n
    framebuffer := s.mframebuffers n
    descriptor_set := s.mdescriptor_sets n
    pipeline := s.mgraphics_pipelines n }

/-- The maps of images, image views, buffers, render passes, framebuffers and
descriptor sets. -/
structure Bindings where
  mimages : String → Nat
  mimageviews : String → Nat
  mbuffers : String → Nat
  mrenderpasses : String → Nat
  mframebuffers : String → Nat
  mdescriptor_sets : String → Nat

/-- The six maps of a state. -/
def State.bindings (s : State) : Bindings :=
  { mimages := s.mimages
    mimageviews := s.mimageviews
    mbuffers := s.mbuffers
    mrenderpasses := s.mrenderpasses
    mframebuffers := s.mframebuffers
    mdescriptor_sets := s.mdescriptor_sets }

/-- The seven objects of the render target `name` are bound: colour image and
view, depth image and view under the derived name, render pass, framebuffer
and descriptor set. -/
def render_target_bound (E : Env) (s : State) (name : String) : Prop :=
  s.mimages name ≠ 0 ∧ s.mimageviews name ≠ 0 ∧
  s.mimages (E.oden_get_depth_render_target_name name) ≠ 0 ∧
  s.mimageviews (E.oden_get_depth_render_target_name name) ≠ 0 ∧
  s.mrenderpasses name ≠ 0 ∧ s.mframebuffers name ≠ 0 ∧ s.mdescriptor_sets name ≠ 0

/-- The creation calls of a trace, in order. -/
def creates (trace : List Op) : List Op :=
  trace.filter Op.is_create

/-- The map, copy and buffer-to-image copy calls of a trace, in order. -/
def uploads (trace : List Op) : List Op :=
  trace.filter Op.is_upload

/-- The descriptor writes of a trace, in order. -/
def descriptor_writes (trace : List Op) : List Op :=
  trace.filter Op.is_descriptor_write

/-- A call that the initialisation block can make. -/
def Op.is_init_op : Op → Bool
  | .vkCreateInstance _ => true
  | .vkEnumeratePhysicalDevices _ => true
  | .vkCreateDevice _ => true
  | .vkCreateWin32SurfaceKHR _ _ => true
  | .vkCreateSwapchainKHR _ _ _ _ => true
  | .vkGetSwapchainImagesKHR _ => true
  | .vkCreateCommandPool _ => true
  | .vkAllocateCommandBuffers _ => true
  | .vkCreateFence signaled _ => signaled
  | .vkResetFences _ => true
  | .vkCreateSampler _ _ => true
  | .vkCreateDescriptorPool _ _ => true
  | .vkCreateDescriptorSetLayout _ _ => true
  | .vkCreatePipelineLayout _ => true
  | _ => false

/-- A call that the part of `oden_present_graphics` between the
initialisation block and the loop can make. -/
def Op.is_begin_op : Op → Bool
  | .vkGetFenceStatus _ _ => true
  | .vkWaitForFences _ => true
  | .vkResetFences _ => true
  | .vkAcquireNextImageKHR _ _ => true
  | .vkDestroyBuffer _ => true
  | .vkFreeMemory _ => true
  | .vkResetCommandBuffer _ => true
  | .vkBeginCommandBuffer _ => true
  | _ => false

/-- A call that the part of `oden_present_graphics` after the loop can make. -/
def Op.is_end_op : Op → Bool
  | .vkCmdEndRenderPass _ => true
  | .vkEndCommandBuffer _ => true
  | .vkGetFenceStatus _ _ => true
  | .vkResetFences _ => true
  | .vkQueueSubmit _ _ => true
  | .vkQueuePresentKHR _ => true
  | _ => false

/-- A call that a command handler can make, with the arguments that are
constants of the code: the origin of the viewport and of the scissor, the
layouts of the two barriers of an upload, of the copy and of the clear, the
single colour attachment and the final layouts of a render pass. -/
def Op.is_loop_op : Op → Bool
  | .vkCreateImage _ _ _ _ _ => true
  | .vkGetImageMemoryRequirements _ _ => true
  | .vkGetBufferMemoryRequirements _ _ => true
  | .vkAllocateMemory _ _ _ => true
  | .vkBindImageMemory _ _ => true
  | .vkBindBufferMemory _ _ => true
  | .vkCreateImageView _ _ _ _ => true
  | .vkCreateRenderPass n l d _ =>
      decide (n = 1) && (decide (l = .PRESENT_SRC_KHR) || decide (l = .SHADER_READ_ONLY_OPTIMAL))
        && decide (d = .DEPTH_STENCIL_ATTACHMENT_OPTIMAL)
  | .vkCreateFramebuffer _ _ _ _ _ => true
  | .vkAllocateDescriptorSets _ _ _ => true
  | .vkCreateBuffer _ _ => true
  | .vkMapMemory _ _ _ => true
  | .memcpy _ _ _ => true
  | .vkUnmapMemory _ => true
  | .Sleep ms => decide (ms = 1000)
  | .vkUpdateDescriptorSets _ _ _ _ _ => true
  | .vkCmdSetViewport _ x y _ _ => decide (x = 0) && decide (y = 0)
  | .vkCmdSetScissor _ x y _ _ => decide (x = 0) && decide (y = 0)
  | .vkCmdBeginRenderPass _ _ _ _ _ => true
  | .vkCmdEndRenderPass _ => true
  | .vkCmdBindDescriptorSets _ _ => true
  | .vkCmdPipelineBarrier _ _ _ b =>
      (decide (b.oldLayout = .PREINITIALIZED) && decide (b.newLayout = .TRANSFER_DST_OPTIMAL)) ||
      (decide (b.oldLayout = .TRANSFER_DST_OPTIMAL) &&
        decide (b.newLayout = .SHADER_READ_ONLY_OPTIMAL))
  | .vkCmdCopyBufferToImage _ _ _ l _ _ d => decide (l = .TRANSFER_DST_OPTIMAL) && decide (d = 1)
  | .vkCmdBindVertexBuffers _ _ => true
  | .vkCmdBindIndexBuffer _ _ => true
  | .vkCmdClearColorImage _ _ l _ _ _ _ => decide (l = .GENERAL)
  | _ => false

/-- A call that some statement of `oden_present_graphics` can make. -/
def Op.is_issued (o : Op) : Bool :=
  o.is_init_op || o.is_begin_op || o.is_loop_op || o.is_end_op

/-- A pipeline barrier that moves an image to the layout `PRESENT_SRC_KHR`. -/
def Op.is_present_barrier : Op → Bool
  | .vkCmdPipelineBarrier _ _ _ b => decide (b.newLayout = .PRESENT_SRC_KHR)
  | _ => false

/-- A creation of a render pass. -/
def Op.is_renderpass_create : Op → Bool
  | .vkCreateRenderPass _ _ _ _ => true
  | _ => false

/-- The final layouts a creation of a render pass gives to its colour
attachments and to its depth attachment. -/
def Op.renderpass_layouts : Op → Option (VkImageLayout × VkImageLayout)
  | .vkCreateRenderPass _ l d _ => some (l, d)
  | _ => none

/-- A blocking wait on a fence. -/
def Op.is_fence_wait : Op → Bool
  | .vkWaitForFences _ => true
  | _ => false

/-- A destruction of a buffer or a release of a device memory. -/
def Op.is_release : Op → Bool
  | .vkDestroyBuffer _ => true
  | .vkFreeMemory _ => true
  | _ => false

/-- A query of memory requirements, an allocation of device memory, or a bind
of memory to an image or a buffer. -/
def Op.is_alloc : Op → Bool
  | .vkGetImageMemoryRequirements _ _ => true
  | .vkGetBufferMemoryRequirements _ _ => true
  | .vkAllocateMemory _ _ _ => true
  | .vkBindImageMemory _ _ => true
  | .vkBindBufferMemory _ _ => true
  | _ => false

/-- The trace of `s1` is that of `s` followed by calls that all satisfy `q`. -/
def Within (q : Op → Bool) (s s1 : State) : Prop :=
  ∃ ops : List Op, s1.trace = s.trace ++ ops ∧ ops.all q = true

/-- The scratch buffers and the scratch memories registered on the slot of
index `i` (none when there is no such slot). -/
def State.scratch (s : State) (i : Nat) : List Nat × List Nat :=
  ((s.devicebuffer.getD i {}).vscratch_buffers, (s.devicebuffer.getD i {}).vscratch_devmems)

/-- The two scratch lists of every slot have the same length. -/
def balanced (s : State) : Prop :=
  ∀ i : Nat, (s.scratch i).1.length = (s.scratch i).2.length

/-- From `s` to `s1` the slot index and the number of slots are the same, the
scratch lists of every other slot are the same, and the two scratch lists of
the current slot have been extended by the same number of entries. -/
def Stages (s s1 : State) : Prop :=
  s1.backbuffer_index = s.backbuffer_index ∧
  s1.devicebuffer.length = s.devicebuffer.length ∧
  (∀ i : Nat, i ≠ s.backbuffer_index → s1.scratch i = s.scratch i) ∧
  ∃ bs ms : List Nat, bs.length = ms.length ∧
    s1.scratch s.backbuffer_index =
      ((s.scratch s.backbuffer_index).1 ++ bs, (s.scratch s.backbuffer_index).2 ++ ms)

/-- From `s` to `s1` the recorded memory requirements are the same and no
query of memory requirements, no allocation and no bind has been added to the
trace. -/
def Settled (s s1 : State) : Prop :=
  s1.mmemreqs = s.mmemreqs ∧ s1.trace.filter Op.is_alloc = s.trace.filter Op.is_alloc

/-- A command recorded into a command buffer (`vkCmd...`). -/
def Op.is_command : Op → Bool
  | .vkCmdSetViewport _ _ _ _ _ => true
  | .vkCmdSetScissor _ _ _ _ _ => true
  | .vkCmdBeginRenderPass _ _ _ _ _ => true
  | .vkCmdEndRenderPass _ => true
  | .vkCmdBindDescriptorSets _ _ => true
  | .vkCmdPipelineBarrier _ _ _ _ => true
  | .vkCmdCopyBufferToImage _ _ _ _ _ _ _ => true
  | .vkCmdBindVertexBuffers _ _ => true
  | .vkCmdBindIndexBuffer _ _ => true
  | .vkCmdClearColorImage _ _ _ _ _ _ _ => true
  | .vkCmdClearDepthStencilImage _ _ _ => true
  | .vkCmdDrawIndexed _ _ _ => true
  | .vkCmdDraw _ _ => true
  | .vkCmdDispatch _ _ _ _ => true
  | _ => false

/-- A reset or a begin of a command buffer. -/
def Op.is_rerecord : Op → Bool
  | .vkResetCommandBuffer _ => true
  | .vkBeginCommandBuffer _ => true
  | _ => false

/-- The image a bind of image memory is made on. -/
def Op.bound_image : Op → Option Nat
  | .vkBindImageMemory image _ => some image
  | _ => none

/-- The buffer a bind of buffer memory is made on. -/
def Op.bound_buffer : Op → Option Nat
  | .vkBindBufferMemory buffer _ => some buffer
  | _ => none

/-- The buffer a creation of a buffer returned. -/
def Op.created_buffer : Op → Option Nat
  | .vkCreateBuffer _ buffer => some buffer
  | _ => none

/-- The calls one call of `oden_present_graphics` adds to the trace. -/
def call_ops (E : Env) (a : Args) (s : State) : List Op :=
  (oden_present_graphics E a s).state.trace.drop s.trace.length

/-- The state with which the part of a call after the initialisation block
starts: the state after that block when `inst` is null, the state itself
otherwise. -/
def frame_start (E : Env) (a : Args) (s : State) : State :=
  if s.inst = 0 then (init_block E a s).state else s

/-- A call that sets the viewport or the scissor, or begins a render pass. -/
def Op.is_area : Op → Bool
  | .vkCmdSetViewport _ _ _ _ _ => true
  | .vkCmdSetScissor _ _ _ _ _ => true
  | .vkCmdBeginRenderPass _ _ _ _ _ => true
  | _ => false

/-- The rectangle `(x, y, width, height)` a call sets the viewport to. -/
def Op.viewport_rect : Op → Option rect_t
  | .vkCmdSetViewport _ x y w h => some ⟨x, y, w, h⟩
  | _ => none

/-- The rectangle `(x, y, width, height)` a call sets the scissor to. -/
def Op.scissor_rect : Op → Option rect_t
  | .vkCmdSetScissor _ x y w h => some ⟨x, y, w, h⟩
  | _ => none

/-- A step of a staging upload: the creation of a buffer, a map, a copy into
mapped memory, or a buffer-to-image copy. -/
def Op.is_staging : Op → Bool
  | .vkCreateBuffer _ _ => true
  | .vkMapMemory _ _ _ => true
  | .memcpy _ _ _ => true
  | .vkCmdCopyBufferToImage _ _ _ _ _ _ _ => true
  | _ => false

/-- What a call makes of the state of the fence `f`, as far as the host
decides it: a creation puts it in the state of the signaled flag, a reset
makes it unsignaled; no other call of the host sets it. -/
def Op.sets_fence (f : Nat) : Op → Option Bool
  | .vkCreateFence signaled g => if g = f then some signaled else none
  | .vkResetFences g => if g = f then some false else none
  | _ => none

/-- The state in which the host last put the fence `f` in a trace: signaled
(`some true`), unsignaled (`some false`), or never set. -/
def fence_set (trace : List Op) (f : Nat) : Option Bool :=
  (trace.filterMap (Op.sets_fence f)).getLast?

/-- The barrier of a pipeline barrier. -/
def Op.barrier : Op → Option VkImageMemoryBarrier
  | .vkCmdPipelineBarrier _ _ _ b => some b
  | _ => none

/-- The image index a call presents. -/
def Op.presented : Op → Option Nat
  | .vkQueuePresentKHR i => some i
  | _ => none

/-- The image index a call acquired. -/
def Op.acquired : Op → Option Nat
  | .vkAcquireNextImageKHR _ i => some i
  | _ => none

/-- The draws, dispatches, depth clears and pipeline creations of a trace. -/
def absent_ops (trace : List Op) : List Op :=
  trace.filter Op.is_absent

/-- From `s` to `s1` the pipeline directory is the same and no draw, dispatch,
depth clear or pipeline creation has been added to the trace. -/
def Idle (s s1 : State) : Prop :=
  s1.mgraphics_pipelines = s.mgraphics_pipelines ∧ absent_ops s1.trace = absent_ops s.trace

/-- Every non-null binding of `s` in the maps of images, image views, buffers,
render passes, framebuffers and descriptor sets is the same in `s1`. -/
def keeps_bindings (s s1 : State) : Prop :=
  ∀ n : String,
    (s.mimages n ≠ 0 → s1.mimages n = s.mimages n) ∧
    (s.mimageviews n ≠ 0 → s1.mimageviews n = s.mimageviews n) ∧
    (s.mbuffers n ≠ 0 → s1.mbuffers n = s.mbuffers n) ∧
    (s.mrenderpasses n ≠ 0 → s1.mrenderpasses n = s.mrenderpasses n) ∧
    (s.mframebuffers n ≠ 0 → s1.mframebuffers n = s.mframebuffers n) ∧
    (s.mdescriptor_sets n ≠ 0 → s1.mdescriptor_sets n = s.mdescriptor_sets n)

/-- Every non-null binding of `s` in the six maps is the same in `s1`, except
possibly the images bound under a backbuffer name. -/
def keeps_other_bindings (E : Env) (s s1 : State) : Prop :=
  ∀ n : String,
    (s.mimages n ≠ 0 → (∀ i : Nat, E.oden_get_backbuffer_name i ≠ n) →
      s1.mimages n = s.mimages n) ∧
    (s.mimageviews n ≠ 0 → s1.mimageviews n = s.mimageviews n) ∧
    (s.mbuffers n ≠ 0 → s1.mbuffers n = s.mbuffers n) ∧
    (s.mrenderpasses n ≠ 0 → s1.mrenderpasses n = s.mrenderpasses n) ∧
    (s.mframebuffers n ≠ 0 → s1.mframebuffers n = s.mframebuffers n) ∧
    (s.mdescriptor_sets n ≠ 0 → s1.mdescriptor_sets n = s.mdescriptor_sets n)

/-- Every entry of `mmemreqs` present in `s` is the same in `s1`. -/
def keeps_memreqs (s s1 : State) : Prop :=
  ∀ n : String, s.mmemreqs n ≠ none → s1.mmemreqs n = s.mmemreqs n

/-- What every part of the program keeps: the non-null bindings and the
entries of `mmemreqs`. -/
def Grows (s s1 : State) : Prop :=
  keeps_bindings s s1 ∧ keeps_memreqs s s1

/-- What the stages of the initialisation block keep: the counters, the pass
events of the trace, the presence of every entry of `mmemreqs` and the
pipeline directory. -/
structure InitKeeps (s s1 : State) : Prop where
  frame_count : s1.frame_count = s.frame_count
  backbuffer_index : s1.backbuffer_index = s.backbuffer_index
  events : pass_events s1.trace = pass_events s.trace
  memreqs : ∀ n, s.mmemreqs n ≠ none → s1.mmemreqs n ≠ none
  pipelines : s1.mgraphics_pipelines = s.mgraphics_pipelines

/-- The tags whose handlers upload a payload on first reference. -/
def cmd_type.uploads : cmd_type → Bool
  | .CMD_SET_TEXTURE => true
  | .CMD_SET_TEXTURE_UAV => true
  | .CMD_SET_CONSTANT => true
  | .CMD_SET_VERTEX => true
  | .CMD_SET_INDEX => true
  | _ => false

/-- The tags whose handlers write a descriptor into `rec.descriptor_sets`. -/
def cmd_type.binds : cmd_type → Bool
  | .CMD_SET_TEXTURE => true
  | .CMD_SET_TEXTURE_UAV => true
  | .CMD_SET_CONSTANT => true
  | _ => false

/-! ## Concrete environments and inputs -/

/-- Modelled from the spec: `oden_get_backbuffer_name` of the missing `ODEN.h`,
the name `backbuffer<i>` of the buffer index `i`. -/
def oden_get_backbuffer_name (i : Nat) : String :=
  "backbuffer" ++ toString i

/-- Modelled from the spec: `oden_get_depth_render_target_name` of the missing
`ODEN.h`, a deterministic function of the colour target's name that suffixes
it; the suffix taken here is `_depth`. -/
def oden_get_depth_render_target_name (name : String) : String :=
  name ++ "_depth"

/-- A driver in which every call succeeds: the `n`-th answer is the handle
`n + 1`, there is one physical device, two memory types (device-local, and
host-visible and coherent), two swapchain images, and the fences are never
found signaled. -/
def sample_env : Env :=
  { handle := fun n => n + 1
    gpu_count := fun _ => 1
    memoryTypes := fun _ => [1, 6]
    swapchainImages := fun _ => [100, 101]
    memreqs := fun _ => { size := 10, alignment := 16, memoryTypeBits := 3 }
    fence_status := fun _ => .VK_NOT_READY
    present_index := fun _ => 0
    oden_get_backbuffer_name := oden_get_backbuffer_name
    oden_get_depth_render_target_name := oden_get_depth_render_target_name }

/-- The sample driver, except that it reports two physical devices. -/
def two_gpu_env : Env :=
  { sample_env with gpu_count := fun _ => 2 }

/-- The sample driver, except that its answer number 31 is null: in a first
call that starts with a `SetRenderTarget`, this is the answer of
`vkAllocateDescriptorSets`. -/
def exhausted_env : Env :=
  { sample_env with handle := fun n => if n = 31 then 0 else n + 1 }

/-- The command vector of the scenario of the spec: render target `rt0` of
64 by 64, clear, shader, vertex buffer of four vertices, index buffer of six
indices, indexed draw. -/
def sample_cmds : List cmd :=
  [ { type := .CMD_SET_RENDER_TARGET, name := "rt0", set_render_target_rect := { w := 64, h := 64 } },
    { type := .CMD_CLEAR, name := "rt0", clear_color := fun i => if i = 0 then 0 else 1 },
    { type := .CMD_SET_SHADER, name := "s" },
    { type := .CMD_SET_VERTEX, name := "vb", set_vertex_data := some [1, 2, 3, 4],
      set_vertex_size := 4 },
    { type := .CMD_SET_INDEX, name := "ib", set_index_data := some [0, 1, 2, 2, 1, 3],
      set_index_size := 6 },
    { type := .CMD_DRAW_INDEX, name := "draw", draw_index_start := 0, draw_index_count := 6 } ]

/-- A call with the command vector of the scenario and two buffers. -/
def sample_call : Args :=
  { vcmd := sample_cmds, count := 2 }

/-- The command `SetRenderTarget("rt0", 64x64)`. -/
def rt0_large : cmd :=
  { type := .CMD_SET_RENDER_TARGET, name := "rt0", set_render_target_rect := { w := 64, h := 64 } }

/-- The command `SetRenderTarget("rt0", 32x16)`: the same name, another rect. -/
def rt0_small : cmd :=
  { type := .CMD_SET_RENDER_TARGET, name := "rt0", set_render_target_rect := { w := 32, h := 16 } }

/-- The command `SetRenderTarget("rt1", 64x64)`: another name. -/
def rt1_large : cmd :=
  { type := .CMD_SET_RENDER_TARGET, name := "rt1", set_render_target_rect := { w := 64, h := 64 } }

/-- The command `DrawIndex("draw", 0, 6)` of the scenario. -/
def draw_index_six : cmd :=
  { type := .CMD_DRAW_INDEX, name := "draw", draw_index_start := 0, draw_index_count := 6 }

/-- The command `SetShader("s")` of the scenario. -/
def shader_s : cmd :=
  { type := .CMD_SET_SHADER, name := "s" }

/-- The command `Clear("rt0", [0, 1, 1, 1])` of the scenario. -/
def clear_rt0 : cmd :=
  { type := .CMD_CLEAR, name := "rt0", clear_color := fun i => if i = 0 then 0 else 1 }

/-- The command `ClearDepth("rt0", 1)`. -/
def clear_depth_rt0 : cmd :=
  { type := .CMD_CLEAR_DEPTH, name := "rt0", clear_depth_value := 1 }

/-- The command `SetRenderTarget("backbuffer0", 64x64)`: the backbuffer of
slot 0. -/
def rt_backbuffer0 : cmd :=
  { type := .CMD_SET_RENDER_TARGET, name := "backbuffer0",
    set_render_target_rect := { w := 64, h := 64 } }

/-- The command `SetBarrierToPresent("backbuffer0")`. -/
def barrier_backbuffer0 : cmd :=
  { type := .CMD_SET_BARRIER, name := "backbuffer0" }

/-- The command `SetConstant("c0", slot 0, 4 bytes)`. -/
def const_first : cmd :=
  { type := .CMD_SET_CONSTANT, name := "c0", set_constant_data := some [1, 2, 3, 4],
    set_constant_size := 4 }

/-- The command `SetConstant("c0", ...)` with other payload bytes. -/
def const_second : cmd :=
  { type := .CMD_SET_CONSTANT, name := "c0", set_constant_data := some [9, 9, 9, 9],
    set_constant_size := 4 }

/-- The command `SetTexture("tex", slot 0, 4x4, 64 bytes)`. -/
def tex_first : cmd :=
  { type := .CMD_SET_TEXTURE, name := "tex", set_texture_rect := { w := 4, h := 4 },
    set_texture_data := some (List.replicate 64 1), set_texture_size := 64 }

/-- The command `SetTexture("tex", ...)` with other payload bytes. -/
def tex_second : cmd :=
  { type := .CMD_SET_TEXTURE, name := "tex", set_texture_rect := { w := 4, h := 4 },
    set_texture_data := some (List.replicate 64 2), set_texture_size := 64 }

/-- The loop variables at the start of the loop of a first call with the sample
driver: the state after the initialisation block and the begin of the frame,
`rec = {}` and `cmd_index = 0`. -/
def sample_loop : Interp :=
  { s := (frame_begin sample_env (init_block sample_env sample_call State.initial).state).2 }

/-- A call with an empty command vector and the given buffer count. -/
def empty_call (count : Nat) : Args :=
  { vcmd := [], count := count }

/-- A call with two buffers whose command vector binds the render target
`rt0` and uploads the texture `tex`. -/
def upload_call : Args :=
  { vcmd := [rt0_large, tex_first], count := 2 }

/-- The sample driver, except that it reports a fence signaled from its answer
number 44 on: with the scenario of the spec and two buffers, that is the poll
at the start of frame 2. -/
def ready_env : Env :=
  { sample_env with fence_status := fun n => if n < 44 then .VK_NOT_READY else .VK_SUCCESS }

/-- The sample driver, except that its answer number 21 is null: in a first
call that starts with a `SetRenderTarget`, this is the answer of the first
`vkCreateImage`. -/
def retry_env : Env :=
  { sample_env with handle := fun n => if n = 21 then 0 else n + 1 }

/-- A call with two buffers whose command vector is `SetRenderTarget("rt0")`. -/
def rt_call : Args :=
  { vcmd := [rt0_large], count := 2 }

/-- The command `SetVertex("rt0", 4 bytes)`: a vertex buffer under the name of
the render target. -/
def vertex_rt0 : cmd :=
  { type := .CMD_SET_VERTEX, name := "rt0", set_vertex_data := some [1, 2, 3, 4],
    set_vertex_size := 4 }

/-- A call with two buffers that uses the name `rt0` first for a render target
and then for a vertex buffer. -/
def shared_name_call : Args :=
  { vcmd := [rt0_large, vertex_rt0], count := 2 }

/-- The command `SetRenderTarget("rt0", rect = (8, 16, 64, 64))`: a rect whose
origin is not zero. -/
def rt0_offset : cmd :=
  { type := .CMD_SET_RENDER_TARGET, name := "rt0",
    set_render_target_rect := { x := 8, y := 16, w := 64, h := 64 } }

/-- The command `SetTexture("tex", slot 0)` without data: null pointer, size
0, as the sample's `SetTexture(vcmd, offscreen_name, 0)`. -/
def tex_nodata : cmd :=
  { type := .CMD_SET_TEXTURE, name := "tex" }

/-- A call with two buffers whose command vector binds the render target
`rt0` and refers to the texture `tex` without data. -/
def nodata_call : Args :=
  { vcmd := [rt0_large, tex_nodata], count := 2 }

/-- The sample driver, except that `vkCreateInstance` of the first call returns
null, and that the swapchain has the images 100 and 101 when it is first
created and 200 and 201 afterwards. -/
def reinit_env : Env :=
  { sample_env with
      handle := fun n => if n = 0 then 0 else n + 1
      swapchainImages := fun n => if n < 10 then [100, 101] else [200, 201] }

/-- The command `SetRenderTarget("rt0", 16777217x64)`: a width that no 32-bit
float is. -/
def rt0_wide : cmd :=
  { type := .CMD_SET_RENDER_TARGET, name := "rt0",
    set_render_target_rect := { w := 16777217, h := 64 } }

/-- A call with two buffers, an empty command vector and 715827884 shader
slots. -/
def overflow_call : Args :=
  { vcmd := [], count := 2, slotmax := 715827884 }

/-! ## Lemmas -/

/-! ### Maps, traces and the slot reference -/

@[simp] theorem mset_same {α : Type} (m : String → α) (k : String) (v : α) :
    mset m k v k = v := by
  simp [mset]

@[simp] theorem mset_other {α : Type} (m : String → α) (k n : String) (v : α) (h : n ≠ k) :
    mset m k v n = m n := by
  simp [mset, h]

@[simp] theorem trace_emit (s : State) (o : Op) : (s.emit o).trace = s.trace ++ [o] := rfl
@[simp] theorem trace_call (s : State) (o : Op) : (s.call o).trace = s.trace ++ [o] := rfl
@[simp] theorem trace_emits (s : State) (os : List Op) : (s.emits os).trace = s.trace ++ os := rfl
@[simp] theorem trace_modifyRef (s : State) (f : DeviceBuffer → DeviceBuffer) :
    (s.modifyRef f).trace = s.trace := rfl

@[simp] theorem fixed_emit (s : State) (o : Op) : (s.emit o).fixed = s.fixed := rfl
@[simp] theorem fixed_call (s : State) (o : Op) : (s.call o).fixed = s.fixed := rfl
@[simp] theorem fixed_emits (s : State) (os : List Op) : (s.emits os).fixed = s.fixed := rfl

@[simp] theorem entry_emit (s : State) (o : Op) : (s.emit o).entry = s.entry := rfl
@[simp] theorem entry_call (s : State) (o : Op) : (s.call o).entry = s.entry := rfl
@[simp] theorem entry_emits (s : State) (os : List Op) : (s.emits os).entry = s.entry := rfl
@[simp] theorem entry_modifyRef (s : State) (f : DeviceBuffer → DeviceBuffer) :
    (s.modifyRef f).entry = s.entry := rfl

theorem ref_modifyRef (s : State) (f : DeviceBuffer → DeviceBuffer) :
    (s.modifyRef f).ref =
      if s.backbuffer_index < s.devicebuffer.length then f s.ref else s.ref := by
  unfold State.modifyRef State.ref
  simp only [List.getD_eq_getElem?_getD, List.getElem?_modify, if_true]
  by_cases h : s.backbuffer_index < s.devicebuffer.length
  · simp [h, List.getElem?_eq_getElem h]
  · simp [h, List.getElem?_eq_none (Nat.not_lt.mp h)]

theorem fixed_modifyRef (s : State) (f : DeviceBuffer → DeviceBuffer)
    (hc : ∀ r, (f r).cmdbuf = r.cmdbuf) (hf : ∀ r, (f r).fence = r.fence) :
    (s.modifyRef f).fixed = s.fixed := by
  have h := ref_modifyRef s f
  unfold State.fixed
  rw [h]
  split <;> simp [State.modifyRef, hc, hf]

@[simp] theorem pass_events_nil : pass_events [] = [] := rfl

@[simp] theorem pass_events_append (a b : List Op) :
    pass_events (a ++ b) = pass_events a ++ pass_events b := by
  simp [pass_events]

theorem pass_events_cons (o : Op) (t : List Op) :
    pass_events (o :: t) = (pass_event o).toList ++ pass_events t := by
  unfold pass_events
  cases h : pass_event o <;> simp [List.filterMap_cons, h]

/-! ### The relation `Grows` -/

theorem grows_refl (s : State) : Grows s s := by
  constructor
  · intro n; simp
  · intro n _; rfl

theorem grows_trans {s s1 s2 : State} (h1 : Grows s s1) (h2 : Grows s1 s2) : Grows s s2 := by
  obtain ⟨k1, m1⟩ := h1
  obtain ⟨k2, m2⟩ := h2
  constructor
  · intro n
    obtain ⟨a1, b1, c1, d1, e1, f1⟩ := k1 n
    obtain ⟨a2, b2, c2, d2, e2, f2⟩ := k2 n
    refine ⟨fun h => ?_, fun h => ?_, fun h => ?_, fun h => ?_, fun h => ?_, fun h => ?_⟩
    · rw [a2 (by rw [a1 h]; exact h), a1 h]
    · rw [b2 (by rw [b1 h]; exact h), b1 h]
    · rw [c2 (by rw [c1 h]; exact h), c1 h]
    · rw [d2 (by rw [d1 h]; exact h), d1 h]
    · rw [e2 (by rw [e1 h]; exact h), e1 h]
    · rw [f2 (by rw [f1 h]; exact h), f1 h]
  · intro n h
    rw [m2 n (by rw [m1 n h]; exact h), m1 n h]

/-- A state that differs only in fields outside the directory maps. -/
theorem grows_of_maps {s s1 : State}
    (h1 : s1.mimages = s.mimages) (h2 : s1.mimageviews = s.mimageviews)
    (h3 : s1.mbuffers = s.mbuffers) (h4 : s1.mrenderpasses = s.mrenderpasses)
    (h5 : s1.mframebuffers = s.mframebuffers) (h6 : s1.mdescriptor_sets = s.mdescriptor_sets)
    (h7 : s1.mmemreqs = s.mmemreqs) : Grows s s1 := by
  constructor
  · intro n; simp [h1, h2, h3, h4, h5, h6]
  · intro n _; rw [h7]

theorem grows_emit (s : State) (o : Op) : Grows s (s.emit o) :=
  grows_of_maps rfl rfl rfl rfl rfl rfl rfl

theorem grows_call (s : State) (o : Op) : Grows s (s.call o) :=
  grows_of_maps rfl rfl rfl rfl rfl rfl rfl

theorem grows_emits (s : State) (os : List Op) : Grows s (s.emits os) :=
  grows_of_maps rfl rfl rfl rfl rfl rfl rfl

theorem grows_modifyRef (s : State) (f : DeviceBuffer → DeviceBuffer) :
    Grows s (s.modifyRef f) :=
  grows_of_maps rfl rfl rfl rfl rfl rfl rfl

/-! ### The blocks: the fixed part -/

@[simp] theorem fixed_create_image (E : Env) (w h f u : Nat) (s : State) :
    (create_image E w h f u s).2.fixed = s.fixed := rfl

@[simp] theorem fixed_create_image_view (E : Env) (i f a : Nat) (s : State) :
    (create_image_view E i f a s).2.fixed = s.fixed := rfl

@[simp] theorem fixed_create_buffer (E : Env) (size : Nat) (s : State) :
    (create_buffer E size s).2.fixed = s.fixed := rfl

@[simp] theorem fixed_alloc_devmem (E : Env) (name : String) (size flags : Nat) (b : Bool)
    (s : State) : (alloc_devmem E name size flags b s).2.fixed = s.fixed := by
  unfold alloc_devmem
  dsimp only
  split <;> rfl

@[simp] theorem fixed_resolve_image (E : Env) (name : String) (w h f u : Nat) (s : State) :
    (resolve_image E name w h f u s).2.fixed = s.fixed := by
  unfold resolve_image
  split <;> rfl

@[simp] theorem fixed_image_memory (E : Env) (name : String) (image : Nat) (s : State) :
    (image_memory E name image s).fixed = s.fixed := by
  unfold image_memory
  simp only [fixed_emit, fixed_alloc_devmem]
  rfl

@[simp] theorem fixed_ensure_image_memory (E : Env) (name : String) (image : Nat) (s : State) :
    (ensure_image_memory E name image s).fixed = s.fixed := by
  unfold ensure_image_memory
  split <;> simp

@[simp] theorem fixed_resolve_image_view (E : Env) (name : String) (i f a : Nat) (s : State) :
    (resolve_image_view E name i f a s).2.fixed = s.fixed := by
  unfold resolve_image_view
  split <;> rfl

@[simp] theorem fixed_resolve_buffer (E : Env) (name : String) (size : Nat) (s : State) :
    (resolve_buffer E name size s).2.fixed = s.fixed := by
  unfold resolve_buffer
  split <;> rfl

@[simp] theorem fixed_map_and_copy (E : Env) (devmem mapSize : Nat) (data : Option (List Nat))
    (size : Nat) (s : State) : (map_and_copy E devmem mapSize data size s).fixed = s.fixed := by
  unfold map_and_copy
  dsimp only
  split <;> rfl

@[simp] theorem fixed_buffer_memory (E : Env) (name : String) (buffer : Nat)
    (data : Option (List Nat)) (size : Nat) (s : State) :
    (buffer_memory E name buffer data size s).fixed = s.fixed := by
  unfold buffer_memory
  split
  · simp only [fixed_map_and_copy, fixed_emit, fixed_alloc_devmem]
    rfl
  · rfl

@[simp] theorem fixed_texture_staging (E : Env) (c : cmd) (cb image w h : Nat) (s : State) :
    (texture_staging E c cb image w h s).fixed = s.fixed := by
  unfold texture_staging
  simp only [fixed_emit, fixed_map_and_copy]
  rw [fixed_modifyRef, fixed_alloc_devmem, fixed_call, fixed_modifyRef, fixed_create_buffer]
  all_goals intro r; rfl

@[simp] theorem fixed_ensure_texture_memory (E : Env) (c : cmd) (cb image w h : Nat)
    (s : State) : (ensure_texture_memory E c cb image w h s).fixed = s.fixed := by
  unfold ensure_texture_memory
  split <;> simp

@[simp] theorem fixed_end_open_pass (cb rp : Nat) (s : State) :
    (end_open_pass cb rp s).fixed = s.fixed := by
  unfold end_open_pass
  split <;> rfl

@[simp] theorem fixed_resolve_renderpass (E : Env) (name : String) (b : Bool) (s : State) :
    (resolve_renderpass E name b s).2.fixed = s.fixed := by
  unfold resolve_renderpass
  split <;> rfl

@[simp] theorem fixed_resolve_framebuffer (E : Env) (name : String) (rp : Nat) (v : List Nat)
    (w h : Nat) (s : State) : (resolve_framebuffer E name rp v w h s).2.fixed = s.fixed := by
  unfold resolve_framebuffer
  split <;> rfl

@[simp] theorem fixed_begin_pass (cb rp fb w h : Nat) (s : State) :
    (begin_pass cb rp fb w h s).fixed = s.fixed := by
  unfold begin_pass
  split <;> rfl

@[simp] theorem fixed_resolve_descriptor_set (E : Env) (name : String) (s : State) :
    (resolve_descriptor_set E name s).2.fixed = s.fixed := by
  unfold resolve_descriptor_set
  split <;> rfl

/-! ### The blocks: entries under another name -/

theorem entry_alloc_devmem (E : Env) (name n : String) (size flags : Nat) (b : Bool)
    (s : State) (h : n ≠ name) : (alloc_devmem E name size flags b s).2.entry n = s.entry n := by
  unfold alloc_devmem
  dsimp only
  split <;> simp [State.entry, State.call, h]

theorem entry_alloc_devmem_scratch (E : Env) (name n : String) (size flags : Nat)
    (s : State) : (alloc_devmem E name size flags false s).2.entry n = s.entry n := by
  unfold alloc_devmem
  simp [State.entry, State.call]

theorem entry_resolve_image (E : Env) (name n : String) (w h f u : Nat) (s : State)
    (hn : n ≠ name) : (resolve_image E name w h f u s).2.entry n = s.entry n := by
  unfold resolve_image
  split <;> simp [State.entry, create_image, State.call, hn]

theorem entry_image_memory (E : Env) (name n : String) (image : Nat) (s : State)
    (hn : n ≠ name) : (image_memory E name image s).entry n = s.entry n := by
  unfold image_memory
  simp only [entry_emit]
  rw [entry_alloc_devmem _ _ _ _ _ _ _ hn]
  simp [State.entry, State.call, hn]

theorem entry_ensure_image_memory (E : Env) (name n : String) (image : Nat) (s : State)
    (hn : n ≠ name) : (ensure_image_memory E name image s).entry n = s.entry n := by
  unfold ensure_image_memory
  split
  · exact entry_image_memory E name n image s hn
  · rfl

theorem entry_resolve_image_view (E : Env) (name n : String) (i f a : Nat) (s : State)
    (hn : n ≠ name) : (resolve_image_view E name i f a s).2.entry n = s.entry n := by
  unfold resolve_image_view
  split <;> simp [State.entry, create_image_view, State.call, hn]

theorem entry_resolve_buffer (E : Env) (name n : String) (size : Nat) (s : State)
    (hn : n ≠ name) : (resolve_buffer E name size s).2.entry n = s.entry n := by
  unfold resolve_buffer
  split <;> simp [State.entry, create_buffer, State.call, hn]

@[simp] theorem entry_map_and_copy (E : Env) (devmem mapSize : Nat) (data : Option (List Nat))
    (size : Nat) (s : State) : (map_and_copy E devmem mapSize data size s).entry = s.entry := by
  unfold map_and_copy
  dsimp only
  split <;> rfl

theorem entry_buffer_memory (E : Env) (name n : String) (buffer : Nat)
    (data : Option (List Nat)) (size : Nat) (s : State) (hn : n ≠ name) :
    (buffer_memory E name buffer data size s).entry n = s.entry n := by
  unfold buffer_memory
  split
  · simp only [entry_map_and_copy, entry_emit]
    rw [entry_alloc_devmem _ _ _ _ _ _ _ hn]
    simp [State.entry, State.call, hn]
  · rfl

@[simp] theorem entry_texture_staging (E : Env) (c : cmd) (cb image w h : Nat) (s : State) :
    (texture_staging E c cb image w h s).entry = s.entry := by
  funext n
  unfold texture_staging
  simp only [entry_emit, entry_map_and_copy, entry_modifyRef, entry_alloc_devmem_scratch,
    entry_call]
  rfl

theorem entry_ensure_texture_memory (E : Env) (c : cmd) (n : String) (cb image w h : Nat)
    (s : State) (hn : n ≠ c.name) :
    (ensure_texture_memory E c cb image w h s).entry n = s.entry n := by
  unfold ensure_texture_memory
  split
  · rw [entry_texture_staging]
    exact entry_image_memory E c.name n image s hn
  · rfl

@[simp] theorem entry_end_open_pass (cb rp : Nat) (s : State) :
    (end_open_pass cb rp s).entry = s.entry := by
  unfold end_open_pass
  split <;> rfl

theorem entry_resolve_renderpass (E : Env) (name n : String) (b : Bool) (s : State)
    (hn : n ≠ name) : (resolve_renderpass E name b s).2.entry n = s.entry n := by
  unfold resolve_renderpass
  split <;> simp [State.entry, create_renderpass, State.call, hn]

theorem entry_resolve_framebuffer (E : Env) (name n : String) (rp : Nat) (v : List Nat)
    (w h : Nat) (s : State) (hn : n ≠ name) :
    (resolve_framebuffer E name rp v w h s).2.entry n = s.entry n := by
  unfold resolve_framebuffer
  split <;> simp [State.entry, create_framebuffer, State.call, hn]

@[simp] theorem entry_begin_pass (cb rp fb w h : Nat) (s : State) :
    (begin_pass cb rp fb w h s).entry = s.entry := by
  unfold begin_pass
  split <;> rfl

theorem entry_resolve_descriptor_set (E : Env) (name n : String) (s : State)
    (hn : n ≠ name) : (resolve_descriptor_set E name s).2.entry n = s.entry n := by
  unfold resolve_descriptor_set
  split <;> simp [State.entry, State.call, hn]

/-! ### The blocks: pass events -/

@[simp] theorem pass_events_alloc_devmem (E : Env) (name : String) (size flags : Nat) (b : Bool)
    (s : State) :
    pass_events (alloc_devmem E name size flags b s).2.trace = pass_events s.trace := by
  unfold alloc_devmem
  dsimp only
  split <;> simp [pass_events_cons, pass_event]

@[simp] theorem pass_events_resolve_image (E : Env) (name : String) (w h f u : Nat) (s : State) :
    pass_events (resolve_image E name w h f u s).2.trace = pass_events s.trace := by
  unfold resolve_image
  split <;> simp [create_image, pass_events_cons, pass_event]

@[simp] theorem pass_events_image_memory (E : Env) (name : String) (image : Nat) (s : State) :
    pass_events (image_memory E name image s).trace = pass_events s.trace := by
  unfold image_memory
  simp [pass_events_cons, pass_event]

@[simp] theorem pass_events_ensure_image_memory (E : Env) (name : String) (image : Nat)
    (s : State) :
    pass_events (ensure_image_memory E name image s).trace = pass_events s.trace := by
  unfold ensure_image_memory
  split <;> simp

@[simp] theorem pass_events_resolve_image_view (E : Env) (name : String) (i f a : Nat)
    (s : State) :
    pass_events (resolve_image_view E name i f a s).2.trace = pass_events s.trace := by
  unfold resolve_image_view
  split <;> simp [create_image_view, pass_events_cons, pass_event]

@[simp] theorem pass_events_resolve_buffer (E : Env) (name : String) (size : Nat) (s : State) :
    pass_events (resolve_buffer E name size s).2.trace = pass_events s.trace := by
  unfold resolve_buffer
  split <;> simp [create_buffer, pass_events_cons, pass_event]

@[simp] theorem pass_events_map_and_copy (E : Env) (devmem mapSize : Nat)
    (data : Option (List Nat)) (size : Nat) (s : State) :
    pass_events (map_and_copy E devmem mapSize data size s).trace = pass_events s.trace := by
  unfold map_and_copy
  dsimp only
  split <;> simp [pass_events_cons, pass_event]

@[simp] theorem pass_events_buffer_memory (E : Env) (name : String) (buffer : Nat)
    (data : Option (List Nat)) (size : Nat) (s : State) :
    pass_events (buffer_memory E name buffer data size s).trace = pass_events s.trace := by
  unfold buffer_memory
  split <;> simp [pass_events_cons, pass_event]

@[simp] theorem pass_events_texture_staging (E : Env) (c : cmd) (cb image w h : Nat)
    (s : State) :
    pass_events (texture_staging E c cb image w h s).trace = pass_events s.trace := by
  unfold texture_staging
  simp [create_buffer, pass_events_cons, pass_event]

@[simp] theorem pass_events_ensure_texture_memory (E : Env) (c : cmd) (cb image w h : Nat)
    (s : State) :
    pass_events (ensure_texture_memory E c cb image w h s).trace = pass_events s.trace := by
  unfold ensure_texture_memory
  split <;> simp

@[simp] theorem pass_events_resolve_renderpass (E : Env) (name : String) (b : Bool)
    (s : State) :
    pass_events (resolve_renderpass E name b s).2.trace = pass_events s.trace := by
  unfold resolve_renderpass
  split <;> simp [create_renderpass, pass_events_cons, pass_event]

@[simp] theorem pass_events_resolve_framebuffer (E : Env) (name : String) (rp : Nat)
    (v : List Nat) (w h : Nat) (s : State) :
    pass_events (resolve_framebuffer E name rp v w h s).2.trace = pass_events s.trace := by
  unfold resolve_framebuffer
  split <;> simp [create_framebuffer, pass_events_cons, pass_event]

@[simp] theorem pass_events_resolve_descriptor_set (E : Env) (name : String) (s : State) :
    pass_events (resolve_descriptor_set E name s).2.trace = pass_events s.trace := by
  unfold resolve_descriptor_set
  split <;> simp [pass_events_cons, pass_event]

theorem pass_events_end_open_pass (cb rp : Nat) (s : State) :
    pass_events (end_open_pass cb rp s).trace =
      pass_events s.trace ++ (if rp ≠ 0 then [PassEvent.end_pass] else []) := by
  unfold end_open_pass
  split <;> simp [pass_events_cons, pass_event]

theorem pass_events_begin_pass (cb rp fb w h : Nat) (s : State) :
    pass_events (begin_pass cb rp fb w h s).trace =
      pass_events s.trace ++ (if rp ≠ 0 ∧ fb ≠ 0 then [PassEvent.begin_pass] else []) := by
  unfold begin_pass
  split <;> simp [pass_events_cons, pass_event]

/-! ### The blocks: bindings and `mmemreqs` only grow -/

theorem mset_keeps (m : String → Nat) (name n : String) (v : Nat) (h0 : m name = 0)
    (hn : m n ≠ 0) : mset m name v n = m n := by
  have : n ≠ name := by
    intro e
    rw [e] at hn
    exact hn h0
  simp [this]

theorem grows_resolve_image (E : Env) (name : String) (w h f u : Nat) (s : State) :
    Grows s (resolve_image E name w h f u s).2 := by
  unfold resolve_image
  split
  · rename_i h0
    refine ⟨fun n => ⟨fun hn => ?_, fun _ => rfl, fun _ => rfl, fun _ => rfl, fun _ => rfl,
      fun _ => rfl⟩, fun n _ => rfl⟩
    exact mset_keeps s.mimages name n _ h0 hn
  · exact grows_refl s

theorem grows_resolve_image_view (E : Env) (name : String) (i f a : Nat) (s : State) :
    Grows s (resolve_image_view E name i f a s).2 := by
  unfold resolve_image_view
  split
  · rename_i h0
    refine ⟨fun n => ⟨fun _ => rfl, fun hn => ?_, fun _ => rfl, fun _ => rfl, fun _ => rfl,
      fun _ => rfl⟩, fun n _ => rfl⟩
    exact mset_keeps s.mimageviews name n _ h0 hn
  · exact grows_refl s

theorem grows_resolve_buffer (E : Env) (name : String) (size : Nat) (s : State) :
    Grows s (resolve_buffer E name size s).2 := by
  unfold resolve_buffer
  split
  · rename_i h0
    refine ⟨fun n => ⟨fun _ => rfl, fun _ => rfl, fun hn => ?_, fun _ => rfl, fun _ => rfl,
      fun _ => rfl⟩, fun n _ => rfl⟩
    exact mset_keeps s.mbuffers name n _ h0 hn
  · exact grows_refl s

theorem grows_resolve_renderpass (E : Env) (name : String) (b : Bool) (s : State) :
    Grows s (resolve_renderpass E name b s).2 := by
  unfold resolve_renderpass
  split
  · rename_i h0
    refine ⟨fun n => ⟨fun _ => rfl, fun _ => rfl, fun _ => rfl, fun hn => ?_, fun _ => rfl,
      fun _ => rfl⟩, fun n _ => rfl⟩
    exact mset_keeps s.mrenderpasses name n _ h0 hn
  · exact grows_refl s

theorem grows_resolve_framebuffer (E : Env) (name : String) (rp : Nat) (v : List Nat)
    (w h : Nat) (s : State) : Grows s (resolve_framebuffer E name rp v w h s).2 := by
  unfold resolve_framebuffer
  split
  · rename_i h0
    refine ⟨fun n => ⟨fun _ => rfl, fun _ => rfl, fun _ => rfl, fun _ => rfl, fun hn => ?_,
      fun _ => rfl⟩, fun n _ => rfl⟩
    exact mset_keeps s.mframebuffers name n _ h0.1 hn
  · exact grows_refl s

theorem grows_resolve_descriptor_set (E : Env) (name : String) (s : State) :
    Grows s (resolve_descriptor_set E name s).2 := by
  unfold resolve_descriptor_set
  split
  · rename_i h0
    refine ⟨fun n => ⟨fun _ => rfl, fun _ => rfl, fun _ => rfl, fun _ => rfl, fun _ => rfl,
      fun hn => ?_⟩, fun n _ => rfl⟩
    exact mset_keeps s.mdescriptor_sets name n _ h0 hn
  · exact grows_refl s

theorem grows_alloc_devmem (E : Env) (name : String) (size flags : Nat) (b : Bool)
    (s : State) : Grows s (alloc_devmem E name size flags b s).2 := by
  unfold alloc_devmem
  dsimp only
  split <;> exact grows_of_maps rfl rfl rfl rfl rfl rfl rfl

theorem grows_map_and_copy (E : Env) (devmem mapSize : Nat) (data : Option (List Nat))
    (size : Nat) (s : State) : Grows s (map_and_copy E devmem mapSize data size s) := by
  unfold map_and_copy
  dsimp only
  split <;> exact grows_of_maps rfl rfl rfl rfl rfl rfl rfl

/-- Recording the requirements of a name that has none. -/
theorem grows_set_memreqs (s : State) (name : String) (v : Option VkMemoryRequirements)
    (h0 : s.mmemreqs name = none) :
    Grows s { s with mmemreqs := mset s.mmemreqs name v } := by
  refine ⟨fun n => ⟨fun _ => rfl, fun _ => rfl, fun _ => rfl, fun _ => rfl, fun _ => rfl,
    fun _ => rfl⟩, fun n hn => ?_⟩
  have : n ≠ name := by
    intro e
    rw [e] at hn
    exact hn h0
  simp [this]

theorem grows_image_memory (E : Env) (name : String) (image : Nat) (s : State)
    (h0 : s.mmemreqs name = none) : Grows s (image_memory E name image s) := by
  unfold image_memory
  refine grows_trans ?_ (grows_emit _ _)
  refine grows_trans ?_ (grows_alloc_devmem _ _ _ _ _ _)
  exact grows_trans (grows_call s (.vkGetImageMemoryRequirements image (E.memreqs s.tick)))
    (grows_set_memreqs _ name _ h0)

theorem grows_ensure_image_memory (E : Env) (name : String) (image : Nat) (s : State) :
    Grows s (ensure_image_memory E name image s) := by
  unfold ensure_image_memory
  split
  · rename_i h0
    exact grows_image_memory E name image s h0
  · exact grows_refl s

theorem grows_buffer_memory (E : Env) (name : String) (buffer : Nat)
    (data : Option (List Nat)) (size : Nat) (s : State) :
    Grows s (buffer_memory E name buffer data size s) := by
  unfold buffer_memory
  split
  · rename_i h0
    refine grows_trans ?_ (grows_map_and_copy _ _ _ _ _ _)
    refine grows_trans ?_ (grows_emit _ _)
    refine grows_trans ?_ (grows_alloc_devmem _ _ _ _ _ _)
    exact grows_trans (grows_call s (.vkGetBufferMemoryRequirements buffer (E.memreqs s.tick)))
      (grows_set_memreqs _ name _ h0)
  · exact grows_refl s

theorem grows_texture_staging (E : Env) (c : cmd) (cb image w h : Nat) (s : State) :
    Grows s (texture_staging E c cb image w h s) := by
  unfold texture_staging
  refine grows_trans ?_ (grows_emit _ _)
  refine grows_trans ?_ (grows_emit _ _)
  refine grows_trans ?_ (grows_emit _ _)
  refine grows_trans ?_ (grows_map_and_copy _ _ _ _ _ _)
  refine grows_trans ?_ (grows_emit _ _)
  refine grows_trans ?_ (grows_modifyRef _ _)
  refine grows_trans ?_ (grows_alloc_devmem _ _ _ _ _ _)
  refine grows_trans ?_ (grows_call _ _)
  refine grows_trans ?_ (grows_modifyRef _ _)
  exact grows_of_maps rfl rfl rfl rfl rfl rfl rfl

theorem grows_ensure_texture_memory (E : Env) (c : cmd) (cb image w h : Nat) (s : State) :
    Grows s (ensure_texture_memory E c cb image w h s) := by
  unfold ensure_texture_memory
  split
  · rename_i h0
    exact grows_trans (grows_image_memory E c.name image s h0) (grows_texture_staging _ _ _ _ _ _ _)
  · exact grows_refl s

theorem grows_end_open_pass (cb rp : Nat) (s : State) : Grows s (end_open_pass cb rp s) := by
  unfold end_open_pass
  split
  · exact grows_emit _ _
  · exact grows_refl s

theorem grows_begin_pass (cb rp fb w h : Nat) (s : State) :
    Grows s (begin_pass cb rp fb w h s) := by
  unfold begin_pass
  split
  · exact grows_emit _ _
  · exact grows_refl s

/-! ### The handlers -/

@[simp] theorem st_next (st : Interp) : (StepResult.next st).st = st := rfl
@[simp] theorem st_exit (st : Interp) : (StepResult.exit st).st = st := rfl

theorem st_ite (c : Prop) [Decidable c] (a b : Interp) :
    (if c then StepResult.exit a else StepResult.next b).st = if c then a else b := by
  split <;> rfl

/-- The loop variables a handler starts from: `cmd_index` already advanced. -/
theorem proc_command_render_target (E : Env) (c : cmd) (st : Interp)
    (h : c.type = .CMD_SET_RENDER_TARGET) :
    proc_command E c st = cmd_set_render_target E c ⟨st.s, st.rec_, st.cmd_index + 1⟩ := by
  unfold proc_command
  rw [h]

theorem proc_command_texture (E : Env) (c : cmd) (st : Interp)
    (h : c.type = .CMD_SET_TEXTURE ∨ c.type = .CMD_SET_TEXTURE_UAV) :
    proc_command E c st = cmd_set_texture E c ⟨st.s, st.rec_, st.cmd_index + 1⟩ := by
  unfold proc_command
  rcases h with h | h <;> rw [h]

theorem proc_command_constant (E : Env) (c : cmd) (st : Interp)
    (h : c.type = .CMD_SET_CONSTANT) :
    proc_command E c st = cmd_set_constant E c ⟨st.s, st.rec_, st.cmd_index + 1⟩ := by
  unfold proc_command
  rw [h]

theorem proc_command_vertex (E : Env) (c : cmd) (st : Interp)
    (h : c.type = .CMD_SET_VERTEX) :
    proc_command E c st = cmd_set_vertex E c ⟨st.s, st.rec_, st.cmd_index + 1⟩ := by
  unfold proc_command
  rw [h]

theorem proc_command_index (E : Env) (c : cmd) (st : Interp)
    (h : c.type = .CMD_SET_INDEX) :
    proc_command E c st = cmd_set_index E c ⟨st.s, st.rec_, st.cmd_index + 1⟩ := by
  unfold proc_command
  rw [h]

theorem proc_command_clear (E : Env) (c : cmd) (st : Interp)
    (h : c.type = .CMD_CLEAR) :
    proc_command E c st = cmd_clear E c ⟨st.s, st.rec_, st.cmd_index + 1⟩ := by
  unfold proc_command
  rw [h]

/-- The commands whose handler does nothing. -/
theorem proc_command_skip (E : Env) (c : cmd) (st : Interp)
    (h : c.type = .CMD_SET_SHADER ∨ c.type = .CMD_CLEAR_DEPTH ∨ c.type = .CMD_DRAW_INDEX ∨
      c.type = .CMD_DRAW ∨ c.type = .CMD_DISPATCH ∨ c.type = .CMD_SET_BARRIER) :
    proc_command E c st = .next ⟨st.s, st.rec_, st.cmd_index + 1⟩ := by
  unfold proc_command
  rcases h with h | h | h | h | h | h <;> simp only [h, cmd_set_shader]

theorem fixed_cmd_set_render_target (E : Env) (c : cmd) (st : Interp) :
    (cmd_set_render_target E c st).st.s.fixed = st.s.fixed := by
  unfold cmd_set_render_target
  simp only [st_ite]
  split <;> simp

theorem fixed_cmd_set_texture (E : Env) (c : cmd) (st : Interp) :
    (cmd_set_texture E c st).st.s.fixed = st.s.fixed := by
  unfold cmd_set_texture
  simp only [st_ite]
  split <;> simp

theorem fixed_cmd_set_constant (E : Env) (c : cmd) (st : Interp) :
    (cmd_set_constant E c st).st.s.fixed = st.s.fixed := by
  unfold cmd_set_constant
  simp only [st_ite]
  split <;> simp

theorem fixed_cmd_set_vertex (E : Env) (c : cmd) (st : Interp) :
    (cmd_set_vertex E c st).st.s.fixed = st.s.fixed := by
  simp [cmd_set_vertex]

theorem fixed_cmd_set_index (E : Env) (c : cmd) (st : Interp) :
    (cmd_set_index E c st).st.s.fixed = st.s.fixed := by
  simp [cmd_set_index]

theorem fixed_proc_command (E : Env) (c : cmd) (st : Interp) :
    (proc_command E c st).st.s.fixed = st.s.fixed := by
  unfold proc_command
  split
  · exact fixed_cmd_set_render_target _ _ _
  · exact fixed_cmd_set_texture _ _ _
  · exact fixed_cmd_set_texture _ _ _
  · exact fixed_cmd_set_constant _ _ _
  · exact fixed_cmd_set_vertex _ _ _
  · exact fixed_cmd_set_index _ _ _
  all_goals simp [cmd_set_shader, cmd_clear]

theorem fixed_proc_commands (E : Env) (cmds : List cmd) (st : Interp) :
    (proc_commands E cmds st).st.s.fixed = st.s.fixed := by
  induction cmds generalizing st with
  | nil => rfl
  | cons c rest ih =>
    have h := fixed_proc_command E c st
    unfold proc_commands
    cases hc : proc_command E c st with
    | next st1 =>
      rw [hc] at h
      simp only []
      rw [ih st1]
      exact h
    | exit st1 =>
      rw [hc] at h
      exact h

theorem grows_cmd_set_render_target (E : Env) (c : cmd) (st : Interp) :
    Grows st.s (cmd_set_render_target E c st).st.s := by
  unfold cmd_set_render_target
  simp only [st_ite]
  have key : ∀ s : State, Grows st.s s →
      Grows st.s (resolve_descriptor_set E c.name s).2 :=
    fun s h => grows_trans h (grows_resolve_descriptor_set _ _ _)
  split
  · refine key _ ?_
    refine grows_trans ?_ (grows_begin_pass _ _ _ _ _ _)
    refine grows_trans ?_ (grows_resolve_framebuffer _ _ _ _ _ _ _)
    refine grows_trans ?_ (grows_resolve_renderpass _ _ _ _)
    refine grows_trans ?_ (grows_resolve_image_view _ _ _ _ _ _)
    refine grows_trans ?_ (grows_ensure_image_memory _ _ _ _)
    refine grows_trans ?_ (grows_resolve_image _ _ _ _ _ _ _)
    refine grows_trans ?_ (grows_resolve_image_view _ _ _ _ _ _)
    refine grows_trans ?_ (grows_ensure_image_memory _ _ _ _)
    refine grows_trans ?_ (grows_resolve_image _ _ _ _ _ _ _)
    refine grows_trans ?_ (grows_emit _ _)
    refine grows_trans ?_ (grows_emit _ _)
    exact grows_end_open_pass _ _ _
  · refine grows_trans ?_ (grows_emit _ _)
    refine key _ ?_
    refine grows_trans ?_ (grows_begin_pass _ _ _ _ _ _)
    refine grows_trans ?_ (grows_resolve_framebuffer _ _ _ _ _ _ _)
    refine grows_trans ?_ (grows_resolve_renderpass _ _ _ _)
    refine grows_trans ?_ (grows_resolve_image_view _ _ _ _ _ _)
    refine grows_trans ?_ (grows_ensure_image_memory _ _ _ _)
    refine grows_trans ?_ (grows_resolve_image _ _ _ _ _ _ _)
    refine grows_trans ?_ (grows_resolve_image_view _ _ _ _ _ _)
    refine grows_trans ?_ (grows_ensure_image_memory _ _ _ _)
    refine grows_trans ?_ (grows_resolve_image _ _ _ _ _ _ _)
    refine grows_trans ?_ (grows_emit _ _)
    refine grows_trans ?_ (grows_emit _ _)
    exact grows_end_open_pass _ _ _

theorem grows_cmd_set_texture (E : Env) (c : cmd) (st : Interp) :
    Grows st.s (cmd_set_texture E c st).st.s := by
  unfold cmd_set_texture
  simp only [st_ite]
  split
  · refine grows_trans ?_ (grows_resolve_image_view _ _ _ _ _ _)
    refine grows_trans ?_ (grows_ensure_texture_memory _ _ _ _ _ _ _)
    exact grows_resolve_image _ _ _ _ _ _ _
  · refine grows_trans ?_ (grows_emit _ _)
    refine grows_trans ?_ (grows_resolve_image_view _ _ _ _ _ _)
    refine grows_trans ?_ (grows_ensure_texture_memory _ _ _ _ _ _ _)
    exact grows_resolve_image _ _ _ _ _ _ _

theorem grows_cmd_set_constant (E : Env) (c : cmd) (st : Interp) :
    Grows st.s (cmd_set_constant E c st).st.s := by
  unfold cmd_set_constant
  simp only [st_ite]
  split
  · refine grows_trans ?_ (grows_buffer_memory _ _ _ _ _ _)
    exact grows_resolve_buffer _ _ _ _
  · refine grows_trans ?_ (grows_emit _ _)
    refine grows_trans ?_ (grows_buffer_memory _ _ _ _ _ _)
    exact grows_resolve_buffer _ _ _ _

theorem grows_cmd_set_vertex (E : Env) (c : cmd) (st : Interp) :
    Grows st.s (cmd_set_vertex E c st).st.s := by
  unfold cmd_set_vertex
  simp only [st_next]
  refine grows_trans ?_ (grows_emit _ _)
  refine grows_trans ?_ (grows_buffer_memory _ _ _ _ _ _)
  exact grows_resolve_buffer _ _ _ _

theorem grows_cmd_set_index (E : Env) (c : cmd) (st : Interp) :
    Grows st.s (cmd_set_index E c st).st.s := by
  unfold cmd_set_index
  simp only [st_next]
  refine grows_trans ?_ (grows_emit _ _)
  refine grows_trans ?_ (grows_buffer_memory _ _ _ _ _ _)
  exact grows_resolve_buffer _ _ _ _

theorem grows_proc_command (E : Env) (c : cmd) (st : Interp) :
    Grows st.s (proc_command E c st).st.s := by
  unfold proc_command
  dsimp only
  split
  · exact grows_cmd_set_render_target E c ⟨st.s, st.rec_, st.cmd_index + 1⟩
  · exact grows_cmd_set_texture E c ⟨st.s, st.rec_, st.cmd_index + 1⟩
  · exact grows_cmd_set_texture E c ⟨st.s, st.rec_, st.cmd_index + 1⟩
  · exact grows_cmd_set_constant E c ⟨st.s, st.rec_, st.cmd_index + 1⟩
  · exact grows_cmd_set_vertex E c ⟨st.s, st.rec_, st.cmd_index + 1⟩
  · exact grows_cmd_set_index E c ⟨st.s, st.rec_, st.cmd_index + 1⟩
  · exact grows_refl _
  · exact grows_emit _ _
  all_goals exact grows_refl _

theorem grows_proc_commands (E : Env) (cmds : List cmd) (st : Interp) :
    Grows st.s (proc_commands E cmds st).st.s := by
  induction cmds generalizing st with
  | nil => exact grows_refl _
  | cons c rest ih =>
    have h := grows_proc_command E c st
    unfold proc_commands
    cases hc : proc_command E c st with
    | next st1 =>
      rw [hc] at h
      exact grows_trans h (ih st1)
    | exit st1 =>
      rw [hc] at h
      exact h

/-! ### Entries under a name the command does not refer to -/

theorem entry_cmd_set_render_target (E : Env) (c : cmd) (st : Interp) (n : String)
    (h1 : n ≠ c.name) (h2 : n ≠ E.oden_get_depth_render_target_name c.name) :
    (cmd_set_render_target E c st).st.s.entry n = st.s.entry n := by
  unfold cmd_set_render_target
  simp only [st_ite]
  split <;>
    simp only [entry_emit, entry_resolve_descriptor_set _ _ _ _ h1, entry_begin_pass,
      entry_resolve_framebuffer _ _ _ _ _ _ _ _ h1, entry_resolve_renderpass _ _ _ _ _ h1,
      entry_resolve_image_view _ _ _ _ _ _ _ h1, entry_resolve_image_view _ _ _ _ _ _ _ h2,
      entry_ensure_image_memory _ _ _ _ _ h1, entry_ensure_image_memory _ _ _ _ _ h2,
      entry_resolve_image _ _ _ _ _ _ _ _ h1, entry_resolve_image _ _ _ _ _ _ _ _ h2,
      entry_end_open_pass]

theorem entry_cmd_set_texture (E : Env) (c : cmd) (st : Interp) (n : String)
    (h1 : n ≠ c.name) : (cmd_set_texture E c st).st.s.entry n = st.s.entry n := by
  unfold cmd_set_texture
  simp only [st_ite]
  split <;>
    simp only [entry_emit, entry_resolve_image_view _ _ _ _ _ _ _ h1,
      entry_ensure_texture_memory _ _ _ _ _ _ _ _ h1, entry_resolve_image _ _ _ _ _ _ _ _ h1]

theorem entry_cmd_set_constant (E : Env) (c : cmd) (st : Interp) (n : String)
    (h1 : n ≠ c.name) : (cmd_set_constant E c st).st.s.entry n = st.s.entry n := by
  unfold cmd_set_constant
  simp only [st_ite]
  split <;>
    simp only [entry_emit, entry_buffer_memory _ _ _ _ _ _ _ h1, entry_resolve_buffer _ _ _ _ _ h1]

theorem entry_cmd_set_vertex (E : Env) (c : cmd) (st : Interp) (n : String)
    (h1 : n ≠ c.name) : (cmd_set_vertex E c st).st.s.entry n = st.s.entry n := by
  unfold cmd_set_vertex
  simp only [st_next, entry_emit, entry_buffer_memory _ _ _ _ _ _ _ h1,
    entry_resolve_buffer _ _ _ _ _ h1]

theorem entry_cmd_set_index (E : Env) (c : cmd) (st : Interp) (n : String)
    (h1 : n ≠ c.name) : (cmd_set_index E c st).st.s.entry n = st.s.entry n := by
  unfold cmd_set_index
  simp only [st_next, entry_emit, entry_buffer_memory _ _ _ _ _ _ _ h1,
    entry_resolve_buffer _ _ _ _ _ h1]

/-! ### Pass events of the handlers -/

theorem rec_ite (c : Prop) [Decidable c] (a b : Interp) :
    (if c then a else b).rec_ = if c then a.rec_ else b.rec_ := by
  split <;> rfl

theorem open_pass_begun (rp fb : Nat) :
    open_pass (if rp ≠ 0 ∧ fb ≠ 0 then rp else 0) =
      if rp ≠ 0 ∧ fb ≠ 0 then [PassEvent.begin_pass] else [] := by
  unfold open_pass
  by_cases h : rp ≠ 0 ∧ fb ≠ 0
  · simp [h, h.1]
  · simp [h]

theorem pass_events_cmd_set_render_target (E : Env) (c : cmd) (st : Interp) :
    pass_events (cmd_set_render_target E c st).st.s.trace =
      pass_events st.s.trace ++ (if st.rec_.renderpass ≠ 0 then [PassEvent.end_pass] else []) ++
        open_pass (cmd_set_render_target E c st).st.rec_.renderpass := by
  unfold cmd_set_render_target
  simp only [st_ite]
  split
  · simp only [open_pass_begun, pass_events_resolve_descriptor_set, pass_events_begin_pass,
      pass_events_resolve_framebuffer, pass_events_resolve_renderpass,
      pass_events_resolve_image_view, pass_events_ensure_image_memory,
      pass_events_resolve_image, trace_emit, pass_events_append, pass_events_end_open_pass]
    simp [pass_events_cons, pass_event]
  · simp only [open_pass_begun, pass_events_resolve_descriptor_set, pass_events_begin_pass,
      pass_events_resolve_framebuffer, pass_events_resolve_renderpass,
      pass_events_resolve_image_view, pass_events_ensure_image_memory,
      pass_events_resolve_image, trace_emit, pass_events_append, pass_events_end_open_pass]
    simp [pass_events_cons, pass_event]

theorem pass_events_cmd_set_texture (E : Env) (c : cmd) (st : Interp) :
    pass_events (cmd_set_texture E c st).st.s.trace = pass_events st.s.trace := by
  unfold cmd_set_texture
  simp only [st_ite]
  split <;> simp [pass_events_cons, pass_event]

theorem pass_events_cmd_set_constant (E : Env) (c : cmd) (st : Interp) :
    pass_events (cmd_set_constant E c st).st.s.trace = pass_events st.s.trace := by
  unfold cmd_set_constant
  simp only [st_ite]
  split <;> simp [pass_events_cons, pass_event]

theorem pass_events_cmd_set_vertex (E : Env) (c : cmd) (st : Interp) :
    pass_events (cmd_set_vertex E c st).st.s.trace = pass_events st.s.trace := by
  simp [cmd_set_vertex, pass_events_cons, pass_event]

theorem pass_events_cmd_set_index (E : Env) (c : cmd) (st : Interp) :
    pass_events (cmd_set_index E c st).st.s.trace = pass_events st.s.trace := by
  simp [cmd_set_index, pass_events_cons, pass_event]

theorem rec_cmd_set_texture (E : Env) (c : cmd) (st : Interp) :
    (cmd_set_texture E c st).st.rec_ = st.rec_ := by
  unfold cmd_set_texture; simp only [st_ite]; split <;> rfl

theorem rec_cmd_set_constant (E : Env) (c : cmd) (st : Interp) :
    (cmd_set_constant E c st).st.rec_ = st.rec_ := by
  unfold cmd_set_constant; simp only [st_ite]; split <;> rfl

/-- A handler other than that of `CMD_SET_RENDER_TARGET` leaves `rec` alone. -/
theorem rec_proc_command (E : Env) (c : cmd) (st : Interp)
    (h : c.type ≠ .CMD_SET_RENDER_TARGET) : (proc_command E c st).st.rec_ = st.rec_ := by
  cases hty : c.type
  case CMD_SET_RENDER_TARGET => exact absurd hty h
  case CMD_SET_TEXTURE =>
    rw [proc_command_texture E c st (Or.inl hty)]; exact rec_cmd_set_texture _ _ _
  case CMD_SET_TEXTURE_UAV =>
    rw [proc_command_texture E c st (Or.inr hty)]; exact rec_cmd_set_texture _ _ _
  case CMD_SET_CONSTANT =>
    rw [proc_command_constant E c st hty]; exact rec_cmd_set_constant _ _ _
  case CMD_SET_VERTEX => rw [proc_command_vertex E c st hty]; rfl
  case CMD_SET_INDEX => rw [proc_command_index E c st hty]; rfl
  case CMD_CLEAR => rw [proc_command_clear E c st hty]; rfl
  all_goals rw [proc_command_skip E c st (by simp [hty])]; rfl

theorem cmd_index_proc_command (E : Env) (c : cmd) (st : Interp) :
    (proc_command E c st).st.cmd_index = st.cmd_index + 1 := by
  cases hty : c.type
  case CMD_SET_RENDER_TARGET =>
    rw [proc_command_render_target E c st hty]
    unfold cmd_set_render_target; simp only [st_ite]; split <;> rfl
  case CMD_SET_TEXTURE =>
    rw [proc_command_texture E c st (Or.inl hty)]
    unfold cmd_set_texture; simp only [st_ite]; split <;> rfl
  case CMD_SET_TEXTURE_UAV =>
    rw [proc_command_texture E c st (Or.inr hty)]
    unfold cmd_set_texture; simp only [st_ite]; split <;> rfl
  case CMD_SET_CONSTANT =>
    rw [proc_command_constant E c st hty]
    unfold cmd_set_constant; simp only [st_ite]; split <;> rfl
  case CMD_SET_VERTEX => rw [proc_command_vertex E c st hty]; rfl
  case CMD_SET_INDEX => rw [proc_command_index E c st hty]; rfl
  case CMD_CLEAR => rw [proc_command_clear E c st hty]; rfl
  all_goals rw [proc_command_skip E c st (by simp [hty])]; rfl

/-- The pass events one command adds. -/
theorem pass_events_proc_command (E : Env) (c : cmd) (st : Interp) :
    pass_events (proc_command E c st).st.s.trace =
      if c.type = .CMD_SET_RENDER_TARGET then
        pass_events st.s.trace ++
          (if st.rec_.renderpass ≠ 0 then [PassEvent.end_pass] else []) ++
          open_pass (proc_command E c st).st.rec_.renderpass
      else pass_events st.s.trace := by
  cases hty : c.type
  case CMD_SET_RENDER_TARGET =>
    rw [proc_command_render_target E c st hty, if_pos rfl]
    exact pass_events_cmd_set_render_target E c ⟨st.s, st.rec_, st.cmd_index + 1⟩
  case CMD_SET_TEXTURE =>
    rw [proc_command_texture E c st (Or.inl hty), if_neg (by decide)]
    exact pass_events_cmd_set_texture E c ⟨st.s, st.rec_, st.cmd_index + 1⟩
  case CMD_SET_TEXTURE_UAV =>
    rw [proc_command_texture E c st (Or.inr hty), if_neg (by decide)]
    exact pass_events_cmd_set_texture E c ⟨st.s, st.rec_, st.cmd_index + 1⟩
  case CMD_SET_CONSTANT =>
    rw [proc_command_constant E c st hty, if_neg (by decide)]
    exact pass_events_cmd_set_constant E c ⟨st.s, st.rec_, st.cmd_index + 1⟩
  case CMD_SET_VERTEX =>
    rw [proc_command_vertex E c st hty, if_neg (by decide)]
    exact pass_events_cmd_set_vertex E c ⟨st.s, st.rec_, st.cmd_index + 1⟩
  case CMD_SET_INDEX =>
    rw [proc_command_index E c st hty, if_neg (by decide)]
    exact pass_events_cmd_set_index E c ⟨st.s, st.rec_, st.cmd_index + 1⟩
  case CMD_CLEAR =>
    rw [proc_command_clear E c st hty, if_neg (by decide)]
    simp [cmd_clear, pass_events_cons, pass_event]
  all_goals
    rw [proc_command_skip E c st (by simp [hty]), if_neg (by decide)]
    rfl

/-- The invariant of the loop: the pass events recorded so far are complete
passes followed by one begin exactly when `rec.renderpass` is not null. -/
theorem pass_invariant_step (E : Env) (c : cmd) (st : Interp) (base : List PassEvent) (n : Nat)
    (h : pass_events st.s.trace = base ++ alternation n ++ open_pass st.rec_.renderpass) :
    ∃ m, pass_events (proc_command E c st).st.s.trace =
      base ++ alternation m ++ open_pass (proc_command E c st).st.rec_.renderpass := by
  rw [pass_events_proc_command]
  by_cases ht : c.type = .CMD_SET_RENDER_TARGET
  · rw [if_pos ht, h]
    by_cases hr : st.rec_.renderpass ≠ 0
    · refine ⟨n + 1, ?_⟩
      simp [open_pass, hr, alternation]
    · refine ⟨n, ?_⟩
      simp [open_pass, hr]
  · rw [if_neg ht, rec_proc_command E c st ht]
    exact ⟨n, h⟩

theorem pass_invariant (E : Env) (cmds : List cmd) (st : Interp) (base : List PassEvent)
    (n : Nat)
    (h : pass_events st.s.trace = base ++ alternation n ++ open_pass st.rec_.renderpass) :
    ∃ m, pass_events (proc_commands E cmds st).st.s.trace =
      base ++ alternation m ++ open_pass (proc_commands E cmds st).st.rec_.renderpass := by
  induction cmds generalizing st n with
  | nil => exact ⟨n, h⟩
  | cons c rest ih =>
    obtain ⟨m, hm⟩ := pass_invariant_step E c st base n h
    unfold proc_commands
    cases hc : proc_command E c st with
    | next st1 =>
      rw [hc] at hm
      exact ih st1 m hm
    | exit st1 =>
      rw [hc] at hm
      exact ⟨m, hm⟩

/-! ### The initialisation block -/

theorem initKeeps_refl (s : State) : InitKeeps s s :=
  ⟨rfl, rfl, rfl, fun _ h => h, rfl⟩

theorem initKeeps_trans {s s1 s2 : State} (h1 : InitKeeps s s1) (h2 : InitKeeps s1 s2) :
    InitKeeps s s2 :=
  ⟨h2.frame_count.trans h1.frame_count, h2.backbuffer_index.trans h1.backbuffer_index,
    h2.events.trans h1.events, fun n h => h2.memreqs n (h1.memreqs n h),
    h2.pipelines.trans h1.pipelines⟩

theorem initKeeps_register_backbuffers (E : Env) (images : List Nat) (i : Nat) (s : State) :
    InitKeeps s (register_backbuffers E images i s) := by
  induction images generalizing i s with
  | nil => exact initKeeps_refl s
  | cons image rest ih =>
    unfold register_backbuffers
    refine initKeeps_trans ?_ (ih _ _)
    refine ⟨rfl, rfl, rfl, fun n h => ?_, rfl⟩
    by_cases hn : n = E.oden_get_backbuffer_name i
    · simp [hn]
    · simpa [hn] using h

theorem initKeeps_create_frame_resources (E : Env) (k i : Nat) (s : State) :
    InitKeeps s (create_frame_resources E k i s) := by
  induction k generalizing i s with
  | zero => exact initKeeps_refl s
  | succ k ih =>
    unfold create_frame_resources
    refine initKeeps_trans ?_ (ih _ _)
    refine ⟨rfl, rfl, ?_, fun n h => h, rfl⟩
    simp [pass_events_cons, pass_event]

theorem length_create_frame_resources (E : Env) (k i : Nat) (s : State) :
    (create_frame_resources E k i s).devicebuffer.length = s.devicebuffer.length := by
  induction k generalizing i s with
  | zero => rfl
  | succ k ih =>
    unfold create_frame_resources
    rw [ih]
    simp [State.emit, State.call]

theorem inst_create_frame_resources (E : Env) (k i : Nat) (s : State) :
    (create_frame_resources E k i s).inst = s.inst := by
  induction k generalizing i s with
  | zero => rfl
  | succ k ih =>
    unfold create_frame_resources
    rw [ih]
    rfl

theorem inst_register_backbuffers (E : Env) (images : List Nat) (i : Nat) (s : State) :
    (register_backbuffers E images i s).inst = s.inst := by
  induction images generalizing i s with
  | nil => rfl
  | cons image rest ih =>
    unfold register_backbuffers
    rw [ih]

theorem length_resize (v : List DeviceBuffer) (count : Nat) : (resize v count).length = count := by
  unfold resize
  simp
  omega

theorem initKeeps_init_device (E : Env) (s : State) : InitKeeps s (init_device E s) := by
  refine ⟨rfl, rfl, ?_, fun n h => h, rfl⟩
  simp [init_device, pass_events_cons, pass_event]

theorem initKeeps_init_swapchain (E : Env) (a : Args) (s : State) :
    InitKeeps s (init_swapchain E a s) := by
  have h := initKeeps_register_backbuffers E (E.swapchainImages (s.tick + 2)) 0
    { s with surface := E.handle s.tick
             swapchain := E.handle (s.tick + 1)
             tick := s.tick + 3
             trace := s.trace ++ [.vkCreateWin32SurfaceKHR a.handle (E.handle s.tick),
               .vkCreateSwapchainKHR a.count a.w a.h (E.handle (s.tick + 1)),
               .vkGetSwapchainImagesKHR (E.swapchainImages (s.tick + 2))] }
  refine ⟨h.frame_count, h.backbuffer_index, ?_, h.memreqs, h.pipelines⟩
  have he := h.events
  simp only [pass_events_append] at he
  unfold init_swapchain
  simp only [trace_call, pass_events_append, he]
  simp [pass_events_cons, pass_event]

theorem initKeeps_init_slots (E : Env) (a : Args) (s : State) :
    InitKeeps s (init_slots E a s) := by
  unfold init_slots
  refine initKeeps_trans ?_ (initKeeps_create_frame_resources _ _ _ _)
  exact ⟨rfl, rfl, rfl, fun n h => h, rfl⟩

theorem initKeeps_init_descriptors (E : Env) (a : Args) (s : State) :
    InitKeeps s (init_descriptors E a s) := by
  refine ⟨rfl, rfl, ?_, fun n h => h, rfl⟩
  simp [init_descriptors, pass_events_cons, pass_event]

theorem initKeeps_init_instance (E : Env) (s : State) :
    InitKeeps s (init_instance E s).2 := by
  refine ⟨rfl, rfl, ?_, fun n h => h, rfl⟩
  simp [init_instance, pass_events_cons, pass_event]

theorem initKeeps_init_block (E : Env) (a : Args) (s : State) :
    InitKeeps s (init_block E a s).state := by
  unfold init_block
  dsimp only
  split
  · exact initKeeps_init_instance E s
  · refine initKeeps_trans (initKeeps_init_instance E s) ?_
    refine initKeeps_trans (initKeeps_init_device E _) ?_
    refine initKeeps_trans (initKeeps_init_swapchain E a _) ?_
    exact initKeeps_trans (initKeeps_init_slots E a _) (initKeeps_init_descriptors E a _)

/-- After a completed initialisation there are `count` slots and `inst` is what
`vkCreateInstance` returned. -/
theorem init_block_returned (E : Env) (a : Args) (s s1 : State)
    (h : init_block E a s = .returned s1) :
    s1.devicebuffer.length = a.count ∧ s1.inst = E.handle s.tick := by
  unfold init_block at h
  dsimp only at h
  split at h
  · cases h
  · injection h with h
    subst h
    constructor
    · show (init_slots E a _).devicebuffer.length = a.count
      unfold init_slots
      rw [length_create_frame_resources]
      exact length_resize _ _
    · show (init_slots E a _).inst = _
      unfold init_slots
      rw [inst_create_frame_resources]
      show (init_swapchain E a _).inst = _
      unfold init_swapchain
      show (register_backbuffers E _ 0 _).inst = _
      rw [inst_register_backbuffers]
      rfl

/-! ### The begin and the end of a frame -/

theorem frame_count_of_fixed {s s1 : State} (h : s1.fixed = s.fixed) :
    s1.frame_count = s.frame_count :=
  congrArg FixedPart.frame_count h

theorem backbuffer_index_of_fixed {s s1 : State} (h : s1.fixed = s.fixed) :
    s1.backbuffer_index = s.backbuffer_index :=
  congrArg FixedPart.backbuffer_index h

theorem inst_of_fixed {s s1 : State} (h : s1.fixed = s.fixed) : s1.inst = s.inst :=
  congrArg FixedPart.inst h

theorem slots_of_fixed {s s1 : State} (h : s1.fixed = s.fixed) :
    s1.devicebuffer.length = s.devicebuffer.length :=
  congrArg FixedPart.slots h

theorem cmdbuf_of_fixed {s s1 : State} (h : s1.fixed = s.fixed) :
    s1.ref.cmdbuf = s.ref.cmdbuf :=
  congrArg FixedPart.cmdbuf h

/-- The loop keeps the fixed part, stated on the result of a completed loop. -/
theorem fixed_of_next (E : Env) (cmds : List cmd) (st st1 : Interp)
    (h : proc_commands E cmds st = .next st1) : st1.s.fixed = st.s.fixed := by
  have := fixed_proc_commands E cmds st
  rw [h] at this
  exact this

theorem fixed_wait_slot (E : Env) (fence : Nat) (s : State) :
    (wait_slot E fence s).fixed = s.fixed := by
  unfold wait_slot
  dsimp only
  split <;> rfl

theorem entry_wait_slot (E : Env) (fence : Nat) (s : State) :
    (wait_slot E fence s).entry = s.entry := by
  unfold wait_slot
  dsimp only
  split <;> rfl

theorem grows_wait_slot (E : Env) (fence : Nat) (s : State) :
    Grows s (wait_slot E fence s) := by
  unfold wait_slot
  dsimp only
  split <;> exact grows_of_maps rfl rfl rfl rfl rfl rfl rfl

theorem pass_events_wait_slot (E : Env) (fence : Nat) (s : State) :
    pass_events (wait_slot E fence s).trace = pass_events s.trace := by
  unfold wait_slot
  dsimp only
  split <;> simp [pass_events_cons, pass_event]

theorem fixed_release_scratch (s : State) : (release_scratch s).fixed = s.fixed := by
  unfold release_scratch
  dsimp only
  rw [fixed_modifyRef, fixed_emits, fixed_modifyRef, fixed_emits]
  all_goals intro r; rfl

theorem entry_release_scratch (s : State) : (release_scratch s).entry = s.entry := rfl

theorem grows_release_scratch (s : State) : Grows s (release_scratch s) := by
  unfold release_scratch
  refine grows_trans ?_ (grows_modifyRef _ _)
  refine grows_trans ?_ (grows_emits _ _)
  exact grows_trans (grows_emits _ _) (grows_modifyRef _ _)

theorem pass_events_map_destroy (l : List Nat) : pass_events (l.map Op.vkDestroyBuffer) = [] := by
  induction l with
  | nil => rfl
  | cons x t ih => simp [pass_events_cons, pass_event, ih]

theorem pass_events_map_free (l : List Nat) : pass_events (l.map Op.vkFreeMemory) = [] := by
  induction l with
  | nil => rfl
  | cons x t ih => simp [pass_events_cons, pass_event, ih]

theorem pass_events_release_scratch (s : State) :
    pass_events (release_scratch s).trace = pass_events s.trace := by
  unfold release_scratch
  simp only [trace_modifyRef, trace_emits, pass_events_append, pass_events_map_destroy,
    pass_events_map_free, List.append_nil]

theorem fixed_frame_begin (E : Env) (s : State) : (frame_begin E s).2.fixed = s.fixed := by
  unfold frame_begin
  simp only [fixed_emit, fixed_release_scratch]
  unfold acquire
  simp only [fixed_call, fixed_wait_slot]

theorem entry_frame_begin (E : Env) (s : State) : (frame_begin E s).2.entry = s.entry := by
  unfold frame_begin
  simp only [entry_emit, entry_release_scratch]
  unfold acquire
  simp only [entry_call, entry_wait_slot]

theorem grows_frame_begin (E : Env) (s : State) : Grows s (frame_begin E s).2 := by
  unfold frame_begin
  refine grows_trans ?_ (grows_emit _ _)
  refine grows_trans ?_ (grows_emit _ _)
  refine grows_trans ?_ (grows_release_scratch _)
  unfold acquire
  exact grows_trans (grows_wait_slot E _ s) (grows_call _ _)

theorem pass_events_frame_begin (E : Env) (s : State) :
    pass_events (frame_begin E s).2.trace = pass_events s.trace ++ [PassEvent.begin_buffer] := by
  unfold frame_begin
  simp only [trace_emit, pass_events_append, pass_events_release_scratch]
  unfold acquire
  simp only [trace_call, pass_events_append, pass_events_wait_slot]
  simp [pass_events_cons, pass_event]

theorem fixed_frame_end (E : Env) (present_index : Nat) (st : Interp) :
    (frame_end E present_index st).fixed = st.s.fixed := by
  unfold frame_end
  simp only [fixed_emit, fixed_call, fixed_end_open_pass]

theorem entry_frame_end (E : Env) (present_index : Nat) (st : Interp) :
    (frame_end E present_index st).entry = st.s.entry := by
  unfold frame_end
  simp only [entry_emit, entry_call, entry_end_open_pass]

theorem grows_frame_end (E : Env) (present_index : Nat) (st : Interp) :
    Grows st.s (frame_end E present_index st) := by
  unfold frame_end
  refine grows_trans ?_ (grows_emit _ _)
  refine grows_trans ?_ (grows_emit _ _)
  refine grows_trans ?_ (grows_emit _ _)
  refine grows_trans ?_ (grows_call _ _)
  refine grows_trans ?_ (grows_emit _ _)
  exact grows_end_open_pass _ _ _

theorem pass_events_frame_end (E : Env) (present_index : Nat) (st : Interp) :
    pass_events (frame_end E present_index st).trace =
      pass_events st.s.trace ++
        (if st.rec_.renderpass ≠ 0 then [PassEvent.end_pass] else []) ++
        [PassEvent.end_buffer] := by
  unfold frame_end
  simp only [trace_emit, trace_call, pass_events_append, pass_events_end_open_pass]
  simp [pass_events_cons, pass_event]

/-- What `advance` does when it returns. -/
theorem advance_returned (a : Args) (s s1 : State) (h : advance a s = .returned s1) :
    a.count ≠ 0 ∧
    s1.frame_count = (s.frame_count + 1) % U64 ∧
    s1.backbuffer_index = s1.frame_count % a.count ∧
    s1.inst = s.inst ∧ s1.devicebuffer = s.devicebuffer ∧ s1.entry = s.entry ∧
    s1.trace = s.trace ∧ Grows s s1 := by
  unfold advance at h
  split at h
  · cases h
  · rename_i hc
    injection h with h
    subst h
    exact ⟨hc, rfl, rfl, rfl, rfl, rfl, rfl, grows_of_maps rfl rfl rfl rfl rfl rfl rfl⟩

theorem advance_of_count (a : Args) (s : State) (hc : a.count ≠ 0) :
    advance a s = .returned { s with frame_count := (s.frame_count + 1) % U64
                                     backbuffer_index := (s.frame_count + 1) % U64 % a.count } := by
  unfold advance
  rw [if_neg hc]

/-- A call of `present_frame` that returns: the slot exists, the loop ran to
its end, and the advance returned. -/
theorem present_frame_returned (E : Env) (a : Args) (s s1 : State)
    (h : present_frame E a s = .returned s1) :
    s.backbuffer_index < s.devicebuffer.length ∧
    ∃ st, proc_commands E a.vcmd ⟨(frame_begin E s).2, {}, 0⟩ = .next st ∧
      advance a (frame_end E (frame_begin E s).1 st) = .returned s1 := by
  unfold present_frame at h
  split at h
  · rename_i hlt
    refine ⟨hlt, ?_⟩
    dsimp only at h
    cases hp : proc_commands E a.vcmd ⟨(frame_begin E s).2, {}, 0⟩ with
    | next st =>
      rw [hp] at h
      exact ⟨st, rfl, h⟩
    | exit st =>
      rw [hp] at h
      cases h
  · cases h

/-- A call that returns: the state after the initialisation block (the state
itself when `inst` is not null) and the frame that returned from it. -/
theorem oden_present_graphics_returned (E : Env) (a : Args) (s s1 : State)
    (h : oden_present_graphics E a s = .returned s1) :
    ∃ s0, ((s.inst ≠ 0 ∧ s0 = s) ∨ (s.inst = 0 ∧ init_block E a s = .returned s0)) ∧
      present_frame E a s0 = .returned s1 := by
  unfold oden_present_graphics at h
  split at h
  · rename_i hi
    cases hb : init_block E a s with
    | returned s0 =>
      rw [hb] at h
      exact ⟨s0, Or.inr ⟨hi, rfl⟩, h⟩
    | exited s0 => rw [hb] at h; cases h
    | undefined => rw [hb] at h; cases h
  · rename_i hi
    exact ⟨s, Or.inl ⟨hi, rfl⟩, h⟩

theorem init_block_state (E : Env) (a : Args) (s s0 : State)
    (h : init_block E a s = .returned s0) : (init_block E a s).state = s0 := by
  rw [h]
  rfl

/-- One returned call advances the 64-bit frame counter by one and sets the slot
index to the counter modulo `count`. -/
theorem call_advance (E : Env) (a : Args) (s s1 : State)
    (h : oden_present_graphics E a s = .returned s1) :
    a.count ≠ 0 ∧ s1.frame_count = (s.frame_count + 1) % U64 ∧
      s1.backbuffer_index = s1.frame_count % a.count := by
  obtain ⟨s0, h0, hf⟩ := oden_present_graphics_returned E a s s1 h
  obtain ⟨_, st, hp, ha⟩ := present_frame_returned E a s0 s1 hf
  obtain ⟨hc, hfc, hbi, _⟩ := advance_returned a _ s1 ha
  refine ⟨hc, ?_, hbi⟩
  rw [hfc]
  have e1 : (frame_end E (frame_begin E s0).1 st).frame_count = st.s.frame_count :=
    frame_count_of_fixed (fixed_frame_end E _ st)
  have e2 : st.s.frame_count = (frame_begin E s0).2.frame_count :=
    frame_count_of_fixed (fixed_of_next E a.vcmd _ st hp)
  have e3 : (frame_begin E s0).2.frame_count = s0.frame_count :=
    frame_count_of_fixed (fixed_frame_begin E s0)
  have e4 : s0.frame_count = s.frame_count := by
    rcases h0 with ⟨_, e⟩ | ⟨_, hb⟩
    · rw [e]
    · have := (initKeeps_init_block E a s).frame_count
      rw [init_block_state E a s s0 hb] at this
      exact this
  rw [e1, e2, e3, e4]

/-! ### C1: frame rotation -/

/-- After the calls of a list that all returned, the frame counter has advanced
by the number of calls, modulo `2^64`. -/
theorem frame_count_present_calls (E : Env) (calls : List Args) (s0 s : State)
    (h : present_calls E calls s0 = .returned s) :
    s.frame_count % U64 = (s0.frame_count + calls.length) % U64 := by
  induction calls generalizing s0 with
  | nil =>
    unfold present_calls at h
    injection h with h
    subst h
    rfl
  | cons a rest ih =>
    unfold present_calls at h
    cases hc : oden_present_graphics E a s0 with
    | returned s1 =>
      rw [hc] at h
      have h1 := (call_advance E a s0 s1 hc).2.1
      rw [ih s1 h, h1, List.length_cons, Nat.add_mod, Nat.mod_mod, ← Nat.add_mod]
      congr 1
      omega
    | exited s1 => rw [hc] at h; cases h
    | undefined => rw [hc] at h; cases h

/-- After at least one call, the slot index is the frame counter modulo the
buffer count of the last call, and the counter is below `2^64`. -/
theorem backbuffer_index_present_calls (E : Env) (calls : List Args) (count : Nat)
    (s0 s : State) (hne : calls ≠ [])
    (hcount : ∀ a ∈ calls, a.count = count)
    (h : present_calls E calls s0 = .returned s) :
    s.backbuffer_index = s.frame_count % count ∧ s.frame_count < U64 := by
  induction calls generalizing s0 with
  | nil => exact absurd rfl hne
  | cons a rest ih =>
    unfold present_calls at h
    cases hc : oden_present_graphics E a s0 with
    | returned s1 =>
      rw [hc] at h
      by_cases hr : rest = []
      · subst hr
        unfold present_calls at h
        injection h with h
        subst h
        obtain ⟨_, h1, h2⟩ := call_advance E a s0 s1 hc
        rw [hcount a (List.mem_cons_self _ _)] at h2
        refine ⟨h2, ?_⟩
        rw [h1]
        exact Nat.mod_lt _ (by unfold U64; positivity)
      · exact ih s1 hr (fun b hb => hcount b (List.mem_cons_of_mem _ hb)) h
    | exited s1 => rw [hc] at h; cases h
    | undefined => rw [hc] at h; cases h

theorem frame_rotation_general (E : Env) (calls : List Args) (count : Nat) (s : State)
    (hcount : ∀ a ∈ calls, a.count = count)
    (hret : present_calls E calls State.initial = .returned s) :
    s.frame_count = calls.length % U64 ∧
    s.backbuffer_index = (calls.length % U64) % count := by
  by_cases hne : calls = []
  · subst hne
    unfold present_calls at hret
    injection hret with hret
    subst hret
    exact ⟨rfl, by simp [State.initial]⟩
  · obtain ⟨h1, h2⟩ := backbuffer_index_present_calls E calls count _ s hne hcount hret
    have h3 := frame_count_present_calls E calls _ s hret
    rw [Nat.mod_eq_of_lt h2] at h3
    have h4 : s.frame_count = calls.length % U64 := by
      rw [h3]
      simp [State.initial]
    exact ⟨h4, by rw [h1, h4]⟩

/-- A frame with an empty command vector returns when the slot exists. -/
theorem empty_frame_returns (E : Env) (count : Nat) (s : State) (hc : count ≠ 0)
    (hlen : s.devicebuffer.length = count) (hidx : s.backbuffer_index < count) :
    ∃ s1, present_frame E (empty_call count) s = .returned s1 ∧ s1.inst = s.inst ∧
      s1.devicebuffer.length = count ∧ s1.backbuffer_index < count := by
  obtain ⟨s1, hs1⟩ : ∃ s1, advance (empty_call count)
      (frame_end E (frame_begin E s).1 ⟨(frame_begin E s).2, {}, 0⟩) = .returned s1 :=
    ⟨_, advance_of_count _ _ hc⟩
  obtain ⟨_, _, h3, h4, h5, _⟩ := advance_returned _ _ _ hs1
  refine ⟨s1, ?_, ?_, ?_, ?_⟩
  · unfold present_frame
    rw [if_pos (by rw [hlen]; exact hidx)]
    exact hs1
  · rw [h4, inst_of_fixed (fixed_frame_end E _ _)]
    exact inst_of_fixed (fixed_frame_begin E s)
  · rw [h5, slots_of_fixed (fixed_frame_end E _ _)]
    exact (slots_of_fixed (fixed_frame_begin E s)).trans hlen
  · rw [h3]
    exact Nat.mod_lt _ (Nat.pos_of_ne_zero hc)

/-- Calls with an empty command vector keep returning once initialised. -/
theorem empty_calls_return (E : Env) (count n : Nat) (s : State) (hc : count ≠ 0)
    (hi : s.inst ≠ 0) (hlen : s.devicebuffer.length = count)
    (hidx : s.backbuffer_index < count) :
    ∃ s1, present_calls E (List.replicate n (empty_call count)) s = .returned s1 := by
  induction n generalizing s with
  | zero => exact ⟨s, rfl⟩
  | succ n ih =>
    obtain ⟨s1, h1, h2, h3, h4⟩ := empty_frame_returns E count s hc hlen hidx
    rw [List.replicate_succ]
    unfold present_calls
    have : oden_present_graphics E (empty_call count) s = .returned s1 := by
      unfold oden_present_graphics
      rw [if_neg hi]
      exact h1
    rw [this]
    exact ih s1 (by rw [h2]; exact hi) h3 h4

/-- With the sample driver, any number of calls with an empty command vector
returns, starting from the initial state. -/
theorem sample_empty_calls_return (count n : Nat) (hc : count ≠ 0) :
    ∃ s1, present_calls sample_env (List.replicate n (empty_call count)) State.initial =
      .returned s1 := by
  cases n with
  | zero => exact ⟨_, rfl⟩
  | succ n =>
    have hb : init_block sample_env (empty_call count) State.initial =
        .returned (init_block sample_env (empty_call count) State.initial).state := by
      unfold init_block
      rfl
    obtain ⟨hl, hin⟩ := init_block_returned _ _ _ _ hb
    have hk := initKeeps_init_block sample_env (empty_call count) State.initial
    obtain ⟨s1, h1, h2, h3, h4⟩ := empty_frame_returns sample_env count
      (init_block sample_env (empty_call count) State.initial).state hc hl
      (by rw [hk.backbuffer_index]; exact Nat.pos_of_ne_zero hc)
    rw [List.replicate_succ]
    unfold present_calls
    have : oden_present_graphics sample_env (empty_call count) State.initial =
        .returned s1 := by
      have hi0 : State.initial.inst = 0 := rfl
      unfold oden_present_graphics
      rw [if_pos hi0, hb]
      exact h1
    rw [this]
    exact empty_calls_return sample_env count n s1 hc (by rw [h2, hin]; decide) h3 h4

/-- C1 (amended): starting from the initial state, after `k` completed calls of
`oden_present_graphics` that all pass the same buffer count, `frame_count` is
`k` modulo `2^64` and `backbuffer_index` is `(k mod 2^64) mod count`; hence
`backbuffer_index = k mod count` for every `k < 2^64`. -/
theorem frame_rotation (E : Env) (calls : List Args) (count : Nat) (s : State)
    (hcount : ∀ a ∈ calls, a.count = count)
    (hret : present_calls E calls State.initial = .returned s) :
    s.frame_count = calls.length % 2 ^ 64 ∧
    s.backbuffer_index = calls.length % 2 ^ 64 % count ∧
    (calls.length < 2 ^ 64 → s.backbuffer_index = calls.length % count) := by
  obtain ⟨h1, h2⟩ := frame_rotation_general E calls count s hcount hret
  refine ⟨h1, h2, fun hlt => ?_⟩
  rw [h2]
  unfold U64
  rw [Nat.mod_eq_of_lt hlt]

/-- Witness of `frame_rotation`: three calls of the sample scenario with two
buffers leave the slot index at `3 mod 2`. -/
theorem frame_rotation_witness :
    (∀ a ∈ [sample_call, sample_call, sample_call], a.count = 2) ∧
    present_calls sample_env [sample_call, sample_call, sample_call] State.initial =
      .returned
        (present_calls sample_env [sample_call, sample_call, sample_call] State.initial).state ∧
    (present_calls sample_env [sample_call, sample_call, sample_call]
      State.initial).state.backbuffer_index = 3 % 2 :=
  ⟨by decide, by rfl,
    (frame_rotation sample_env [sample_call, sample_call, sample_call] 2 _ (by decide)
      (by rfl)).2.2 (by decide)⟩

/-- C1 as stated fails at `k = 2^64` with `count = 3`: the `2^64` calls return,
the 64-bit counter has wrapped to zero and the slot index is `0`, but
`2^64 mod 3 = 1`. -/
theorem frame_rotation_wraps :
    (present_calls sample_env (List.replicate (2 ^ 64) (empty_call 3))
      State.initial).returns = true ∧
    (present_calls sample_env (List.replicate (2 ^ 64) (empty_call 3))
      State.initial).state.backbuffer_index = 0 ∧
    (List.replicate (2 ^ 64) (empty_call 3)).length % 3 = 1 := by
  obtain ⟨s1, h1⟩ := sample_empty_calls_return 3 (2 ^ 64) (by decide)
  have h2 := frame_rotation_general sample_env (List.replicate (2 ^ 64) (empty_call 3)) 3 s1
    (fun a ha => by rw [List.eq_of_mem_replicate ha]; rfl) h1
  rw [h1]
  refine ⟨rfl, ?_, ?_⟩
  · show s1.backbuffer_index = 0
    rw [h2.2, List.length_replicate]
    unfold U64
    norm_num
  · rw [List.length_replicate]
    norm_num

/-! ### C2: pass nesting -/

/-- The pass events of a call that returns. -/
theorem pass_events_call (E : Env) (a : Args) (s s1 : State)
    (h : oden_present_graphics E a s = .returned s1) :
    ∃ n, pass_events s1.trace =
      pass_events s.trace ++ [PassEvent.begin_buffer] ++ alternation n ++
        [PassEvent.end_buffer] := by
  obtain ⟨s0, h0, hf⟩ := oden_present_graphics_returned E a s s1 h
  obtain ⟨_, st, hp, ha⟩ := present_frame_returned E a s0 s1 hf
  obtain ⟨_, _, _, _, _, _, htr, _⟩ := advance_returned a _ s1 ha
  have e0 : pass_events s0.trace = pass_events s.trace := by
    rcases h0 with ⟨_, e⟩ | ⟨_, hb⟩
    · rw [e]
    · have := (initKeeps_init_block E a s).events
      rw [init_block_state E a s s0 hb] at this
      exact this
  have hinv := pass_invariant E a.vcmd ⟨(frame_begin E s0).2, {}, 0⟩
    (pass_events s.trace ++ [PassEvent.begin_buffer]) 0
    (by simp [pass_events_frame_begin, e0, alternation, open_pass])
  rw [hp] at hinv
  obtain ⟨m, hm⟩ := hinv
  rw [htr, pass_events_frame_end, show (StepResult.next st).st = st from rfl] at *
  rw [hm]
  by_cases hr : st.rec_.renderpass ≠ 0
  · refine ⟨m + 1, ?_⟩
    simp [open_pass, hr, alternation]
  · refine ⟨m, ?_⟩
    simp [open_pass, hr]

/-- C2: in a call that returns, the begin-render-pass and end-render-pass
operations recorded between `vkBeginCommandBuffer` and `vkEndCommandBuffer`
are begin, end, begin, end, ... a whole number of times, so that at most one
pass is open at any time and none is open when the command buffer is ended;
a `SetRenderTarget` records the end of the pass that is open before the begin
of its own; and after any commands of a call the recorded events are complete
passes followed by one begin exactly when `rec.renderpass` is not null. -/
theorem pass_nesting (E : Env) (a : Args) (s s1 : State)
    (h : oden_present_graphics E a s = .returned s1) :
    (∃ n, pass_events s1.trace =
      pass_events s.trace ++ [PassEvent.begin_buffer] ++ alternation n ++
        [PassEvent.end_buffer]) ∧
    (∀ (c : cmd) (st : Interp), c.type = .CMD_SET_RENDER_TARGET →
      pass_events (proc_command E c st).st.s.trace =
        pass_events st.s.trace ++
          (if st.rec_.renderpass ≠ 0 then [PassEvent.end_pass] else []) ++
          open_pass (proc_command E c st).st.rec_.renderpass) ∧
    (∀ (cmds : List cmd) (s0 : State), ∃ n,
      pass_events (proc_commands E cmds ⟨s0, {}, 0⟩).st.s.trace =
        pass_events s0.trace ++ alternation n ++
          open_pass (proc_commands E cmds ⟨s0, {}, 0⟩).st.rec_.renderpass) := by
  refine ⟨pass_events_call E a s s1 h, fun c st hc => ?_, fun cmds s0 => ?_⟩
  · rw [pass_events_proc_command, if_pos hc]
  · exact pass_invariant E cmds ⟨s0, {}, 0⟩ (pass_events s0.trace) 0
      (by simp [alternation, open_pass])

/-- Witness of `pass_nesting`: the sample call from the initial state returns,
and its pass events are one complete pass between the begin and the end of the
command buffer. -/
theorem pass_nesting_witness :
    oden_present_graphics sample_env sample_call State.initial =
      .returned (oden_present_graphics sample_env sample_call State.initial).state ∧
    pass_events (oden_present_graphics sample_env sample_call State.initial).state.trace =
      [PassEvent.begin_buffer, PassEvent.begin_pass, PassEvent.end_pass,
        PassEvent.end_buffer] ∧
    (∃ n, pass_events (oden_present_graphics sample_env sample_call State.initial).state.trace =
      pass_events State.initial.trace ++ [PassEvent.begin_buffer] ++ alternation n ++
        [PassEvent.end_buffer]) :=
  ⟨by rfl, by decide,
    (pass_nesting sample_env sample_call State.initial _ (by rfl)).1⟩

/-! ### C3: name identity -/

theorem proc_commands_cons (E : Env) (c : cmd) (rest : List cmd) (st : Interp) :
    proc_commands E (c :: rest) st =
      match proc_command E c st with
      | .next st1 => proc_commands E rest st1
      | .exit st1 => .exit st1 := by
  rfl

theorem proc_commands_append (E : Env) (pre post : List cmd) (st : Interp) :
    proc_commands E (pre ++ post) st =
      match proc_commands E pre st with
      | .next st1 => proc_commands E post st1
      | .exit st1 => .exit st1 := by
  induction pre generalizing st with
  | nil => rfl
  | cons c rest ih =>
    rw [List.cons_append, proc_commands_cons, proc_commands_cons]
    cases hc : proc_command E c st with
    | next st1 => exact ih st1
    | exit st1 => rfl

/-- A loop over `pre ++ post` that completes: the loop over `pre` completes in
some variables, from which the loop over `post` completes. -/
theorem proc_commands_split (E : Env) (pre post : List cmd) (st st2 : Interp)
    (h : proc_commands E (pre ++ post) st = .next st2) :
    ∃ st1, proc_commands E pre st = .next st1 ∧ proc_commands E post st1 = .next st2 := by
  rw [proc_commands_append] at h
  cases hp : proc_commands E pre st with
  | next st1 =>
    rw [hp] at h
    exact ⟨st1, rfl, h⟩
  | exit st1 =>
    rw [hp] at h
    cases h

theorem grows_of_next (E : Env) (cmds : List cmd) (st st1 : Interp)
    (h : proc_commands E cmds st = .next st1) : Grows st.s st1.s := by
  have := grows_proc_commands E cmds st
  rw [h] at this
  exact this

/-- In a call that returns from an initialised state, the state reached after
any first part of the command vector grows from the state at the call, and the
state returned grows from it; `inst` stays. -/
theorem call_grows (E : Env) (a : Args) (s s1 : State) (pre post : List cmd)
    (hi : s.inst ≠ 0) (hv : a.vcmd = pre ++ post)
    (h : oden_present_graphics E a s = .returned s1) :
    Grows s (proc_commands E pre ⟨(frame_begin E s).2, {}, 0⟩).st.s ∧
    Grows (proc_commands E pre ⟨(frame_begin E s).2, {}, 0⟩).st.s s1 ∧
    s1.inst = s.inst := by
  obtain ⟨s0, h0, hf⟩ := oden_present_graphics_returned E a s s1 h
  have e0 : s0 = s := by
    rcases h0 with ⟨_, e⟩ | ⟨hz, _⟩
    · exact e
    · exact absurd hz hi
  subst e0
  obtain ⟨_, st, hp, ha⟩ := present_frame_returned E a s0 s1 hf
  rw [hv] at hp
  obtain ⟨st1, hp1, hp2⟩ := proc_commands_split E pre post _ st hp
  obtain ⟨_, _, _, hinst, _, _, _, hg⟩ := advance_returned a _ s1 ha
  rw [hp1]
  refine ⟨?_, ?_, ?_⟩
  · exact grows_trans (grows_frame_begin E s0) (grows_of_next E pre _ st1 hp1)
  · exact grows_trans (grows_of_next E post st1 st hp2)
      (grows_trans (grows_frame_end E _ st) hg)
  · rw [hinst, inst_of_fixed (fixed_frame_end E _ st),
      inst_of_fixed (fixed_of_next E post st1 st hp2),
      inst_of_fixed (fixed_of_next E pre _ st1 hp1)]
    exact inst_of_fixed (fixed_frame_begin E s0)

theorem present_calls_grows (E : Env) (calls : List Args) (s s1 : State) (hi : s.inst ≠ 0)
    (h : present_calls E calls s = .returned s1) : Grows s s1 := by
  induction calls generalizing s with
  | nil =>
    unfold present_calls at h
    injection h with h
    subst h
    exact grows_refl s
  | cons a rest ih =>
    unfold present_calls at h
    cases hc : oden_present_graphics E a s with
    | returned s2 =>
      rw [hc] at h
      obtain ⟨g1, g2, hinst⟩ := call_grows E a s s2 [] a.vcmd hi rfl hc
      exact grows_trans (grows_trans g1 g2) (ih s2 (by rw [hinst]; exact hi) h)
    | exited s2 => rw [hc] at h; cases h
    | undefined => rw [hc] at h; cases h

/-! The blocks on a name that is already bound. -/

theorem resolve_image_bound (E : Env) (name : String) (w h f u : Nat) (s : State)
    (hb : s.bindings.mimages name ≠ 0) :
    resolve_image E name w h f u s = (s.bindings.mimages name, s) := by
  unfold resolve_image
  have hb1 := hb
  unfold State.bindings at hb1
  rw [if_neg hb1]
  rfl

theorem resolve_image_view_bound (E : Env) (name : String) (i f a : Nat) (s : State)
    (hb : s.bindings.mimageviews name ≠ 0) :
    resolve_image_view E name i f a s = (s.bindings.mimageviews name, s) := by
  unfold resolve_image_view
  have hb1 := hb
  unfold State.bindings at hb1
  rw [if_neg hb1]
  rfl

theorem resolve_renderpass_bound (E : Env) (name : String) (b : Bool) (s : State)
    (hb : s.bindings.mrenderpasses name ≠ 0) :
    resolve_renderpass E name b s = (s.bindings.mrenderpasses name, s) := by
  unfold resolve_renderpass
  have hb1 := hb
  unfold State.bindings at hb1
  rw [if_neg hb1]
  rfl

theorem resolve_framebuffer_bound (E : Env) (name : String) (rp : Nat) (v : List Nat)
    (w h : Nat) (s : State) (hb : s.bindings.mframebuffers name ≠ 0) :
    resolve_framebuffer E name rp v w h s = (s.bindings.mframebuffers name, s) := by
  have hb1 := hb
  unfold State.bindings at hb1
  unfold resolve_framebuffer
  rw [if_neg (fun hc => hb1 hc.1)]
  rfl

theorem resolve_descriptor_set_bound (E : Env) (name : String) (s : State)
    (hb : s.bindings.mdescriptor_sets name ≠ 0) :
    resolve_descriptor_set E name s = (s.bindings.mdescriptor_sets name, s) := by
  unfold resolve_descriptor_set
  have hb1 := hb
  unfold State.bindings at hb1
  rw [if_neg hb1]
  rfl

@[simp] theorem bindings_emit (s : State) (o : Op) : (s.emit o).bindings = s.bindings := rfl

@[simp] theorem bindings_end_open_pass (cb rp : Nat) (s : State) :
    (end_open_pass cb rp s).bindings = s.bindings := by
  unfold end_open_pass
  split <;> rfl

@[simp] theorem bindings_begin_pass (cb rp fb w h : Nat) (s : State) :
    (begin_pass cb rp fb w h s).bindings = s.bindings := by
  unfold begin_pass
  split <;> rfl

@[simp] theorem bindings_alloc_devmem (E : Env) (name : String) (size flags : Nat) (b : Bool)
    (s : State) : (alloc_devmem E name size flags b s).2.bindings = s.bindings := by
  unfold alloc_devmem
  dsimp only
  split <;> rfl

@[simp] theorem bindings_ensure_image_memory (E : Env) (name : String) (image : Nat)
    (s : State) : (ensure_image_memory E name image s).bindings = s.bindings := by
  unfold ensure_image_memory
  split
  · unfold image_memory
    simp only [bindings_emit, bindings_alloc_devmem]
    rfl
  · rfl

@[simp] theorem creates_append (a b : List Op) : creates (a ++ b) = creates a ++ creates b := by
  simp [creates]

theorem creates_cons (o : Op) (t : List Op) :
    creates (o :: t) = (if o.is_create then [o] else []) ++ creates t := by
  unfold creates
  by_cases h : o.is_create <;> simp [List.filter_cons, h]

@[simp] theorem creates_nil : creates [] = [] := rfl

theorem creates_end_open_pass (cb rp : Nat) (s : State) :
    creates (end_open_pass cb rp s).trace = creates s.trace := by
  unfold end_open_pass
  split <;> simp [creates_cons, Op.is_create]

theorem creates_begin_pass (cb rp fb w h : Nat) (s : State) :
    creates (begin_pass cb rp fb w h s).trace = creates s.trace := by
  unfold begin_pass
  split <;> simp [creates_cons, Op.is_create]

theorem creates_alloc_devmem (E : Env) (name : String) (size flags : Nat) (b : Bool)
    (s : State) : creates (alloc_devmem E name size flags b s).2.trace = creates s.trace := by
  unfold alloc_devmem
  dsimp only
  split <;> simp [creates_cons, Op.is_create]

theorem creates_ensure_image_memory (E : Env) (name : String) (image : Nat) (s : State) :
    creates (ensure_image_memory E name image s).trace = creates s.trace := by
  unfold ensure_image_memory
  split
  · unfold image_memory
    simp [creates_alloc_devmem, creates_cons, Op.is_create]
  · rfl

/-- The handler of `CMD_SET_RENDER_TARGET` on a name whose seven objects are
bound: no block creates anything, and the pass is begun with the bound render
pass and framebuffer. -/
theorem cmd_set_render_target_bound (E : Env) (c : cmd) (st : Interp)
    (h1 : st.s.bindings.mimages c.name ≠ 0)
    (h2 : st.s.bindings.mimageviews c.name ≠ 0)
    (h3 : st.s.bindings.mimages (E.oden_get_depth_render_target_name c.name) ≠ 0)
    (h4 : st.s.bindings.mimageviews (E.oden_get_depth_render_target_name c.name) ≠ 0)
    (h5 : st.s.bindings.mrenderpasses c.name ≠ 0)
    (h6 : st.s.bindings.mframebuffers c.name ≠ 0)
    (h7 : st.s.bindings.mdescriptor_sets c.name ≠ 0) :
    cmd_set_render_target E c st =
      .next
        { s := (begin_pass st.s.ref.cmdbuf (st.s.bindings.mrenderpasses c.name)
            (st.s.bindings.mframebuffers c.name) c.set_render_target_rect.w
            c.set_render_target_rect.h
            (ensure_image_memory E (E.oden_get_depth_render_target_name c.name)
              (st.s.bindings.mimages (E.oden_get_depth_render_target_name c.name))
              (ensure_image_memory E c.name (st.s.bindings.mimages c.name)
                (((end_open_pass st.s.ref.cmdbuf st.rec_.renderpass st.s).emit
                  (.vkCmdSetViewport st.s.ref.cmdbuf 0 0 (float_of_nat c.set_render_target_rect.w)
                    (float_of_nat c.set_render_target_rect.h))).emit
                  (.vkCmdSetScissor st.s.ref.cmdbuf 0 0 c.set_render_target_rect.w
                    c.set_render_target_rect.h))))).emit
            (.vkCmdBindDescriptorSets st.s.ref.cmdbuf (st.s.bindings.mdescriptor_sets c.name))
          rec_ := ⟨st.s.bindings.mdescriptor_sets c.name, st.s.bindings.mrenderpasses c.name⟩
          cmd_index := st.cmd_index } := by
  unfold cmd_set_render_target
  simp only [resolve_image_bound, resolve_image_view_bound, resolve_renderpass_bound,
    resolve_framebuffer_bound, resolve_descriptor_set_bound, bindings_emit,
    bindings_end_open_pass, bindings_ensure_image_memory, bindings_begin_pass,
    h1, h2, h3, h4, h5, h6, h7, ne_eq, not_false_eq_true, and_self, if_true, if_false]

theorem getLast?_append_two {α : Type} (l : List α) (a b : α) :
    (l ++ [a, b]).getLast? = some b := by
  simp

theorem trace_alloc_devmem (E : Env) (name : String) (size flags : Nat) (b : Bool)
    (s : State) :
    (alloc_devmem E name size flags b s).2.trace =
      s.trace ++ [.vkAllocateMemory size (memory_type_scan flags s.devicememoryprop 0)
        (E.handle s.tick)] := by
  unfold alloc_devmem
  dsimp only
  split <;> rfl

theorem ops_ensure_image_memory (E : Env) (name : String) (image : Nat) (s : State) :
    ∃ ops, (ensure_image_memory E name image s).trace = s.trace ++ ops ∧ creates ops = [] := by
  have hc := creates_ensure_image_memory E name image s
  have he : ∃ ops, (ensure_image_memory E name image s).trace = s.trace ++ ops := by
    unfold ensure_image_memory
    split
    · unfold image_memory
      simp only [trace_emit, trace_alloc_devmem, trace_call, List.append_assoc]
      exact ⟨_, rfl⟩
    · exact ⟨[], by simp⟩
  obtain ⟨ops, hops⟩ := he
  refine ⟨ops, hops, ?_⟩
  rw [hops, creates_append] at hc
  exact List.append_right_eq_self.mp hc

/-- What a `SetRenderTarget` on a bound name does: it completes, binds nothing
anew, creates nothing, and begins the pass with the bound render pass and
framebuffer and binds the bound descriptor set. -/
theorem set_render_target_again (E : Env) (c : cmd) (st : Interp)
    (hc : c.type = .CMD_SET_RENDER_TARGET) (hb : render_target_bound E st.s c.name) :
    ∃ st1 ops, proc_command E c st = .next st1 ∧
      st1.s.bindings = st.s.bindings ∧
      st1.rec_ = ⟨st.s.mdescriptor_sets c.name, st.s.mrenderpasses c.name⟩ ∧
      st1.s.trace = st.s.trace ++ ops ∧
      creates ops = [] ∧
      Op.vkCmdBeginRenderPass st.s.ref.cmdbuf (st.s.mrenderpasses c.name)
        (st.s.mframebuffers c.name) c.set_render_target_rect.w c.set_render_target_rect.h ∈ ops ∧
      ops.getLast? =
        some (.vkCmdBindDescriptorSets st.s.ref.cmdbuf (st.s.mdescriptor_sets c.name)) := by
  obtain ⟨h1, h2, h3, h4, h5, h6, h7⟩ := hb
  rw [proc_command_render_target E c st hc,
    cmd_set_render_target_bound E c ⟨st.s, st.rec_, st.cmd_index + 1⟩ h1 h2 h3 h4 h5 h6 h7]
  obtain ⟨m1, e1, c1⟩ := ops_ensure_image_memory E c.name (st.s.bindings.mimages c.name)
    (((end_open_pass st.s.ref.cmdbuf st.rec_.renderpass st.s).emit
      (.vkCmdSetViewport st.s.ref.cmdbuf 0 0 (float_of_nat c.set_render_target_rect.w)
        (float_of_nat c.set_render_target_rect.h))).emit
      (.vkCmdSetScissor st.s.ref.cmdbuf 0 0 c.set_render_target_rect.w
        c.set_render_target_rect.h))
  obtain ⟨m2, e2, c2⟩ := ops_ensure_image_memory E
    (E.oden_get_depth_render_target_name c.name)
    (st.s.bindings.mimages (E.oden_get_depth_render_target_name c.name))
    (ensure_image_memory E c.name (st.s.bindings.mimages c.name)
      (((end_open_pass st.s.ref.cmdbuf st.rec_.renderpass st.s).emit
        (.vkCmdSetViewport st.s.ref.cmdbuf 0 0 (float_of_nat c.set_render_target_rect.w)
          (float_of_nat c.set_render_target_rect.h))).emit
        (.vkCmdSetScissor st.s.ref.cmdbuf 0 0 c.set_render_target_rect.w
          c.set_render_target_rect.h)))
  have hbegin : ∀ s : State, (begin_pass st.s.ref.cmdbuf (st.s.bindings.mrenderpasses c.name)
      (st.s.bindings.mframebuffers c.name) c.set_render_target_rect.w
      c.set_render_target_rect.h s).trace = s.trace ++
        [.vkCmdBeginRenderPass st.s.ref.cmdbuf (st.s.bindings.mrenderpasses c.name)
          (st.s.bindings.mframebuffers c.name) c.set_render_target_rect.w
          c.set_render_target_rect.h] := by
    intro s
    unfold begin_pass
    rw [if_pos ⟨h5, h6⟩]
    rfl
  have hend : (end_open_pass st.s.ref.cmdbuf st.rec_.renderpass st.s).trace = st.s.trace ++
      (if st.rec_.renderpass ≠ 0 then [Op.vkCmdEndRenderPass st.s.ref.cmdbuf] else []) := by
    unfold end_open_pass
    split <;> simp
  refine ⟨_, (if st.rec_.renderpass ≠ 0 then [Op.vkCmdEndRenderPass st.s.ref.cmdbuf] else []) ++
    [.vkCmdSetViewport st.s.ref.cmdbuf 0 0 (float_of_nat c.set_render_target_rect.w)
       (float_of_nat c.set_render_target_rect.h),
     .vkCmdSetScissor st.s.ref.cmdbuf 0 0 c.set_render_target_rect.w c.set_render_target_rect.h]
    ++ m1 ++ m2 ++
    [.vkCmdBeginRenderPass st.s.ref.cmdbuf (st.s.bindings.mrenderpasses c.name)
      (st.s.bindings.mframebuffers c.name) c.set_render_target_rect.w
      c.set_render_target_rect.h,
     .vkCmdBindDescriptorSets st.s.ref.cmdbuf (st.s.bindings.mdescriptor_sets c.name)],
    rfl, ?_, rfl, ?_, ?_, ?_, ?_⟩
  · simp only [bindings_emit, bindings_begin_pass, bindings_ensure_image_memory,
      bindings_end_open_pass]
  · simp only [trace_emit, hbegin, e2, e1, hend, List.append_assoc, List.cons_append,
      List.nil_append]
  · simp only [creates_append, c1, c2]
    split <;> simp [creates_cons, Op.is_create]
  · simp [State.bindings]
  · exact getLast?_append_two _ _ _

/-! ### C4: write once -/

/-- A call that returns, seen from the start of its loop. -/
theorem call_returned_loop (E : Env) (a : Args) (s s1 : State)
    (h : oden_present_graphics E a s = .returned s1) :
    ∃ st present_index, proc_commands E a.vcmd (loop_start E a s) = .next st ∧
      advance a (frame_end E present_index st) = .returned s1 := by
  obtain ⟨s0, h0, hf⟩ := oden_present_graphics_returned E a s s1 h
  obtain ⟨_, st, hp, ha⟩ := present_frame_returned E a s0 s1 hf
  have e : loop_start E a s = ⟨(frame_begin E s0).2, {}, 0⟩ := by
    unfold loop_start
    rcases h0 with ⟨hi, e⟩ | ⟨hi, hb⟩
    · rw [if_neg hi, e]
    · rw [if_pos hi, init_block_state E a s s0 hb]
  rw [← e] at hp
  exact ⟨st, _, hp, ha⟩

/-- The start of the loop keeps the presence of every entry of `mmemreqs`. -/
theorem memreqs_loop_start (E : Env) (a : Args) (s : State) (n : String)
    (h : s.mmemreqs n ≠ none) : (loop_start E a s).s.mmemreqs n ≠ none := by
  unfold loop_start
  have e := congrArg Entry.memreqs (congrFun (entry_frame_begin E
    (if s.inst = 0 then (init_block E a s).state else s)) n)
  show (frame_begin E _).2.mmemreqs n ≠ none
  have e1 : (frame_begin E (if s.inst = 0 then (init_block E a s).state else s)).2.mmemreqs n =
      (if s.inst = 0 then (init_block E a s).state else s).mmemreqs n := e
  rw [e1]
  split
  · exact (initKeeps_init_block E a s).memreqs n h
  · exact h

theorem memreqs_of_grows {s s1 : State} (g : Grows s s1) (n : String)
    (h : s.mmemreqs n ≠ none) : s1.mmemreqs n ≠ none := by
  rw [g.2 n h]
  exact h

/-- In a call that returns, an entry of `mmemreqs` present at the call is
present after any first part of the command vector, and one present there is
present in the state returned. -/
theorem call_memreqs (E : Env) (a : Args) (s s1 : State) (pre post : List cmd) (n : String)
    (hv : a.vcmd = pre ++ post) (h : oden_present_graphics E a s = .returned s1) :
    (s.mmemreqs n ≠ none → (proc_commands E pre (loop_start E a s)).st.s.mmemreqs n ≠ none) ∧
    ((proc_commands E pre (loop_start E a s)).st.s.mmemreqs n ≠ none → s1.mmemreqs n ≠ none) := by
  obtain ⟨st, pi, hp, ha⟩ := call_returned_loop E a s s1 h
  rw [hv] at hp
  obtain ⟨st1, hp1, hp2⟩ := proc_commands_split E pre post _ st hp
  obtain ⟨_, _, _, _, _, _, _, hg⟩ := advance_returned a _ s1 ha
  rw [hp1]
  constructor
  · intro hn
    exact memreqs_of_grows (grows_of_next E pre _ st1 hp1) n (memreqs_loop_start E a s n hn)
  · intro hn
    exact memreqs_of_grows (grows_trans (grows_of_next E post st1 st hp2)
      (grows_trans (grows_frame_end E _ st) hg)) n hn

theorem present_calls_memreqs (E : Env) (calls : List Args) (s s1 : State) (n : String)
    (h : present_calls E calls s = .returned s1) (hn : s.mmemreqs n ≠ none) :
    s1.mmemreqs n ≠ none := by
  induction calls generalizing s with
  | nil =>
    unfold present_calls at h
    injection h with h
    subst h
    exact hn
  | cons a rest ih =>
    unfold present_calls at h
    cases hc : oden_present_graphics E a s with
    | returned s2 =>
      rw [hc] at h
      obtain ⟨g1, g2⟩ := call_memreqs E a s s2 [] a.vcmd n rfl hc
      exact ih s2 h (g2 (g1 hn))
    | exited s2 => rw [hc] at h; cases h
    | undefined => rw [hc] at h; cases h

/-! The blocks that record the requirements. -/

theorem memreqs_alloc_devmem (E : Env) (name : String) (size flags : Nat) (b : Bool)
    (s : State) : (alloc_devmem E name size flags b s).2.mmemreqs = s.mmemreqs := by
  unfold alloc_devmem
  dsimp only
  split <;> rfl

theorem memreqs_map_and_copy (E : Env) (devmem mapSize : Nat) (data : Option (List Nat))
    (size : Nat) (s : State) :
    (map_and_copy E devmem mapSize data size s).mmemreqs = s.mmemreqs := by
  unfold map_and_copy
  dsimp only
  split <;> rfl

theorem has_memreqs_image_memory (E : Env) (name : String) (image : Nat) (s : State) :
    (image_memory E name image s).mmemreqs name ≠ none := by
  unfold image_memory
  show (alloc_devmem E name _ _ true _).2.mmemreqs name ≠ none
  rw [memreqs_alloc_devmem]
  simp

theorem has_memreqs_buffer_memory (E : Env) (name : String) (buffer : Nat)
    (data : Option (List Nat)) (size : Nat) (s : State) :
    (buffer_memory E name buffer data size s).mmemreqs name ≠ none := by
  unfold buffer_memory
  split
  · rw [memreqs_map_and_copy]
    show (alloc_devmem E name _ _ true _).2.mmemreqs name ≠ none
    rw [memreqs_alloc_devmem]
    simp
  · assumption

theorem has_memreqs_ensure_texture_memory (E : Env) (c : cmd) (cb image w h : Nat)
    (s : State) : (ensure_texture_memory E c cb image w h s).mmemreqs c.name ≠ none := by
  unfold ensure_texture_memory
  split
  · have e := congrArg Entry.memreqs (congrFun (entry_texture_staging E c cb image w h
      (image_memory E c.name image s)) c.name)
    have e1 : (texture_staging E c cb image w h (image_memory E c.name image s)).mmemreqs c.name
        = (image_memory E c.name image s).mmemreqs c.name := e
    rw [e1]
    exact has_memreqs_image_memory E c.name image s
  · assumption

/-- After a command that uploads on first reference, the
requirements of its name are recorded. -/
theorem has_memreqs_proc_command (E : Env) (c : cmd) (st : Interp)
    (hc : c.type.uploads = true) : (proc_command E c st).st.s.mmemreqs c.name ≠ none := by
  cases hty : c.type
  case CMD_SET_TEXTURE =>
    rw [proc_command_texture E c st (Or.inl hty)]
    unfold cmd_set_texture
    simp only [st_ite]
    split
    · exact memreqs_of_grows (grows_resolve_image_view _ _ _ _ _ _) _
        (has_memreqs_ensure_texture_memory _ _ _ _ _ _ _)
    · exact memreqs_of_grows (grows_trans (grows_resolve_image_view _ _ _ _ _ _) (grows_emit _ _)) _
        (has_memreqs_ensure_texture_memory _ _ _ _ _ _ _)
  case CMD_SET_TEXTURE_UAV =>
    rw [proc_command_texture E c st (Or.inr hty)]
    unfold cmd_set_texture
    simp only [st_ite]
    split
    · exact memreqs_of_grows (grows_resolve_image_view _ _ _ _ _ _) _
        (has_memreqs_ensure_texture_memory _ _ _ _ _ _ _)
    · exact memreqs_of_grows (grows_trans (grows_resolve_image_view _ _ _ _ _ _) (grows_emit _ _)) _
        (has_memreqs_ensure_texture_memory _ _ _ _ _ _ _)
  case CMD_SET_CONSTANT =>
    rw [proc_command_constant E c st hty]
    unfold cmd_set_constant
    simp only [st_ite]
    split
    · exact has_memreqs_buffer_memory _ _ _ _ _ _
    · exact memreqs_of_grows (grows_emit _ _) _ (has_memreqs_buffer_memory _ _ _ _ _ _)
  case CMD_SET_VERTEX =>
    rw [proc_command_vertex E c st hty]
    exact memreqs_of_grows (grows_emit _ _) _ (has_memreqs_buffer_memory _ _ _ _ _ _)
  case CMD_SET_INDEX =>
    rw [proc_command_index E c st hty]
    exact memreqs_of_grows (grows_emit _ _) _ (has_memreqs_buffer_memory _ _ _ _ _ _)
  all_goals
    rw [hty] at hc
    cases hc

@[simp] theorem uploads_append (a b : List Op) : uploads (a ++ b) = uploads a ++ uploads b := by
  simp [uploads]

theorem uploads_cons (o : Op) (t : List Op) :
    uploads (o :: t) = (if o.is_upload then [o] else []) ++ uploads t := by
  unfold uploads
  by_cases h : o.is_upload <;> simp [List.filter_cons, h]

@[simp] theorem uploads_nil : uploads [] = [] := rfl

theorem buffer_memory_present (E : Env) (name : String) (buffer : Nat)
    (data : Option (List Nat)) (size : Nat) (s : State) (h : s.mmemreqs name ≠ none) :
    buffer_memory E name buffer data size s = s := by
  unfold buffer_memory
  rw [if_neg h]

theorem ensure_texture_memory_present (E : Env) (c : cmd) (cb image w h : Nat) (s : State)
    (hm : s.mmemreqs c.name ≠ none) : ensure_texture_memory E c cb image w h s = s := by
  unfold ensure_texture_memory
  rw [if_neg hm]

theorem memreqs_resolve_buffer (E : Env) (name : String) (size : Nat) (s : State) :
    (resolve_buffer E name size s).2.mmemreqs = s.mmemreqs := by
  unfold resolve_buffer
  split <;> rfl

theorem memreqs_resolve_image (E : Env) (name : String) (w h f u : Nat) (s : State) :
    (resolve_image E name w h f u s).2.mmemreqs = s.mmemreqs := by
  unfold resolve_image
  split <;> rfl

theorem uploads_resolve_buffer (E : Env) (name : String) (size : Nat) (s : State) :
    uploads (resolve_buffer E name size s).2.trace = uploads s.trace := by
  unfold resolve_buffer
  split <;> simp [create_buffer, uploads_cons, Op.is_upload]

theorem uploads_resolve_image (E : Env) (name : String) (w h f u : Nat) (s : State) :
    uploads (resolve_image E name w h f u s).2.trace = uploads s.trace := by
  unfold resolve_image
  split <;> simp [create_image, uploads_cons, Op.is_upload]

theorem uploads_resolve_image_view (E : Env) (name : String) (i f a : Nat) (s : State) :
    uploads (resolve_image_view E name i f a s).2.trace = uploads s.trace := by
  unfold resolve_image_view
  split <;> simp [create_image_view, uploads_cons, Op.is_upload]

/-- A command that uploads on first reference, on a name whose
requirements are recorded, performs no map, no copy and no buffer-to-image
copy. -/
theorem uploads_proc_command (E : Env) (c : cmd) (st : Interp)
    (hc : c.type.uploads = true) (hm : st.s.mmemreqs c.name ≠ none) :
    uploads (proc_command E c st).st.s.trace = uploads st.s.trace := by
  have hb : ∀ size, (resolve_buffer E c.name size st.s).2.mmemreqs c.name ≠ none := by
    intro size
    rw [memreqs_resolve_buffer]
    exact hm
  have hi : ∀ w h f u, (resolve_image E c.name w h f u st.s).2.mmemreqs c.name ≠ none := by
    intro w h f u
    rw [memreqs_resolve_image]
    exact hm
  have htex : uploads (cmd_set_texture E c ⟨st.s, st.rec_, st.cmd_index + 1⟩).st.s.trace =
      uploads st.s.trace := by
    unfold cmd_set_texture
    simp only [st_ite]
    split
    · rw [uploads_resolve_image_view, ensure_texture_memory_present _ _ _ _ _ _ _ (hi _ _ _ _),
        uploads_resolve_image]
    · rw [trace_emit, uploads_append, uploads_resolve_image_view,
        ensure_texture_memory_present _ _ _ _ _ _ _ (hi _ _ _ _), uploads_resolve_image]
      simp [uploads_cons, Op.is_upload]
  cases hty : c.type
  case CMD_SET_TEXTURE =>
    rw [proc_command_texture E c st (Or.inl hty)]
    exact htex
  case CMD_SET_TEXTURE_UAV =>
    rw [proc_command_texture E c st (Or.inr hty)]
    exact htex
  case CMD_SET_CONSTANT =>
    rw [proc_command_constant E c st hty]
    unfold cmd_set_constant
    simp only [st_ite]
    split
    · rw [buffer_memory_present _ _ _ _ _ _ (hb _), uploads_resolve_buffer]
    · rw [trace_emit, uploads_append, buffer_memory_present _ _ _ _ _ _ (hb _),
        uploads_resolve_buffer]
      simp [uploads_cons, Op.is_upload]
  case CMD_SET_VERTEX =>
    rw [proc_command_vertex E c st hty]
    unfold cmd_set_vertex
    simp only [st_next]
    rw [trace_emit, uploads_append, buffer_memory_present _ _ _ _ _ _ (hb _),
      uploads_resolve_buffer]
    simp [uploads_cons, Op.is_upload]
  case CMD_SET_INDEX =>
    rw [proc_command_index E c st hty]
    unfold cmd_set_index
    simp only [st_next]
    rw [trace_emit, uploads_append, buffer_memory_present _ _ _ _ _ _ (hb _),
      uploads_resolve_buffer]
    simp [uploads_cons, Op.is_upload]
  all_goals
    rw [hty] at hc
    cases hc

/-- C4: once a `SetVertex`, `SetIndex`, `SetConstant`, `SetTexture` or
`SetTextureUAV` has been interpreted under a name, a later such command under
the same name, whatever its payload, performs no map, no copy into mapped
memory and no buffer-to-image copy: later in the same call (first conjunct),
and in any later call, since the first command records the memory requirements
of the name, no part of a call and no later call removes them, and a command on
a name whose requirements are recorded uploads nothing. -/
theorem write_once (E : Env) :
    (∀ (c1 c2 : cmd) (mid : List cmd) (st st1 st2 : Interp),
      c1.type.uploads = true → c2.type.uploads = true → c2.name = c1.name →
      proc_command E c1 st = .next st1 → proc_commands E mid st1 = .next st2 →
      uploads (proc_command E c2 st2).st.s.trace = uploads st2.s.trace) ∧
    (∀ (c : cmd) (st : Interp), c.type.uploads = true →
      (proc_command E c st).st.s.mmemreqs c.name ≠ none) ∧
    (∀ (a : Args) (s s1 : State) (pre post : List cmd) (n : String), a.vcmd = pre ++ post →
      oden_present_graphics E a s = .returned s1 →
      (s.mmemreqs n ≠ none →
        (proc_commands E pre (loop_start E a s)).st.s.mmemreqs n ≠ none) ∧
      ((proc_commands E pre (loop_start E a s)).st.s.mmemreqs n ≠ none →
        s1.mmemreqs n ≠ none)) ∧
    (∀ (calls : List Args) (s s1 : State) (n : String),
      present_calls E calls s = .returned s1 → s.mmemreqs n ≠ none → s1.mmemreqs n ≠ none) ∧
    (∀ (c : cmd) (st : Interp), c.type.uploads = true → st.s.mmemreqs c.name ≠ none →
      uploads (proc_command E c st).st.s.trace = uploads st.s.trace) := by
  refine ⟨?_, fun c st hc => has_memreqs_proc_command E c st hc,
    fun a s s1 pre post n hv h => call_memreqs E a s s1 pre post n hv h,
    fun calls s s1 n h hn => present_calls_memreqs E calls s s1 n h hn,
    fun c st hc hm => uploads_proc_command E c st hc hm⟩
  intro c1 c2 mid st st1 st2 h1 h2 hn hs1 hmid
  have e1 := has_memreqs_proc_command E c1 st h1
  rw [hs1] at e1
  have e2 : st2.s.mmemreqs c2.name ≠ none := by
    rw [hn]
    exact memreqs_of_grows (grows_of_next E mid st1 st2 hmid) _ e1
  exact uploads_proc_command E c2 st2 h2 e2

/-- Witness of `write_once`: with the sample driver, `SetConstant("c0")` in a
first call maps and copies once; the same name with other bytes later in the
call and in a second call adds no map and no copy. -/
theorem write_once_witness :
    (uploads (present_calls sample_env
      [{ vcmd := [rt0_large, const_first, const_second], count := 2 }]
      State.initial).state.trace).length = 2 ∧
    (uploads (present_calls sample_env
      [{ vcmd := [rt0_large, const_first, const_second], count := 2 },
       { vcmd := [rt0_large, const_second], count := 2 }]
      State.initial).state.trace).length = 2 ∧
    uploads (proc_command sample_env const_second
      (proc_commands sample_env [rt0_large, const_first] sample_loop).st).st.s.trace =
      uploads (proc_commands sample_env [rt0_large, const_first] sample_loop).st.s.trace :=
  ⟨by decide, by decide,
    (write_once sample_env).1 const_first const_second []
      (proc_commands sample_env [rt0_large] sample_loop).st
      (proc_commands sample_env [rt0_large, const_first] sample_loop).st
      (proc_commands sample_env [rt0_large, const_first] sample_loop).st
      rfl rfl rfl (by rfl) (by rfl)⟩

theorem has_memreqs_ensure_image_memory (E : Env) (name : String) (image : Nat) (s : State) :
    (ensure_image_memory E name image s).mmemreqs name ≠ none := by
  unfold ensure_image_memory
  split
  · exact has_memreqs_image_memory E name image s
  · assumption

theorem memreqs_resolve_image_view (E : Env) (name : String) (i f a : Nat) (s : State) :
    (resolve_image_view E name i f a s).2.mmemreqs = s.mmemreqs := by
  unfold resolve_image_view
  split <;> rfl

theorem memreqs_resolve_renderpass (E : Env) (name : String) (b : Bool) (s : State) :
    (resolve_renderpass E name b s).2.mmemreqs = s.mmemreqs := by
  unfold resolve_renderpass
  split <;> rfl

theorem memreqs_resolve_framebuffer (E : Env) (name : String) (rp : Nat) (v : List Nat)
    (w h : Nat) (s : State) :
    (resolve_framebuffer E name rp v w h s).2.mmemreqs = s.mmemreqs := by
  unfold resolve_framebuffer
  split <;> rfl

theorem memreqs_resolve_descriptor_set (E : Env) (name : String) (s : State) :
    (resolve_descriptor_set E name s).2.mmemreqs = s.mmemreqs := by
  unfold resolve_descriptor_set
  split <;> rfl

theorem memreqs_begin_pass (cb rp fb w h : Nat) (s : State) :
    (begin_pass cb rp fb w h s).mmemreqs = s.mmemreqs := by
  unfold begin_pass
  split <;> rfl

theorem memreqs_emit (s : State) (o : Op) : (s.emit o).mmemreqs = s.mmemreqs := rfl

/-- After the handler of `CMD_SET_RENDER_TARGET`, whether it completes or
exits, the memory requirements of the depth image are recorded under the
derived name. -/
theorem depth_memreqs_set_render_target (E : Env) (c : cmd) (st : Interp) :
    (cmd_set_render_target E c st).st.s.mmemreqs
      (E.oden_get_depth_render_target_name c.name) ≠ none := by
  unfold cmd_set_render_target
  simp only [st_ite]
  split <;>
    simp only [memreqs_emit, memreqs_resolve_descriptor_set, memreqs_begin_pass,
      memreqs_resolve_framebuffer, memreqs_resolve_renderpass, memreqs_resolve_image_view] <;>
    exact has_memreqs_ensure_image_memory _ _ _ _

/-- A command leaves the entries of every name other than its own and, for
`CMD_SET_RENDER_TARGET`, other than the derived depth name. -/
theorem entry_proc_command (E : Env) (c : cmd) (st : Interp) (n : String)
    (h1 : n ≠ c.name)
    (h2 : c.type = .CMD_SET_RENDER_TARGET → n ≠ E.oden_get_depth_render_target_name c.name) :
    (proc_command E c st).st.s.entry n = st.s.entry n := by
  cases hty : c.type
  case CMD_SET_RENDER_TARGET =>
    rw [proc_command_render_target E c st hty]
    exact entry_cmd_set_render_target E c _ n h1 (h2 hty)
  case CMD_SET_TEXTURE =>
    rw [proc_command_texture E c st (Or.inl hty)]
    exact entry_cmd_set_texture E c _ n h1
  case CMD_SET_TEXTURE_UAV =>
    rw [proc_command_texture E c st (Or.inr hty)]
    exact entry_cmd_set_texture E c _ n h1
  case CMD_SET_CONSTANT =>
    rw [proc_command_constant E c st hty]
    exact entry_cmd_set_constant E c _ n h1
  case CMD_SET_VERTEX =>
    rw [proc_command_vertex E c st hty]
    exact entry_cmd_set_vertex E c _ n h1
  case CMD_SET_INDEX =>
    rw [proc_command_index E c st hty]
    exact entry_cmd_set_index E c _ n h1
  case CMD_CLEAR =>
    rw [proc_command_clear E c st hty]
    rfl
  all_goals
    rw [proc_command_skip E c st (by rw [hty]; decide)]
    rfl

/-- C5 (amended): interpreting a command leaves the whole directory entry
(image, view, buffer, memory requirements, device memory, render pass,
framebuffer, descriptor set, pipeline) of every name `B` unchanged, provided
`B` is neither the name of the command nor, for `SetRenderTarget`, the depth
name derived from it; and the second proviso is needed: a `SetRenderTarget`
on a name whose derived depth name has no memory requirements recorded yet
changes the entry stored under that derived name. -/
theorem name_independence (E : Env) (c : cmd) (st : Interp) :
    (∀ B : String, B ≠ c.name →
      (c.type = .CMD_SET_RENDER_TARGET → B ≠ E.oden_get_depth_render_target_name c.name) →
      (proc_command E c st).st.s.entry B = st.s.entry B) ∧
    (c.type = .CMD_SET_RENDER_TARGET →
      st.s.mmemreqs (E.oden_get_depth_render_target_name c.name) = none →
      (proc_command E c st).st.s.entry (E.oden_get_depth_render_target_name c.name) ≠
        st.s.entry (E.oden_get_depth_render_target_name c.name)) := by
  refine ⟨fun B h1 h2 => entry_proc_command E c st B h1 h2, fun hty h0 he => ?_⟩
  have h := depth_memreqs_set_render_target E c ⟨st.s, st.rec_, st.cmd_index + 1⟩
  rw [← proc_command_render_target E c st hty] at h
  have e := congrArg Entry.memreqs he
  exact h (e.trans h0)

/-- With the sample driver, `SetRenderTarget("rt1")` after
`SetRenderTarget("rt0")` leaves the entry of `rt0` as it was, while it binds
an image under `rt1`. -/
theorem name_independence_witness :
    (proc_command sample_env rt1_large (proc_command sample_env rt0_large sample_loop).st).st.s.entry
        "rt0" =
      (proc_command sample_env rt0_large sample_loop).st.s.entry "rt0" ∧
    ((proc_command sample_env rt0_large sample_loop).st.s.entry "rt0").image = 22 ∧
    ((proc_command sample_env rt1_large
      (proc_command sample_env rt0_large sample_loop).st).st.s.entry "rt1").image = 33 :=
  ⟨(name_independence sample_env rt1_large (proc_command sample_env rt0_large sample_loop).st).1
      "rt0" (by decide) (fun _ => by decide),
    by decide, by decide⟩

/-- C5 as stated fails: with the sample driver, `SetRenderTarget("rt0")`
changes the entry stored under the distinct name `rt0_depth`, which had no
image and no memory requirements and afterwards holds the depth image, its
view, its requirements and its memory. -/
theorem name_independence_fails :
    rt0_large.name = "rt0" ∧ decide ("rt0_depth" = rt0_large.name) = false ∧
    (sample_loop.s.entry "rt0_depth").image = 0 ∧
    (sample_loop.s.entry "rt0_depth").memreqs = none ∧
    ((proc_command sample_env rt0_large sample_loop).st.s.entry "rt0_depth").image = 26 ∧
    ((proc_command sample_env rt0_large sample_loop).st.s.entry "rt0_depth").imageview = 29 ∧
    ((proc_command sample_env rt0_large sample_loop).st.s.entry "rt0_depth").devmem = 28 ∧
    ((proc_command sample_env rt0_large sample_loop).st.s.entry "rt0_depth").memreqs =
      some { size := 16, alignment := 16, memoryTypeBits := 3 } := by
  refine ⟨rfl, by decide, by decide, by decide, by decide, by decide, by decide, by decide⟩

/-! ### Descriptor writes -/

@[simp] theorem writes_append (a b : List Op) :
    descriptor_writes (a ++ b) = descriptor_writes a ++ descriptor_writes b := by
  simp [descriptor_writes]

theorem writes_cons (o : Op) (t : List Op) :
    descriptor_writes (o :: t) =
      (if o.is_descriptor_write then [o] else []) ++ descriptor_writes t := by
  unfold descriptor_writes
  by_cases h : o.is_descriptor_write <;> simp [List.filter_cons, h]

@[simp] theorem writes_nil : descriptor_writes [] = [] := rfl

theorem writes_resolve_image (E : Env) (name : String) (w h f u : Nat) (s : State) :
    descriptor_writes (resolve_image E name w h f u s).2.trace = descriptor_writes s.trace := by
  unfold resolve_image
  split <;> simp [create_image, writes_cons, Op.is_descriptor_write]

theorem writes_resolve_image_view (E : Env) (name : String) (i f a : Nat) (s : State) :
    descriptor_writes (resolve_image_view E name i f a s).2.trace =
      descriptor_writes s.trace := by
  unfold resolve_image_view
  split <;> simp [create_image_view, writes_cons, Op.is_descriptor_write]

theorem writes_resolve_buffer (E : Env) (name : String) (size : Nat) (s : State) :
    descriptor_writes (resolve_buffer E name size s).2.trace = descriptor_writes s.trace := by
  unfold resolve_buffer
  split <;> simp [create_buffer, writes_cons, Op.is_descriptor_write]

theorem writes_alloc_devmem (E : Env) (name : String) (size flags : Nat) (b : Bool)
    (s : State) :
    descriptor_writes (alloc_devmem E name size flags b s).2.trace =
      descriptor_writes s.trace := by
  rw [trace_alloc_devmem]
  simp [writes_cons, Op.is_descriptor_write]

theorem writes_map_and_copy (E : Env) (devmem mapSize : Nat) (data : Option (List Nat))
    (size : Nat) (s : State) :
    descriptor_writes (map_and_copy E devmem mapSize data size s).trace =
      descriptor_writes s.trace := by
  unfold map_and_copy
  dsimp only
  split <;> simp [writes_cons, Op.is_descriptor_write]

theorem writes_image_memory (E : Env) (name : String) (image : Nat) (s : State) :
    descriptor_writes (image_memory E name image s).trace = descriptor_writes s.trace := by
  unfold image_memory
  simp only [trace_emit, writes_append, writes_alloc_devmem]
  simp [writes_cons, Op.is_descriptor_write]

theorem writes_buffer_memory (E : Env) (name : String) (buffer : Nat)
    (data : Option (List Nat)) (size : Nat) (s : State) :
    descriptor_writes (buffer_memory E name buffer data size s).trace =
      descriptor_writes s.trace := by
  unfold buffer_memory
  split
  · simp only [writes_map_and_copy, trace_emit, writes_append, writes_alloc_devmem]
    simp [writes_cons, Op.is_descriptor_write]
  · rfl

theorem writes_texture_staging (E : Env) (c : cmd) (cb image w h : Nat) (s : State) :
    descriptor_writes (texture_staging E c cb image w h s).trace = descriptor_writes s.trace := by
  unfold texture_staging
  simp only [trace_emit, writes_append, writes_map_and_copy, trace_modifyRef,
    writes_alloc_devmem, trace_call]
  simp [create_buffer, writes_cons, Op.is_descriptor_write]

theorem writes_ensure_texture_memory (E : Env) (c : cmd) (cb image w h : Nat) (s : State) :
    descriptor_writes (ensure_texture_memory E c cb image w h s).trace =
      descriptor_writes s.trace := by
  unfold ensure_texture_memory
  split
  · rw [writes_texture_staging, writes_image_memory]
  · rfl

/-! ### Bindings and the record of the call -/

/-- What the handler of `CMD_SET_TEXTURE` and `CMD_SET_TEXTURE_UAV` does with
`rec.descriptor_sets`: `exit(1)` when it is null, otherwise one descriptor
write into it, the last call of the handler. -/
theorem cmd_set_texture_result (E : Env) (c : cmd) (st : Interp) :
    ∃ (s1 : State) (view : Nat),
      descriptor_writes s1.trace = descriptor_writes st.s.trace ∧
      cmd_set_texture E c st =
        if st.rec_.descriptor_sets = 0 then .exit ⟨s1, st.rec_, st.cmd_index⟩
        else .next ⟨s1.emit (.vkUpdateDescriptorSets st.rec_.descriptor_sets
          ((RDT_SLOT_MAX * c.set_texture_slot + RDT_SLOT_SRV) % U32)
          .COMBINED_IMAGE_SAMPLER view 0), st.rec_, st.cmd_index⟩ := by
  unfold cmd_set_texture
  refine ⟨_, _, ?_, rfl⟩
  rw [writes_resolve_image_view, writes_ensure_texture_memory, writes_resolve_image]

/-- What the handler of `CMD_SET_CONSTANT` does with `rec.descriptor_sets`. -/
theorem cmd_set_constant_result (E : Env) (c : cmd) (st : Interp) :
    ∃ (s1 : State) (buffer : Nat),
      descriptor_writes s1.trace = descriptor_writes st.s.trace ∧
      cmd_set_constant E c st =
        if st.rec_.descriptor_sets = 0 then .exit ⟨s1, st.rec_, st.cmd_index⟩
        else .next ⟨s1.emit (.vkUpdateDescriptorSets st.rec_.descriptor_sets
          ((RDT_SLOT_MAX * c.set_constant_slot + RDT_SLOT_CBV) % U32)
          .UNIFORM_BUFFER buffer c.set_constant_size), st.rec_, st.cmd_index⟩ := by
  unfold cmd_set_constant
  refine ⟨_, _, ?_, rfl⟩
  rw [writes_buffer_memory, writes_resolve_buffer]

/-- A binding command, in the terms of `proc_command`. -/
theorem binds_result (E : Env) (c : cmd) (st : Interp) (hb : c.type.binds = true) :
    ∃ (s1 : State) (binding : Nat) (ty : VkDescriptorType) (resource range : Nat),
      descriptor_writes s1.trace = descriptor_writes st.s.trace ∧
      proc_command E c st =
        if st.rec_.descriptor_sets = 0 then .exit ⟨s1, st.rec_, st.cmd_index + 1⟩
        else .next ⟨s1.emit (.vkUpdateDescriptorSets st.rec_.descriptor_sets binding ty
          resource range), st.rec_, st.cmd_index + 1⟩ := by
  cases hty : c.type
  case CMD_SET_TEXTURE =>
    rw [proc_command_texture E c st (Or.inl hty)]
    obtain ⟨s1, view, hw, h⟩ := cmd_set_texture_result E c ⟨st.s, st.rec_, st.cmd_index + 1⟩
    exact ⟨s1, _, _, view, 0, hw, h⟩
  case CMD_SET_TEXTURE_UAV =>
    rw [proc_command_texture E c st (Or.inr hty)]
    obtain ⟨s1, view, hw, h⟩ := cmd_set_texture_result E c ⟨st.s, st.rec_, st.cmd_index + 1⟩
    exact ⟨s1, _, _, view, 0, hw, h⟩
  case CMD_SET_CONSTANT =>
    rw [proc_command_constant E c st hty]
    obtain ⟨s1, buffer, hw, h⟩ := cmd_set_constant_result E c ⟨st.s, st.rec_, st.cmd_index + 1⟩
    exact ⟨s1, _, _, buffer, _, hw, h⟩
  all_goals
    rw [hty] at hb
    cases hb

/-- A command that is neither `SetRenderTarget` nor a binding command never
exits and leaves `rec` alone. -/
theorem plain_result (E : Env) (c : cmd) (st : Interp)
    (h1 : c.type ≠ .CMD_SET_RENDER_TARGET) (h2 : c.type.binds = false) :
    ∃ s1 : State, proc_command E c st = .next ⟨s1, st.rec_, st.cmd_index + 1⟩ := by
  cases hty : c.type
  case CMD_SET_RENDER_TARGET => exact absurd hty h1
  case CMD_SET_VERTEX =>
    rw [proc_command_vertex E c st hty]
    exact ⟨_, rfl⟩
  case CMD_SET_INDEX =>
    rw [proc_command_index E c st hty]
    exact ⟨_, rfl⟩
  case CMD_CLEAR =>
    rw [proc_command_clear E c st hty]
    exact ⟨_, rfl⟩
  case CMD_SET_TEXTURE => rw [hty] at h2; cases h2
  case CMD_SET_TEXTURE_UAV => rw [hty] at h2; cases h2
  case CMD_SET_CONSTANT => rw [hty] at h2; cases h2
  all_goals
    rw [proc_command_skip E c st (by rw [hty]; decide)]
    exact ⟨_, rfl⟩

/-- A run of such commands completes with `rec` as it was. -/
theorem plain_run (E : Env) (cmds : List cmd) (st : Interp)
    (h : ∀ x ∈ cmds, x.type ≠ .CMD_SET_RENDER_TARGET ∧ x.type.binds = false) :
    ∃ s1 : State,
      proc_commands E cmds st = .next ⟨s1, st.rec_, st.cmd_index + cmds.length⟩ := by
  induction cmds generalizing st with
  | nil => exact ⟨st.s, rfl⟩
  | cons c rest ih =>
    obtain ⟨s1, h1⟩ := plain_result E c st (h c (List.mem_cons_self _ _)).1
      (h c (List.mem_cons_self _ _)).2
    obtain ⟨s2, h2⟩ := ih ⟨s1, st.rec_, st.cmd_index + 1⟩
      (fun x hx => h x (List.mem_cons_of_mem _ hx))
    refine ⟨s2, ?_⟩
    rw [proc_commands_cons, h1]
    simp only []
    rw [h2, List.length_cons]
    simp only [Nat.add_assoc, Nat.add_comm 1]

/-- A command never resets a non-null `rec.descriptor_sets`; a command other
than `SetRenderTarget` with `rec.descriptor_sets` non-null never exits. -/
theorem record_kept (E : Env) (c : cmd) (st : Interp) (h0 : st.rec_.descriptor_sets ≠ 0)
    (h1 : c.type ≠ .CMD_SET_RENDER_TARGET) :
    ∃ s1 : State, proc_command E c st = .next ⟨s1, st.rec_, st.cmd_index + 1⟩ := by
  by_cases hb : c.type.binds = true
  · obtain ⟨s1, binding, ty, res, range, _, h⟩ := binds_result E c st hb
    rw [if_neg h0] at h
    exact ⟨_, h⟩
  · exact plain_result E c st h1 (by simpa using hb)

theorem record_kept_run (E : Env) (cmds : List cmd) (st : Interp)
    (h0 : st.rec_.descriptor_sets ≠ 0)
    (h : ∀ x ∈ cmds, x.type ≠ .CMD_SET_RENDER_TARGET) :
    ∃ s1 : State,
      proc_commands E cmds st = .next ⟨s1, st.rec_, st.cmd_index + cmds.length⟩ := by
  induction cmds generalizing st with
  | nil => exact ⟨st.s, rfl⟩
  | cons c rest ih =>
    obtain ⟨s1, h1⟩ := record_kept E c st h0 (h c (List.mem_cons_self _ _))
    obtain ⟨s2, h2⟩ := ih ⟨s1, st.rec_, st.cmd_index + 1⟩ h0
      (fun x hx => h x (List.mem_cons_of_mem _ hx))
    refine ⟨s2, ?_⟩
    rw [proc_commands_cons, h1]
    simp only []
    rw [h2, List.length_cons]
    simp only [Nat.add_assoc, Nat.add_comm 1]

theorem mdescriptor_sets_resolve (E : Env) (name : String) (s : State) :
    (resolve_descriptor_set E name s).2.mdescriptor_sets name =
      (resolve_descriptor_set E name s).1 := by
  unfold resolve_descriptor_set
  split
  · simp
  · rfl

/-- The end of the handler of `CMD_SET_RENDER_TARGET`: the descriptor set
of the name is resolved in some state `s4`; `exit(1)` when it is null,
otherwise it is bound and becomes `rec.descriptor_sets`. -/
theorem cmd_set_render_target_result (E : Env) (c : cmd) (st : Interp) :
    ∃ (s4 : State) (rp : Nat),
      cmd_set_render_target E c st =
        if (resolve_descriptor_set E c.name s4).1 = 0 then
          .exit ⟨(resolve_descriptor_set E c.name s4).2, ⟨st.rec_.descriptor_sets, rp⟩,
            st.cmd_index⟩
        else
          .next ⟨(resolve_descriptor_set E c.name s4).2.emit
              (.vkCmdBindDescriptorSets st.s.ref.cmdbuf (resolve_descriptor_set E c.name s4).1),
            ⟨(resolve_descriptor_set E c.name s4).1, rp⟩, st.cmd_index⟩ := by
  unfold cmd_set_render_target
  exact ⟨_, _, rfl⟩

/-- A completed `SetRenderTarget`: `rec.descriptor_sets` is the entry of the
name in the descriptor-set directory, and it is not null. -/
theorem record_set_render_target (E : Env) (c : cmd) (st st1 : Interp)
    (h : cmd_set_render_target E c st = .next st1) :
    st1.rec_.descriptor_sets = st1.s.mdescriptor_sets c.name ∧
      st1.rec_.descriptor_sets ≠ 0 := by
  obtain ⟨s4, rp, e⟩ := cmd_set_render_target_result E c st
  rw [e] at h
  split at h
  · cases h
  · rename_i hne
    injection h with h
    subst h
    exact ⟨(mdescriptor_sets_resolve E c.name s4).symm, hne⟩

/-- With `rec.descriptor_sets` null, a run without `SetRenderTarget` followed
by a binding command exits, at the latest at that command. -/
theorem unbound_run (E : Env) (pre post : List cmd) (b : cmd) (st : Interp)
    (h0 : st.rec_.descriptor_sets = 0)
    (h : ∀ x ∈ pre, x.type ≠ .CMD_SET_RENDER_TARGET) (hb : b.type.binds = true) :
    (proc_commands E (pre ++ b :: post) st).exits = true := by
  induction pre generalizing st with
  | nil =>
    obtain ⟨s1, _, _, _, _, _, e⟩ := binds_result E b st hb
    rw [if_pos h0] at e
    rw [List.nil_append, proc_commands_cons, e]
    rfl
  | cons c rest ih =>
    rw [List.cons_append, proc_commands_cons]
    by_cases hc : c.type.binds = true
    · obtain ⟨s1, _, _, _, _, _, e⟩ := binds_result E c st hc
      rw [if_pos h0] at e
      rw [e]
      rfl
    · obtain ⟨s1, e⟩ := plain_result E c st (h c (List.mem_cons_self _ _)) (by simpa using hc)
      rw [e]
      exact ih ⟨s1, st.rec_, st.cmd_index + 1⟩ h0 (fun x hx => h x (List.mem_cons_of_mem _ hx))

/-- The first binding command of a vector, when no `SetRenderTarget` precedes
it and `rec.descriptor_sets` is null, is where the loop exits. -/
theorem unbound_first (E : Env) (pre post : List cmd) (b : cmd) (st : Interp)
    (h0 : st.rec_.descriptor_sets = 0)
    (h : ∀ x ∈ pre, x.type ≠ .CMD_SET_RENDER_TARGET ∧ x.type.binds = false)
    (hb : b.type.binds = true) :
    (proc_commands E (pre ++ b :: post) st).st.cmd_index = st.cmd_index + pre.length + 1 := by
  obtain ⟨s1, e1⟩ := plain_run E pre st h
  obtain ⟨s2, _, _, _, _, _, e2⟩ := binds_result E b ⟨s1, st.rec_, st.cmd_index + pre.length⟩ hb
  rw [if_pos h0] at e2
  rw [proc_commands_append, e1]
  simp only []
  rw [proc_commands_cons, e2]
  rfl

/-- C6: a `SetConstant`, `SetTexture` or `SetTextureUAV` with no
`SetRenderTarget` before it in the same call makes the loop exit (the record of
the call starts null whatever the state left by earlier calls), at that command
when it is the first binding command, and the call does not return; after a
`SetRenderTarget` that completed, `rec.descriptor_sets` is the non-null
descriptor set stored under that name, every command up to the next
`SetRenderTarget` completes, and a binding command among them writes exactly
one descriptor, into that descriptor set. -/
theorem binding_needs_render_target (E : Env) :
    (∀ (pre post : List cmd) (b : cmd) (s : State),
      (∀ x ∈ pre, x.type ≠ .CMD_SET_RENDER_TARGET) → b.type.binds = true →
      (proc_commands E (pre ++ b :: post) ⟨s, {}, 0⟩).exits = true ∧
      ((∀ x ∈ pre, x.type.binds = false) →
        (proc_commands E (pre ++ b :: post) ⟨s, {}, 0⟩).st.cmd_index = pre.length + 1)) ∧
    (∀ (a : Args) (s : State) (pre post : List cmd) (b : cmd),
      a.vcmd = pre ++ b :: post → (∀ x ∈ pre, x.type ≠ .CMD_SET_RENDER_TARGET) →
      b.type.binds = true → (oden_present_graphics E a s).returns = false) ∧
    (∀ (rt b : cmd) (mid : List cmd) (st st1 : Interp),
      rt.type = .CMD_SET_RENDER_TARGET → (∀ x ∈ mid, x.type ≠ .CMD_SET_RENDER_TARGET) →
      b.type.binds = true → proc_command E rt st = .next st1 →
      st1.rec_.descriptor_sets = st1.s.mdescriptor_sets rt.name ∧
      st1.rec_.descriptor_sets ≠ 0 ∧
      ∃ st2 : Interp, proc_commands E mid st1 = .next st2 ∧
        (proc_command E b st2).exits = false ∧
        ∃ (binding : Nat) (ty : VkDescriptorType) (resource range : Nat),
          descriptor_writes (proc_command E b st2).st.s.trace =
            descriptor_writes st2.s.trace ++
              [.vkUpdateDescriptorSets (st1.s.mdescriptor_sets rt.name) binding ty
                resource range]) := by
  refine ⟨fun pre post b s h hb => ⟨unbound_run E pre post b _ rfl h hb, fun hp => ?_⟩,
    fun a s pre post b hv h hb => ?_, fun rt b mid st st1 hrt hmid hb hs => ?_⟩
  · have e := unbound_first E pre post b ⟨s, {}, 0⟩ rfl (fun x hx => ⟨h x hx, hp x hx⟩) hb
    rw [e]
    simp
  · cases hr : oden_present_graphics E a s with
    | returned s1 =>
      obtain ⟨st, pi, hp, _⟩ := call_returned_loop E a s s1 hr
      have hx := unbound_run E pre post b (loop_start E a s) rfl h hb
      rw [← hv, hp] at hx
      cases hx
    | exited s1 => rfl
    | undefined => rfl
  · rw [proc_command_render_target E rt st hrt] at hs
    obtain ⟨hd, hn⟩ := record_set_render_target E rt _ st1 hs
    obtain ⟨s2, h2⟩ := record_kept_run E mid st1 hn hmid
    refine ⟨hd, hn, _, h2, ?_⟩
    obtain ⟨s3, binding, ty, res, range, hw, e⟩ := binds_result E b
      ⟨s2, st1.rec_, st1.cmd_index + mid.length⟩ hb
    rw [if_neg hn] at e
    rw [e]
    refine ⟨rfl, binding, ty, res, range, ?_⟩
    show descriptor_writes (s3.emit _).trace = _
    rw [trace_emit, writes_append, hw, hd]
    simp [writes_cons, Op.is_descriptor_write]

/-- With the sample driver: `SetConstant("c0")` as the first command of a
call exits at command 1; after `SetRenderTarget("rt0")` it completes and its
one descriptor write goes into the descriptor set of `rt0`, the handle 32. -/
theorem binding_needs_render_target_witness :
    (proc_commands sample_env ([] ++ const_first :: []) ⟨sample_loop.s, {}, 0⟩).exits = true ∧
    (proc_command sample_env rt0_large sample_loop).st.s.mdescriptor_sets "rt0" = 32 ∧
    (proc_commands sample_env [rt0_large, const_first] sample_loop).exits = false ∧
    (descriptor_writes
      (proc_commands sample_env [rt0_large, const_first] sample_loop).st.s.trace).length = 1 ∧
    (proc_command sample_env rt0_large sample_loop).st.rec_.descriptor_sets =
      (proc_command sample_env rt0_large sample_loop).st.s.mdescriptor_sets rt0_large.name :=
  ⟨((binding_needs_render_target sample_env).1 [] [] const_first sample_loop.s
      (fun _ hx => by cases hx) rfl).1,
    by decide, by decide, by decide,
    ((binding_needs_render_target sample_env).2.2 rt0_large const_first [] sample_loop
      (proc_command sample_env rt0_large sample_loop).st rfl (fun _ hx => by cases hx) rfl
      (by rfl)).1⟩

/-! ### Fatal errors -/

theorem resolve_descriptor_set_null (E : Env) (name : String) (s : State)
    (h : (resolve_descriptor_set E name s).1 = 0) :
    (resolve_descriptor_set E name s).2.trace =
      s.trace ++ [.vkAllocateDescriptorSets s.desc_pool s.layout 0] := by
  unfold resolve_descriptor_set at h ⊢
  split
  · rename_i h0
    rw [if_pos h0] at h
    simp only [] at h
    simp only [h]
    rfl
  · rename_i h0
    rw [if_neg h0] at h
    exact absurd h h0

/-- The handler of `CMD_SET_RENDER_TARGET` exits exactly when the descriptor
set stored under the name is null at its end; then the last call made is the
allocation attempt that returned null. -/
theorem exit_set_render_target (E : Env) (c : cmd) (st : Interp) :
    ((cmd_set_render_target E c st).exits = true ↔
      (cmd_set_render_target E c st).st.s.mdescriptor_sets c.name = 0) ∧
    ((cmd_set_render_target E c st).exits = true →
      ∃ pool layout : Nat, (cmd_set_render_target E c st).st.s.trace.getLast? =
        some (.vkAllocateDescriptorSets pool layout 0)) := by
  obtain ⟨s4, rp, e⟩ := cmd_set_render_target_result E c st
  rw [e]
  by_cases h : (resolve_descriptor_set E c.name s4).1 = 0
  · rw [if_pos h]
    refine ⟨⟨fun _ => ?_, fun _ => rfl⟩, fun _ => ⟨s4.desc_pool, s4.layout, ?_⟩⟩
    · show (resolve_descriptor_set E c.name s4).2.mdescriptor_sets c.name = 0
      rw [mdescriptor_sets_resolve, h]
    · show (resolve_descriptor_set E c.name s4).2.trace.getLast? = _
      rw [resolve_descriptor_set_null E c.name s4 h]
      simp
  · rw [if_neg h]
    refine ⟨⟨fun hx => (by cases hx), fun hx => ?_⟩, fun hx => (by cases hx)⟩
    have hx1 : (resolve_descriptor_set E c.name s4).2.mdescriptor_sets c.name = 0 := hx
    rw [mdescriptor_sets_resolve] at hx1
    exact absurd hx1 h

/-- C7: on a call with `inst` null, a device count other than one makes the
call exit right after the first `vkEnumeratePhysicalDevices` (nothing else is
called), and a device count of one lets the initialisation block complete and
the call go on with the frame; and the handler of `SetRenderTarget` exits
exactly when the descriptor set stored under its name is null at its end, in
which case the last call made is the allocation attempt that returned null. -/
theorem fatal_setup_errors (E : Env) :
    (∀ (a : Args) (s : State), s.inst = 0 → E.gpu_count (s.tick + 1) ≠ 1 →
      oden_present_graphics E a s = .exited (init_instance E s).2 ∧
      (init_instance E s).2.trace = s.trace ++
        [.vkCreateInstance (E.handle s.tick),
         .vkEnumeratePhysicalDevices (E.gpu_count (s.tick + 1))]) ∧
    (∀ (a : Args) (s : State), s.inst = 0 → E.gpu_count (s.tick + 1) = 1 →
      (init_block E a s).returns = true ∧
      oden_present_graphics E a s = present_frame E a (init_block E a s).state) ∧
    (∀ (c : cmd) (st : Interp), c.type = .CMD_SET_RENDER_TARGET →
      ((proc_command E c st).exits = true ↔
        (proc_command E c st).st.s.mdescriptor_sets c.name = 0) ∧
      ((proc_command E c st).exits = true →
        ∃ pool layout : Nat, (proc_command E c st).st.s.trace.getLast? =
          some (.vkAllocateDescriptorSets pool layout 0))) := by
  refine ⟨fun a s hi hg => ⟨?_, rfl⟩, fun a s hi hg => ?_, fun c st hty => ?_⟩
  · have hb : init_block E a s = .exited (init_instance E s).2 := by
      unfold init_block
      have hg1 : (init_instance E s).1 ≠ 1 := hg
      simp only [hg1, ne_eq, not_false_eq_true, if_true]
    unfold oden_present_graphics
    rw [if_pos hi, hb]
  · have hb : init_block E a s = .returned (init_descriptors E a (init_slots E a
        (init_swapchain E a (init_device E (init_instance E s).2)))) := by
      unfold init_block
      have hg1 : (init_instance E s).1 = 1 := hg
      simp only [hg1, ne_eq, not_true_eq_false, if_false]
    refine ⟨by rw [hb]; rfl, ?_⟩
    unfold oden_present_graphics
    rw [if_pos hi, hb]
    rfl
  · rw [proc_command_render_target E c st hty]
    exact exit_set_render_target E c _

/-- With a driver that reports two devices the first call exits after two
calls; with the sample driver the initialisation completes; with a driver
whose descriptor-set allocation returns null `SetRenderTarget("rt0")` exits,
and with the sample driver it completes. -/
theorem fatal_setup_errors_witness :
    (oden_present_graphics two_gpu_env sample_call State.initial =
      .exited (init_instance two_gpu_env State.initial).2 ∧
     (init_instance two_gpu_env State.initial).2.trace = State.initial.trace ++
      [.vkCreateInstance (two_gpu_env.handle State.initial.tick),
       .vkEnumeratePhysicalDevices (two_gpu_env.gpu_count (State.initial.tick + 1))]) ∧
    (init_block sample_env sample_call State.initial).returns = true ∧
    (proc_command exhausted_env rt0_large sample_loop).exits = true ∧
    (proc_command exhausted_env rt0_large sample_loop).st.s.mdescriptor_sets "rt0" = 0 ∧
    (proc_command sample_env rt0_large sample_loop).exits = false :=
  ⟨(fatal_setup_errors two_gpu_env).1 sample_call State.initial rfl (by decide),
    ((fatal_setup_errors sample_env).2.1 sample_call State.initial rfl rfl).1,
    by decide, by decide, by decide⟩

/-! ### What no part of the program does -/

@[simp] theorem absent_ops_append (a b : List Op) :
    absent_ops (a ++ b) = absent_ops a ++ absent_ops b := by
  simp [absent_ops]

theorem absent_ops_cons (o : Op) (t : List Op) :
    absent_ops (o :: t) = (if o.is_absent then [o] else []) ++ absent_ops t := by
  unfold absent_ops
  by_cases h : o.is_absent <;> simp [List.filter_cons, h]

@[simp] theorem absent_ops_nil : absent_ops [] = [] := rfl

theorem absent_ops_one (o : Op) (h : o.is_absent = false) : absent_ops [o] = [] := by
  rw [absent_ops_cons, h]
  rfl

theorem idle_refl (s : State) : Idle s s := ⟨rfl, rfl⟩

theorem idle_trans {s s1 s2 : State} (h1 : Idle s s1) (h2 : Idle s1 s2) : Idle s s2 :=
  ⟨h2.1.trans h1.1, h2.2.trans h1.2⟩

theorem idle_emit (s : State) (o : Op) (h : o.is_absent = false) : Idle s (s.emit o) := by
  refine ⟨rfl, ?_⟩
  rw [trace_emit, absent_ops_append, absent_ops_one o h, List.append_nil]

theorem idle_call (s : State) (o : Op) (h : o.is_absent = false) : Idle s (s.call o) := by
  refine ⟨rfl, ?_⟩
  rw [trace_call, absent_ops_append, absent_ops_one o h, List.append_nil]

theorem idle_modifyRef (s : State) (f : DeviceBuffer → DeviceBuffer) :
    Idle s (s.modifyRef f) := ⟨rfl, rfl⟩

/-- A state that differs from `s` in neither the pipeline directory nor the
trace. -/
theorem idle_of_eq {s s1 : State} (h1 : s1.mgraphics_pipelines = s.mgraphics_pipelines)
    (h2 : s1.trace = s.trace) : Idle s s1 :=
  ⟨h1, by rw [h2]⟩

theorem idle_resolve_image (E : Env) (name : String) (w h f u : Nat) (s : State) :
    Idle s (resolve_image E name w h f u s).2 := by
  unfold resolve_image
  split
  · exact idle_trans (idle_call s _ (by rfl)) (idle_of_eq rfl rfl)
  · exact idle_refl s

theorem idle_resolve_image_view (E : Env) (name : String) (i f a : Nat) (s : State) :
    Idle s (resolve_image_view E name i f a s).2 := by
  unfold resolve_image_view
  split
  · exact idle_trans (idle_call s _ (by rfl)) (idle_of_eq rfl rfl)
  · exact idle_refl s

theorem idle_resolve_buffer (E : Env) (name : String) (size : Nat) (s : State) :
    Idle s (resolve_buffer E name size s).2 := by
  unfold resolve_buffer
  split
  · exact idle_trans (idle_call s _ (by rfl)) (idle_of_eq rfl rfl)
  · exact idle_refl s

theorem idle_resolve_renderpass (E : Env) (name : String) (b : Bool) (s : State) :
    Idle s (resolve_renderpass E name b s).2 := by
  unfold resolve_renderpass
  split
  · exact idle_trans (idle_call s _ (by rfl)) (idle_of_eq rfl rfl)
  · exact idle_refl s

theorem idle_resolve_framebuffer (E : Env) (name : String) (rp : Nat) (v : List Nat)
    (w h : Nat) (s : State) : Idle s (resolve_framebuffer E name rp v w h s).2 := by
  unfold resolve_framebuffer
  split
  · exact idle_trans (idle_call s _ (by rfl)) (idle_of_eq rfl rfl)
  · exact idle_refl s

theorem idle_resolve_descriptor_set (E : Env) (name : String) (s : State) :
    Idle s (resolve_descriptor_set E name s).2 := by
  unfold resolve_descriptor_set
  split
  · exact idle_trans (idle_call s _ (by rfl)) (idle_of_eq rfl rfl)
  · exact idle_refl s

theorem idle_alloc_devmem (E : Env) (name : String) (size flags : Nat) (b : Bool)
    (s : State) : Idle s (alloc_devmem E name size flags b s).2 := by
  unfold alloc_devmem
  dsimp only
  split
  · exact idle_trans (idle_call s _ (by rfl)) (idle_of_eq rfl rfl)
  · exact idle_call s _ (by rfl)

theorem idle_map_and_copy (E : Env) (devmem mapSize : Nat) (data : Option (List Nat))
    (size : Nat) (s : State) : Idle s (map_and_copy E devmem mapSize data size s) := by
  unfold map_and_copy
  dsimp only
  split
  · refine idle_trans ?_ (idle_emit _ _ (by rfl))
    exact idle_trans (idle_call s _ (by rfl)) (idle_emit _ _ (by rfl))
  · exact idle_trans (idle_call s _ (by rfl)) (idle_emit _ _ (by rfl))

theorem idle_image_memory (E : Env) (name : String) (image : Nat) (s : State) :
    Idle s (image_memory E name image s) := by
  unfold image_memory
  refine idle_trans ?_ (idle_emit _ _ (by rfl))
  refine idle_trans ?_ (idle_alloc_devmem _ _ _ _ _ _)
  exact idle_trans (idle_call s (.vkGetImageMemoryRequirements image (E.memreqs s.tick))
    (by rfl)) (idle_of_eq rfl rfl)

theorem idle_ensure_image_memory (E : Env) (name : String) (image : Nat) (s : State) :
    Idle s (ensure_image_memory E name image s) := by
  unfold ensure_image_memory
  split
  · exact idle_image_memory E name image s
  · exact idle_refl s

theorem idle_buffer_memory (E : Env) (name : String) (buffer : Nat)
    (data : Option (List Nat)) (size : Nat) (s : State) :
    Idle s (buffer_memory E name buffer data size s) := by
  unfold buffer_memory
  split
  · refine idle_trans ?_ (idle_map_and_copy _ _ _ _ _ _)
    refine idle_trans ?_ (idle_emit _ _ (by rfl))
    refine idle_trans ?_ (idle_alloc_devmem _ _ _ _ _ _)
    exact idle_trans (idle_call s (.vkGetBufferMemoryRequirements buffer (E.memreqs s.tick))
      (by rfl)) (idle_of_eq rfl rfl)
  · exact idle_refl s

theorem idle_texture_staging (E : Env) (c : cmd) (cb image w h : Nat) (s : State) :
    Idle s (texture_staging E c cb image w h s) := by
  unfold texture_staging
  refine idle_trans ?_ (idle_emit _ _ (by rfl))
  refine idle_trans ?_ (idle_emit _ _ (by rfl))
  refine idle_trans ?_ (idle_emit _ _ (by rfl))
  refine idle_trans ?_ (idle_map_and_copy _ _ _ _ _ _)
  refine idle_trans ?_ (idle_emit _ _ (by rfl))
  refine idle_trans ?_ (idle_modifyRef _ _)
  refine idle_trans ?_ (idle_alloc_devmem _ _ _ _ _ _)
  refine idle_trans ?_ (idle_call _ _ (by rfl))
  refine idle_trans ?_ (idle_modifyRef _ _)
  exact idle_call s _ (by rfl)

theorem idle_ensure_texture_memory (E : Env) (c : cmd) (cb image w h : Nat) (s : State) :
    Idle s (ensure_texture_memory E c cb image w h s) := by
  unfold ensure_texture_memory
  split
  · exact idle_trans (idle_image_memory E c.name image s) (idle_texture_staging _ _ _ _ _ _ _)
  · exact idle_refl s

theorem idle_end_open_pass (cb rp : Nat) (s : State) : Idle s (end_open_pass cb rp s) := by
  unfold end_open_pass
  split
  · exact idle_emit _ _ (by rfl)
  · exact idle_refl s

theorem idle_begin_pass (cb rp fb w h : Nat) (s : State) :
    Idle s (begin_pass cb rp fb w h s) := by
  unfold begin_pass
  split
  · exact idle_emit _ _ (by rfl)
  · exact idle_refl s

theorem idle_cmd_set_render_target (E : Env) (c : cmd) (st : Interp) :
    Idle st.s (cmd_set_render_target E c st).st.s := by
  unfold cmd_set_render_target
  simp only [st_ite]
  have key : ∀ s : State, Idle st.s s →
      Idle st.s (resolve_descriptor_set E c.name s).2 :=
    fun s h => idle_trans h (idle_resolve_descriptor_set _ _ _)
  split
  · refine key _ ?_
    refine idle_trans ?_ (idle_begin_pass _ _ _ _ _ _)
    refine idle_trans ?_ (idle_resolve_framebuffer _ _ _ _ _ _ _)
    refine idle_trans ?_ (idle_resolve_renderpass _ _ _ _)
    refine idle_trans ?_ (idle_resolve_image_view _ _ _ _ _ _)
    refine idle_trans ?_ (idle_ensure_image_memory _ _ _ _)
    refine idle_trans ?_ (idle_resolve_image _ _ _ _ _ _ _)
    refine idle_trans ?_ (idle_resolve_image_view _ _ _ _ _ _)
    refine idle_trans ?_ (idle_ensure_image_memory _ _ _ _)
    refine idle_trans ?_ (idle_resolve_image _ _ _ _ _ _ _)
    refine idle_trans ?_ (idle_emit _ _ (by rfl))
    refine idle_trans ?_ (idle_emit _ _ (by rfl))
    exact idle_end_open_pass _ _ _
  · refine idle_trans ?_ (idle_emit _ _ (by rfl))
    refine key _ ?_
    refine idle_trans ?_ (idle_begin_pass _ _ _ _ _ _)
    refine idle_trans ?_ (idle_resolve_framebuffer _ _ _ _ _ _ _)
    refine idle_trans ?_ (idle_resolve_renderpass _ _ _ _)
    refine idle_trans ?_ (idle_resolve_image_view _ _ _ _ _ _)
    refine idle_trans ?_ (idle_ensure_image_memory _ _ _ _)
    refine idle_trans ?_ (idle_resolve_image _ _ _ _ _ _ _)
    refine idle_trans ?_ (idle_resolve_image_view _ _ _ _ _ _)
    refine idle_trans ?_ (idle_ensure_image_memory _ _ _ _)
    refine idle_trans ?_ (idle_resolve_image _ _ _ _ _ _ _)
    refine idle_trans ?_ (idle_emit _ _ (by rfl))
    refine idle_trans ?_ (idle_emit _ _ (by rfl))
    exact idle_end_open_pass _ _ _

theorem idle_cmd_set_texture (E : Env) (c : cmd) (st : Interp) :
    Idle st.s (cmd_set_texture E c st).st.s := by
  unfold cmd_set_texture
  simp only [st_ite]
  split
  · refine idle_trans ?_ (idle_resolve_image_view _ _ _ _ _ _)
    refine idle_trans ?_ (idle_ensure_texture_memory _ _ _ _ _ _ _)
    exact idle_resolve_image _ _ _ _ _ _ _
  · refine idle_trans ?_ (idle_emit _ _ (by rfl))
    refine idle_trans ?_ (idle_resolve_image_view _ _ _ _ _ _)
    refine idle_trans ?_ (idle_ensure_texture_memory _ _ _ _ _ _ _)
    exact idle_resolve_image _ _ _ _ _ _ _

theorem idle_cmd_set_constant (E : Env) (c : cmd) (st : Interp) :
    Idle st.s (cmd_set_constant E c st).st.s := by
  unfold cmd_set_constant
  simp only [st_ite]
  split
  · refine idle_trans ?_ (idle_buffer_memory _ _ _ _ _ _)
    exact idle_resolve_buffer _ _ _ _
  · refine idle_trans ?_ (idle_emit _ _ (by rfl))
    refine idle_trans ?_ (idle_buffer_memory _ _ _ _ _ _)
    exact idle_resolve_buffer _ _ _ _

theorem idle_cmd_set_vertex (E : Env) (c : cmd) (st : Interp) :
    Idle st.s (cmd_set_vertex E c st).st.s := by
  unfold cmd_set_vertex
  simp only [st_next]
  refine idle_trans ?_ (idle_emit _ _ (by rfl))
  refine idle_trans ?_ (idle_buffer_memory _ _ _ _ _ _)
  exact idle_resolve_buffer _ _ _ _

theorem idle_cmd_set_index (E : Env) (c : cmd) (st : Interp) :
    Idle st.s (cmd_set_index E c st).st.s := by
  unfold cmd_set_index
  simp only [st_next]
  refine idle_trans ?_ (idle_emit _ _ (by rfl))
  refine idle_trans ?_ (idle_buffer_memory _ _ _ _ _ _)
  exact idle_resolve_buffer _ _ _ _

/-- No command adds a draw, a dispatch, a depth clear or a pipeline creation
to the trace, and none writes the pipeline directory. -/
theorem idle_proc_command (E : Env) (c : cmd) (st : Interp) :
    Idle st.s (proc_command E c st).st.s := by
  unfold proc_command
  dsimp only
  split
  · exact idle_cmd_set_render_target E c ⟨st.s, st.rec_, st.cmd_index + 1⟩
  · exact idle_cmd_set_texture E c ⟨st.s, st.rec_, st.cmd_index + 1⟩
  · exact idle_cmd_set_texture E c ⟨st.s, st.rec_, st.cmd_index + 1⟩
  · exact idle_cmd_set_constant E c ⟨st.s, st.rec_, st.cmd_index + 1⟩
  · exact idle_cmd_set_vertex E c ⟨st.s, st.rec_, st.cmd_index + 1⟩
  · exact idle_cmd_set_index E c ⟨st.s, st.rec_, st.cmd_index + 1⟩
  · exact idle_refl _
  · exact idle_emit _ _ (by rfl)
  all_goals exact idle_refl _

theorem idle_proc_commands (E : Env) (cmds : List cmd) (st : Interp) :
    Idle st.s (proc_commands E cmds st).st.s := by
  induction cmds generalizing st with
  | nil => exact idle_refl _
  | cons c rest ih =>
    have h := idle_proc_command E c st
    rw [proc_commands_cons]
    cases hc : proc_command E c st with
    | next st1 =>
      rw [hc] at h
      exact idle_trans h (ih st1)
    | exit st1 =>
      rw [hc] at h
      exact h

/-! ### The initialisation block and the frame -/

theorem idle_register_backbuffers (E : Env) (images : List Nat) (i : Nat) (s : State) :
    Idle s (register_backbuffers E images i s) := by
  induction images generalizing i s with
  | nil => exact idle_refl s
  | cons image rest ih =>
    unfold register_backbuffers
    exact idle_trans (idle_of_eq rfl rfl) (ih _ _)

theorem idle_create_frame_resources (E : Env) (k i : Nat) (s : State) :
    Idle s (create_frame_resources E k i s) := by
  induction k generalizing i s with
  | zero => exact idle_refl s
  | succ k ih =>
    unfold create_frame_resources
    refine idle_trans ?_ (ih _ _)
    refine ⟨rfl, ?_⟩
    simp [absent_ops_cons, Op.is_absent, Op.is_draw, Op.is_depth_clear, Op.is_pipeline_create]

theorem idle_init_instance (E : Env) (s : State) : Idle s (init_instance E s).2 := by
  refine ⟨rfl, ?_⟩
  simp [init_instance, absent_ops_cons, Op.is_absent, Op.is_draw, Op.is_depth_clear,
    Op.is_pipeline_create]

theorem idle_init_device (E : Env) (s : State) : Idle s (init_device E s) := by
  refine ⟨rfl, ?_⟩
  simp [init_device, absent_ops_cons, Op.is_absent, Op.is_draw, Op.is_depth_clear,
    Op.is_pipeline_create]

theorem idle_init_swapchain (E : Env) (a : Args) (s : State) :
    Idle s (init_swapchain E a s) := by
  have h := idle_register_backbuffers E (E.swapchainImages (s.tick + 2)) 0
    { s with surface := E.handle s.tick
             swapchain := E.handle (s.tick + 1)
             tick := s.tick + 3
             trace := s.trace ++ [.vkCreateWin32SurfaceKHR a.handle (E.handle s.tick),
               .vkCreateSwapchainKHR a.count a.w a.h (E.handle (s.tick + 1)),
               .vkGetSwapchainImagesKHR (E.swapchainImages (s.tick + 2))] }
  refine ⟨h.1, ?_⟩
  have he := h.2
  simp only [absent_ops_append] at he
  unfold init_swapchain
  simp only [trace_call, absent_ops_append, he]
  simp [absent_ops_cons, Op.is_absent, Op.is_draw, Op.is_depth_clear, Op.is_pipeline_create]

theorem idle_init_slots (E : Env) (a : Args) (s : State) : Idle s (init_slots E a s) := by
  unfold init_slots
  exact idle_trans (idle_of_eq rfl rfl) (idle_create_frame_resources _ _ _ _)

theorem idle_init_descriptors (E : Env) (a : Args) (s : State) :
    Idle s (init_descriptors E a s) := by
  refine ⟨rfl, ?_⟩
  simp [init_descriptors, absent_ops_cons, Op.is_absent, Op.is_draw, Op.is_depth_clear,
    Op.is_pipeline_create]

theorem idle_init_block (E : Env) (a : Args) (s : State) :
    Idle s (init_block E a s).state := by
  unfold init_block
  dsimp only
  split
  · exact idle_init_instance E s
  · refine idle_trans (idle_init_instance E s) ?_
    refine idle_trans (idle_init_device E _) ?_
    refine idle_trans (idle_init_swapchain E a _) ?_
    exact idle_trans (idle_init_slots E a _) (idle_init_descriptors E a _)

theorem idle_wait_slot (E : Env) (fence : Nat) (s : State) : Idle s (wait_slot E fence s) := by
  unfold wait_slot
  dsimp only
  split
  · refine idle_trans ?_ (idle_emit _ _ (by rfl))
    exact idle_trans (idle_call s _ (by rfl)) (idle_emit _ _ (by rfl))
  · exact idle_call s _ (by rfl)

theorem absent_ops_map_destroy (l : List Nat) : absent_ops (l.map Op.vkDestroyBuffer) = [] := by
  induction l with
  | nil => rfl
  | cons x t ih =>
    rw [List.map_cons, absent_ops_cons, ih]
    rfl

theorem absent_ops_map_free (l : List Nat) : absent_ops (l.map Op.vkFreeMemory) = [] := by
  induction l with
  | nil => rfl
  | cons x t ih =>
    rw [List.map_cons, absent_ops_cons, ih]
    rfl

theorem idle_release_scratch (s : State) : Idle s (release_scratch s) := by
  refine ⟨rfl, ?_⟩
  unfold release_scratch
  simp only [trace_modifyRef, trace_emits, absent_ops_append, absent_ops_map_destroy,
    absent_ops_map_free, List.append_nil]

theorem idle_frame_begin (E : Env) (s : State) : Idle s (frame_begin E s).2 := by
  unfold frame_begin
  refine idle_trans ?_ (idle_emit _ _ (by rfl))
  refine idle_trans ?_ (idle_emit _ _ (by rfl))
  refine idle_trans ?_ (idle_release_scratch _)
  unfold acquire
  exact idle_trans (idle_wait_slot E _ s) (idle_call _ _ (by rfl))

theorem idle_frame_end (E : Env) (present_index : Nat) (st : Interp) :
    Idle st.s (frame_end E present_index st) := by
  unfold frame_end
  refine idle_trans ?_ (idle_emit _ _ (by rfl))
  refine idle_trans ?_ (idle_emit _ _ (by rfl))
  refine idle_trans ?_ (idle_emit _ _ (by rfl))
  refine idle_trans ?_ (idle_call _ _ (by rfl))
  refine idle_trans ?_ (idle_emit _ _ (by rfl))
  exact idle_end_open_pass _ _ _

theorem idle_advance (a : Args) (s : State) (h : (advance a s).defined = true) :
    Idle s (advance a s).state := by
  unfold advance at h ⊢
  split
  · rename_i hc
    rw [if_pos hc] at h
    cases h
  · exact idle_of_eq rfl rfl

theorem idle_present_frame (E : Env) (a : Args) (s : State)
    (h : (present_frame E a s).defined = true) : Idle s (present_frame E a s).state := by
  unfold present_frame at h ⊢
  split
  · rename_i hlt
    rw [if_pos hlt] at h
    dsimp only at h ⊢
    have hl := idle_proc_commands E a.vcmd ⟨(frame_begin E s).2, {}, 0⟩
    cases hp : proc_commands E a.vcmd ⟨(frame_begin E s).2, {}, 0⟩ with
    | next st =>
      rw [hp] at h hl
      refine idle_trans (idle_frame_begin E s) (idle_trans hl ?_)
      exact idle_trans (idle_frame_end E _ st) (idle_advance a _ h)
    | exit st =>
      rw [hp] at hl
      exact idle_trans (idle_frame_begin E s) hl
  · rename_i hlt
    rw [if_neg hlt] at h
    cases h

/-- A call that returns or exits adds no draw, dispatch, depth clear or
pipeline creation to the trace and leaves the pipeline directory as it was. -/
theorem idle_oden_present_graphics (E : Env) (a : Args) (s : State)
    (h : (oden_present_graphics E a s).defined = true) :
    Idle s (oden_present_graphics E a s).state := by
  unfold oden_present_graphics at h ⊢
  split
  · rename_i hi
    rw [if_pos hi] at h
    have hb := idle_init_block E a s
    cases hx : init_block E a s with
    | returned s0 =>
      rw [hx] at h hb
      exact idle_trans hb (idle_present_frame E a s0 h)
    | exited s0 =>
      rw [hx] at hb
      exact hb
    | undefined =>
      rw [hx] at h
      cases h
  · rename_i hi
    rw [if_neg hi] at h
    exact idle_present_frame E a s h

theorem idle_present_calls (E : Env) (calls : List Args) (s : State)
    (h : (present_calls E calls s).defined = true) :
    Idle s (present_calls E calls s).state := by
  induction calls generalizing s with
  | nil => exact idle_refl s
  | cons a rest ih =>
    unfold present_calls at h ⊢
    have hc := idle_oden_present_graphics E a s
    cases hx : oden_present_graphics E a s with
    | returned s1 =>
      rw [hx] at h hc
      exact idle_trans (hc rfl) (ih s1 h)
    | exited s1 =>
      rw [hx] at hc
      exact hc rfl
    | undefined =>
      rw [hx] at h
      cases h

/-- From the initial state on, whatever the calls, the trace holds no draw,
dispatch, depth clear or pipeline creation, and the pipeline directory holds
the null pipeline under every name. -/
theorem idle_from_initial (E : Env) (calls : List Args)
    (h : (present_calls E calls State.initial).defined = true) :
    absent_ops (present_calls E calls State.initial).state.trace = [] ∧
    ∀ n : String, (present_calls E calls State.initial).state.mgraphics_pipelines n = 0 := by
  obtain ⟨h1, h2⟩ := idle_present_calls E calls State.initial h
  refine ⟨h2, fun n => ?_⟩
  rw [h1]
  rfl

/-! ### The handlers that record nothing -/

/-- A trace without absent calls has none of the kind `p`, for a kind `p` of
absent calls. -/
theorem none_of_absent (p : Op → Bool) (hp : ∀ o, p o = true → o.is_absent = true)
    (t : List Op) (h : absent_ops t = []) : t.any p = false := by
  unfold absent_ops at h
  rw [List.filter_eq_nil_iff] at h
  rw [List.any_eq_false]
  intro o ho hpo
  exact h o ho (hp o hpo)

theorem absent_of_draw (o : Op) (h : o.is_draw = true) : o.is_absent = true := by
  simp [Op.is_absent, h]

theorem absent_of_depth_clear (o : Op) (h : o.is_depth_clear = true) : o.is_absent = true := by
  simp [Op.is_absent, h]

theorem absent_of_pipeline_create (o : Op) (h : o.is_pipeline_create = true) :
    o.is_absent = true := by
  simp [Op.is_absent, h]

/-- C8 (amended): the handlers of `DrawIndex`, `Draw` and `Dispatch` record
nothing: the command only advances `cmd_index`, leaving the statics, the trace
of Vulkan calls and `rec` as they were; and in every sequence of calls from the
initial state, whatever the command vectors, no indexed draw, draw or dispatch
is ever recorded. -/
theorem draw_commands_record_nothing (E : Env) :
    (∀ (c : cmd) (st : Interp),
      c.type = .CMD_DRAW_INDEX ∨ c.type = .CMD_DRAW ∨ c.type = .CMD_DISPATCH →
      proc_command E c st = .next ⟨st.s, st.rec_, st.cmd_index + 1⟩) ∧
    (∀ calls : List Args, (present_calls E calls State.initial).defined = true →
      (present_calls E calls State.initial).state.trace.any Op.is_draw = false) := by
  refine ⟨fun c st h => ?_, fun calls h => ?_⟩
  · rcases h with h | h | h
    · exact proc_command_skip E c st (Or.inr (Or.inr (Or.inl h)))
    · exact proc_command_skip E c st (Or.inr (Or.inr (Or.inr (Or.inl h))))
    · exact proc_command_skip E c st (Or.inr (Or.inr (Or.inr (Or.inr (Or.inl h)))))
  · exact none_of_absent _ absent_of_draw _ (idle_from_initial E calls h).1

/-- With the sample driver, `DrawIndex(0, 6)` after `SetRenderTarget("rt0")`
leaves the 39 calls of the trace as they are, and two calls with the command
vector of the scenario record no draw. -/
theorem draw_commands_record_nothing_witness :
    proc_command sample_env draw_index_six
        (proc_command sample_env rt0_large sample_loop).st =
      .next ⟨(proc_command sample_env rt0_large sample_loop).st.s,
        (proc_command sample_env rt0_large sample_loop).st.rec_,
        (proc_command sample_env rt0_large sample_loop).st.cmd_index + 1⟩ ∧
    (proc_command sample_env rt0_large sample_loop).st.s.trace.length = 39 ∧
    (present_calls sample_env [sample_call, sample_call] State.initial).state.trace.any
      Op.is_draw = false :=
  ⟨(draw_commands_record_nothing sample_env).1 draw_index_six
      (proc_command sample_env rt0_large sample_loop).st (Or.inl rfl),
    by decide,
    (draw_commands_record_nothing sample_env).2 [sample_call, sample_call] (by decide)⟩

/-- C8 as stated fails: the first call with the command vector of the
scenario, which ends in `DrawIndex(0, 6)`, returns after 62 Vulkan calls, none
of which is an indexed draw, a draw or a dispatch. -/
theorem draw_commands_not_issued :
    sample_call.vcmd.getLast? = some draw_index_six ∧
    draw_index_six.type = .CMD_DRAW_INDEX ∧
    (oden_present_graphics sample_env sample_call State.initial).returns = true ∧
    (oden_present_graphics sample_env sample_call State.initial).state.trace.length = 62 ∧
    (oden_present_graphics sample_env sample_call State.initial).state.trace.any Op.is_draw =
      false := by
  refine ⟨rfl, rfl, by decide, by decide, by decide⟩

/-- C9 (amended): the handler of `SetShader` creates nothing and stores
nothing: the command only advances `cmd_index`, making no Vulkan call and
leaving the pipeline directory as it was; and in every sequence of calls from
the initial state, whatever the command vectors, no graphics pipeline is ever
created and the pipeline directory holds the null pipeline under every name. -/
theorem set_shader_creates_nothing (E : Env) :
    (∀ (c : cmd) (st : Interp), c.type = .CMD_SET_SHADER →
      proc_command E c st = .next ⟨st.s, st.rec_, st.cmd_index + 1⟩) ∧
    (∀ calls : List Args, (present_calls E calls State.initial).defined = true →
      (present_calls E calls State.initial).state.trace.any Op.is_pipeline_create = false ∧
      ∀ n : String, (present_calls E calls State.initial).state.mgraphics_pipelines n = 0) := by
  refine ⟨fun c st h => proc_command_skip E c st (Or.inl h), fun calls h => ?_⟩
  exact ⟨none_of_absent _ absent_of_pipeline_create _ (idle_from_initial E calls h).1,
    (idle_from_initial E calls h).2⟩

/-- With the sample driver, `SetShader("s")` after `SetRenderTarget("rt0")`
has opened the pass of render pass 30 leaves the state as it is, and after two
calls with the command vector of the scenario the pipeline under `s` is null. -/
theorem set_shader_creates_nothing_witness :
    proc_command sample_env shader_s (proc_command sample_env rt0_large sample_loop).st =
      .next ⟨(proc_command sample_env rt0_large sample_loop).st.s,
        (proc_command sample_env rt0_large sample_loop).st.rec_,
        (proc_command sample_env rt0_large sample_loop).st.cmd_index + 1⟩ ∧
    (proc_command sample_env rt0_large sample_loop).st.rec_.renderpass = 30 ∧
    (present_calls sample_env [sample_call, sample_call] State.initial).state.mgraphics_pipelines
      "s" = 0 :=
  ⟨(set_shader_creates_nothing sample_env).1 shader_s
      (proc_command sample_env rt0_large sample_loop).st rfl,
    by decide,
    ((set_shader_creates_nothing sample_env).2 [sample_call, sample_call] (by decide)).2 "s"⟩

/-- C9 as stated fails: with the sample driver, after `SetRenderTarget("rt0")`
has opened the pass of render pass 30, `SetShader("s")` completes and the
pipeline directory holds the null pipeline under `s`; in two calls with the
command vector of the scenario, which names `s` twice, no pipeline is created. -/
theorem set_shader_pipeline_null :
    shader_s.type = .CMD_SET_SHADER ∧
    (proc_commands sample_env [rt0_large, shader_s] sample_loop).exits = false ∧
    (proc_commands sample_env [rt0_large, shader_s] sample_loop).st.rec_.renderpass = 30 ∧
    (proc_commands sample_env [rt0_large, shader_s] sample_loop).st.s.mgraphics_pipelines "s"
      = 0 ∧
    (present_calls sample_env [sample_call, sample_call] State.initial).returns = true ∧
    (present_calls sample_env [sample_call, sample_call] State.initial).state.mgraphics_pipelines
      "s" = 0 ∧
    (present_calls sample_env [sample_call, sample_call] State.initial).state.trace.any
      Op.is_pipeline_create = false := by
  refine ⟨rfl, by decide, by decide, by decide, by decide, by decide, by decide⟩

/-- C10 (amended): `Clear` records one colour-image clear, of the image stored
under the name of the command (null if there is none), in layout `GENERAL`,
with the four components of the command in order; `ClearDepth` records
nothing: the command only advances `cmd_index`; and in every sequence of calls
from the initial state, whatever the command vectors, no clear of a depth
image is ever recorded. -/
theorem clear_records (E : Env) :
    (∀ (c : cmd) (st : Interp), c.type = .CMD_CLEAR →
      proc_command E c st =
        .next ⟨st.s.emit (.vkCmdClearColorImage st.s.ref.cmdbuf (st.s.mimages c.name) .GENERAL
          (c.clear_color 0) (c.clear_color 1) (c.clear_color 2) (c.clear_color 3)),
          st.rec_, st.cmd_index + 1⟩) ∧
    (∀ (c : cmd) (st : Interp), c.type = .CMD_CLEAR_DEPTH →
      proc_command E c st = .next ⟨st.s, st.rec_, st.cmd_index + 1⟩) ∧
    (∀ calls : List Args, (present_calls E calls State.initial).defined = true →
      (present_calls E calls State.initial).state.trace.any Op.is_depth_clear = false) := by
  refine ⟨fun c st h => ?_, fun c st h => proc_command_skip E c st (Or.inr (Or.inl h)),
    fun calls h => none_of_absent _ absent_of_depth_clear _ (idle_from_initial E calls h).1⟩
  rw [proc_command_clear E c st h]
  rfl

/-- With the sample driver, `Clear("rt0", [0, 1, 1, 1])` after
`SetRenderTarget("rt0")` records the clear of image 22 on command buffer 11. -/
theorem clear_records_witness :
    (proc_commands sample_env [rt0_large, clear_rt0] sample_loop).st.s.trace.length = 40 ∧
    proc_command sample_env clear_rt0 (proc_command sample_env rt0_large sample_loop).st =
      .next ⟨(proc_command sample_env rt0_large sample_loop).st.s.emit
          (.vkCmdClearColorImage (proc_command sample_env rt0_large sample_loop).st.s.ref.cmdbuf
            ((proc_command sample_env rt0_large sample_loop).st.s.mimages clear_rt0.name) .GENERAL
            (clear_rt0.clear_color 0) (clear_rt0.clear_color 1) (clear_rt0.clear_color 2)
            (clear_rt0.clear_color 3)),
        (proc_command sample_env rt0_large sample_loop).st.rec_,
        (proc_command sample_env rt0_large sample_loop).st.cmd_index + 1⟩ ∧
    (proc_command sample_env rt0_large sample_loop).st.s.ref.cmdbuf = 11 ∧
    (proc_command sample_env rt0_large sample_loop).st.s.mimages clear_rt0.name = 22 ∧
    clear_rt0.clear_color 0 = 0 ∧ clear_rt0.clear_color 3 = 1 :=
  ⟨by decide,
    (clear_records sample_env).1 clear_rt0 (proc_command sample_env rt0_large sample_loop).st rfl,
    by decide, by decide, by decide, by decide⟩

/-- C10 as stated fails for `ClearDepth`: with the sample driver,
`ClearDepth("rt0", 1)` after `SetRenderTarget("rt0")` completes with the same
39 calls in the trace, none of them a clear of a depth image, although the
depth image 26 is stored under the derived name. -/
theorem clear_depth_not_recorded :
    clear_depth_rt0.type = .CMD_CLEAR_DEPTH ∧
    (proc_commands sample_env [rt0_large] sample_loop).st.s.trace.length = 39 ∧
    (proc_commands sample_env [rt0_large] sample_loop).st.s.mimages "rt0_depth" = 26 ∧
    (proc_commands sample_env [rt0_large, clear_depth_rt0] sample_loop).exits = false ∧
    (proc_commands sample_env [rt0_large, clear_depth_rt0] sample_loop).st.s.trace.length = 39 ∧
    (proc_commands sample_env [rt0_large, clear_depth_rt0] sample_loop).st.s.trace.any
      Op.is_depth_clear = false := by
  refine ⟨rfl, by decide, by decide, by decide, by decide, by decide⟩

/-! ### Descriptor bindings -/

/-- Without 32-bit wrap-around the binding number determines the slot and the
kind. -/
theorem binding_injective (s t k l : Nat) (hk : k < 3) (hl : l < 3)
    (hs : 3 * s + 2 < 2 ^ 32) (ht : 3 * t + 2 < 2 ^ 32)
    (h : (RDT_SLOT_MAX * s + k) % U32 = (RDT_SLOT_MAX * t + l) % U32) : s = t ∧ k = l := by
  unfold RDT_SLOT_MAX U32 at h
  rw [Nat.mod_eq_of_lt (by omega), Nat.mod_eq_of_lt (by omega)] at h
  omega

/-- C13: `SetTexture` and `SetTextureUAV` with slot `s`, when a descriptor set
is recorded, write one combined-image-sampler descriptor at the binding
`(3 * s + 0) mod 2^32`, and `SetConstant` one uniform-buffer descriptor at
`(3 * s + 1) mod 2^32`; when `3 * s + 2` does not wrap these are `3 * s` and
`3 * s + 1`, and on slots that do not wrap the map from slot and kind
(0, 1 or 2) to the binding is injective, so that a texture binding is never a
constant binding and two slots of one kind never share a binding. -/
theorem binding_math (E : Env) :
    (∀ (c : cmd) (st : Interp),
      c.type = .CMD_SET_TEXTURE ∨ c.type = .CMD_SET_TEXTURE_UAV →
      st.rec_.descriptor_sets ≠ 0 →
      ∃ view : Nat, descriptor_writes (proc_command E c st).st.s.trace =
        descriptor_writes st.s.trace ++
          [.vkUpdateDescriptorSets st.rec_.descriptor_sets
            ((3 * c.set_texture_slot + 0) % 2 ^ 32) .COMBINED_IMAGE_SAMPLER view 0] ∧
        (3 * c.set_texture_slot + 2 < 2 ^ 32 →
          (3 * c.set_texture_slot + 0) % 2 ^ 32 = 3 * c.set_texture_slot)) ∧
    (∀ (c : cmd) (st : Interp), c.type = .CMD_SET_CONSTANT →
      st.rec_.descriptor_sets ≠ 0 →
      ∃ buffer : Nat, descriptor_writes (proc_command E c st).st.s.trace =
        descriptor_writes st.s.trace ++
          [.vkUpdateDescriptorSets st.rec_.descriptor_sets
            ((3 * c.set_constant_slot + 1) % 2 ^ 32) .UNIFORM_BUFFER buffer
            c.set_constant_size] ∧
        (3 * c.set_constant_slot + 2 < 2 ^ 32 →
          (3 * c.set_constant_slot + 1) % 2 ^ 32 = 3 * c.set_constant_slot + 1)) ∧
    (∀ s t k l : Nat, k < 3 → l < 3 → 3 * s + 2 < 2 ^ 32 → 3 * t + 2 < 2 ^ 32 →
      (RDT_SLOT_MAX * s + k) % U32 = (RDT_SLOT_MAX * t + l) % U32 → s = t ∧ k = l) ∧
    (∀ s t : Nat, 3 * s + 2 < 2 ^ 32 → 3 * t + 2 < 2 ^ 32 →
      (RDT_SLOT_MAX * s + RDT_SLOT_SRV) % U32 ≠ (RDT_SLOT_MAX * t + RDT_SLOT_CBV) % U32) := by
  refine ⟨fun c st hty hd => ?_, fun c st hty hd => ?_, binding_injective, fun s t hs ht h => ?_⟩
  · rw [proc_command_texture E c st hty]
    obtain ⟨s1, view, hw, e⟩ := cmd_set_texture_result E c ⟨st.s, st.rec_, st.cmd_index + 1⟩
    rw [if_neg hd] at e
    rw [e]
    refine ⟨view, ?_, fun hlt => Nat.mod_eq_of_lt (by omega)⟩
    show descriptor_writes (s1.emit _).trace = _
    rw [trace_emit, writes_append, hw]
    simp [writes_cons, Op.is_descriptor_write, RDT_SLOT_MAX, RDT_SLOT_SRV, U32]
  · rw [proc_command_constant E c st hty]
    obtain ⟨s1, buffer, hw, e⟩ := cmd_set_constant_result E c ⟨st.s, st.rec_, st.cmd_index + 1⟩
    rw [if_neg hd] at e
    rw [e]
    refine ⟨buffer, ?_, fun hlt => Nat.mod_eq_of_lt (by omega)⟩
    show descriptor_writes (s1.emit _).trace = _
    rw [trace_emit, writes_append, hw]
    simp [writes_cons, Op.is_descriptor_write, RDT_SLOT_MAX, RDT_SLOT_CBV, U32]
  · have := (binding_injective s t 0 1 (by decide) (by decide) hs ht h).2
    omega

/-- With the sample driver, `SetConstant("c0", slot 0)` after
`SetRenderTarget("rt0")` writes its descriptor into the set 32 at binding 1;
slot 5 as a constant and slot 5 as a texture have the bindings 16 and 15. -/
theorem binding_math_witness :
    (∃ buffer : Nat,
      descriptor_writes (proc_command sample_env const_first
          (proc_command sample_env rt0_large sample_loop).st).st.s.trace =
        descriptor_writes (proc_command sample_env rt0_large sample_loop).st.s.trace ++
          [.vkUpdateDescriptorSets
            (proc_command sample_env rt0_large sample_loop).st.rec_.descriptor_sets
            ((3 * const_first.set_constant_slot + 1) % 2 ^ 32) .UNIFORM_BUFFER buffer
            const_first.set_constant_size] ∧
        (3 * const_first.set_constant_slot + 2 < 2 ^ 32 →
          (3 * const_first.set_constant_slot + 1) % 2 ^ 32 =
            3 * const_first.set_constant_slot + 1)) ∧
    (proc_command sample_env rt0_large sample_loop).st.rec_.descriptor_sets = 32 ∧
    (RDT_SLOT_MAX * 5 + RDT_SLOT_CBV) % U32 = 16 ∧ (RDT_SLOT_MAX * 5 + RDT_SLOT_SRV) % U32 = 15 :=
  ⟨(binding_math sample_env).2.1 const_first (proc_command sample_env rt0_large sample_loop).st
      rfl (by decide),
    by decide, by decide, by decide⟩

/-! ### The memory-type scan and the device-memory directory -/

/-- When some type of the list contains the requested flags, the scan from
index `i` returns `i` plus the position of the first such type. -/
theorem scan_first_match (flags : Nat) (l : List Nat) (i : Nat)
    (h : ∃ pf ∈ l, pf &&& flags = flags) :
    ∃ k pf, l[k]? = some pf ∧ pf &&& flags = flags ∧ memory_type_scan flags l i = i + k ∧
      ∀ j pj, j < k → l[j]? = some pj → pj &&& flags ≠ flags := by
  induction l generalizing i with
  | nil =>
    obtain ⟨pf, hm, _⟩ := h
    cases hm
  | cons a rest ih =>
    unfold memory_type_scan
    by_cases ha : a &&& flags = flags
    · rw [if_pos ha]
      exact ⟨0, a, by simp, ha, rfl, fun j pj hj => absurd hj (Nat.not_lt_zero j)⟩
    · rw [if_neg ha]
      have hr : ∃ pf ∈ rest, pf &&& flags = flags := by
        obtain ⟨pf, hm, hp⟩ := h
        rcases List.mem_cons.mp hm with e | hm
        · rw [e] at hp
          exact absurd hp ha
        · exact ⟨pf, hm, hp⟩
      obtain ⟨k, pf, hk, hp, hs, hmin⟩ := ih (i + 1) hr
      refine ⟨k + 1, pf, by simpa using hk, hp, by omega, fun j pj hj hlj => ?_⟩
      cases j with
      | zero =>
        simp at hlj
        rw [← hlj]
        exact ha
      | succ j =>
        simp at hlj
        exact hmin j pj (by omega) hlj

/-- When no type of the list contains the requested flags, the scan returns
index zero. -/
theorem scan_no_match (flags : Nat) (l : List Nat) (i : Nat)
    (h : ∀ pf ∈ l, pf &&& flags ≠ flags) : memory_type_scan flags l i = 0 := by
  induction l generalizing i with
  | nil => rfl
  | cons a rest ih =>
    unfold memory_type_scan
    rw [if_neg (h a (List.mem_cons_self _ _))]
    exact ih (i + 1) (fun pf hm => h pf (List.mem_cons_of_mem _ hm))

theorem fst_alloc_devmem (E : Env) (name : String) (size flags : Nat) (b : Bool) (s : State) :
    (alloc_devmem E name size flags b s).1 = E.handle s.tick := rfl

/-- C14 (amended): `alloc_devmem` makes one allocation, from the memory type
that the scan of the device's list selects; for every list in which some type
has property flags containing the requested flags, the selected index is that
of the first such type: its flags contain the requested ones and those of no
type of smaller index do. -/
theorem memory_type_selection (E : Env) :
    (∀ (name : String) (size flags : Nat) (b : Bool) (s : State),
      (alloc_devmem E name size flags b s).2.trace =
        s.trace ++ [.vkAllocateMemory size (memory_type_scan flags s.devicememoryprop 0)
          (E.handle s.tick)]) ∧
    (∀ (flags : Nat) (l : List Nat), (∃ pf ∈ l, pf &&& flags = flags) →
      ∃ pf, l[memory_type_scan flags l 0]? = some pf ∧ pf &&& flags = flags ∧
        ∀ j pj, j < memory_type_scan flags l 0 → l[j]? = some pj → pj &&& flags ≠ flags) := by
  refine ⟨fun name size flags b s => trace_alloc_devmem E name size flags b s,
    fun flags l h => ?_⟩
  obtain ⟨k, pf, hk, hp, hs, hmin⟩ := scan_first_match flags l 0 h
  rw [hs, Nat.zero_add]
  exact ⟨pf, hk, hp, hmin⟩

/-- With the two memory types of the sample driver (device-local, then
host-visible and coherent) a request for host-visible coherent memory selects
index 1. -/
theorem memory_type_selection_witness :
    (∃ pf, [1, 6][memory_type_scan 6 [1, 6] 0]? = some pf ∧ pf &&& 6 = 6 ∧
      ∀ j pj, j < memory_type_scan 6 [1, 6] 0 → [1, 6][j]? = some pj → pj &&& 6 ≠ 6) ∧
    memory_type_scan 6 [1, 6] 0 = 1 :=
  ⟨(memory_type_selection sample_env).2 6 [1, 6] ⟨6, by decide, by decide⟩, by decide⟩

/-- C14 as stated fails on a list without a match: with the single memory type
of flags 6 (host-visible and coherent) a request for device-local memory
(flags 1) selects index 0, whose flags do not contain the request; the
allocation is made from that type. -/
theorem memory_type_selection_fails :
    memory_type_scan VK_MEMORY_PROPERTY_DEVICE_LOCAL_BIT [6] 0 = 0 ∧
    [6][0]? = some 6 ∧
    (6 &&& VK_MEMORY_PROPERTY_DEVICE_LOCAL_BIT = VK_MEMORY_PROPERTY_DEVICE_LOCAL_BIT) = False ∧
    (alloc_devmem sample_env "rt0" 16 VK_MEMORY_PROPERTY_DEVICE_LOCAL_BIT true
        { State.initial with devicememoryprop := [6] }).2.trace =
      [.vkAllocateMemory 16 0 1] := by
  refine ⟨by decide, rfl, by decide, rfl⟩

/-- C16: `alloc_devmem` with `is_entry` false leaves the directory of device
memories as it is, for every name, and so does the staging part of a texture
upload; with `is_entry` true and a non-null answer of the driver it binds that
answer under the given name and leaves every other name as it is; a null
answer is never stored, whatever `is_entry`. -/
theorem scratch_not_registered (E : Env) :
    (∀ (name : String) (size flags : Nat) (s : State),
      (alloc_devmem E name size flags false s).2.mdevmem = s.mdevmem) ∧
    (∀ (c : cmd) (cb image w h : Nat) (s : State),
      (texture_staging E c cb image w h s).mdevmem = s.mdevmem) ∧
    (∀ (name : String) (size flags : Nat) (s : State),
      (alloc_devmem E name size flags true s).1 ≠ 0 →
      (alloc_devmem E name size flags true s).2.mdevmem name =
        (alloc_devmem E name size flags true s).1 ∧
      ∀ n : String, n ≠ name →
        (alloc_devmem E name size flags true s).2.mdevmem n = s.mdevmem n) ∧
    (∀ (name : String) (size flags : Nat) (b : Bool) (s : State),
      (alloc_devmem E name size flags b s).1 = 0 →
      (alloc_devmem E name size flags b s).2.mdevmem = s.mdevmem) := by
  refine ⟨fun name size flags s => ?_, fun c cb image w h s => ?_,
    fun name size flags s hn => ?_, fun name size flags b s h0 => ?_⟩
  · unfold alloc_devmem
    simp
    rfl
  · have e := entry_texture_staging E c cb image w h s
    funext n
    exact congrArg Entry.devmem (congrFun e n)
  · have hh : E.handle s.tick ≠ 0 := hn
    unfold alloc_devmem
    simp only [hh, ne_eq, not_false_eq_true, and_self, if_true]
    refine ⟨by simp [State.call], fun n hne => ?_⟩
    simp [State.call, hne]
  · have hh : E.handle s.tick = 0 := h0
    unfold alloc_devmem
    simp only [hh, ne_eq, not_true_eq_false, and_false, if_false]
    rfl

/-- With the sample driver, an allocation for the name `tex` with `is_entry`
true stores the answer 17 of the driver under `tex` and leaves `rt0` alone. -/
theorem scratch_not_registered_witness :
    ((alloc_devmem sample_env "tex" 16 1 true sample_loop.s).2.mdevmem "tex" =
        (alloc_devmem sample_env "tex" 16 1 true sample_loop.s).1 ∧
      ∀ n : String, n ≠ "tex" →
        (alloc_devmem sample_env "tex" 16 1 true sample_loop.s).2.mdevmem n =
          sample_loop.s.mdevmem n) ∧
    (alloc_devmem sample_env "tex" 16 1 true sample_loop.s).1 = 22 ∧
    (alloc_devmem sample_env "tex_staging" 16 6 false sample_loop.s).2.mdevmem "tex_staging" = 0 :=
  ⟨(scratch_not_registered sample_env).2.2.1 "tex" 16 1 sample_loop.s (by decide),
    by decide, by decide⟩

/-! ### The calls each block adds to the trace -/

theorem within_refl (q : Op → Bool) (s : State) : Within q s s :=
  ⟨[], by simp, rfl⟩

theorem within_trans {q : Op → Bool} {s s1 s2 : State} (h1 : Within q s s1)
    (h2 : Within q s1 s2) : Within q s s2 := by
  obtain ⟨a, ha, qa⟩ := h1
  obtain ⟨b, hb, qb⟩ := h2
  refine ⟨a ++ b, by rw [hb, ha, List.append_assoc], ?_⟩
  rw [List.all_append, qa, qb]
  rfl

/-- A state whose trace is that of `s` followed by the calls `ops`. -/
theorem within_of_trace {q : Op → Bool} {s s1 : State} (ops : List Op)
    (h : s1.trace = s.trace ++ ops) (hq : ops.all q = true) : Within q s s1 :=
  ⟨ops, h, hq⟩

theorem within_mono {q r : Op → Bool} {s s1 : State} (h : Within q s s1)
    (hqr : ∀ o, q o = true → r o = true) : Within r s s1 := by
  obtain ⟨ops, ho, hq⟩ := h
  refine ⟨ops, ho, ?_⟩
  rw [List.all_eq_true] at hq ⊢
  exact fun o hm => hqr o (hq o hm)

/-- Calls that satisfy `q` add nothing to a filter that `q` excludes. -/
theorem filter_of_within {q p : Op → Bool} {s s1 : State} (h : Within q s s1)
    (hp : ∀ o, q o = true → p o = false) : s1.trace.filter p = s.trace.filter p := by
  obtain ⟨ops, ho, hq⟩ := h
  rw [ho, List.filter_append]
  have : ops.filter p = [] := by
    rw [List.filter_eq_nil_iff]
    rw [List.all_eq_true] at hq
    intro o hm
    rw [hp o (hq o hm)]
    simp
  rw [this, List.append_nil]

theorem trace_resolve_image (E : Env) (name : String) (w h f u : Nat) (s : State) :
    (resolve_image E name w h f u s).2.trace = s.trace ++
      (if s.mimages name = 0 then
        [.vkCreateImage w h f (u ||| VK_IMAGE_USAGE_TRANSFER_DST_BIT) (E.handle s.tick)]
      else []) := by
  unfold resolve_image
  split
  · rfl
  · simp

theorem trace_resolve_image_view (E : Env) (name : String) (i f a : Nat) (s : State) :
    (resolve_image_view E name i f a s).2.trace = s.trace ++
      (if s.mimageviews name = 0 then [.vkCreateImageView i f a (E.handle s.tick)] else []) := by
  unfold resolve_image_view
  split
  · rfl
  · simp

theorem trace_resolve_buffer (E : Env) (name : String) (size : Nat) (s : State) :
    (resolve_buffer E name size s).2.trace = s.trace ++
      (if s.mbuffers name = 0 then [.vkCreateBuffer size (E.handle s.tick)] else []) := by
  unfold resolve_buffer
  split
  · rfl
  · simp

theorem trace_resolve_renderpass (E : Env) (name : String) (b : Bool) (s : State) :
    (resolve_renderpass E name b s).2.trace = s.trace ++
      (if s.mrenderpasses name = 0 then
        [.vkCreateRenderPass 1
          (if b then VkImageLayout.PRESENT_SRC_KHR else VkImageLayout.SHADER_READ_ONLY_OPTIMAL)
          VkImageLayout.DEPTH_STENCIL_ATTACHMENT_OPTIMAL (E.handle s.tick)]
      else []) := by
  unfold resolve_renderpass
  split
  · rfl
  · simp

theorem trace_resolve_framebuffer (E : Env) (name : String) (rp : Nat) (v : List Nat)
    (w h : Nat) (s : State) :
    (resolve_framebuffer E name rp v w h s).2.trace = s.trace ++
      (if s.mframebuffers name = 0 ∧ rp ≠ 0 then
        [.vkCreateFramebuffer rp v w h (E.handle s.tick)]
      else []) := by
  unfold resolve_framebuffer
  split
  · rfl
  · simp

theorem trace_resolve_descriptor_set (E : Env) (name : String) (s : State) :
    (resolve_descriptor_set E name s).2.trace = s.trace ++
      (if s.mdescriptor_sets name = 0 then
        [.vkAllocateDescriptorSets s.desc_pool s.layout (E.handle s.tick)]
      else []) := by
  unfold resolve_descriptor_set
  split
  · rfl
  · simp

theorem trace_image_memory (E : Env) (name : String) (image : Nat) (s : State) :
    (image_memory E name image s).trace = s.trace ++
      [.vkGetImageMemoryRequirements image (E.memreqs s.tick),
       .vkAllocateMemory (round_size (E.memreqs s.tick).size (E.memreqs s.tick).alignment)
         (memory_type_scan VK_MEMORY_PROPERTY_DEVICE_LOCAL_BIT s.devicememoryprop 0)
         (E.handle (s.tick + 1)),
       .vkBindImageMemory image (E.handle (s.tick + 1))] := by
  unfold image_memory
  simp only [trace_emit, trace_alloc_devmem, trace_call, List.append_assoc]
  rfl

theorem trace_ensure_image_memory (E : Env) (name : String) (image : Nat) (s : State) :
    (ensure_image_memory E name image s).trace = s.trace ++
      (if s.mmemreqs name = none then
        [.vkGetImageMemoryRequirements image (E.memreqs s.tick),
         .vkAllocateMemory (round_size (E.memreqs s.tick).size (E.memreqs s.tick).alignment)
           (memory_type_scan VK_MEMORY_PROPERTY_DEVICE_LOCAL_BIT s.devicememoryprop 0)
           (E.handle (s.tick + 1)),
         .vkBindImageMemory image (E.handle (s.tick + 1))]
      else []) := by
  unfold ensure_image_memory
  split
  · exact trace_image_memory E name image s
  · simp

theorem trace_map_and_copy (E : Env) (devmem mapSize : Nat) (data : Option (List Nat))
    (size : Nat) (s : State) :
    (map_and_copy E devmem mapSize data size s).trace = s.trace ++
      (.vkMapMemory devmem mapSize (E.handle s.tick) ::
        (if E.handle s.tick ≠ 0 then [.memcpy (E.handle s.tick) data size, .vkUnmapMemory devmem]
         else [.Sleep 1000])) := by
  unfold map_and_copy
  dsimp only
  split <;> simp

theorem tick_alloc_devmem (E : Env) (name : String) (size flags : Nat) (b : Bool)
    (s : State) : (alloc_devmem E name size flags b s).2.tick = s.tick + 1 := by
  unfold alloc_devmem
  dsimp only
  split <;> rfl

@[simp] theorem tick_emit (s : State) (o : Op) : (s.emit o).tick = s.tick := rfl
@[simp] theorem tick_call (s : State) (o : Op) : (s.call o).tick = s.tick + 1 := rfl
@[simp] theorem tick_modifyRef (s : State) (f : DeviceBuffer → DeviceBuffer) :
    (s.modifyRef f).tick = s.tick := rfl

theorem devicememoryprop_of_fixed {s s1 : State} (h : s1.fixed = s.fixed) :
    s1.devicememoryprop = s.devicememoryprop :=
  congrArg FixedPart.devicememoryprop h

theorem trace_buffer_memory (E : Env) (name : String) (buffer : Nat)
    (data : Option (List Nat)) (size : Nat) (s : State) :
    (buffer_memory E name buffer data size s).trace = s.trace ++
      (if s.mmemreqs name = none then
        [.vkGetBufferMemoryRequirements buffer (E.memreqs s.tick),
         .vkAllocateMemory (round_size (E.memreqs s.tick).size (E.memreqs s.tick).alignment)
           (memory_type_scan
             (VK_MEMORY_PROPERTY_HOST_VISIBLE_BIT ||| VK_MEMORY_PROPERTY_HOST_COHERENT_BIT)
             s.devicememoryprop 0)
           (E.handle (s.tick + 1)),
         .vkBindBufferMemory buffer (E.handle (s.tick + 1)),
         .vkMapMemory (E.handle (s.tick + 1))
           (round_size (E.memreqs s.tick).size (E.memreqs s.tick).alignment)
           (E.handle (s.tick + 2))] ++
          (if E.handle (s.tick + 2) ≠ 0 then
            [.memcpy (E.handle (s.tick + 2)) data size, .vkUnmapMemory (E.handle (s.tick + 1))]
           else [.Sleep 1000])
      else []) := by
  unfold buffer_memory
  split
  · simp only [trace_map_and_copy, trace_emit, trace_alloc_devmem, trace_call, fst_alloc_devmem,
      tick_emit, tick_alloc_devmem, List.append_assoc]
    rfl
  · simp

theorem trace_create_buffer (E : Env) (size : Nat) (s : State) :
    (create_buffer E size s).2.trace = s.trace ++ [.vkCreateBuffer size (E.handle s.tick)] := rfl

theorem trace_texture_staging (E : Env) (c : cmd) (cb image w h : Nat) (s : State) :
    (texture_staging E c cb image w h s).trace = s.trace ++
      ([.vkCreateBuffer c.set_texture_size (E.handle s.tick),
        .vkGetBufferMemoryRequirements (E.handle s.tick) (E.memreqs (s.tick + 1)),
        .vkAllocateMemory
          (round_size (E.memreqs (s.tick + 1)).size (E.memreqs (s.tick + 1)).alignment)
          (memory_type_scan
            (VK_MEMORY_PROPERTY_HOST_VISIBLE_BIT ||| VK_MEMORY_PROPERTY_HOST_COHERENT_BIT)
            s.devicememoryprop 0)
          (E.handle (s.tick + 2)),
        .vkBindBufferMemory (E.handle s.tick) (E.handle (s.tick + 2)),
        .vkMapMemory (E.handle (s.tick + 2))
          (round_size (E.memreqs (s.tick + 1)).size (E.memreqs (s.tick + 1)).alignment)
          (E.handle (s.tick + 3))] ++
       (if E.handle (s.tick + 3) ≠ 0 then
          [.memcpy (E.handle (s.tick + 3)) c.set_texture_data c.set_texture_size,
           .vkUnmapMemory (E.handle (s.tick + 2))]
        else [.Sleep 1000]) ++
       [.vkCmdPipelineBarrier cb VK_PIPELINE_STAGE_TOP_OF_PIPE_BIT VK_PIPELINE_STAGE_TRANSFER_BIT
          (get_barrier image VK_IMAGE_ASPECT_COLOR_BIT .PREINITIALIZED .TRANSFER_DST_OPTIMAL 0
            VK_PIPELINE_STAGE_TOP_OF_PIPE_BIT VK_PIPELINE_STAGE_TRANSFER_BIT),
        .vkCmdCopyBufferToImage cb (E.handle s.tick) image .TRANSFER_DST_OPTIMAL w h 1,
        .vkCmdPipelineBarrier cb VK_PIPELINE_STAGE_TRANSFER_BIT
          VK_PIPELINE_STAGE_FRAGMENT_SHADER_BIT
          (get_barrier image VK_IMAGE_ASPECT_COLOR_BIT .TRANSFER_DST_OPTIMAL
            .SHADER_READ_ONLY_OPTIMAL VK_ACCESS_TRANSFER_WRITE_BIT VK_PIPELINE_STAGE_TRANSFER_BIT
            VK_PIPELINE_STAGE_FRAGMENT_SHADER_BIT)]) := by
  have h1 : (create_buffer E c.set_texture_size s).1 = E.handle s.tick := rfl
  have h2 : (create_buffer E c.set_texture_size s).2.tick = s.tick + 1 := rfl
  have h3 : ∀ (f : DeviceBuffer → DeviceBuffer) (o : Op),
      (((create_buffer E c.set_texture_size s).2.modifyRef f).call o).devicememoryprop =
        s.devicememoryprop := fun _ _ => rfl
  unfold texture_staging
  simp only [trace_map_and_copy, trace_emit, trace_alloc_devmem, trace_call, fst_alloc_devmem,
    tick_emit, tick_alloc_devmem, tick_modifyRef, tick_call, trace_modifyRef, trace_create_buffer,
    h1, h2, h3, List.append_assoc, List.cons_append, List.nil_append, Nat.add_assoc]

theorem trace_end_open_pass (cb rp : Nat) (s : State) :
    (end_open_pass cb rp s).trace = s.trace ++
      (if rp ≠ 0 then [.vkCmdEndRenderPass cb] else []) := by
  unfold end_open_pass
  split
  · rfl
  · simp

theorem trace_begin_pass (cb rp fb w h : Nat) (s : State) :
    (begin_pass cb rp fb w h s).trace = s.trace ++
      (if rp ≠ 0 ∧ fb ≠ 0 then [.vkCmdBeginRenderPass cb rp fb w h] else []) := by
  unfold begin_pass
  split
  · rfl
  · simp

/-! ### Every call of the loop is one the handlers can make -/

theorem loop_resolve_image (E : Env) (name : String) (w h f u : Nat) (s : State) :
    Within Op.is_loop_op s (resolve_image E name w h f u s).2 := by
  refine within_of_trace _ (trace_resolve_image E name w h f u s) ?_
  split <;> rfl

theorem loop_resolve_image_view (E : Env) (name : String) (i f a : Nat) (s : State) :
    Within Op.is_loop_op s (resolve_image_view E name i f a s).2 := by
  refine within_of_trace _ (trace_resolve_image_view E name i f a s) ?_
  split <;> rfl

theorem loop_resolve_buffer (E : Env) (name : String) (size : Nat) (s : State) :
    Within Op.is_loop_op s (resolve_buffer E name size s).2 := by
  refine within_of_trace _ (trace_resolve_buffer E name size s) ?_
  split <;> rfl

theorem loop_resolve_renderpass (E : Env) (name : String) (b : Bool) (s : State) :
    Within Op.is_loop_op s (resolve_renderpass E name b s).2 := by
  refine within_of_trace _ (trace_resolve_renderpass E name b s) ?_
  split
  · cases b <;> rfl
  · rfl

theorem loop_resolve_framebuffer (E : Env) (name : String) (rp : Nat) (v : List Nat)
    (w h : Nat) (s : State) :
    Within Op.is_loop_op s (resolve_framebuffer E name rp v w h s).2 := by
  refine within_of_trace _ (trace_resolve_framebuffer E name rp v w h s) ?_
  split <;> rfl

theorem loop_resolve_descriptor_set (E : Env) (name : String) (s : State) :
    Within Op.is_loop_op s (resolve_descriptor_set E name s).2 := by
  refine within_of_trace _ (trace_resolve_descriptor_set E name s) ?_
  split <;> rfl

theorem loop_ensure_image_memory (E : Env) (name : String) (image : Nat) (s : State) :
    Within Op.is_loop_op s (ensure_image_memory E name image s) := by
  refine within_of_trace _ (trace_ensure_image_memory E name image s) ?_
  split <;> rfl

theorem loop_image_memory (E : Env) (name : String) (image : Nat) (s : State) :
    Within Op.is_loop_op s (image_memory E name image s) :=
  within_of_trace _ (trace_image_memory E name image s) rfl

theorem loop_buffer_memory (E : Env) (name : String) (buffer : Nat)
    (data : Option (List Nat)) (size : Nat) (s : State) :
    Within Op.is_loop_op s (buffer_memory E name buffer data size s) := by
  refine within_of_trace _ (trace_buffer_memory E name buffer data size s) ?_
  split
  · split <;> rfl
  · rfl

theorem loop_texture_staging (E : Env) (c : cmd) (cb image w h : Nat) (s : State) :
    Within Op.is_loop_op s (texture_staging E c cb image w h s) := by
  refine within_of_trace _ (trace_texture_staging E c cb image w h s) ?_
  split <;> rfl

theorem loop_ensure_texture_memory (E : Env) (c : cmd) (cb image w h : Nat) (s : State) :
    Within Op.is_loop_op s (ensure_texture_memory E c cb image w h s) := by
  unfold ensure_texture_memory
  split
  · exact within_trans (loop_image_memory E c.name image s) (loop_texture_staging _ _ _ _ _ _ _)
  · exact within_refl _ s

theorem loop_end_open_pass (cb rp : Nat) (s : State) :
    Within Op.is_loop_op s (end_open_pass cb rp s) := by
  refine within_of_trace _ (trace_end_open_pass cb rp s) ?_
  split <;> rfl

theorem loop_begin_pass (cb rp fb w h : Nat) (s : State) :
    Within Op.is_loop_op s (begin_pass cb rp fb w h s) := by
  refine within_of_trace _ (trace_begin_pass cb rp fb w h s) ?_
  split <;> rfl

theorem within_emit (q : Op → Bool) (s : State) (o : Op) (h : q o = true) :
    Within q s (s.emit o) :=
  within_of_trace [o] rfl (by simp [h])

/-! ### The calls of the handlers, of the loop and of a whole call -/

theorem loop_cmd_set_render_target (E : Env) (c : cmd) (st : Interp) :
    Within Op.is_loop_op st.s (cmd_set_render_target E c st).st.s := by
  unfold cmd_set_render_target
  simp only [st_ite]
  have key : ∀ s : State, Within Op.is_loop_op st.s s →
      Within Op.is_loop_op st.s (resolve_descriptor_set E c.name s).2 :=
    fun s h => within_trans h (loop_resolve_descriptor_set _ _ _)
  split
  · refine key _ ?_
    refine within_trans ?_ (loop_begin_pass _ _ _ _ _ _)
    refine within_trans ?_ (loop_resolve_framebuffer _ _ _ _ _ _ _)
    refine within_trans ?_ (loop_resolve_renderpass _ _ _ _)
    refine within_trans ?_ (loop_resolve_image_view _ _ _ _ _ _)
    refine within_trans ?_ (loop_ensure_image_memory _ _ _ _)
    refine within_trans ?_ (loop_resolve_image _ _ _ _ _ _ _)
    refine within_trans ?_ (loop_resolve_image_view _ _ _ _ _ _)
    refine within_trans ?_ (loop_ensure_image_memory _ _ _ _)
    refine within_trans ?_ (loop_resolve_image _ _ _ _ _ _ _)
    refine within_trans ?_ (within_emit _ _ _ (by rfl))
    refine within_trans ?_ (within_emit _ _ _ (by rfl))
    exact loop_end_open_pass _ _ _
  · refine within_trans ?_ (within_emit _ _ _ (by rfl))
    refine key _ ?_
    refine within_trans ?_ (loop_begin_pass _ _ _ _ _ _)
    refine within_trans ?_ (loop_resolve_framebuffer _ _ _ _ _ _ _)
    refine within_trans ?_ (loop_resolve_renderpass _ _ _ _)
    refine within_trans ?_ (loop_resolve_image_view _ _ _ _ _ _)
    refine within_trans ?_ (loop_ensure_image_memory _ _ _ _)
    refine within_trans ?_ (loop_resolve_image _ _ _ _ _ _ _)
    refine within_trans ?_ (loop_resolve_image_view _ _ _ _ _ _)
    refine within_trans ?_ (loop_ensure_image_memory _ _ _ _)
    refine within_trans ?_ (loop_resolve_image _ _ _ _ _ _ _)
    refine within_trans ?_ (within_emit _ _ _ (by rfl))
    refine within_trans ?_ (within_emit _ _ _ (by rfl))
    exact loop_end_open_pass _ _ _

theorem loop_cmd_set_texture (E : Env) (c : cmd) (st : Interp) :
    Within Op.is_loop_op st.s (cmd_set_texture E c st).st.s := by
  unfold cmd_set_texture
  simp only [st_ite]
  split
  · refine within_trans ?_ (loop_resolve_image_view _ _ _ _ _ _)
    refine within_trans ?_ (loop_ensure_texture_memory _ _ _ _ _ _ _)
    exact loop_resolve_image _ _ _ _ _ _ _
  · refine within_trans ?_ (within_emit _ _ _ (by rfl))
    refine within_trans ?_ (loop_resolve_image_view _ _ _ _ _ _)
    refine within_trans ?_ (loop_ensure_texture_memory _ _ _ _ _ _ _)
    exact loop_resolve_image _ _ _ _ _ _ _

theorem loop_cmd_set_constant (E : Env) (c : cmd) (st : Interp) :
    Within Op.is_loop_op st.s (cmd_set_constant E c st).st.s := by
  unfold cmd_set_constant
  simp only [st_ite]
  split
  · refine within_trans ?_ (loop_buffer_memory _ _ _ _ _ _)
    exact loop_resolve_buffer _ _ _ _
  · refine within_trans ?_ (within_emit _ _ _ (by rfl))
    refine within_trans ?_ (loop_buffer_memory _ _ _ _ _ _)
    exact loop_resolve_buffer _ _ _ _

theorem loop_cmd_set_vertex (E : Env) (c : cmd) (st : Interp) :
    Within Op.is_loop_op st.s (cmd_set_vertex E c st).st.s := by
  unfold cmd_set_vertex
  simp only [st_next]
  refine within_trans ?_ (within_emit _ _ _ (by rfl))
  refine within_trans ?_ (loop_buffer_memory _ _ _ _ _ _)
  exact loop_resolve_buffer _ _ _ _

theorem loop_cmd_set_index (E : Env) (c : cmd) (st : Interp) :
    Within Op.is_loop_op st.s (cmd_set_index E c st).st.s := by
  unfold cmd_set_index
  simp only [st_next]
  refine within_trans ?_ (within_emit _ _ _ (by rfl))
  refine within_trans ?_ (loop_buffer_memory _ _ _ _ _ _)
  exact loop_resolve_buffer _ _ _ _

/-- Every call a command adds to the trace is one of the calls of the
handlers, with the constant arguments of the code. -/
theorem loop_proc_command (E : Env) (c : cmd) (st : Interp) :
    Within Op.is_loop_op st.s (proc_command E c st).st.s := by
  unfold proc_command
  dsimp only
  split
  · exact loop_cmd_set_render_target E c ⟨st.s, st.rec_, st.cmd_index + 1⟩
  · exact loop_cmd_set_texture E c ⟨st.s, st.rec_, st.cmd_index + 1⟩
  · exact loop_cmd_set_texture E c ⟨st.s, st.rec_, st.cmd_index + 1⟩
  · exact loop_cmd_set_constant E c ⟨st.s, st.rec_, st.cmd_index + 1⟩
  · exact loop_cmd_set_vertex E c ⟨st.s, st.rec_, st.cmd_index + 1⟩
  · exact loop_cmd_set_index E c ⟨st.s, st.rec_, st.cmd_index + 1⟩
  · exact within_refl _ _
  · exact within_emit _ _ _ (by rfl)
  all_goals exact within_refl _ _

theorem loop_proc_commands (E : Env) (cmds : List cmd) (st : Interp) :
    Within Op.is_loop_op st.s (proc_commands E cmds st).st.s := by
  induction cmds generalizing st with
  | nil => exact within_refl _ _
  | cons c rest ih =>
    have h := loop_proc_command E c st
    rw [proc_commands_cons]
    cases hc : proc_command E c st with
    | next st1 =>
      rw [hc] at h
      exact within_trans h (ih st1)
    | exit st1 =>
      rw [hc] at h
      exact h

/-! ### The calls before and after the loop -/

@[simp] theorem ref_emit (s : State) (o : Op) : (s.emit o).ref = s.ref := rfl
@[simp] theorem ref_call (s : State) (o : Op) : (s.call o).ref = s.ref := rfl
@[simp] theorem ref_emits (s : State) (os : List Op) : (s.emits os).ref = s.ref := rfl

theorem ref_wait_slot (E : Env) (fence : Nat) (s : State) : (wait_slot E fence s).ref = s.ref := by
  unfold wait_slot
  dsimp only
  split <;> rfl

theorem tick_wait_slot (E : Env) (fence : Nat) (s : State) :
    (wait_slot E fence s).tick = s.tick + 1 := by
  unfold wait_slot
  dsimp only
  split <;> rfl

theorem trace_wait_slot (E : Env) (fence : Nat) (s : State) :
    (wait_slot E fence s).trace = s.trace ++
      (.vkGetFenceStatus fence (E.fence_status s.tick) ::
        (if E.fence_status s.tick = .VK_SUCCESS then
          [.vkWaitForFences fence, .vkResetFences fence]
         else [])) := by
  unfold wait_slot
  dsimp only
  split <;> simp

/-- Clearing the list of scratch buffers of the slot leaves its list of
scratch memories as it is. -/
theorem devmems_clear_buffers (s : State) :
    (s.modifyRef (fun r => { r with vscratch_buffers := [] })).ref.vscratch_devmems =
      s.ref.vscratch_devmems := by
  rw [ref_modifyRef]
  split <;> rfl

theorem trace_release_scratch (s : State) :
    (release_scratch s).trace = s.trace ++
      (s.ref.vscratch_buffers.map Op.vkDestroyBuffer ++
        s.ref.vscratch_devmems.map Op.vkFreeMemory) := by
  unfold release_scratch
  simp only [trace_modifyRef, trace_emits, devmems_clear_buffers, ref_emits, List.append_assoc]

/-- The calls between the initialisation block and the loop, in order: the
status of the slot's fence is read; a wait and a reset follow when it is
`VK_SUCCESS`; the next image is acquired with the slot's fence; the scratch
buffers of the slot are destroyed and its scratch memories freed; the slot's
command buffer is reset and begun. -/
theorem trace_frame_begin (E : Env) (s : State) :
    (frame_begin E s).2.trace = s.trace ++
      (.vkGetFenceStatus s.ref.fence (E.fence_status s.tick) ::
        (if E.fence_status s.tick = .VK_SUCCESS then
          [.vkWaitForFences s.ref.fence, .vkResetFences s.ref.fence]
         else []) ++
       .vkAcquireNextImageKHR s.ref.fence (E.present_index (s.tick + 1)) ::
        (s.ref.vscratch_buffers.map Op.vkDestroyBuffer ++
          s.ref.vscratch_devmems.map Op.vkFreeMemory) ++
       [.vkResetCommandBuffer s.ref.cmdbuf, .vkBeginCommandBuffer s.ref.cmdbuf]) := by
  unfold frame_begin acquire
  simp only [trace_emit, trace_release_scratch, trace_call, trace_wait_slot, tick_wait_slot,
    ref_call, ref_wait_slot, List.append_assoc, List.cons_append, List.nil_append]

theorem fst_frame_begin (E : Env) (s : State) :
    (frame_begin E s).1 = E.present_index (s.tick + 1) := by
  unfold frame_begin acquire
  simp only [tick_wait_slot]

theorem ref_end_open_pass (cb rp : Nat) (s : State) : (end_open_pass cb rp s).ref = s.ref := by
  unfold end_open_pass
  split <;> rfl

theorem tick_end_open_pass (cb rp : Nat) (s : State) :
    (end_open_pass cb rp s).tick = s.tick := by
  unfold end_open_pass
  split <;> rfl

/-- The calls after the loop, in order. -/
theorem trace_frame_end (E : Env) (present_index : Nat) (st : Interp) :
    (frame_end E present_index st).trace = st.s.trace ++
      ((if st.rec_.renderpass ≠ 0 then [.vkCmdEndRenderPass st.s.ref.cmdbuf] else []) ++
       [.vkEndCommandBuffer st.s.ref.cmdbuf,
        .vkGetFenceStatus st.s.ref.fence (E.fence_status st.s.tick),
        .vkResetFences st.s.ref.fence,
        .vkQueueSubmit st.s.ref.cmdbuf st.s.ref.fence,
        .vkQueuePresentKHR present_index]) := by
  unfold frame_end
  simp only [trace_emit, trace_call, trace_end_open_pass, tick_emit, tick_end_open_pass,
    List.append_assoc, List.cons_append, List.nil_append]

theorem all_map_destroy (l : List Nat) : (l.map Op.vkDestroyBuffer).all Op.is_begin_op = true := by
  induction l with
  | nil => rfl
  | cons x t ih => simp [Op.is_begin_op]

theorem all_map_free (l : List Nat) : (l.map Op.vkFreeMemory).all Op.is_begin_op = true := by
  induction l with
  | nil => rfl
  | cons x t ih => simp [Op.is_begin_op]

theorem begin_frame_begin (E : Env) (s : State) :
    Within Op.is_begin_op s (frame_begin E s).2 := by
  refine within_of_trace _ (trace_frame_begin E s) ?_
  simp only [List.all_cons, List.all_append, all_map_destroy, all_map_free, List.all_nil]
  split <;> rfl

theorem end_frame_end (E : Env) (present_index : Nat) (st : Interp) :
    Within Op.is_end_op st.s (frame_end E present_index st) := by
  refine within_of_trace _ (trace_frame_end E present_index st) ?_
  split <;> rfl

/-! ### The calls of the initialisation block -/

theorem trace_register_backbuffers (E : Env) (images : List Nat) (i : Nat) (s : State) :
    (register_backbuffers E images i s).trace = s.trace := by
  induction images generalizing i s with
  | nil => rfl
  | cons image rest ih =>
    unfold register_backbuffers
    rw [ih]

theorem init_create_frame_resources (E : Env) (k i : Nat) (s : State) :
    Within Op.is_init_op s (create_frame_resources E k i s) := by
  induction k generalizing i s with
  | zero => exact within_refl _ s
  | succ k ih =>
    unfold create_frame_resources
    refine within_trans ?_ (ih _ _)
    exact within_of_trace
      [.vkAllocateCommandBuffers (E.handle s.tick), .vkCreateFence true (E.handle (s.tick + 1)),
        .vkResetFences (E.handle (s.tick + 1))]
      (by simp [State.emit, State.call]) rfl

theorem init_init_block (E : Env) (a : Args) (s : State) :
    Within Op.is_init_op s (init_block E a s).state := by
  have h1 : Within Op.is_init_op s (init_instance E s).2 := within_of_trace _ rfl rfl
  have h2 : ∀ s : State, Within Op.is_init_op s (init_device E s) :=
    fun s => within_of_trace _ rfl rfl
  have h3 : ∀ s : State, Within Op.is_init_op s (init_swapchain E a s) := by
    intro s
    refine within_of_trace
      [.vkCreateWin32SurfaceKHR a.handle (E.handle s.tick),
        .vkCreateSwapchainKHR a.count a.w a.h (E.handle (s.tick + 1)),
        .vkGetSwapchainImagesKHR (E.swapchainImages (s.tick + 2)),
        .vkCreateCommandPool (E.handle (register_backbuffers E (E.swapchainImages (s.tick + 2)) 0
          { s with surface := E.handle s.tick
                   swapchain := E.handle (s.tick + 1)
                   tick := s.tick + 3
                   trace := s.trace ++ [.vkCreateWin32SurfaceKHR a.handle (E.handle s.tick),
                     .vkCreateSwapchainKHR a.count a.w a.h (E.handle (s.tick + 1)),
                     .vkGetSwapchainImagesKHR (E.swapchainImages (s.tick + 2))] }).tick)] ?_ rfl
    unfold init_swapchain
    simp only [trace_call, trace_register_backbuffers, List.append_assoc, List.cons_append,
      List.nil_append]
  have h4 : ∀ s : State, Within Op.is_init_op s (init_slots E a s) := by
    intro s
    unfold init_slots
    exact within_trans (within_of_trace [] (by simp) rfl) (init_create_frame_resources _ _ _ _)
  have h5 : ∀ s : State, Within Op.is_init_op s (init_descriptors E a s) :=
    fun s => within_of_trace _ rfl rfl
  unfold init_block
  dsimp only
  split
  · exact h1
  · exact within_trans h1 (within_trans (h2 _) (within_trans (h3 _)
      (within_trans (h4 _) (h5 _))))

/-! ### The calls of a whole call and of a sequence of calls -/

theorem issued_of_init (o : Op) (h : o.is_init_op = true) : o.is_issued = true := by
  simp [Op.is_issued, h]

theorem issued_of_begin (o : Op) (h : o.is_begin_op = true) : o.is_issued = true := by
  simp [Op.is_issued, h]

theorem issued_of_loop (o : Op) (h : o.is_loop_op = true) : o.is_issued = true := by
  simp [Op.is_issued, h]

theorem issued_of_end (o : Op) (h : o.is_end_op = true) : o.is_issued = true := by
  simp [Op.is_issued, h]

theorem within_advance (q : Op → Bool) (a : Args) (s : State)
    (h : (advance a s).defined = true) : Within q s (advance a s).state := by
  unfold advance at h ⊢
  split
  · rename_i hc
    rw [if_pos hc] at h
    cases h
  · exact within_of_trace [] (by simp [Outcome.state]) rfl

theorem issued_present_frame (E : Env) (a : Args) (s : State)
    (h : (present_frame E a s).defined = true) :
    Within Op.is_issued s (present_frame E a s).state := by
  unfold present_frame at h ⊢
  split
  · rename_i hlt
    rw [if_pos hlt] at h
    dsimp only at h ⊢
    have hb := within_mono (begin_frame_begin E s) issued_of_begin
    have hl := within_mono (loop_proc_commands E a.vcmd ⟨(frame_begin E s).2, {}, 0⟩)
      issued_of_loop
    cases hp : proc_commands E a.vcmd ⟨(frame_begin E s).2, {}, 0⟩ with
    | next st =>
      rw [hp] at h hl
      refine within_trans hb (within_trans hl ?_)
      exact within_trans (within_mono (end_frame_end E _ st) issued_of_end)
        (within_advance _ a _ h)
    | exit st =>
      rw [hp] at hl
      exact within_trans hb hl
  · rename_i hlt
    rw [if_neg hlt] at h
    cases h

theorem issued_oden_present_graphics (E : Env) (a : Args) (s : State)
    (h : (oden_present_graphics E a s).defined = true) :
    Within Op.is_issued s (oden_present_graphics E a s).state := by
  unfold oden_present_graphics at h ⊢
  split
  · rename_i hi
    rw [if_pos hi] at h
    have hb := within_mono (init_init_block E a s) issued_of_init
    cases hx : init_block E a s with
    | returned s0 =>
      rw [hx] at h hb
      exact within_trans hb (issued_present_frame E a s0 h)
    | exited s0 =>
      rw [hx] at hb
      exact hb
    | undefined =>
      rw [hx] at h
      cases h
  · rename_i hi
    rw [if_neg hi] at h
    exact issued_present_frame E a s h

/-- Every call in the trace of a sequence of calls of `oden_present_graphics`
that returns or exits is one that some statement of the function can make. -/
theorem issued_present_calls (E : Env) (calls : List Args) (s : State)
    (h : (present_calls E calls s).defined = true) :
    Within Op.is_issued s (present_calls E calls s).state := by
  induction calls generalizing s with
  | nil => exact within_refl _ s
  | cons a rest ih =>
    unfold present_calls at h ⊢
    have hc := issued_oden_present_graphics E a s
    cases hx : oden_present_graphics E a s with
    | returned s1 =>
      rw [hx] at h hc
      exact within_trans (hc rfl) (ih s1 h)
    | exited s1 =>
      rw [hx] at hc
      exact hc rfl
    | undefined =>
      rw [hx] at h
      cases h

/-! ### The barrier to the presentable layout -/

/-- No call that the program can make is a barrier to `PRESENT_SRC_KHR`. -/
theorem issued_not_present_barrier (o : Op) (h : o.is_issued = true) :
    o.is_present_barrier = false := by
  cases o <;> first
    | rfl
    | (rename_i cb ss ds b
       simp only [Op.is_issued, Op.is_init_op, Op.is_begin_op, Op.is_end_op, Op.is_loop_op,
         Bool.false_or, Bool.or_false, Bool.or_eq_true, Bool.and_eq_true,
         decide_eq_true_eq] at h
       simp only [Op.is_present_barrier, decide_eq_false_iff_not]
       rcases h with ⟨_, h⟩ | ⟨_, h⟩ <;> rw [h] <;> decide)

/-- A trace that grows from one without calls of the kind `p` by calls that
are not of that kind has none. -/
theorem none_of_within {q p : Op → Bool} {s s1 : State} (h : Within q s s1)
    (hp : ∀ o, q o = true → p o = false) (h0 : s.trace.any p = false) :
    s1.trace.any p = false := by
  have hf := filter_of_within h hp
  rw [List.any_eq_false] at h0 ⊢
  intro o ho hpo
  have hm : o ∈ s1.trace.filter p := List.mem_filter.mpr ⟨ho, hpo⟩
  rw [hf] at hm
  exact h0 o (List.mem_filter.mp hm).1 hpo

/-- C11 (amended): no handler tests the tag of `SetBarrierToPresent`: the
command only advances `cmd_index`, leaving the statics, the trace and `rec` as
they were; and in every sequence of calls from the initial state, whatever the
command vectors, no barrier that moves an image to the presentable layout is
ever recorded. -/
theorem barrier_to_present_not_recorded (E : Env) :
    (∀ (c : cmd) (st : Interp), c.type = .CMD_SET_BARRIER →
      proc_command E c st = .next ⟨st.s, st.rec_, st.cmd_index + 1⟩) ∧
    (∀ calls : List Args, (present_calls E calls State.initial).defined = true →
      (present_calls E calls State.initial).state.trace.any Op.is_present_barrier = false) := by
  refine ⟨fun c st h => ?_, fun calls h => ?_⟩
  · exact proc_command_skip E c st (Or.inr (Or.inr (Or.inr (Or.inr (Or.inr h)))))
  · exact none_of_within (issued_present_calls E calls State.initial h)
      issued_not_present_barrier rfl

/-- With the sample driver, `SetBarrierToPresent("backbuffer0")` after
`SetRenderTarget("backbuffer0")` leaves the state as it is, and a call with
the two commands records no barrier to the presentable layout. -/
theorem barrier_to_present_not_recorded_witness :
    proc_command sample_env barrier_backbuffer0
        (proc_command sample_env rt_backbuffer0 sample_loop).st =
      .next ⟨(proc_command sample_env rt_backbuffer0 sample_loop).st.s,
        (proc_command sample_env rt_backbuffer0 sample_loop).st.rec_,
        (proc_command sample_env rt_backbuffer0 sample_loop).st.cmd_index + 1⟩ ∧
    (present_calls sample_env
      [{ vcmd := [rt_backbuffer0, barrier_backbuffer0], count := 2 }]
      State.initial).state.trace.any Op.is_present_barrier = false :=
  ⟨(barrier_to_present_not_recorded sample_env).1 barrier_backbuffer0
      (proc_command sample_env rt_backbuffer0 sample_loop).st rfl,
    (barrier_to_present_not_recorded sample_env).2
      [{ vcmd := [rt_backbuffer0, barrier_backbuffer0], count := 2 }] (by decide)⟩

/-- C11 as stated fails: the first call with the command vector
`[SetRenderTarget("backbuffer0"), SetBarrierToPresent("backbuffer0")]` returns;
the image 100 of the swapchain is stored under `backbuffer0`; the trace after
`SetBarrierToPresent` is the same 35 calls as before it, and the trace of the
call holds no barrier to the presentable layout. -/
theorem barrier_to_present_missing :
    barrier_backbuffer0.type = .CMD_SET_BARRIER ∧
    (oden_present_graphics sample_env
      { vcmd := [rt_backbuffer0, barrier_backbuffer0], count := 2 } State.initial).returns = true ∧
    sample_loop.s.mimages "backbuffer0" = 100 ∧
    (proc_commands sample_env [rt_backbuffer0] sample_loop).st.s.trace.length = 35 ∧
    (proc_commands sample_env [rt_backbuffer0, barrier_backbuffer0]
      sample_loop).st.s.trace.length = 35 ∧
    (oden_present_graphics sample_env
      { vcmd := [rt_backbuffer0, barrier_backbuffer0], count := 2 } State.initial).state.trace.any
      Op.is_present_barrier = false := by
  refine ⟨rfl, by decide, by decide, by decide, by decide, by decide⟩

/-! ### The render pass of a render target -/

theorem mrenderpasses_resolve_image (E : Env) (name : String) (w h f u : Nat) (s : State) :
    (resolve_image E name w h f u s).2.mrenderpasses = s.mrenderpasses := by
  unfold resolve_image
  split <;> rfl

theorem mrenderpasses_resolve_image_view (E : Env) (name : String) (i f a : Nat) (s : State) :
    (resolve_image_view E name i f a s).2.mrenderpasses = s.mrenderpasses := by
  unfold resolve_image_view
  split <;> rfl

theorem mrenderpasses_ensure_image_memory (E : Env) (name : String) (image : Nat)
    (s : State) : (ensure_image_memory E name image s).mrenderpasses = s.mrenderpasses := by
  have h := bindings_ensure_image_memory E name image s
  exact congrArg Bindings.mrenderpasses h

theorem mrenderpasses_end_open_pass (cb rp : Nat) (s : State) :
    (end_open_pass cb rp s).mrenderpasses = s.mrenderpasses := by
  unfold end_open_pass
  split <;> rfl

theorem mrenderpasses_begin_pass (cb rp fb w h : Nat) (s : State) :
    (begin_pass cb rp fb w h s).mrenderpasses = s.mrenderpasses := by
  unfold begin_pass
  split <;> rfl

theorem mrenderpasses_resolve_framebuffer (E : Env) (name : String) (rp : Nat) (v : List Nat)
    (w h : Nat) (s : State) :
    (resolve_framebuffer E name rp v w h s).2.mrenderpasses = s.mrenderpasses := by
  unfold resolve_framebuffer
  split <;> rfl

theorem mrenderpasses_resolve_descriptor_set (E : Env) (name : String) (s : State) :
    (resolve_descriptor_set E name s).2.mrenderpasses = s.mrenderpasses := by
  unfold resolve_descriptor_set
  split <;> rfl

theorem mrenderpasses_emit (s : State) (o : Op) : (s.emit o).mrenderpasses = s.mrenderpasses :=
  rfl

/-- The render pass the block returns is the one stored under the name
afterwards. -/
theorem mrenderpasses_resolve_renderpass (E : Env) (name : String) (b : Bool) (s : State) :
    (resolve_renderpass E name b s).2.mrenderpasses name = (resolve_renderpass E name b s).1 ∧
    (s.mrenderpasses name = 0 → (resolve_renderpass E name b s).1 = E.handle s.tick) := by
  unfold resolve_renderpass
  split
  · exact ⟨by simp, fun _ => rfl⟩
  · rename_i h
    exact ⟨rfl, fun h0 => absurd h0 h⟩

/-- The part of a trace made of the creations of render passes. -/
theorem filter_append_ops (p : Op → Bool) (t ops : List Op) (h : ops.all (fun o => !p o) = true) :
    (t ++ ops).filter p = t.filter p := by
  rw [List.filter_append]
  have : ops.filter p = [] := by
    rw [List.filter_eq_nil_iff]
    rw [List.all_eq_true] at h
    intro o hm
    have := h o hm
    simpa using this
  rw [this, List.append_nil]

theorem filter_ite_ops (p : Op → Bool) (c : Prop) [Decidable c] (ops : List Op) :
    (if c then ops else []).filter p = if c then ops.filter p else [] := by
  split <;> rfl

/-- What the handler of `CMD_SET_RENDER_TARGET` adds to the creations of
render passes: nothing when a render pass is stored under the name, and
otherwise one render pass with one colour attachment, stored under the name. -/
theorem renderpass_set_render_target (E : Env) (c : cmd) (st : Interp) :
    ∃ h : Nat,
      (cmd_set_render_target E c st).st.s.trace.filter Op.is_renderpass_create =
        st.s.trace.filter Op.is_renderpass_create ++
          (if st.s.mrenderpasses c.name = 0 then
            [.vkCreateRenderPass 1
              (if E.oden_get_backbuffer_name st.s.backbuffer_index = c.name then
                VkImageLayout.PRESENT_SRC_KHR
               else VkImageLayout.SHADER_READ_ONLY_OPTIMAL)
              VkImageLayout.DEPTH_STENCIL_ATTACHMENT_OPTIMAL h]
          else []) ∧
      (st.s.mrenderpasses c.name = 0 →
        (cmd_set_render_target E c st).st.s.mrenderpasses c.name = h) := by
  unfold cmd_set_render_target
  simp only [st_ite]
  split <;> rename_i hx <;> clear hx
  · simp only [trace_emit, trace_resolve_descriptor_set, trace_begin_pass,
      trace_resolve_framebuffer, trace_resolve_renderpass, trace_resolve_image_view,
      trace_ensure_image_memory, trace_resolve_image, trace_end_open_pass,
      mrenderpasses_resolve_image, mrenderpasses_resolve_image_view,
      mrenderpasses_ensure_image_memory, mrenderpasses_end_open_pass, mrenderpasses_emit,
      mrenderpasses_resolve_descriptor_set, mrenderpasses_begin_pass,
      mrenderpasses_resolve_framebuffer, List.filter_append, filter_ite_ops]
    simp only [Op.is_renderpass_create, List.filter_cons, List.filter_nil, Bool.false_eq_true,
      if_false, if_true, ite_self, List.append_nil, decide_eq_true_eq, List.append_cancel_left_eq]
    refine ⟨_, rfl, fun h0 => ?_⟩
    rw [(mrenderpasses_resolve_renderpass E c.name _ _).1]
    refine (mrenderpasses_resolve_renderpass E c.name _ _).2 ?_
    simp only [mrenderpasses_resolve_image, mrenderpasses_resolve_image_view,
      mrenderpasses_ensure_image_memory, mrenderpasses_end_open_pass, mrenderpasses_emit]
    exact h0
  · simp only [trace_emit, trace_resolve_descriptor_set, trace_begin_pass,
      trace_resolve_framebuffer, trace_resolve_renderpass, trace_resolve_image_view,
      trace_ensure_image_memory, trace_resolve_image, trace_end_open_pass,
      mrenderpasses_resolve_image, mrenderpasses_resolve_image_view,
      mrenderpasses_ensure_image_memory, mrenderpasses_end_open_pass, mrenderpasses_emit,
      mrenderpasses_resolve_descriptor_set, mrenderpasses_begin_pass,
      mrenderpasses_resolve_framebuffer, List.filter_append, filter_ite_ops]
    simp only [Op.is_renderpass_create, List.filter_cons, List.filter_nil, Bool.false_eq_true,
      if_false, if_true, ite_self, List.append_nil, decide_eq_true_eq, List.append_cancel_left_eq]
    refine ⟨_, rfl, fun h0 => ?_⟩
    rw [(mrenderpasses_resolve_renderpass E c.name _ _).1]
    refine (mrenderpasses_resolve_renderpass E c.name _ _).2 ?_
    simp only [mrenderpasses_resolve_image, mrenderpasses_resolve_image_view,
      mrenderpasses_ensure_image_memory, mrenderpasses_end_open_pass, mrenderpasses_emit]
    exact h0

/-- C12: a `SetRenderTarget` on a name under which no render pass is stored
creates exactly one render pass, stored under the name, with one colour
attachment whose final layout is `PRESENT_SRC_KHR` if the name is the
backbuffer name of the current slot index and `SHADER_READ_ONLY_OPTIMAL`
otherwise, and with the depth attachment's final layout
`DEPTH_STENCIL_ATTACHMENT_OPTIMAL` in both cases; on a name under which a
render pass is stored it creates none. -/
theorem presentable_render_pass (E : Env) (c : cmd) (st : Interp)
    (hty : c.type = .CMD_SET_RENDER_TARGET) :
    ∃ h : Nat,
      (proc_command E c st).st.s.trace.filter Op.is_renderpass_create =
        st.s.trace.filter Op.is_renderpass_create ++
          (if st.s.mrenderpasses c.name = 0 then
            [.vkCreateRenderPass 1
              (if E.oden_get_backbuffer_name st.s.backbuffer_index = c.name then
                VkImageLayout.PRESENT_SRC_KHR
               else VkImageLayout.SHADER_READ_ONLY_OPTIMAL)
              VkImageLayout.DEPTH_STENCIL_ATTACHMENT_OPTIMAL h]
          else []) ∧
      (st.s.mrenderpasses c.name = 0 → (proc_command E c st).st.s.mrenderpasses c.name = h) := by
  rw [proc_command_render_target E c st hty]
  exact renderpass_set_render_target E c ⟨st.s, st.rec_, st.cmd_index + 1⟩

/-- With the sample driver and slot index 0: `SetRenderTarget("backbuffer0")`
creates a presentable render pass, `SetRenderTarget("rt0")` one whose colour
attachment ends shader-read-only, and a second `SetRenderTarget("rt0")`
creates none. -/
theorem presentable_render_pass_witness :
    (∃ h : Nat,
      (proc_command sample_env rt_backbuffer0 sample_loop).st.s.trace.filter
          Op.is_renderpass_create =
        sample_loop.s.trace.filter Op.is_renderpass_create ++
          (if sample_loop.s.mrenderpasses rt_backbuffer0.name = 0 then
            [.vkCreateRenderPass 1
              (if sample_env.oden_get_backbuffer_name sample_loop.s.backbuffer_index =
                  rt_backbuffer0.name then
                VkImageLayout.PRESENT_SRC_KHR
               else VkImageLayout.SHADER_READ_ONLY_OPTIMAL)
              VkImageLayout.DEPTH_STENCIL_ATTACHMENT_OPTIMAL h]
          else []) ∧
      (sample_loop.s.mrenderpasses rt_backbuffer0.name = 0 →
        (proc_command sample_env rt_backbuffer0 sample_loop).st.s.mrenderpasses
          rt_backbuffer0.name = h)) ∧
    (proc_command sample_env rt_backbuffer0 sample_loop).st.s.trace.filterMap
        Op.renderpass_layouts =
      [(.PRESENT_SRC_KHR, .DEPTH_STENCIL_ATTACHMENT_OPTIMAL)] ∧
    (proc_command sample_env rt0_large sample_loop).st.s.trace.filterMap
        Op.renderpass_layouts =
      [(.SHADER_READ_ONLY_OPTIMAL, .DEPTH_STENCIL_ATTACHMENT_OPTIMAL)] ∧
    (proc_commands sample_env [rt0_large, rt0_small] sample_loop).st.s.trace.filterMap
        Op.renderpass_layouts =
      [(.SHADER_READ_ONLY_OPTIMAL, .DEPTH_STENCIL_ATTACHMENT_OPTIMAL)] :=
  ⟨presentable_render_pass sample_env rt_backbuffer0 sample_loop rfl,
    by decide, by decide, by decide⟩

/-! ### The scratch lists of the slots -/

theorem scratch_of_devicebuffer {s s1 : State} (h : s1.devicebuffer = s.devicebuffer) :
    s1.scratch = s.scratch := by
  funext i
  unfold State.scratch
  rw [h]

theorem stages_refl (s : State) : Stages s s :=
  ⟨rfl, rfl, fun _ _ => rfl, [], [], rfl, by simp⟩

theorem stages_trans {s s1 s2 : State} (h1 : Stages s s1) (h2 : Stages s1 s2) : Stages s s2 := by
  obtain ⟨a1, l1, o1, bs1, ms1, e1, c1⟩ := h1
  obtain ⟨a2, l2, o2, bs2, ms2, e2, c2⟩ := h2
  refine ⟨a2.trans a1, l2.trans l1, fun i hi => ?_, bs1 ++ bs2, ms1 ++ ms2, ?_, ?_⟩
  · rw [o2 i (by rw [a1]; exact hi), o1 i hi]
  · simp [e1, e2]
  · rw [a1] at c2
    rw [c2, c1]
    simp

/-- A state with the slots and the slot index of `s`. -/
theorem stages_of_eq {s s1 : State} (h1 : s1.devicebuffer = s.devicebuffer)
    (h2 : s1.backbuffer_index = s.backbuffer_index) : Stages s s1 :=
  ⟨h2, by rw [h1], fun i _ => by rw [scratch_of_devicebuffer h1], [], [], rfl,
    by rw [scratch_of_devicebuffer h1]; simp⟩

theorem balanced_of_stages {s s1 : State} (h : Stages s s1) (hb : balanced s) : balanced s1 := by
  obtain ⟨a, l, o, bs, ms, e, c⟩ := h
  intro i
  by_cases hi : i = s.backbuffer_index
  · rw [hi, c]
    simp [hb s.backbuffer_index, e]
  · rw [o i hi]
    exact hb i

theorem stages_emit (s : State) (o : Op) : Stages s (s.emit o) := stages_of_eq rfl rfl
theorem stages_call (s : State) (o : Op) : Stages s (s.call o) := stages_of_eq rfl rfl

theorem stages_resolve_image (E : Env) (name : String) (w h f u : Nat) (s : State) :
    Stages s (resolve_image E name w h f u s).2 := by
  unfold resolve_image
  split <;> exact stages_of_eq rfl rfl

theorem stages_resolve_image_view (E : Env) (name : String) (i f a : Nat) (s : State) :
    Stages s (resolve_image_view E name i f a s).2 := by
  unfold resolve_image_view
  split <;> exact stages_of_eq rfl rfl

theorem stages_resolve_buffer (E : Env) (name : String) (size : Nat) (s : State) :
    Stages s (resolve_buffer E name size s).2 := by
  unfold resolve_buffer
  split <;> exact stages_of_eq rfl rfl

theorem stages_resolve_renderpass (E : Env) (name : String) (b : Bool) (s : State) :
    Stages s (resolve_renderpass E name b s).2 := by
  unfold resolve_renderpass
  split <;> exact stages_of_eq rfl rfl

theorem stages_resolve_framebuffer (E : Env) (name : String) (rp : Nat) (v : List Nat)
    (w h : Nat) (s : State) : Stages s (resolve_framebuffer E name rp v w h s).2 := by
  unfold resolve_framebuffer
  split <;> exact stages_of_eq rfl rfl

theorem stages_resolve_descriptor_set (E : Env) (name : String) (s : State) :
    Stages s (resolve_descriptor_set E name s).2 := by
  unfold resolve_descriptor_set
  split <;> exact stages_of_eq rfl rfl

theorem stages_alloc_devmem (E : Env) (name : String) (size flags : Nat) (b : Bool)
    (s : State) : Stages s (alloc_devmem E name size flags b s).2 := by
  unfold alloc_devmem
  dsimp only
  split <;> exact stages_of_eq rfl rfl

theorem stages_map_and_copy (E : Env) (devmem mapSize : Nat) (data : Option (List Nat))
    (size : Nat) (s : State) : Stages s (map_and_copy E devmem mapSize data size s) := by
  unfold map_and_copy
  dsimp only
  split <;> exact stages_of_eq rfl rfl

theorem stages_image_memory (E : Env) (name : String) (image : Nat) (s : State) :
    Stages s (image_memory E name image s) := by
  unfold image_memory
  refine stages_trans ?_ (stages_emit _ _)
  refine stages_trans ?_ (stages_alloc_devmem _ _ _ _ _ _)
  exact stages_of_eq rfl rfl

theorem stages_ensure_image_memory (E : Env) (name : String) (image : Nat) (s : State) :
    Stages s (ensure_image_memory E name image s) := by
  unfold ensure_image_memory
  split
  · exact stages_image_memory E name image s
  · exact stages_refl s

theorem stages_buffer_memory (E : Env) (name : String) (buffer : Nat)
    (data : Option (List Nat)) (size : Nat) (s : State) :
    Stages s (buffer_memory E name buffer data size s) := by
  unfold buffer_memory
  split
  · refine stages_trans ?_ (stages_map_and_copy _ _ _ _ _ _)
    refine stages_trans ?_ (stages_emit _ _)
    refine stages_trans ?_ (stages_alloc_devmem _ _ _ _ _ _)
    exact stages_of_eq rfl rfl
  · exact stages_refl s

theorem stages_end_open_pass (cb rp : Nat) (s : State) : Stages s (end_open_pass cb rp s) := by
  unfold end_open_pass
  split
  · exact stages_emit _ _
  · exact stages_refl s

theorem stages_begin_pass (cb rp fb w h : Nat) (s : State) :
    Stages s (begin_pass cb rp fb w h s) := by
  unfold begin_pass
  split
  · exact stages_emit _ _
  · exact stages_refl s

/-- The scratch lists after an update of the current slot. -/
theorem scratch_modifyRef (s : State) (f : DeviceBuffer → DeviceBuffer) (i : Nat) :
    (s.modifyRef f).scratch i =
      if i = s.backbuffer_index ∧ i < s.devicebuffer.length then
        ((f (s.devicebuffer.getD i {})).vscratch_buffers,
          (f (s.devicebuffer.getD i {})).vscratch_devmems)
      else s.scratch i := by
  unfold State.modifyRef State.scratch
  simp only [List.getD_eq_getElem?_getD, List.getElem?_modify]
  by_cases hi : i = s.backbuffer_index
  · by_cases hl : i < s.devicebuffer.length
    · have hl1 : s.backbuffer_index < s.devicebuffer.length := hi ▸ hl
      simp [hi, hl1, List.getElem?_eq_getElem hl1]
    · have hl2 : ¬ s.backbuffer_index < s.devicebuffer.length := hi ▸ hl
      simp [hi, hl2, List.getElem?_eq_none (Nat.not_lt.mp hl2)]
  · have : ¬ s.backbuffer_index = i := fun e => hi e.symm
    simp [hi, this]

theorem devicebuffer_alloc_devmem (E : Env) (name : String) (size flags : Nat) (b : Bool)
    (s : State) :
    (alloc_devmem E name size flags b s).2.devicebuffer = s.devicebuffer ∧
    (alloc_devmem E name size flags b s).2.backbuffer_index = s.backbuffer_index := by
  unfold alloc_devmem
  dsimp only
  split <;> exact ⟨rfl, rfl⟩

theorem devicebuffer_map_and_copy (E : Env) (devmem mapSize : Nat) (data : Option (List Nat))
    (size : Nat) (s : State) :
    (map_and_copy E devmem mapSize data size s).devicebuffer = s.devicebuffer ∧
    (map_and_copy E devmem mapSize data size s).backbuffer_index = s.backbuffer_index := by
  unfold map_and_copy
  dsimp only
  split <;> exact ⟨rfl, rfl⟩

theorem devicebuffer_emit (s : State) (o : Op) : (s.emit o).devicebuffer = s.devicebuffer := rfl
theorem devicebuffer_call (s : State) (o : Op) : (s.call o).devicebuffer = s.devicebuffer := rfl
theorem devicebuffer_modifyRef (s : State) (f : DeviceBuffer → DeviceBuffer) :
    (s.modifyRef f).devicebuffer = s.devicebuffer.modify f s.backbuffer_index := rfl
theorem devicebuffer_create_buffer (E : Env) (size : Nat) (s : State) :
    (create_buffer E size s).2.devicebuffer = s.devicebuffer := rfl
theorem index_emit (s : State) (o : Op) : (s.emit o).backbuffer_index = s.backbuffer_index := rfl
theorem index_call (s : State) (o : Op) : (s.call o).backbuffer_index = s.backbuffer_index := rfl
theorem index_modifyRef (s : State) (f : DeviceBuffer → DeviceBuffer) :
    (s.modifyRef f).backbuffer_index = s.backbuffer_index := rfl
theorem index_create_buffer (E : Env) (size : Nat) (s : State) :
    (create_buffer E size s).2.backbuffer_index = s.backbuffer_index := rfl
theorem fst_create_buffer (E : Env) (size : Nat) (s : State) :
    (create_buffer E size s).1 = E.handle s.tick := rfl
theorem tick_create_buffer (E : Env) (size : Nat) (s : State) :
    (create_buffer E size s).2.tick = s.tick + 1 := rfl

/-- The slots after the staging part of a texture upload: the scratch buffer
and then the scratch memory are pushed on the lists of the current slot. -/
theorem devicebuffer_texture_staging (E : Env) (c : cmd) (cb image w h : Nat) (s : State) :
    (texture_staging E c cb image w h s).devicebuffer =
      (s.devicebuffer.modify
          (fun r => { r with vscratch_buffers := r.vscratch_buffers ++ [E.handle s.tick] })
          s.backbuffer_index).modify
        (fun r => { r with vscratch_devmems := r.vscratch_devmems ++ [E.handle (s.tick + 2)] })
        s.backbuffer_index ∧
    (texture_staging E c cb image w h s).backbuffer_index = s.backbuffer_index := by
  unfold texture_staging
  simp only [(devicebuffer_map_and_copy _ _ _ _ _ _).1, (devicebuffer_map_and_copy _ _ _ _ _ _).2,
    (devicebuffer_alloc_devmem _ _ _ _ _ _).1, (devicebuffer_alloc_devmem _ _ _ _ _ _).2,
    devicebuffer_emit, devicebuffer_call, devicebuffer_modifyRef, devicebuffer_create_buffer,
    index_emit, index_call, index_modifyRef, index_create_buffer, fst_alloc_devmem,
    fst_create_buffer, tick_call, tick_modifyRef, tick_create_buffer, Nat.add_assoc, and_self]

/-- The scratch lists after the staging part of a texture upload: the handle
of the scratch buffer it created and the handle of the memory it allocated
are appended to the lists of the current slot; no other slot changes. -/
theorem scratch_texture_staging (E : Env) (c : cmd) (cb image w h : Nat) (s : State) (i : Nat) :
    (texture_staging E c cb image w h s).scratch i =
      if i = s.backbuffer_index ∧ i < s.devicebuffer.length then
        ((s.scratch i).1 ++ [E.handle s.tick], (s.scratch i).2 ++ [E.handle (s.tick + 2)])
      else s.scratch i := by
  have h1 : (texture_staging E c cb image w h s).scratch =
      ((s.modifyRef
          (fun r => { r with vscratch_buffers := r.vscratch_buffers ++ [E.handle s.tick] })).modifyRef
        (fun r => { r with vscratch_devmems := r.vscratch_devmems ++ [E.handle (s.tick + 2)] })).scratch :=
    scratch_of_devicebuffer (devicebuffer_texture_staging E c cb image w h s).1
  rw [h1, scratch_modifyRef, scratch_modifyRef]
  simp only [index_modifyRef, devicebuffer_modifyRef, List.length_modify]
  by_cases hi : i = s.backbuffer_index ∧ i < s.devicebuffer.length
  · obtain ⟨hi1, hi2⟩ := hi
    subst hi1
    simp [hi2, State.scratch, List.getD_eq_getElem?_getD, List.getElem?_modify]
  · simp only [if_neg hi]

theorem stages_texture_staging (E : Env) (c : cmd) (cb image w h : Nat) (s : State) :
    Stages s (texture_staging E c cb image w h s) := by
  refine ⟨(devicebuffer_texture_staging E c cb image w h s).2, ?_, fun i hi => ?_, ?_⟩
  · rw [(devicebuffer_texture_staging E c cb image w h s).1]
    simp
  · rw [scratch_texture_staging, if_neg (fun hx => hi hx.1)]
  · by_cases hl : s.backbuffer_index < s.devicebuffer.length
    · refine ⟨[E.handle s.tick], [E.handle (s.tick + 2)], rfl, ?_⟩
      rw [scratch_texture_staging, if_pos ⟨rfl, hl⟩]
    · refine ⟨[], [], rfl, ?_⟩
      rw [scratch_texture_staging, if_neg (fun hx => hl hx.2)]
      simp

theorem stages_ensure_texture_memory (E : Env) (c : cmd) (cb image w h : Nat) (s : State) :
    Stages s (ensure_texture_memory E c cb image w h s) := by
  unfold ensure_texture_memory
  split
  · exact stages_trans (stages_image_memory E c.name image s) (stages_texture_staging _ _ _ _ _ _ _)
  · exact stages_refl s

/-! ### The scratch lists through the handlers and the loop -/

theorem stages_cmd_set_render_target (E : Env) (c : cmd) (st : Interp) :
    Stages st.s (cmd_set_render_target E c st).st.s := by
  unfold cmd_set_render_target
  simp only [st_ite]
  have key : ∀ s : State, Stages st.s s → Stages st.s (resolve_descriptor_set E c.name s).2 :=
    fun s h => stages_trans h (stages_resolve_descriptor_set _ _ _)
  split
  · refine key _ ?_
    refine stages_trans ?_ (stages_begin_pass _ _ _ _ _ _)
    refine stages_trans ?_ (stages_resolve_framebuffer _ _ _ _ _ _ _)
    refine stages_trans ?_ (stages_resolve_renderpass _ _ _ _)
    refine stages_trans ?_ (stages_resolve_image_view _ _ _ _ _ _)
    refine stages_trans ?_ (stages_ensure_image_memory _ _ _ _)
    refine stages_trans ?_ (stages_resolve_image _ _ _ _ _ _ _)
    refine stages_trans ?_ (stages_resolve_image_view _ _ _ _ _ _)
    refine stages_trans ?_ (stages_ensure_image_memory _ _ _ _)
    refine stages_trans ?_ (stages_resolve_image _ _ _ _ _ _ _)
    refine stages_trans ?_ (stages_emit _ _)
    refine stages_trans ?_ (stages_emit _ _)
    exact stages_end_open_pass _ _ _
  · refine stages_trans ?_ (stages_emit _ _)
    refine key _ ?_
    refine stages_trans ?_ (stages_begin_pass _ _ _ _ _ _)
    refine stages_trans ?_ (stages_resolve_framebuffer _ _ _ _ _ _ _)
    refine stages_trans ?_ (stages_resolve_renderpass _ _ _ _)
    refine stages_trans ?_ (stages_resolve_image_view _ _ _ _ _ _)
    refine stages_trans ?_ (stages_ensure_image_memory _ _ _ _)
    refine stages_trans ?_ (stages_resolve_image _ _ _ _ _ _ _)
    refine stages_trans ?_ (stages_resolve_image_view _ _ _ _ _ _)
    refine stages_trans ?_ (stages_ensure_image_memory _ _ _ _)
    refine stages_trans ?_ (stages_resolve_image _ _ _ _ _ _ _)
    refine stages_trans ?_ (stages_emit _ _)
    refine stages_trans ?_ (stages_emit _ _)
    exact stages_end_open_pass _ _ _

theorem stages_cmd_set_texture (E : Env) (c : cmd) (st : Interp) :
    Stages st.s (cmd_set_texture E c st).st.s := by
  unfold cmd_set_texture
  simp only [st_ite]
  split
  · refine stages_trans ?_ (stages_resolve_image_view _ _ _ _ _ _)
    refine stages_trans ?_ (stages_ensure_texture_memory _ _ _ _ _ _ _)
    exact stages_resolve_image _ _ _ _ _ _ _
  · refine stages_trans ?_ (stages_emit _ _)
    refine stages_trans ?_ (stages_resolve_image_view _ _ _ _ _ _)
    refine stages_trans ?_ (stages_ensure_texture_memory _ _ _ _ _ _ _)
    exact stages_resolve_image _ _ _ _ _ _ _

theorem stages_cmd_set_constant (E : Env) (c : cmd) (st : Interp) :
    Stages st.s (cmd_set_constant E c st).st.s := by
  unfold cmd_set_constant
  simp only [st_ite]
  split
  · refine stages_trans ?_ (stages_buffer_memory _ _ _ _ _ _)
    exact stages_resolve_buffer _ _ _ _
  · refine stages_trans ?_ (stages_emit _ _)
    refine stages_trans ?_ (stages_buffer_memory _ _ _ _ _ _)
    exact stages_resolve_buffer _ _ _ _

theorem stages_cmd_set_vertex (E : Env) (c : cmd) (st : Interp) :
    Stages st.s (cmd_set_vertex E c st).st.s := by
  unfold cmd_set_vertex
  simp only [st_next]
  refine stages_trans ?_ (stages_emit _ _)
  refine stages_trans ?_ (stages_buffer_memory _ _ _ _ _ _)
  exact stages_resolve_buffer _ _ _ _

theorem stages_cmd_set_index (E : Env) (c : cmd) (st : Interp) :
    Stages st.s (cmd_set_index E c st).st.s := by
  unfold cmd_set_index
  simp only [st_next]
  refine stages_trans ?_ (stages_emit _ _)
  refine stages_trans ?_ (stages_buffer_memory _ _ _ _ _ _)
  exact stages_resolve_buffer _ _ _ _

/-- A command leaves the scratch lists of the other slots as they are and
extends the two lists of the current slot by the same number of entries. -/
theorem stages_proc_command (E : Env) (c : cmd) (st : Interp) :
    Stages st.s (proc_command E c st).st.s := by
  unfold proc_command
  dsimp only
  split
  · exact stages_cmd_set_render_target E c ⟨st.s, st.rec_, st.cmd_index + 1⟩
  · exact stages_cmd_set_texture E c ⟨st.s, st.rec_, st.cmd_index + 1⟩
  · exact stages_cmd_set_texture E c ⟨st.s, st.rec_, st.cmd_index + 1⟩
  · exact stages_cmd_set_constant E c ⟨st.s, st.rec_, st.cmd_index + 1⟩
  · exact stages_cmd_set_vertex E c ⟨st.s, st.rec_, st.cmd_index + 1⟩
  · exact stages_cmd_set_index E c ⟨st.s, st.rec_, st.cmd_index + 1⟩
  · exact stages_refl _
  · exact stages_emit _ _
  all_goals exact stages_refl _

theorem stages_proc_commands (E : Env) (cmds : List cmd) (st : Interp) :
    Stages st.s (proc_commands E cmds st).st.s := by
  induction cmds generalizing st with
  | nil => exact stages_refl _
  | cons c rest ih =>
    have h := stages_proc_command E c st
    rw [proc_commands_cons]
    cases hc : proc_command E c st with
    | next st1 =>
      rw [hc] at h
      exact stages_trans h (ih st1)
    | exit st1 =>
      rw [hc] at h
      exact h

/-! ### The scratch lists through the parts of a call -/

theorem devicebuffer_emits (s : State) (os : List Op) :
    (s.emits os).devicebuffer = s.devicebuffer := rfl
theorem index_emits (s : State) (os : List Op) :
    (s.emits os).backbuffer_index = s.backbuffer_index := rfl

theorem devicebuffer_wait_slot (E : Env) (fence : Nat) (s : State) :
    (wait_slot E fence s).devicebuffer = s.devicebuffer ∧
    (wait_slot E fence s).backbuffer_index = s.backbuffer_index := by
  unfold wait_slot
  dsimp only
  split <;> exact ⟨rfl, rfl⟩

theorem devicebuffer_release_scratch (s : State) :
    (release_scratch s).devicebuffer =
      ((s.modifyRef (fun r => { r with vscratch_buffers := [] })).modifyRef
        (fun r => { r with vscratch_devmems := [] })).devicebuffer ∧
    (release_scratch s).backbuffer_index = s.backbuffer_index :=
  ⟨rfl, rfl⟩

/-- The release block empties the two lists of the current slot and leaves
the lists of the other slots as they are. -/
theorem scratch_release_scratch (s : State) (i : Nat) :
    (release_scratch s).scratch i =
      if i = s.backbuffer_index ∧ i < s.devicebuffer.length then ([], []) else s.scratch i := by
  have h1 := scratch_of_devicebuffer (devicebuffer_release_scratch s).1
  rw [h1, scratch_modifyRef, scratch_modifyRef]
  simp only [index_modifyRef, devicebuffer_modifyRef, List.length_modify]
  by_cases hi : i = s.backbuffer_index ∧ i < s.devicebuffer.length
  · obtain ⟨hi1, hi2⟩ := hi
    subst hi1
    simp [hi2, State.scratch, List.getD_eq_getElem?_getD, List.getElem?_modify]
  · simp only [if_neg hi]

theorem devicebuffer_frame_begin (E : Env) (s : State) :
    (frame_begin E s).2.devicebuffer = (release_scratch s).devicebuffer ∧
    (frame_begin E s).2.backbuffer_index = s.backbuffer_index := by
  unfold frame_begin acquire
  simp only [devicebuffer_emit, index_emit, devicebuffer_release_scratch, devicebuffer_modifyRef,
    index_modifyRef, devicebuffer_call, index_call, (devicebuffer_wait_slot _ _ _).1,
    (devicebuffer_wait_slot _ _ _).2, and_self]

/-- The begin of a frame empties the two scratch lists of the current slot and
leaves the lists of the other slots as they are. -/
theorem scratch_frame_begin (E : Env) (s : State) (i : Nat) :
    (frame_begin E s).2.scratch i =
      if i = s.backbuffer_index ∧ i < s.devicebuffer.length then ([], []) else s.scratch i := by
  rw [scratch_of_devicebuffer (devicebuffer_frame_begin E s).1, scratch_release_scratch]

theorem length_frame_begin (E : Env) (s : State) :
    (frame_begin E s).2.devicebuffer.length = s.devicebuffer.length := by
  rw [(devicebuffer_frame_begin E s).1, (devicebuffer_release_scratch s).1]
  simp [devicebuffer_modifyRef]

theorem devicebuffer_end_open_pass (cb rp : Nat) (s : State) :
    (end_open_pass cb rp s).devicebuffer = s.devicebuffer := by
  unfold end_open_pass
  split <;> rfl

theorem devicebuffer_frame_end (E : Env) (present_index : Nat) (st : Interp) :
    (frame_end E present_index st).devicebuffer = st.s.devicebuffer := by
  unfold frame_end
  simp only [devicebuffer_emit, devicebuffer_call, devicebuffer_end_open_pass]

/-! ### The scratch lists through the initialisation block -/

theorem devicebuffer_register_backbuffers (E : Env) (images : List Nat) (i : Nat) (s : State) :
    (register_backbuffers E images i s).devicebuffer = s.devicebuffer := by
  induction images generalizing i s with
  | nil => rfl
  | cons x rest ih =>
    unfold register_backbuffers
    rw [ih]

theorem getD_modify_handles (v : List DeviceBuffer) (cb f i j : Nat) :
    ((v.modify (fun r => { r with cmdbuf := cb, fence := f }) i).getD j {}).vscratch_buffers =
      (v.getD j {}).vscratch_buffers ∧
    ((v.modify (fun r => { r with cmdbuf := cb, fence := f }) i).getD j {}).vscratch_devmems =
      (v.getD j {}).vscratch_devmems := by
  simp only [List.getD_eq_getElem?_getD, List.getElem?_modify]
  by_cases hj : j < v.length
  · rw [List.getElem?_eq_getElem hj]
    by_cases hij : i = j
    · simp [hij]
    · simp [hij]
  · rw [List.getElem?_eq_none (Nat.not_lt.mp hj)]
    simp

theorem scratch_create_frame_resources (E : Env) (k i : Nat) (s : State) :
    (create_frame_resources E k i s).scratch = s.scratch := by
  induction k generalizing i s with
  | zero => rfl
  | succ k ih =>
    unfold create_frame_resources
    dsimp only
    rw [ih]
    funext j
    unfold State.scratch
    dsimp only [State.emit, State.call]
    rw [(getD_modify_handles _ _ _ _ _).1, (getD_modify_handles _ _ _ _ _).2]

theorem scratch_resize (v : List DeviceBuffer) (count j : Nat) :
    (resize v count).getD j {} = if j < count then v.getD j {} else {} := by
  unfold resize
  simp only [List.getD_eq_getElem?_getD]
  by_cases hj : j < count
  · rw [if_pos hj]
    by_cases hv : j < v.length
    · rw [List.getElem?_append_left (by simp [hj, hv])]
      simp [List.getElem?_take, hj]
    · have hv1 : v.length ≤ j := Nat.not_lt.mp hv
      rw [List.getElem?_append_right (by simp; omega)]
      rw [List.getElem?_eq_none hv1]
      simp only [List.length_take, List.getElem?_replicate]
      rw [if_pos (by omega)]
      rfl
  · rw [if_neg hj]
    rw [List.getElem?_eq_none (by simp; omega)]
    rfl

/-- The scratch lists of a slot after the initialisation block are the ones
before it, or empty. -/
theorem scratch_init_block (E : Env) (a : Args) (s : State) (i : Nat) :
    (init_block E a s).state.scratch i = s.scratch i ∨
    (init_block E a s).state.scratch i = ([], []) := by
  unfold init_block
  dsimp only
  split
  · exact Or.inl rfl
  · have h1 : ∀ x : State, (init_descriptors E a x).scratch = x.scratch := fun x => rfl
    have h2 : ∀ x : State, (init_swapchain E a x).devicebuffer = x.devicebuffer := by
      intro x
      unfold init_swapchain
      show (register_backbuffers E _ 0 _).devicebuffer = _
      rw [devicebuffer_register_backbuffers]
    have h3 : (init_swapchain E a (init_device E (init_instance E s).2)).devicebuffer =
        s.devicebuffer := by rw [h2]; rfl
    have key : (init_descriptors E a (init_slots E a (init_swapchain E a
        (init_device E (init_instance E s).2)))).scratch i =
        if i < a.count then s.scratch i else ([], []) := by
      rw [h1]
      unfold init_slots
      rw [scratch_create_frame_resources]
      unfold State.scratch
      dsimp only
      rw [h3, scratch_resize]
      split <;> rfl
    have e : ∀ x : State, (Outcome.returned x).state = x := fun _ => rfl
    rw [e, key]
    by_cases hi : i < a.count
    · rw [if_pos hi]
      exact Or.inl rfl
    · rw [if_neg hi]
      exact Or.inr rfl

theorem balanced_init_block (E : Env) (a : Args) (s : State) (h : balanced s) :
    balanced (init_block E a s).state := by
  intro i
  rcases scratch_init_block E a s i with e | e
  · rw [e]
    exact h i
  · rw [e]

theorem balanced_initial : balanced State.initial := fun _ => rfl

theorem balanced_frame_start (E : Env) (a : Args) (s : State) (h : balanced s) :
    balanced (frame_start E a s) := by
  unfold frame_start
  split
  · exact balanced_init_block E a s h
  · exact h

/-! ### The shape of a call that returns -/

theorem init_frame_start (E : Env) (a : Args) (s : State) :
    Within Op.is_init_op s (frame_start E a s) := by
  unfold frame_start
  split
  · exact init_init_block E a s
  · exact within_refl _ s

theorem frame_start_returned (E : Env) (a : Args) (s s1 : State)
    (h : oden_present_graphics E a s = .returned s1) :
    present_frame E a (frame_start E a s) = .returned s1 := by
  obtain ⟨s0, h0, hf⟩ := oden_present_graphics_returned E a s s1 h
  unfold frame_start
  rcases h0 with ⟨hi, e⟩ | ⟨hi, e⟩
  · rw [if_neg hi, ← e]
    exact hf
  · rw [if_pos hi, e]
    exact hf

theorem index_init_block (E : Env) (a : Args) (s : State) :
    (frame_start E a s).backbuffer_index = s.backbuffer_index := by
  unfold frame_start
  split
  · exact (initKeeps_init_block E a s).backbuffer_index
  · rfl

/-- The calls of a call that returns: those of the initialisation block (none
when `inst` is set), the poll of the slot's fence, the wait and the reset when
the poll found it signaled, the acquisition, the release of the scratch lists
of the slot, the reset and the begin of the command buffer, the calls of the
loop and the calls after the loop. -/
theorem trace_returned_call (E : Env) (a : Args) (s s1 : State)
    (h : oden_present_graphics E a s = .returned s1) :
    ∃ init_ops loop_ops end_ops : List Op,
      s1.trace = s.trace ++ init_ops ++
        (.vkGetFenceStatus (frame_start E a s).ref.fence
            (E.fence_status (frame_start E a s).tick) ::
          (if E.fence_status (frame_start E a s).tick = .VK_SUCCESS then
            [.vkWaitForFences (frame_start E a s).ref.fence,
             .vkResetFences (frame_start E a s).ref.fence]
           else []) ++
         .vkAcquireNextImageKHR (frame_start E a s).ref.fence
            (E.present_index ((frame_start E a s).tick + 1)) ::
          ((frame_start E a s).ref.vscratch_buffers.map Op.vkDestroyBuffer ++
            (frame_start E a s).ref.vscratch_devmems.map Op.vkFreeMemory) ++
         [.vkResetCommandBuffer (frame_start E a s).ref.cmdbuf,
          .vkBeginCommandBuffer (frame_start E a s).ref.cmdbuf]) ++
        loop_ops ++ end_ops ∧
      init_ops.all Op.is_init_op = true ∧ loop_ops.all Op.is_loop_op = true ∧
      end_ops.all Op.is_end_op = true := by
  have hf := frame_start_returned E a s s1 h
  obtain ⟨init_ops, hi1, hi2⟩ := init_frame_start E a s
  generalize frame_start E a s = s0 at hf hi1 ⊢
  obtain ⟨_, st, hp, ha⟩ := present_frame_returned E a s0 s1 hf
  have hl := loop_proc_commands E a.vcmd ⟨(frame_begin E s0).2, {}, 0⟩
  rw [hp] at hl
  obtain ⟨loop_ops, hl1, hl2⟩ := hl
  obtain ⟨end_ops, he1, he2⟩ := end_frame_end E (frame_begin E s0).1 st
  have ht := (advance_returned a _ s1 ha).2.2.2.2.2.2.1
  refine ⟨init_ops, loop_ops, end_ops, ?_, hi2, hl2, he2⟩
  rw [ht, he1]
  simp only [st_next] at hl1
  rw [hl1]
  show (frame_begin E s0).2.trace ++ loop_ops ++ end_ops = _
  rw [trace_frame_begin, hi1]

/-- The slots of a call that returns: the current slot is in range, the
scratch lists of the other slots are the same after the call, and the two
lists of the current slot, emptied when the frame begins, have been extended
by the same number of entries. -/
theorem scratch_returned_call (E : Env) (a : Args) (s s1 : State)
    (h : oden_present_graphics E a s = .returned s1) :
    (frame_start E a s).backbuffer_index < (frame_start E a s).devicebuffer.length ∧
    (frame_begin E (frame_start E a s)).2.scratch (frame_start E a s).backbuffer_index =
      ([], []) ∧
    (∀ i : Nat, i ≠ (frame_start E a s).backbuffer_index →
      s1.scratch i = (frame_start E a s).scratch i) ∧
    ∃ bs ms : List Nat, bs.length = ms.length ∧
      s1.scratch (frame_start E a s).backbuffer_index = (bs, ms) := by
  have hf := frame_start_returned E a s s1 h
  generalize frame_start E a s = s0 at hf ⊢
  obtain ⟨hlt, st, hp, ha⟩ := present_frame_returned E a s0 s1 hf
  have hs := stages_proc_commands E a.vcmd ⟨(frame_begin E s0).2, {}, 0⟩
  rw [hp] at hs
  simp only [st_next] at hs
  have hd : s1.scratch = st.s.scratch :=
    scratch_of_devicebuffer (((advance_returned a _ s1 ha).2.2.2.2.1).trans
      (devicebuffer_frame_end E _ st))
  obtain ⟨_, _, ho, bs, ms, e, c⟩ := hs
  rw [(devicebuffer_frame_begin E s0).2] at ho c
  have hb : (frame_begin E s0).2.scratch s0.backbuffer_index = ([], []) := by
    rw [scratch_frame_begin, if_pos ⟨rfl, hlt⟩]
  refine ⟨hlt, hb, fun i hi => ?_, bs, ms, e, ?_⟩
  · rw [hd, ho i hi, scratch_frame_begin, if_neg (fun hx => hi hx.1)]
  · rw [hd, c, hb]
    rfl

/-! ### C15: the deferred release of the scratch allocations -/

theorem quiet_of_init (o : Op) (h : o.is_init_op = true) :
    (!o.is_release && !o.is_command && !o.is_rerecord) = true := by
  cases o <;> first | rfl | cases h

theorem keeps_of_loop (o : Op) (h : o.is_loop_op = true) : (!o.is_release) = true := by
  cases o <;> first | rfl | cases h

theorem keeps_of_end (o : Op) (h : o.is_end_op = true) : (!o.is_release) = true := by
  cases o <;> first | rfl | cases h

theorem all_of_all {q r : Op → Bool} {ops : List Op} (h : ops.all q = true)
    (hqr : ∀ o, q o = true → r o = true) : ops.all r = true := by
  rw [List.all_eq_true] at h ⊢
  exact fun o ho => hqr o (h o ho)

theorem balanced_returned_call (E : Env) (a : Args) (s s1 : State)
    (h : oden_present_graphics E a s = .returned s1) (hb : balanced s) : balanced s1 := by
  obtain ⟨_, _, ho, bs, ms, e, c⟩ := scratch_returned_call E a s s1 h
  intro i
  by_cases hi : i = (frame_start E a s).backbuffer_index
  · rw [hi, c]
    exact e
  · rw [ho i hi]
    exact balanced_frame_start E a s hb i

theorem balanced_present_calls (E : Env) (calls : List Args) (s s1 : State)
    (h : present_calls E calls s = .returned s1) (hb : balanced s) : balanced s1 := by
  induction calls generalizing s with
  | nil =>
    unfold present_calls at h
    injection h with h
    subst h
    exact hb
  | cons a rest ih =>
    unfold present_calls at h
    cases hc : oden_present_graphics E a s with
    | returned s2 =>
      rw [hc] at h
      exact ih s2 h (balanced_returned_call E a s s2 hc hb)
    | exited s2 =>
      rw [hc] at h
      cases h
    | undefined =>
      rw [hc] at h
      cases h

theorem release_returned_call (E : Env) (a : Args) (s s1 : State)
    (h : oden_present_graphics E a s = .returned s1) :
    ∃ pre post : List Op,
      s1.trace = s.trace ++ pre ++
        (((frame_start E a s).scratch (frame_start E a s).backbuffer_index).1.map
            Op.vkDestroyBuffer ++
          ((frame_start E a s).scratch (frame_start E a s).backbuffer_index).2.map
            Op.vkFreeMemory) ++
        (.vkResetCommandBuffer (frame_start E a s).ref.cmdbuf ::
          .vkBeginCommandBuffer (frame_start E a s).ref.cmdbuf :: post) ∧
      pre.all (fun o => !o.is_release && !o.is_command && !o.is_rerecord) = true ∧
      post.all (fun o => !o.is_release) = true := by
  obtain ⟨init_ops, loop_ops, end_ops, ht, hi, hl, he⟩ := trace_returned_call E a s s1 h
  refine ⟨init_ops ++ (.vkGetFenceStatus (frame_start E a s).ref.fence
            (E.fence_status (frame_start E a s).tick) ::
          (if E.fence_status (frame_start E a s).tick = .VK_SUCCESS then
            [.vkWaitForFences (frame_start E a s).ref.fence,
             .vkResetFences (frame_start E a s).ref.fence]
           else []) ++
         [.vkAcquireNextImageKHR (frame_start E a s).ref.fence
            (E.present_index ((frame_start E a s).tick + 1))]),
    loop_ops ++ end_ops, ?_, ?_, ?_⟩
  · rw [ht]
    simp only [List.append_assoc, List.cons_append, List.nil_append, State.scratch, State.ref]
  · rw [List.all_append, all_of_all hi quiet_of_init]
    split <;> rfl
  · rw [List.all_append, all_of_all hl keeps_of_loop, all_of_all he keeps_of_end]
    rfl

/-- C15 (deferred scratch release).  (1) The staging part of a texture upload
appends the scratch buffer it created and the scratch memory it allocated to
the two scratch lists of the current slot, and destroys nothing.  (2) Every
command of the loop leaves the scratch lists of the other slots as they are
and extends the two lists of the current slot by the same number of entries.
(3) In a call that returns, with `k` the slot the call records into: the two
lists of slot `k` are empty when the loop starts; the lists of every other
slot are after the call what they were before it; equal lengths are kept; and
the only buffers destroyed and memories freed by the call are the ones on the
lists of slot `k` when the call started, in list order, after calls that
record nothing and right before `vkResetCommandBuffer` and
`vkBeginCommandBuffer` on the slot, so before the call records any command.
(4) After any sequence of calls from the initial state the two scratch lists
of every slot have equal length. -/
theorem deferred_scratch_release (E : Env) :
    (∀ (c : cmd) (cb image w h : Nat) (s : State),
      s.backbuffer_index < s.devicebuffer.length →
      (texture_staging E c cb image w h s).scratch s.backbuffer_index =
        ((s.scratch s.backbuffer_index).1 ++ [E.handle s.tick],
          (s.scratch s.backbuffer_index).2 ++ [E.handle (s.tick + 2)]) ∧
      ∃ (size type : Nat) (rest : List Op),
        (texture_staging E c cb image w h s).trace = s.trace ++
          (.vkCreateBuffer c.set_texture_size (E.handle s.tick) ::
            .vkGetBufferMemoryRequirements (E.handle s.tick) (E.memreqs (s.tick + 1)) ::
            .vkAllocateMemory size type (E.handle (s.tick + 2)) :: rest) ∧
        rest.all (fun o => !o.is_release) = true) ∧
    (∀ (c : cmd) (st : Interp), Stages st.s (proc_command E c st).st.s) ∧
    (∀ (a : Args) (s s1 : State), oden_present_graphics E a s = .returned s1 →
      (loop_start E a s).s.scratch (frame_start E a s).backbuffer_index = ([], []) ∧
      (∀ i : Nat, i ≠ (frame_start E a s).backbuffer_index →
        s1.scratch i = (frame_start E a s).scratch i) ∧
      (balanced s → balanced s1) ∧
      ∃ pre post : List Op,
        s1.trace = s.trace ++ pre ++
          (((frame_start E a s).scratch (frame_start E a s).backbuffer_index).1.map
              Op.vkDestroyBuffer ++
            ((frame_start E a s).scratch (frame_start E a s).backbuffer_index).2.map
              Op.vkFreeMemory) ++
          (.vkResetCommandBuffer (frame_start E a s).ref.cmdbuf ::
            .vkBeginCommandBuffer (frame_start E a s).ref.cmdbuf :: post) ∧
        pre.all (fun o => !o.is_release && !o.is_command && !o.is_rerecord) = true ∧
        post.all (fun o => !o.is_release) = true) ∧
    (∀ (calls : List Args) (s1 : State),
      present_calls E calls State.initial = .returned s1 → balanced s1) := by
  refine ⟨fun c cb image w h s hlt => ⟨?_, ?_⟩, stages_proc_command E,
    fun a s s1 h => ⟨?_, ?_, balanced_returned_call E a s s1 h, release_returned_call E a s s1 h⟩,
    fun calls s1 h => balanced_present_calls E calls _ s1 h balanced_initial⟩
  · rw [scratch_texture_staging, if_pos ⟨rfl, hlt⟩]
  · refine ⟨round_size (E.memreqs (s.tick + 1)).size (E.memreqs (s.tick + 1)).alignment,
      memory_type_scan
        (VK_MEMORY_PROPERTY_HOST_VISIBLE_BIT ||| VK_MEMORY_PROPERTY_HOST_COHERENT_BIT)
        s.devicememoryprop 0,
      [.vkBindBufferMemory (E.handle s.tick) (E.handle (s.tick + 2)),
        .vkMapMemory (E.handle (s.tick + 2))
          (round_size (E.memreqs (s.tick + 1)).size (E.memreqs (s.tick + 1)).alignment)
          (E.handle (s.tick + 3))] ++
       (if E.handle (s.tick + 3) ≠ 0 then
          [.memcpy (E.handle (s.tick + 3)) c.set_texture_data c.set_texture_size,
           .vkUnmapMemory (E.handle (s.tick + 2))]
        else [.Sleep 1000]) ++
       [.vkCmdPipelineBarrier cb VK_PIPELINE_STAGE_TOP_OF_PIPE_BIT VK_PIPELINE_STAGE_TRANSFER_BIT
          (get_barrier image VK_IMAGE_ASPECT_COLOR_BIT .PREINITIALIZED .TRANSFER_DST_OPTIMAL 0
            VK_PIPELINE_STAGE_TOP_OF_PIPE_BIT VK_PIPELINE_STAGE_TRANSFER_BIT),
        .vkCmdCopyBufferToImage cb (E.handle s.tick) image .TRANSFER_DST_OPTIMAL w h 1,
        .vkCmdPipelineBarrier cb VK_PIPELINE_STAGE_TRANSFER_BIT
          VK_PIPELINE_STAGE_FRAGMENT_SHADER_BIT
          (get_barrier image VK_IMAGE_ASPECT_COLOR_BIT .TRANSFER_DST_OPTIMAL
            .SHADER_READ_ONLY_OPTIMAL VK_ACCESS_TRANSFER_WRITE_BIT VK_PIPELINE_STAGE_TRANSFER_BIT
            VK_PIPELINE_STAGE_FRAGMENT_SHADER_BIT)], ?_, ?_⟩
    · rw [trace_texture_staging]
      simp only [List.append_assoc, List.cons_append, List.nil_append]
    · simp only [List.all_cons, List.all_append, List.all_nil]
      split <;> rfl
  · exact (scratch_returned_call E a s s1 h).2.1
  · exact (scratch_returned_call E a s s1 h).2.2.1

/-- Witness of `deferred_scratch_release`: the third of three calls that bind
`rt0` and upload `tex`, with two buffers and the sample driver, returns; it
records into slot 0, and the scratch lists of slot 1 are after it what they
were before it. -/
theorem deferred_scratch_release_witness :
    oden_present_graphics sample_env upload_call
        (present_calls sample_env [upload_call, upload_call] State.initial).state =
      .returned (present_calls sample_env [upload_call, upload_call, upload_call]
        State.initial).state ∧
    (frame_start sample_env upload_call
      (present_calls sample_env [upload_call, upload_call] State.initial).state).backbuffer_index
      = 0 ∧
    (present_calls sample_env [upload_call, upload_call, upload_call] State.initial).state.scratch 1
      = (frame_start sample_env upload_call
          (present_calls sample_env [upload_call, upload_call] State.initial).state).scratch 1 :=
  ⟨by rfl, by decide,
    ((deferred_scratch_release sample_env).2.2.1 upload_call _ _ (by rfl)).2.1 1 (by decide)⟩

/-! ### C17: what the poll of the fence gates -/

theorem calm_of_loop (o : Op) (h : o.is_loop_op = true) :
    (!o.is_release && !o.is_rerecord && !o.is_fence_wait) = true := by
  cases o <;> first | rfl | cases h

theorem calm_of_end (o : Op) (h : o.is_end_op = true) :
    (!o.is_release && !o.is_rerecord && !o.is_fence_wait) = true := by
  cases o <;> first | rfl | cases h

/-- C17 (slot reuse and the fence), as the code has it.  In every call that
returns, after the calls of the initialisation block (none when `inst` is
set), the fence of the slot is polled once; when the poll answers `VK_SUCCESS`
the call waits on the fence and resets it, and for any other answer it does
neither; then, whatever the answer was, it acquires the image, destroys the
scratch buffers and frees the scratch memories of the slot, and resets and
begins the command buffer of the slot.  Nothing after that in the call waits
on a fence, releases a scratch allocation or resets a command buffer. -/
theorem slot_reuse_polls_fence (E : Env) (a : Args) (s s1 : State)
    (h : oden_present_graphics E a s = .returned s1) :
    ∃ init_ops post : List Op,
      s1.trace = s.trace ++ init_ops ++
        (.vkGetFenceStatus (frame_start E a s).ref.fence
            (E.fence_status (frame_start E a s).tick) ::
          (if E.fence_status (frame_start E a s).tick = .VK_SUCCESS then
            [.vkWaitForFences (frame_start E a s).ref.fence,
             .vkResetFences (frame_start E a s).ref.fence]
           else []) ++
         .vkAcquireNextImageKHR (frame_start E a s).ref.fence
            (E.present_index ((frame_start E a s).tick + 1)) ::
          ((frame_start E a s).ref.vscratch_buffers.map Op.vkDestroyBuffer ++
            (frame_start E a s).ref.vscratch_devmems.map Op.vkFreeMemory) ++
         [.vkResetCommandBuffer (frame_start E a s).ref.cmdbuf,
          .vkBeginCommandBuffer (frame_start E a s).ref.cmdbuf]) ++
        post ∧
      init_ops.all Op.is_init_op = true ∧
      post.all (fun o => !o.is_release && !o.is_rerecord && !o.is_fence_wait) = true := by
  obtain ⟨init_ops, loop_ops, end_ops, ht, hi, hl, he⟩ := trace_returned_call E a s s1 h
  refine ⟨init_ops, loop_ops ++ end_ops, ?_, hi, ?_⟩
  · rw [ht]
    simp only [List.append_assoc]
  · rw [List.all_append, all_of_all hl calm_of_loop, all_of_all he calm_of_end]
    rfl

/-- Witness of `slot_reuse_polls_fence`: the third of three calls that bind
`rt0` and upload `tex`, with two buffers and the sample driver, returns. -/
theorem slot_reuse_polls_fence_witness :
    oden_present_graphics sample_env upload_call
        (present_calls sample_env [upload_call, upload_call] State.initial).state =
      .returned (present_calls sample_env [upload_call, upload_call, upload_call]
        State.initial).state ∧
    ∃ init_ops post : List Op,
      (present_calls sample_env [upload_call, upload_call, upload_call]
          State.initial).state.trace =
        (present_calls sample_env [upload_call, upload_call] State.initial).state.trace ++
          init_ops ++
          [.vkGetFenceStatus 12 .VK_NOT_READY, .vkAcquireNextImageKHR 12 0, .vkDestroyBuffer 36,
            .vkFreeMemory 38, .vkResetCommandBuffer 11, .vkBeginCommandBuffer 11] ++
          post ∧
      init_ops.all Op.is_init_op = true ∧
      post.all (fun o => !o.is_release && !o.is_rerecord && !o.is_fence_wait) = true :=
  ⟨by rfl, slot_reuse_polls_fence sample_env upload_call _ _ (by rfl)⟩

/-- C17 as stated fails: with the sample driver, two buffers and three calls
that bind `rt0` and upload `tex`, the poll at the start of the third call
answers `VK_NOT_READY` for the fence of slot 0; the call returns, and it
waits on no fence, yet it destroys the scratch buffer and frees the scratch
memory that the first call left on slot 0 and resets and begins the command
buffer of the slot. -/
theorem not_ready_slot_is_reused :
    sample_env.fence_status
      (present_calls sample_env [upload_call, upload_call] State.initial).state.tick =
      .VK_NOT_READY ∧
    (oden_present_graphics sample_env upload_call
      (present_calls sample_env [upload_call, upload_call] State.initial).state).returns = true ∧
    (call_ops sample_env upload_call
      (present_calls sample_env [upload_call, upload_call] State.initial).state).any
        Op.is_fence_wait = false ∧
    (present_calls sample_env [upload_call, upload_call] State.initial).state.scratch 0 =
      ([36], [38]) ∧
    (call_ops sample_env upload_call
      (present_calls sample_env [upload_call, upload_call] State.initial).state).take 6 =
      [.vkGetFenceStatus 12 .VK_NOT_READY, .vkAcquireNextImageKHR 12 0, .vkDestroyBuffer 36,
        .vkFreeMemory 38, .vkResetCommandBuffer 11, .vkBeginCommandBuffer 11] :=
  ⟨by decide, by decide, by decide, by decide, by rfl⟩

/-! ### C18: when a call waits on a fence -/

theorem filter_nil_of_all {q p : Op → Bool} {ops : List Op} (h : ops.all q = true)
    (hp : ∀ o, q o = true → p o = false) : ops.filter p = [] := by
  rw [List.filter_eq_nil_iff]
  rw [List.all_eq_true] at h
  intro o ho
  rw [hp o (h o ho)]
  simp

theorem no_wait_of_init (o : Op) (h : o.is_init_op = true) : o.is_fence_wait = false := by
  cases o <;> first | rfl | cases h

theorem no_wait_of_loop (o : Op) (h : o.is_loop_op = true) : o.is_fence_wait = false := by
  cases o <;> first | rfl | cases h

theorem no_wait_of_end (o : Op) (h : o.is_end_op = true) : o.is_fence_wait = false := by
  cases o <;> first | rfl | cases h

theorem filter_wait_map_destroy (l : List Nat) :
    (l.map Op.vkDestroyBuffer).filter Op.is_fence_wait = [] := by
  induction l with
  | nil => rfl
  | cons x t ih => simp [List.filter_cons, Op.is_fence_wait]

theorem filter_wait_map_free (l : List Nat) :
    (l.map Op.vkFreeMemory).filter Op.is_fence_wait = [] := by
  induction l with
  | nil => rfl
  | cons x t ih => simp [List.filter_cons, Op.is_fence_wait]

/-- The fence waits of a call that returns: one, on the fence of the slot,
when the poll at the start of the call answers `VK_SUCCESS`, and none
otherwise. -/
theorem waits_returned_call (E : Env) (a : Args) (s s1 : State)
    (h : oden_present_graphics E a s = .returned s1) :
    s1.trace.filter Op.is_fence_wait = s.trace.filter Op.is_fence_wait ++
      (if E.fence_status (frame_start E a s).tick = .VK_SUCCESS then
        [.vkWaitForFences (frame_start E a s).ref.fence]
       else []) := by
  obtain ⟨init_ops, loop_ops, end_ops, ht, hi, hl, he⟩ := trace_returned_call E a s s1 h
  rw [ht]
  by_cases hst : E.fence_status (frame_start E a s).tick = .VK_SUCCESS
  · simp only [if_pos hst]
    simp [List.filter_append, List.filter_cons, Op.is_fence_wait,
      filter_nil_of_all hi no_wait_of_init, filter_nil_of_all hl no_wait_of_loop,
      filter_nil_of_all he no_wait_of_end, filter_wait_map_destroy, filter_wait_map_free]
  · simp only [if_neg hst]
    simp [List.filter_append, List.filter_cons, Op.is_fence_wait,
      filter_nil_of_all hi no_wait_of_init, filter_nil_of_all hl no_wait_of_loop,
      filter_nil_of_all he no_wait_of_end, filter_wait_map_destroy, filter_wait_map_free]

theorem settled_refl (s : State) : Settled s s := ⟨rfl, rfl⟩

theorem settled_trans {s s1 s2 : State} (h1 : Settled s s1) (h2 : Settled s1 s2) :
    Settled s s2 :=
  ⟨h2.1.trans h1.1, h2.2.trans h1.2⟩

theorem settled_of_trace {s s1 : State} (ops : List Op) (hm : s1.mmemreqs = s.mmemreqs)
    (ht : s1.trace = s.trace ++ ops) (hq : ops.filter Op.is_alloc = []) : Settled s s1 := by
  refine ⟨hm, ?_⟩
  rw [ht, List.filter_append, hq, List.append_nil]

theorem settled_emit (s : State) (o : Op) (h : o.is_alloc = false) : Settled s (s.emit o) :=
  settled_of_trace [o] rfl rfl (by simp [List.filter_cons, h])

theorem settled_resolve_image (E : Env) (name : String) (w h f u : Nat) (s : State) :
    Settled s (resolve_image E name w h f u s).2 := by
  refine settled_of_trace _ (memreqs_resolve_image _ _ _ _ _ _ _) (trace_resolve_image _ _ _ _ _ _ _) ?_
  split <;> rfl

theorem settled_resolve_image_view (E : Env) (name : String) (i f a : Nat) (s : State) :
    Settled s (resolve_image_view E name i f a s).2 := by
  refine settled_of_trace _ (memreqs_resolve_image_view _ _ _ _ _ _)
    (trace_resolve_image_view _ _ _ _ _ _) ?_
  split <;> rfl

theorem settled_resolve_buffer (E : Env) (name : String) (size : Nat) (s : State) :
    Settled s (resolve_buffer E name size s).2 := by
  refine settled_of_trace _ (memreqs_resolve_buffer _ _ _ _) (trace_resolve_buffer _ _ _ _) ?_
  split <;> rfl

theorem settled_resolve_renderpass (E : Env) (name : String) (b : Bool) (s : State) :
    Settled s (resolve_renderpass E name b s).2 := by
  refine settled_of_trace _ (memreqs_resolve_renderpass _ _ _ _)
    (trace_resolve_renderpass _ _ _ _) ?_
  split <;> rfl

theorem settled_resolve_framebuffer (E : Env) (name : String) (rp : Nat) (v : List Nat)
    (w h : Nat) (s : State) : Settled s (resolve_framebuffer E name rp v w h s).2 := by
  refine settled_of_trace _ (memreqs_resolve_framebuffer _ _ _ _ _ _ _)
    (trace_resolve_framebuffer _ _ _ _ _ _ _) ?_
  split <;> rfl

theorem settled_resolve_descriptor_set (E : Env) (name : String) (s : State) :
    Settled s (resolve_descriptor_set E name s).2 := by
  refine settled_of_trace _ (memreqs_resolve_descriptor_set _ _ _)
    (trace_resolve_descriptor_set _ _ _) ?_
  split <;> rfl

theorem settled_end_open_pass (cb rp : Nat) (s : State) : Settled s (end_open_pass cb rp s) := by
  unfold end_open_pass
  split
  · exact settled_emit _ _ rfl
  · exact settled_refl s

theorem settled_begin_pass (cb rp fb w h : Nat) (s : State) :
    Settled s (begin_pass cb rp fb w h s) := by
  unfold begin_pass
  split
  · exact settled_emit _ _ rfl
  · exact settled_refl s

/-- The memory block of an image does nothing under a name whose requirements
are recorded. -/
theorem settled_ensure_image_memory (E : Env) (name : String) (image : Nat) {s s1 : State}
    (hs : Settled s s1) (h : s.mmemreqs name ≠ none) :
    Settled s (ensure_image_memory E name image s1) := by
  have h1 : s1.mmemreqs name ≠ none := by rw [hs.1]; exact h
  unfold ensure_image_memory
  rw [if_neg h1]
  exact hs

/-- The memory block of a buffer does nothing under a name whose requirements
are recorded. -/
theorem settled_buffer_memory (E : Env) (name : String) (buffer : Nat)
    (data : Option (List Nat)) (size : Nat) {s s1 : State}
    (hs : Settled s s1) (h : s.mmemreqs name ≠ none) :
    Settled s (buffer_memory E name buffer data size s1) := by
  have h1 : s1.mmemreqs name ≠ none := by rw [hs.1]; exact h
  unfold buffer_memory
  rw [if_neg h1]
  exact hs

/-- The memory block of a texture, staging included, does nothing under a name
whose requirements are recorded. -/
theorem settled_ensure_texture_memory (E : Env) (c : cmd) (cb image w h : Nat) {s s1 : State}
    (hs : Settled s s1) (hm : s.mmemreqs c.name ≠ none) :
    Settled s (ensure_texture_memory E c cb image w h s1) := by
  have h1 : s1.mmemreqs c.name ≠ none := by rw [hs.1]; exact hm
  unfold ensure_texture_memory
  rw [if_neg h1]
  exact hs

theorem settled_cmd_set_render_target (E : Env) (c : cmd) (st : Interp)
    (h1 : st.s.mmemreqs c.name ≠ none)
    (h2 : st.s.mmemreqs (E.oden_get_depth_render_target_name c.name) ≠ none) :
    Settled st.s (cmd_set_render_target E c st).st.s := by
  unfold cmd_set_render_target
  simp only [st_ite]
  have key : ∀ s : State, Settled st.s s → Settled st.s (resolve_descriptor_set E c.name s).2 :=
    fun s h => settled_trans h (settled_resolve_descriptor_set _ _ _)
  split
  · refine key _ ?_
    refine settled_trans ?_ (settled_begin_pass _ _ _ _ _ _)
    refine settled_trans ?_ (settled_resolve_framebuffer _ _ _ _ _ _ _)
    refine settled_trans ?_ (settled_resolve_renderpass _ _ _ _)
    refine settled_trans ?_ (settled_resolve_image_view _ _ _ _ _ _)
    refine settled_ensure_image_memory _ _ _ ?_ h2
    refine settled_trans ?_ (settled_resolve_image _ _ _ _ _ _ _)
    refine settled_trans ?_ (settled_resolve_image_view _ _ _ _ _ _)
    refine settled_ensure_image_memory _ _ _ ?_ h1
    refine settled_trans ?_ (settled_resolve_image _ _ _ _ _ _ _)
    refine settled_trans ?_ (settled_emit _ _ rfl)
    refine settled_trans ?_ (settled_emit _ _ rfl)
    exact settled_end_open_pass _ _ _
  · refine settled_trans ?_ (settled_emit _ _ rfl)
    refine key _ ?_
    refine settled_trans ?_ (settled_begin_pass _ _ _ _ _ _)
    refine settled_trans ?_ (settled_resolve_framebuffer _ _ _ _ _ _ _)
    refine settled_trans ?_ (settled_resolve_renderpass _ _ _ _)
    refine settled_trans ?_ (settled_resolve_image_view _ _ _ _ _ _)
    refine settled_ensure_image_memory _ _ _ ?_ h2
    refine settled_trans ?_ (settled_resolve_image _ _ _ _ _ _ _)
    refine settled_trans ?_ (settled_resolve_image_view _ _ _ _ _ _)
    refine settled_ensure_image_memory _ _ _ ?_ h1
    refine settled_trans ?_ (settled_resolve_image _ _ _ _ _ _ _)
    refine settled_trans ?_ (settled_emit _ _ rfl)
    refine settled_trans ?_ (settled_emit _ _ rfl)
    exact settled_end_open_pass _ _ _

theorem settled_cmd_set_texture (E : Env) (c : cmd) (st : Interp)
    (h1 : st.s.mmemreqs c.name ≠ none) : Settled st.s (cmd_set_texture E c st).st.s := by
  unfold cmd_set_texture
  simp only [st_ite]
  split
  · refine settled_trans ?_ (settled_resolve_image_view _ _ _ _ _ _)
    refine settled_ensure_texture_memory _ _ _ _ _ _ ?_ h1
    exact settled_resolve_image _ _ _ _ _ _ _
  · refine settled_trans ?_ (settled_emit _ _ rfl)
    refine settled_trans ?_ (settled_resolve_image_view _ _ _ _ _ _)
    refine settled_ensure_texture_memory _ _ _ _ _ _ ?_ h1
    exact settled_resolve_image _ _ _ _ _ _ _

theorem settled_cmd_set_constant (E : Env) (c : cmd) (st : Interp)
    (h1 : st.s.mmemreqs c.name ≠ none) : Settled st.s (cmd_set_constant E c st).st.s := by
  unfold cmd_set_constant
  simp only [st_ite]
  split
  · refine settled_buffer_memory _ _ _ _ _ ?_ h1
    exact settled_resolve_buffer _ _ _ _
  · refine settled_trans ?_ (settled_emit _ _ rfl)
    refine settled_buffer_memory _ _ _ _ _ ?_ h1
    exact settled_resolve_buffer _ _ _ _

theorem settled_cmd_set_vertex (E : Env) (c : cmd) (st : Interp)
    (h1 : st.s.mmemreqs c.name ≠ none) : Settled st.s (cmd_set_vertex E c st).st.s := by
  unfold cmd_set_vertex
  simp only [st_next]
  refine settled_trans ?_ (settled_emit _ _ rfl)
  refine settled_buffer_memory _ _ _ _ _ ?_ h1
  exact settled_resolve_buffer _ _ _ _

theorem settled_cmd_set_index (E : Env) (c : cmd) (st : Interp)
    (h1 : st.s.mmemreqs c.name ≠ none) : Settled st.s (cmd_set_index E c st).st.s := by
  unfold cmd_set_index
  simp only [st_next]
  refine settled_trans ?_ (settled_emit _ _ rfl)
  refine settled_buffer_memory _ _ _ _ _ ?_ h1
  exact settled_resolve_buffer _ _ _ _

/-- A command whose name has recorded memory requirements (and, for
`CMD_SET_RENDER_TARGET`, whose derived depth name has them too) queries no
memory requirements, allocates nothing and binds nothing, whatever objects it
creates. -/
theorem settled_proc_command (E : Env) (c : cmd) (st : Interp)
    (h1 : st.s.mmemreqs c.name ≠ none)
    (h2 : c.type = .CMD_SET_RENDER_TARGET →
      st.s.mmemreqs (E.oden_get_depth_render_target_name c.name) ≠ none) :
    Settled st.s (proc_command E c st).st.s := by
  unfold proc_command
  dsimp only
  split
  · rename_i hty
    exact settled_cmd_set_render_target E c ⟨st.s, st.rec_, st.cmd_index + 1⟩ h1 (h2 hty)
  · exact settled_cmd_set_texture E c ⟨st.s, st.rec_, st.cmd_index + 1⟩ h1
  · exact settled_cmd_set_texture E c ⟨st.s, st.rec_, st.cmd_index + 1⟩ h1
  · exact settled_cmd_set_constant E c ⟨st.s, st.rec_, st.cmd_index + 1⟩ h1
  · exact settled_cmd_set_vertex E c ⟨st.s, st.rec_, st.cmd_index + 1⟩ h1
  · exact settled_cmd_set_index E c ⟨st.s, st.rec_, st.cmd_index + 1⟩ h1
  · exact settled_refl _
  · exact settled_emit _ _ rfl
  all_goals exact settled_refl _

/-- After the handler of `CMD_SET_RENDER_TARGET`, whether it completes or
exits, the memory requirements of the colour image are recorded under the
name of the command. -/
theorem color_memreqs_set_render_target (E : Env) (c : cmd) (st : Interp) :
    (cmd_set_render_target E c st).st.s.mmemreqs c.name ≠ none := by
  have hk : ∀ (n : String) (image : Nat) (s : State), s.mmemreqs c.name ≠ none →
      (ensure_image_memory E n image s).mmemreqs c.name ≠ none := by
    intro n image s h
    unfold ensure_image_memory
    split
    · unfold image_memory
      show (alloc_devmem E n _ _ true _).2.mmemreqs c.name ≠ none
      rw [memreqs_alloc_devmem]
      show mset s.mmemreqs n _ c.name ≠ none
      unfold mset
      split
      · exact fun hx => Option.noConfusion hx
      · exact h
    · exact h
  unfold cmd_set_render_target
  simp only [st_ite]
  split <;>
    simp only [memreqs_emit, memreqs_resolve_descriptor_set, memreqs_begin_pass,
      memreqs_resolve_framebuffer, memreqs_resolve_renderpass, memreqs_resolve_image_view] <;>
    refine hk _ _ _ ?_ <;>
    simp only [memreqs_resolve_image, memreqs_resolve_image_view] <;>
    exact has_memreqs_ensure_image_memory _ _ _ _

/-! ### C19 and C20: creation, and the memory of what is created -/

/-- After a command that refers to a resource by name (render target,
texture, constant, vertex or index buffer), whatever its calls returned, the
memory requirements of the name are recorded, and for a render target those of
the derived depth name too. -/
theorem has_memreqs_resource_command (E : Env) (c : cmd) (st : Interp)
    (hc : c.type = .CMD_SET_RENDER_TARGET ∨ c.type.uploads = true) :
    (proc_command E c st).st.s.mmemreqs c.name ≠ none ∧
    (c.type = .CMD_SET_RENDER_TARGET →
      (proc_command E c st).st.s.mmemreqs (E.oden_get_depth_render_target_name c.name) ≠
        none) := by
  rcases hc with hc | hc
  · rw [proc_command_render_target E c st hc]
    exact ⟨color_memreqs_set_render_target E c _, fun _ => depth_memreqs_set_render_target E c _⟩
  · refine ⟨has_memreqs_proc_command E c st hc, fun hty => ?_⟩
    rw [hty] at hc
    cases hc

theorem allocs_buffer_memory (E : Env) (name : String) (buffer : Nat)
    (data : Option (List Nat)) (size : Nat) (s : State) :
    (buffer_memory E name buffer data size s).trace.filter Op.is_alloc =
      s.trace.filter Op.is_alloc ++
        (if s.mmemreqs name = none then
          [.vkGetBufferMemoryRequirements buffer (E.memreqs s.tick),
           .vkAllocateMemory (round_size (E.memreqs s.tick).size (E.memreqs s.tick).alignment)
             (memory_type_scan
               (VK_MEMORY_PROPERTY_HOST_VISIBLE_BIT ||| VK_MEMORY_PROPERTY_HOST_COHERENT_BIT)
               s.devicememoryprop 0)
             (E.handle (s.tick + 1)),
           .vkBindBufferMemory buffer (E.handle (s.tick + 1))]
         else []) := by
  rw [trace_buffer_memory, List.filter_append]
  congr 1
  by_cases hm : s.mmemreqs name = none
  · rw [if_pos hm, if_pos hm]
    by_cases hd : E.handle (s.tick + 2) ≠ 0
    · rw [if_pos hd]
      rfl
    · rw [if_neg hd]
      rfl
  · rw [if_neg hm, if_neg hm]
    rfl

theorem allocs_ensure_texture_memory (E : Env) (c : cmd) (cb image w h : Nat) (s : State) :
    (s.mmemreqs c.name = none →
      ∃ (r1 : VkMemoryRequirements) (sz1 ty1 m1 b : Nat) (r2 : VkMemoryRequirements)
          (sz2 ty2 m2 : Nat),
        (ensure_texture_memory E c cb image w h s).trace.filter Op.is_alloc =
          s.trace.filter Op.is_alloc ++
            [.vkGetImageMemoryRequirements image r1, .vkAllocateMemory sz1 ty1 m1,
              .vkBindImageMemory image m1, .vkGetBufferMemoryRequirements b r2,
              .vkAllocateMemory sz2 ty2 m2, .vkBindBufferMemory b m2]) ∧
    (s.mmemreqs c.name ≠ none → ensure_texture_memory E c cb image w h s = s) := by
  constructor
  · intro hm
    refine ⟨E.memreqs s.tick,
      round_size (E.memreqs s.tick).size (E.memreqs s.tick).alignment,
      memory_type_scan VK_MEMORY_PROPERTY_DEVICE_LOCAL_BIT s.devicememoryprop 0,
      E.handle (s.tick + 1),
      E.handle (image_memory E c.name image s).tick,
      E.memreqs ((image_memory E c.name image s).tick + 1),
      round_size (E.memreqs ((image_memory E c.name image s).tick + 1)).size
        (E.memreqs ((image_memory E c.name image s).tick + 1)).alignment,
      memory_type_scan
        (VK_MEMORY_PROPERTY_HOST_VISIBLE_BIT ||| VK_MEMORY_PROPERTY_HOST_COHERENT_BIT)
        (image_memory E c.name image s).devicememoryprop 0,
      E.handle ((image_memory E c.name image s).tick + 2), ?_⟩
    unfold ensure_texture_memory
    rw [if_pos hm, trace_texture_staging, trace_image_memory]
    generalize image_memory E c.name image s = S
    by_cases hd : E.handle (S.tick + 3) ≠ 0
    · rw [if_pos hd]
      simp [List.filter_append, List.filter_cons, Op.is_alloc]
    · rw [if_neg hd]
      simp [List.filter_append, List.filter_cons, Op.is_alloc]
  · intro hm
    unfold ensure_texture_memory
    rw [if_neg hm]

theorem allocs_ensure_image_memory (E : Env) (name : String) (image : Nat) (s : State) :
    (ensure_image_memory E name image s).trace.filter Op.is_alloc =
      s.trace.filter Op.is_alloc ++
        (if s.mmemreqs name = none then
          [.vkGetImageMemoryRequirements image (E.memreqs s.tick),
           .vkAllocateMemory (round_size (E.memreqs s.tick).size (E.memreqs s.tick).alignment)
             (memory_type_scan VK_MEMORY_PROPERTY_DEVICE_LOCAL_BIT s.devicememoryprop 0)
             (E.handle (s.tick + 1)),
           .vkBindImageMemory image (E.handle (s.tick + 1))]
         else []) := by
  rw [trace_ensure_image_memory, List.filter_append]
  congr 1
  split <;> rfl

theorem retry_resolve_image (E : Env) (name : String) (w h f u : Nat) (s : State) :
    (resolve_image E name w h f u s).1 =
      (if s.mimages name = 0 then E.handle s.tick else s.mimages name) ∧
    (resolve_image E name w h f u s).2.mimages name = (resolve_image E name w h f u s).1 ∧
    (resolve_image E name w h f u s).2.trace = s.trace ++
      (if s.mimages name = 0 then
        [.vkCreateImage w h f (u ||| VK_IMAGE_USAGE_TRANSFER_DST_BIT) (E.handle s.tick)]
      else []) := by
  refine ⟨?_, ?_, trace_resolve_image E name w h f u s⟩
  · unfold resolve_image
    split <;> rfl
  · unfold resolve_image
    split
    · simp [mset]
    · rfl

theorem retry_resolve_buffer (E : Env) (name : String) (size : Nat) (s : State) :
    (resolve_buffer E name size s).1 =
      (if s.mbuffers name = 0 then E.handle s.tick else s.mbuffers name) ∧
    (resolve_buffer E name size s).2.mbuffers name = (resolve_buffer E name size s).1 ∧
    (resolve_buffer E name size s).2.trace = s.trace ++
      (if s.mbuffers name = 0 then [.vkCreateBuffer size (E.handle s.tick)] else []) := by
  refine ⟨?_, ?_, trace_resolve_buffer E name size s⟩
  · unfold resolve_buffer
    split <;> rfl
  · unfold resolve_buffer
    split
    · simp [mset]
    · rfl

theorem retry_resolve_image_view (E : Env) (name : String) (i f a : Nat) (s : State) :
    (resolve_image_view E name i f a s).1 =
      (if s.mimageviews name = 0 then E.handle s.tick else s.mimageviews name) ∧
    (resolve_image_view E name i f a s).2.mimageviews name =
      (resolve_image_view E name i f a s).1 ∧
    (resolve_image_view E name i f a s).2.trace = s.trace ++
      (if s.mimageviews name = 0 then [.vkCreateImageView i f a (E.handle s.tick)] else []) := by
  refine ⟨?_, ?_, trace_resolve_image_view E name i f a s⟩
  · unfold resolve_image_view
    split <;> rfl
  · unfold resolve_image_view
    split
    · simp [mset]
    · rfl

theorem devmem_alloc_devmem (E : Env) (name : String) (size flags : Nat) (s : State) :
    (alloc_devmem E name size flags true s).1 = E.handle s.tick ∧
    (alloc_devmem E name size flags true s).2.mdevmem name =
      (if E.handle s.tick ≠ 0 then E.handle s.tick else s.mdevmem name) := by
  unfold alloc_devmem
  dsimp only
  by_cases hd : E.handle s.tick ≠ 0
  · rw [if_pos ⟨rfl, hd⟩, if_pos hd]
    simp [mset]
  · rw [if_neg (fun hx => hd hx.2), if_neg hd]
    exact ⟨rfl, rfl⟩

/-- C19 (creation failures), as the code has it.  (1)-(3) A reference to an
image, a buffer or a view creates it exactly when the entry of the name is
null, and the entry becomes what the creation returned: after a failure it is
still null, and every later reference creates again, until a creation
succeeds.  (4) An allocation that returns null leaves the memory entry of the
name as it was.  (5) The query of the memory requirements, the allocation and
the bind are not retried: after a command that refers to a resource by name
the requirements of the name are recorded, whatever the creation and the
allocation returned; (6) they stay recorded through every later call; and (7)
a command on a name whose requirements are recorded queries, allocates and
binds nothing, also when it creates the object. -/
theorem creation_retried_memory_once (E : Env) :
    (∀ (name : String) (w h f u : Nat) (s : State),
      (resolve_image E name w h f u s).1 =
        (if s.mimages name = 0 then E.handle s.tick else s.mimages name) ∧
      (resolve_image E name w h f u s).2.mimages name = (resolve_image E name w h f u s).1 ∧
      (resolve_image E name w h f u s).2.trace = s.trace ++
        (if s.mimages name = 0 then
          [.vkCreateImage w h f (u ||| VK_IMAGE_USAGE_TRANSFER_DST_BIT) (E.handle s.tick)]
        else [])) ∧
    (∀ (name : String) (size : Nat) (s : State),
      (resolve_buffer E name size s).1 =
        (if s.mbuffers name = 0 then E.handle s.tick else s.mbuffers name) ∧
      (resolve_buffer E name size s).2.mbuffers name = (resolve_buffer E name size s).1 ∧
      (resolve_buffer E name size s).2.trace = s.trace ++
        (if s.mbuffers name = 0 then [.vkCreateBuffer size (E.handle s.tick)] else [])) ∧
    (∀ (name : String) (i f a : Nat) (s : State),
      (resolve_image_view E name i f a s).1 =
        (if s.mimageviews name = 0 then E.handle s.tick else s.mimageviews name) ∧
      (resolve_image_view E name i f a s).2.mimageviews name =
        (resolve_image_view E name i f a s).1 ∧
      (resolve_image_view E name i f a s).2.trace = s.trace ++
        (if s.mimageviews name = 0 then [.vkCreateImageView i f a (E.handle s.tick)]
         else [])) ∧
    (∀ (name : String) (size flags : Nat) (s : State),
      (alloc_devmem E name size flags true s).1 = E.handle s.tick ∧
      (alloc_devmem E name size flags true s).2.mdevmem name =
        (if E.handle s.tick ≠ 0 then E.handle s.tick else s.mdevmem name)) ∧
    (∀ (c : cmd) (st : Interp), c.type = .CMD_SET_RENDER_TARGET ∨ c.type.uploads = true →
      (proc_command E c st).st.s.mmemreqs c.name ≠ none ∧
      (c.type = .CMD_SET_RENDER_TARGET →
        (proc_command E c st).st.s.mmemreqs (E.oden_get_depth_render_target_name c.name) ≠
          none)) ∧
    (∀ (calls : List Args) (s s1 : State) (n : String),
      present_calls E calls s = .returned s1 → s.mmemreqs n ≠ none → s1.mmemreqs n ≠ none) ∧
    (∀ (c : cmd) (st : Interp), st.s.mmemreqs c.name ≠ none →
      (c.type = .CMD_SET_RENDER_TARGET →
        st.s.mmemreqs (E.oden_get_depth_render_target_name c.name) ≠ none) →
      Settled st.s (proc_command E c st).st.s) :=
  ⟨retry_resolve_image E, retry_resolve_buffer E, retry_resolve_image_view E,
    devmem_alloc_devmem E, has_memreqs_resource_command E,
    fun calls s s1 n h hn => present_calls_memreqs E calls s s1 n h hn,
    settled_proc_command E⟩

/-- Witness of `creation_retried_memory_once`: with a driver whose first
`vkCreateImage` returns null, at the start of the loop of a second call the
image entry of `rt0` is null and the requirements of `rt0` and of its depth
name are recorded; `SetRenderTarget("rt0")` then queries, allocates and binds
nothing. -/
theorem creation_retried_memory_once_witness :
    ((loop_start retry_env rt_call
      (present_calls retry_env [rt_call] State.initial).state).s.mmemreqs
        rt0_large.name).isSome = true ∧
    ((loop_start retry_env rt_call
      (present_calls retry_env [rt_call] State.initial).state).s.mmemreqs
        (retry_env.oden_get_depth_render_target_name rt0_large.name)).isSome = true ∧
    (loop_start retry_env rt_call
      (present_calls retry_env [rt_call] State.initial).state).s.mimages rt0_large.name = 0 ∧
    Settled
      (loop_start retry_env rt_call (present_calls retry_env [rt_call] State.initial).state).s
      (proc_command retry_env rt0_large
        (loop_start retry_env rt_call
          (present_calls retry_env [rt_call] State.initial).state)).st.s :=
  ⟨by decide, by decide, by decide,
    (creation_retried_memory_once retry_env).2.2.2.2.2.2 rt0_large
      (loop_start retry_env rt_call (present_calls retry_env [rt_call] State.initial).state)
      (by decide) (fun _ => by decide)⟩

/-- C19 as stated fails: with a driver whose first `vkCreateImage` returns
null, two calls of `SetRenderTarget("rt0")` return; after the first the image
entry of `rt0` is null, the second creates the image (handle 36), and the only
binds of image memory in the whole trace are the one the first call made on
the null image and the one of the depth image (handle 26): the image that the
retry created has no memory bound. -/
theorem retried_image_has_no_memory :
    (present_calls retry_env [rt_call, rt_call] State.initial).returns = true ∧
    (present_calls retry_env [rt_call] State.initial).state.mimages "rt0" = 0 ∧
    (present_calls retry_env [rt_call, rt_call] State.initial).state.mimages "rt0" = 36 ∧
    (present_calls retry_env [rt_call, rt_call] State.initial).state.trace.filterMap
      Op.bound_image = [0, 26] :=
  ⟨by decide, by decide, by decide, by decide⟩

/-- C20 (allocation and creation), as the code has it: the memory steps are
made once per name, at the first reference to the name, and not once per
creation.  (1) The memory block of a render-target image (colour or depth)
under a name without recorded requirements makes exactly one query, one
allocation and one bind, on the image in hand, and under a name with recorded
requirements it makes none.  (2) The same for the memory block of a vertex,
index or constant buffer.  (3) The memory block of a texture under a name
without recorded requirements makes these three calls on the image and then
on the scratch buffer of the upload, and under a name with recorded
requirements it does nothing.  (4) After a command that refers to a resource
by name the requirements of the name are recorded, (5) they stay recorded
through every later call, and (6) a command on a name whose requirements are
recorded queries, allocates and binds nothing, also when it creates an image
or a buffer under that name. -/
theorem allocation_at_first_reference (E : Env) :
    (∀ (name : String) (image : Nat) (s : State),
      (ensure_image_memory E name image s).trace.filter Op.is_alloc =
        s.trace.filter Op.is_alloc ++
          (if s.mmemreqs name = none then
            [.vkGetImageMemoryRequirements image (E.memreqs s.tick),
             .vkAllocateMemory
               (round_size (E.memreqs s.tick).size (E.memreqs s.tick).alignment)
               (memory_type_scan VK_MEMORY_PROPERTY_DEVICE_LOCAL_BIT s.devicememoryprop 0)
               (E.handle (s.tick + 1)),
             .vkBindImageMemory image (E.handle (s.tick + 1))]
           else [])) ∧
    (∀ (name : String) (buffer : Nat) (data : Option (List Nat)) (size : Nat) (s : State),
      (buffer_memory E name buffer data size s).trace.filter Op.is_alloc =
        s.trace.filter Op.is_alloc ++
          (if s.mmemreqs name = none then
            [.vkGetBufferMemoryRequirements buffer (E.memreqs s.tick),
             .vkAllocateMemory
               (round_size (E.memreqs s.tick).size (E.memreqs s.tick).alignment)
               (memory_type_scan
                 (VK_MEMORY_PROPERTY_HOST_VISIBLE_BIT ||| VK_MEMORY_PROPERTY_HOST_COHERENT_BIT)
                 s.devicememoryprop 0)
               (E.handle (s.tick + 1)),
             .vkBindBufferMemory buffer (E.handle (s.tick + 1))]
           else [])) ∧
    (∀ (c : cmd) (cb image w h : Nat) (s : State),
      (s.mmemreqs c.name = none →
        ∃ (r1 : VkMemoryRequirements) (sz1 ty1 m1 b : Nat) (r2 : VkMemoryRequirements)
            (sz2 ty2 m2 : Nat),
          (ensure_texture_memory E c cb image w h s).trace.filter Op.is_alloc =
            s.trace.filter Op.is_alloc ++
              [.vkGetImageMemoryRequirements image r1, .vkAllocateMemory sz1 ty1 m1,
                .vkBindImageMemory image m1, .vkGetBufferMemoryRequirements b r2,
                .vkAllocateMemory sz2 ty2 m2, .vkBindBufferMemory b m2]) ∧
      (s.mmemreqs c.name ≠ none → ensure_texture_memory E c cb image w h s = s)) ∧
    (∀ (c : cmd) (st : Interp), c.type = .CMD_SET_RENDER_TARGET ∨ c.type.uploads = true →
      (proc_command E c st).st.s.mmemreqs c.name ≠ none ∧
      (c.type = .CMD_SET_RENDER_TARGET →
        (proc_command E c st).st.s.mmemreqs (E.oden_get_depth_render_target_name c.name) ≠
          none)) ∧
    (∀ (calls : List Args) (s s1 : State) (n : String),
      present_calls E calls s = .returned s1 → s.mmemreqs n ≠ none → s1.mmemreqs n ≠ none) ∧
    (∀ (c : cmd) (st : Interp), st.s.mmemreqs c.name ≠ none →
      (c.type = .CMD_SET_RENDER_TARGET →
        st.s.mmemreqs (E.oden_get_depth_render_target_name c.name) ≠ none) →
      Settled st.s (proc_command E c st).st.s) :=
  ⟨allocs_ensure_image_memory E, allocs_buffer_memory E, allocs_ensure_texture_memory E,
    has_memreqs_resource_command E,
    fun calls s s1 n h hn => present_calls_memreqs E calls s s1 n h hn,
    settled_proc_command E⟩

/-- Witness of `allocation_at_first_reference`: with the sample driver, at the
start of the loop of a second call of the scenario the requirements of `rt0`
and of its depth name are recorded, and `SetRenderTarget("rt0")` queries,
allocates and binds nothing. -/
theorem allocation_at_first_reference_witness :
    ((loop_start sample_env sample_call
      (present_calls sample_env [sample_call] State.initial).state).s.mmemreqs
        rt0_large.name).isSome = true ∧
    ((loop_start sample_env sample_call
      (present_calls sample_env [sample_call] State.initial).state).s.mmemreqs
        (sample_env.oden_get_depth_render_target_name rt0_large.name)).isSome = true ∧
    Settled
      (loop_start sample_env sample_call
        (present_calls sample_env [sample_call] State.initial).state).s
      (proc_command sample_env rt0_large
        (loop_start sample_env sample_call
          (present_calls sample_env [sample_call] State.initial).state)).st.s :=
  ⟨by decide, by decide,
    (allocation_at_first_reference sample_env).2.2.2.2.2 rt0_large
      (loop_start sample_env sample_call
        (present_calls sample_env [sample_call] State.initial).state)
      (by decide) (fun _ => by decide)⟩

/-- C20 as stated fails: with the sample driver, a call whose command vector is
`SetRenderTarget("rt0")` followed by `SetVertex("rt0")` returns; the vertex
buffer is created (handle 33, the only buffer created, entered under `rt0`),
and no memory requirements of a buffer are queried and no memory is bound to
a buffer: the creation of the buffer comes with no allocation. -/
theorem buffer_created_without_memory :
    (present_calls sample_env [shared_name_call] State.initial).returns = true ∧
    (present_calls sample_env [shared_name_call] State.initial).state.trace.filterMap
      Op.created_buffer = [33] ∧
    (present_calls sample_env [shared_name_call] State.initial).state.mbuffers "rt0" = 33 ∧
    (present_calls sample_env [shared_name_call] State.initial).state.trace.filterMap
      Op.bound_buffer = [] ∧
    ((present_calls sample_env [shared_name_call] State.initial).state.trace.filter
      Op.is_alloc).length = 6 :=
  ⟨by decide, by decide, by decide, by decide, by decide⟩

/-! ### C30: the index arithmetic of `MatrixStack` -/

theorem index_step {M : Type} (identity : M) (s : MatrixStack M) (o : StackOp) :
    (s.step identity o).index < 32 := by
  cases o with
  | Reset => exact Nat.zero_lt_succ 31
  | Push => exact Nat.mod_lt _ (Nat.zero_lt_succ 31)
  | Pop => exact Nat.mod_lt _ (Nat.zero_lt_succ 31)

theorem index_run {M : Type} (identity : M) (ops : List StackOp) (s : MatrixStack M)
    (h : s.index < 32) : (MatrixStack.run identity ops s).index < 32 := by
  unfold MatrixStack.run
  induction ops generalizing s with
  | nil => exact h
  | cons o rest ih =>
    rw [List.foldl_cons]
    exact ih _ (index_step identity s o)

/-- C30: `MatrixStack` with the `unsigned` index and `Max = 32`.  After the
constructor, every sequence of `Reset`, `Push` and `Pop` keeps `index < 32`,
so `GetTop` reads `data[index]` inside `data[0..31]`; from every index in
`[0, 32)` a `Pop` right after a `Push` restores the index, also across the
wrap from 31 to 0; `Push` at 31 gives 0 and `Pop` at 0 gives 31; the test
`index < 0` of `Pop` never holds; and `Push` copies the previous top matrix
into the new top. -/
theorem matrix_stack_index {M : Type} (identity : M) :
    (∀ ops : List StackOp,
      (MatrixStack.run identity ops (MatrixStack.new identity)).index < MatrixStack.Max ∧
      (MatrixStack.run identity ops (MatrixStack.new identity)).GetTop =
        (MatrixStack.run identity ops (MatrixStack.new identity)).data
          ((MatrixStack.run identity ops (MatrixStack.new identity)).index)) ∧
    (∀ s : MatrixStack M, s.index < MatrixStack.Max → s.Push.Pop.1.index = s.index) ∧
    (∀ s : MatrixStack M, s.index = 31 → s.Push.index = 0) ∧
    (∀ s : MatrixStack M, s.index = 0 → s.Pop.1.index = 31) ∧
    (∀ s : MatrixStack M, s.Pop.2 = false) ∧
    (∀ s : MatrixStack M, s.Push.GetTop = s.GetTop) := by
  refine ⟨fun ops => ⟨index_run identity ops _ (Nat.zero_lt_succ 31), rfl⟩, fun s h => ?_,
    fun s h => ?_, fun s h => ?_, fun s => ?_, fun s => ?_⟩
  · show (((s.index + 1) % U32) % MatrixStack.Max + U32 - 1) % U32 % MatrixStack.Max = s.index
    unfold MatrixStack.Max U32 at *
    omega
  · show ((s.index + 1) % U32) % MatrixStack.Max = 0
    rw [h]
    rfl
  · show ((s.index + U32 - 1) % U32) % MatrixStack.Max = 31
    rw [h]
    rfl
  · show decide (((s.index + U32 - 1) % U32) % MatrixStack.Max < 0) = false
    exact decide_eq_false (Nat.not_lt_zero _)
  · show (if ((s.index + 1) % U32) % MatrixStack.Max = ((s.index + 1) % U32) % MatrixStack.Max
      then s.GetTop else _) = s.GetTop
    rw [if_pos rfl]

/-- Witness of `matrix_stack_index`: from index 31 a `Push` gives 0 and the
`Pop` after it gives 31 again. -/
theorem matrix_stack_index_witness :
    ((MatrixStack.mk 31 (fun i => i)).Push.Pop.1.index = 31) ∧
    ((MatrixStack.mk 31 (fun i => i)).Push.index = 0) ∧
    ((MatrixStack.mk 0 (fun i => i)).Pop.1.index = 31) ∧
    ((MatrixStack.mk 31 (fun i => i)).Push.GetTop = 31) :=
  ⟨(matrix_stack_index (0 : Nat)).2.1 (MatrixStack.mk 31 (fun i => i)) (by decide),
    (matrix_stack_index (0 : Nat)).2.2.1 (MatrixStack.mk 31 (fun i => i)) rfl,
    (matrix_stack_index (0 : Nat)).2.2.2.1 (MatrixStack.mk 0 (fun i => i)) rfl,
    by decide⟩

/-! ### C26: the rounding of an allocation size -/

theorem and_clear_low (x k : Nat) (hk : k ≤ 64) (hx : x < 2 ^ 64) :
    x &&& (2 ^ 64 - 1 - (2 ^ k - 1)) = x / 2 ^ k * 2 ^ k := by
  have h1 : 2 ^ k - 1 < 2 ^ 64 :=
    lt_of_lt_of_le (Nat.sub_lt (Nat.two_pow_pos k) (by decide))
      (Nat.pow_le_pow_right (by decide) hk)
  have h2 : 2 ^ 64 - 1 - (2 ^ k - 1) = 2 ^ 64 - ((2 ^ k - 1) + 1) := by omega
  rw [h2]
  have h3 : x / 2 ^ k * 2 ^ k = (x >>> k) <<< k := by
    rw [Nat.shiftLeft_eq, Nat.shiftRight_eq_div_pow]
  rw [h3]
  apply Nat.eq_of_testBit_eq
  intro j
  rw [Nat.testBit_and, Nat.testBit_two_pow_sub_succ h1, Nat.testBit_two_pow_sub_one,
    Nat.testBit_shiftLeft, Nat.testBit_shiftRight]
  by_cases hjk : j < k
  · have : ¬ j ≥ k := by omega
    simp [hjk, this]
  · have hge : j ≥ k := by omega
    have e : k + (j - k) = j := by omega
    by_cases hj : j < 64
    · simp [hjk, hge, hj, e]
    · have hxj : x.testBit j = false :=
        Nat.testBit_lt_two_pow (lt_of_lt_of_le hx (Nat.pow_le_pow_right (by decide) (by omega)))
      simp [hj, hge, e, hxj]

theorem round_size_eq (k size : Nat) (hk : k < 64) (h : size + 2 ^ k - 1 < 2 ^ 64) :
    round_size size (2 ^ k) = (size + 2 ^ k - 1) / 2 ^ k * 2 ^ k := by
  have ha : 0 < 2 ^ k := Nat.two_pow_pos k
  have hb : 2 ^ k < 2 ^ 64 := Nat.pow_lt_pow_right (by decide) hk
  have hm : (2 ^ k + U64 - 1) % U64 = 2 ^ k - 1 := by
    unfold U64
    generalize 2 ^ k = a at ha hb
    omega
  have hx : (size + (2 ^ k - 1)) % U64 = size + 2 ^ k - 1 := by
    unfold U64
    generalize 2 ^ k = a at ha hb h
    omega
  unfold round_size
  simp only [hm, hx]
  exact and_clear_low _ k (Nat.le_of_lt hk) h

theorem round_up_props (a size : Nat) (ha : 0 < a) :
    a ∣ (size + a - 1) / a * a ∧ size ≤ (size + a - 1) / a * a ∧
    (size + a - 1) / a * a < size + a ∧
    (∀ m : Nat, a ∣ m → size ≤ m → (size + a - 1) / a * a ≤ m) := by
  refine ⟨Nat.dvd_mul_left _ _, ?_, ?_, ?_⟩
  · have := Nat.lt_div_mul_add (a := size + a - 1) ha
    omega
  · have := Nat.div_mul_le_self (size + a - 1) a
    omega
  · intro m hm hs
    obtain ⟨q, rfl⟩ := hm
    have h1 : (size + a - 1) / a ≤ q := by
      apply Nat.le_of_lt_succ
      rw [Nat.div_lt_iff_lt_mul ha]
      have e : q.succ * a = a * q + a := by rw [Nat.succ_mul, Nat.mul_comm]
      rw [e]
      omega
    calc (size + a - 1) / a * a ≤ q * a := Nat.mul_le_mul_right a h1
      _ = a * q := Nat.mul_comm q a

theorem round_size_bound (k size : Nat) (hk : k < 64) (h : size + 2 ^ k - 1 < 2 ^ 64) :
    (size + 2 ^ k - 1) / 2 ^ k * 2 ^ k + 2 ^ k - 1 < 2 ^ 64 := by
  have ha : 0 < 2 ^ k := Nat.two_pow_pos k
  have e : (2 : Nat) ^ 64 = 2 ^ (64 - k) * 2 ^ k := by
    rw [← Nat.pow_add]
    congr 1
    omega
  have h1 : (size + 2 ^ k - 1) / 2 ^ k < 2 ^ (64 - k) := by
    rw [Nat.div_lt_iff_lt_mul ha, ← e]
    exact h
  have h2 : ((size + 2 ^ k - 1) / 2 ^ k + 1) * 2 ^ k ≤ 2 ^ (64 - k) * 2 ^ k :=
    Nat.mul_le_mul_right _ h1
  rw [← e, Nat.add_mul, Nat.one_mul] at h2
  omega

theorem round_up_multiple (a q : Nat) (ha : 0 < a) : (q * a + a - 1) / a * a = q * a := by
  have h1 : q * a + a - 1 = a - 1 + a * q := by
    rw [Nat.mul_comm q a]
    omega
  rw [h1, Nat.add_mul_div_left _ _ ha, Nat.div_eq_of_lt (Nat.sub_lt ha (by decide)),
    Nat.zero_add]

/-- C26: with the alignment a power of two `2^k`, `k < 64`, and
`size + 2^k - 1 < 2^64`, the 64-bit computation
`(size + (alignment - 1)) & ~(alignment - 1)` gives the least multiple of the
alignment that is at least `size`: it is a multiple of the alignment, at
least `size`, less than `size + alignment`, and no multiple of the alignment
that is at least `size` is smaller; computing it again on the result changes
nothing; and it covers every payload that is not larger than `size`.  The
memory block of a buffer maps a range of that length. -/
theorem size_rounding (k size : Nat) (hk : k < 64) (h : size + 2 ^ k - 1 < 2 ^ 64) :
    2 ^ k ∣ round_size size (2 ^ k) ∧
    size ≤ round_size size (2 ^ k) ∧
    round_size size (2 ^ k) < size + 2 ^ k ∧
    (∀ m : Nat, 2 ^ k ∣ m → size ≤ m → round_size size (2 ^ k) ≤ m) ∧
    round_size (round_size size (2 ^ k)) (2 ^ k) = round_size size (2 ^ k) ∧
    (∀ payload : Nat, payload ≤ size → payload ≤ round_size size (2 ^ k)) ∧
    (∀ (E : Env) (name : String) (buffer : Nat) (data : Option (List Nat)) (n : Nat)
        (s : State),
      s.mmemreqs name = none → (E.memreqs s.tick).size = size →
      (E.memreqs s.tick).alignment = 2 ^ k →
      ∃ (pre rest : List Op) (devmem dest : Nat),
        (buffer_memory E name buffer data n s).trace =
          s.trace ++ pre ++ .vkMapMemory devmem (round_size size (2 ^ k)) dest :: rest) := by
  have ha : 0 < 2 ^ k := Nat.two_pow_pos k
  have e := round_size_eq k size hk h
  obtain ⟨p1, p2, p3, p4⟩ := round_up_props (2 ^ k) size ha
  rw [← e] at p1 p2 p3 p4
  refine ⟨p1, p2, p3, fun m hm hs => p4 m hm hs, ?_, fun payload hp => Nat.le_trans hp p2, ?_⟩
  · have hb := round_size_bound k size hk h
    rw [← e] at hb
    rw [round_size_eq k _ hk hb]
    obtain ⟨q, hq⟩ := p1
    rw [hq, Nat.mul_comm (2 ^ k) q]
    exact round_up_multiple (2 ^ k) q ha
  · intro E name buffer data n s hm hsz hal
    refine ⟨[.vkGetBufferMemoryRequirements buffer (E.memreqs s.tick),
        .vkAllocateMemory (round_size (E.memreqs s.tick).size (E.memreqs s.tick).alignment)
          (memory_type_scan
            (VK_MEMORY_PROPERTY_HOST_VISIBLE_BIT ||| VK_MEMORY_PROPERTY_HOST_COHERENT_BIT)
            s.devicememoryprop 0)
          (E.handle (s.tick + 1)),
        .vkBindBufferMemory buffer (E.handle (s.tick + 1))],
      (if E.handle (s.tick + 2) ≠ 0 then
        [.memcpy (E.handle (s.tick + 2)) data n, .vkUnmapMemory (E.handle (s.tick + 1))]
       else [.Sleep 1000]),
      E.handle (s.tick + 1), E.handle (s.tick + 2), ?_⟩
    rw [trace_buffer_memory, if_pos hm, hsz, hal]
    simp only [List.append_assoc, List.cons_append, List.nil_append]

/-- Witness of `size_rounding`: size 10 and alignment 16, the requirements of
the sample driver, round to 16. -/
theorem size_rounding_witness :
    round_size 10 (2 ^ 4) = 16 ∧ 2 ^ 4 ∣ round_size 10 (2 ^ 4) ∧ 10 ≤ round_size 10 (2 ^ 4) ∧
    round_size (round_size 10 (2 ^ 4)) (2 ^ 4) = round_size 10 (2 ^ 4) :=
  ⟨by decide, (size_rounding 4 10 (by decide) (by decide)).1,
    (size_rounding 4 10 (by decide) (by decide)).2.1,
    (size_rounding 4 10 (by decide) (by decide)).2.2.2.2.1⟩

/-! ### C27: the memory-type scan without a match -/

/-- C27: when no memory type of the device's list has property flags that
contain the requested flags (the empty list included), `alloc_devmem` does not
stop on that account: the scan leaves `memoryTypeIndex` at `0`, the allocation
is attempted with that index, and what `vkAllocateMemory` answers is returned;
the type of index 0, when the list has one, does not satisfy the request. -/
theorem no_match_fallback (E : Env) (name : String) (size flags : Nat) (b : Bool) (s : State)
    (h : ∀ pf ∈ s.devicememoryprop, pf &&& flags ≠ flags) :
    memory_type_scan flags s.devicememoryprop 0 = 0 ∧
    (alloc_devmem E name size flags b s).2.trace =
      s.trace ++ [.vkAllocateMemory size 0 (E.handle s.tick)] ∧
    (alloc_devmem E name size flags b s).1 = E.handle s.tick ∧
    (∀ pf : Nat, s.devicememoryprop[0]? = some pf → pf &&& flags ≠ flags) := by
  have h0 := scan_no_match flags s.devicememoryprop 0 h
  refine ⟨h0, ?_, fst_alloc_devmem E name size flags b s, fun pf hp => ?_⟩
  · rw [trace_alloc_devmem, h0]
  · exact h pf (List.getElem?_mem hp)

/-- Witness of `no_match_fallback`: with the single memory type of flags 6
(host-visible and coherent) and with no memory type at all, a request for
device-local memory is attempted with index 0 and returns the handle the
driver gives. -/
theorem no_match_fallback_witness :
    (memory_type_scan VK_MEMORY_PROPERTY_DEVICE_LOCAL_BIT [6] 0 = 0 ∧
      (alloc_devmem sample_env "rt0" 16 VK_MEMORY_PROPERTY_DEVICE_LOCAL_BIT true
          { State.initial with devicememoryprop := [6] }).2.trace =
        ({ State.initial with devicememoryprop := [6] } : State).trace ++
          [.vkAllocateMemory 16 0
            (sample_env.handle ({ State.initial with devicememoryprop := [6] } : State).tick)] ∧
      (alloc_devmem sample_env "rt0" 16 VK_MEMORY_PROPERTY_DEVICE_LOCAL_BIT true
          { State.initial with devicememoryprop := [6] }).1 =
        sample_env.handle ({ State.initial with devicememoryprop := [6] } : State).tick ∧
      (∀ pf : Nat, ({ State.initial with devicememoryprop := [6] } : State).devicememoryprop[0]?
        = some pf → pf &&& VK_MEMORY_PROPERTY_DEVICE_LOCAL_BIT ≠
          VK_MEMORY_PROPERTY_DEVICE_LOCAL_BIT)) ∧
    (alloc_devmem sample_env "rt0" 16 VK_MEMORY_PROPERTY_DEVICE_LOCAL_BIT true
      State.initial).1 = 1 ∧
    memory_type_scan VK_MEMORY_PROPERTY_DEVICE_LOCAL_BIT [] 0 = 0 :=
  ⟨no_match_fallback sample_env "rt0" 16 VK_MEMORY_PROPERTY_DEVICE_LOCAL_BIT true
      { State.initial with devicememoryprop := [6] } (by decide),
    by decide, by decide⟩

/-! ### C28: the bindings of the descriptor-set layout -/

theorem vdesc_setlayout_binding_succ (n : Nat) :
    vdesc_setlayout_binding (n + 1) = vdesc_setlayout_binding n ++
      [((RDT_SLOT_SRV + n * RDT_SLOT_MAX) % U32, VkDescriptorType.COMBINED_IMAGE_SAMPLER),
       ((RDT_SLOT_CBV + n * RDT_SLOT_MAX) % U32, VkDescriptorType.UNIFORM_BUFFER),
       ((RDT_SLOT_UAV + n * RDT_SLOT_MAX) % U32, VkDescriptorType.STORAGE_TEXEL_BUFFER)] := by
  unfold vdesc_setlayout_binding
  rw [List.range_succ, List.flatMap_append, List.flatMap_singleton]

theorem length_vdesc_setlayout_binding (n : Nat) :
    (vdesc_setlayout_binding n).length = 3 * n := by
  induction n with
  | zero => rfl
  | succ n ih =>
    rw [vdesc_setlayout_binding_succ, List.length_append, ih]
    simp only [List.length_cons, List.length_nil]
    omega

theorem fst_vdesc_setlayout_binding (n : Nat) (h : 3 * n ≤ 2 ^ 32) :
    (vdesc_setlayout_binding n).map Prod.fst = List.range (3 * n) := by
  induction n with
  | zero => rfl
  | succ n ih =>
    have e : 3 * (n + 1) = 3 * n + 1 + 1 + 1 := by omega
    rw [vdesc_setlayout_binding_succ, List.map_append, ih (by omega), e, List.range_succ,
      List.range_succ, List.range_succ]
    have h0 : (RDT_SLOT_SRV + n * RDT_SLOT_MAX) % U32 = 3 * n := by
      unfold RDT_SLOT_SRV RDT_SLOT_MAX U32
      omega
    have h1 : (RDT_SLOT_CBV + n * RDT_SLOT_MAX) % U32 = 3 * n + 1 := by
      unfold RDT_SLOT_CBV RDT_SLOT_MAX U32
      omega
    have h2 : (RDT_SLOT_UAV + n * RDT_SLOT_MAX) % U32 = 3 * n + 1 + 1 := by
      unfold RDT_SLOT_UAV RDT_SLOT_MAX U32
      omega
    simp only [List.map_cons, List.map_nil, h0, h1, h2, List.append_assoc, List.cons_append,
      List.nil_append]

theorem mem_vdesc_setlayout_binding (n i : Nat) (hi : i < n) :
    ((RDT_SLOT_SRV + i * RDT_SLOT_MAX) % U32, VkDescriptorType.COMBINED_IMAGE_SAMPLER) ∈
      vdesc_setlayout_binding n ∧
    ((RDT_SLOT_CBV + i * RDT_SLOT_MAX) % U32, VkDescriptorType.UNIFORM_BUFFER) ∈
      vdesc_setlayout_binding n ∧
    ((RDT_SLOT_UAV + i * RDT_SLOT_MAX) % U32, VkDescriptorType.STORAGE_TEXEL_BUFFER) ∈
      vdesc_setlayout_binding n := by
  unfold vdesc_setlayout_binding
  simp only [List.mem_flatMap, List.mem_range]
  exact ⟨⟨i, hi, by simp⟩, ⟨i, hi, by simp⟩, ⟨i, hi, by simp⟩⟩

theorem not_mem_vdesc_setlayout_binding (n b : Nat) (ty : VkDescriptorType)
    (h : 3 * n ≤ 2 ^ 32) (hb : 3 * n ≤ b) : (b, ty) ∉ vdesc_setlayout_binding n := by
  intro hm
  have h1 : b ∈ (vdesc_setlayout_binding n).map Prod.fst :=
    List.mem_map.mpr ⟨(b, ty), hm, rfl⟩
  rw [fst_vdesc_setlayout_binding n h, List.mem_range] at h1
  omega

/-- The loop over the slots is defined exactly up to 715827883 slots, and then
gives the vector pushed. -/
theorem layout_bindings_eq_some (n : Nat) (l : List (Nat × VkDescriptorType)) :
    layout_bindings n = some l ↔ n ≤ 715827883 ∧ l = vdesc_setlayout_binding n := by
  unfold layout_bindings
  by_cases h : (n - 1) * RDT_SLOT_MAX ≤ INT_MAX
  · rw [if_pos h]
    unfold RDT_SLOT_MAX INT_MAX at h
    constructor
    · intro e
      injection e with e
      exact ⟨by omega, e.symm⟩
    · intro e
      rw [e.2]
  · rw [if_neg h]
    unfold RDT_SLOT_MAX INT_MAX at h
    constructor
    · intro e
      cases e
    · intro e
      omega

/-- C28 (layout and written bindings), within the range of `int`.  (1) The
initialisation creates the descriptor-set layout from the bindings that the
loop over `slotmax` builds.  (2) The loop is defined, no product
`i * RDT_SLOT_MAX` overflowing `int`, exactly when `slotmax` is at most
715827883.  (3) Then, for `slotmax = n`, the layout has `3n` bindings, a count
below `2^32`; their numbers are `0, 1, ..., 3n - 1`, each once; binding `3i`
is a combined image sampler, `3i + 1` a uniform buffer and `3i + 2` a storage
texel buffer; for every slot `s < n` the binding that `SetTexture` writes and
the one that `SetConstant` writes are in the layout with the descriptor type
of the write; and for every slot `s >= n` whose bindings stay in the range of
`int` (`3s + 2 < 2^31`) the written binding is not in the layout, with any
type; no handler compares the slot with `slotmax`. -/
theorem layout_covers_bindings (E : Env) :
    (∀ (a : Args) (s : State),
      (init_descriptors E a s).trace = s.trace ++
        [.vkCreateSampler false (E.handle s.tick), .vkCreateSampler true (E.handle (s.tick + 1)),
          .vkCreateDescriptorPool a.heapcount (E.handle (s.tick + 2)),
          .vkCreateDescriptorSetLayout (layout_bindings a.slotmax) (E.handle (s.tick + 3)),
          .vkCreatePipelineLayout (E.handle (s.tick + 4))]) ∧
    (∀ n : Nat, (layout_bindings n).isSome = true ↔ n ≤ 715827883) ∧
    (∀ (n : Nat) (l : List (Nat × VkDescriptorType)), layout_bindings n = some l →
      l.length = 3 * n ∧ 3 * n < 2 ^ 32 ∧
      l.map Prod.fst = List.range (3 * n) ∧
      (∀ i : Nat, i < n →
        (3 * i, VkDescriptorType.COMBINED_IMAGE_SAMPLER) ∈ l ∧
        (3 * i + 1, VkDescriptorType.UNIFORM_BUFFER) ∈ l ∧
        (3 * i + 2, VkDescriptorType.STORAGE_TEXEL_BUFFER) ∈ l) ∧
      (∀ s : Nat, s < n →
        ((RDT_SLOT_MAX * s + RDT_SLOT_SRV) % U32, VkDescriptorType.COMBINED_IMAGE_SAMPLER) ∈ l ∧
        ((RDT_SLOT_MAX * s + RDT_SLOT_CBV) % U32, VkDescriptorType.UNIFORM_BUFFER) ∈ l) ∧
      (∀ (s : Nat) (ty : VkDescriptorType), n ≤ s → 3 * s + 2 < 2 ^ 31 →
        ((RDT_SLOT_MAX * s + RDT_SLOT_SRV) % U32, ty) ∉ l ∧
        ((RDT_SLOT_MAX * s + RDT_SLOT_CBV) % U32, ty) ∉ l)) := by
  refine ⟨fun a s => rfl, fun n => ?_, fun n l hl => ?_⟩
  · constructor
    · intro h
      obtain ⟨l, hl⟩ := Option.isSome_iff_exists.mp h
      exact ((layout_bindings_eq_some n l).mp hl).1
    · intro h
      rw [(layout_bindings_eq_some n _).mpr ⟨h, rfl⟩]
      rfl
  obtain ⟨hn, e⟩ := (layout_bindings_eq_some n l).mp hl
  subst e
  have hn32 : 3 * n ≤ 2 ^ 32 := by omega
  refine ⟨length_vdesc_setlayout_binding n, by omega, fst_vdesc_setlayout_binding n hn32,
    fun i hi => ?_, fun s hs => ?_, fun s ty hs hw => ?_⟩
  · obtain ⟨m0, m1, m2⟩ := mem_vdesc_setlayout_binding n i hi
    have h0 : (RDT_SLOT_SRV + i * RDT_SLOT_MAX) % U32 = 3 * i := by
      unfold RDT_SLOT_SRV RDT_SLOT_MAX U32
      omega
    have h1 : (RDT_SLOT_CBV + i * RDT_SLOT_MAX) % U32 = 3 * i + 1 := by
      unfold RDT_SLOT_CBV RDT_SLOT_MAX U32
      omega
    have h2 : (RDT_SLOT_UAV + i * RDT_SLOT_MAX) % U32 = 3 * i + 2 := by
      unfold RDT_SLOT_UAV RDT_SLOT_MAX U32
      omega
    rw [h0] at m0
    rw [h1] at m1
    rw [h2] at m2
    exact ⟨m0, m1, m2⟩
  · obtain ⟨m0, m1, _⟩ := mem_vdesc_setlayout_binding n s hs
    have e0 : RDT_SLOT_MAX * s + RDT_SLOT_SRV = RDT_SLOT_SRV + s * RDT_SLOT_MAX := by
      rw [Nat.mul_comm, Nat.add_comm]
    have e1 : RDT_SLOT_MAX * s + RDT_SLOT_CBV = RDT_SLOT_CBV + s * RDT_SLOT_MAX := by
      rw [Nat.mul_comm, Nat.add_comm]
    rw [e0, e1]
    exact ⟨m0, m1⟩
  · have h0 : (RDT_SLOT_MAX * s + RDT_SLOT_SRV) % U32 = 3 * s := by
      unfold RDT_SLOT_SRV RDT_SLOT_MAX U32
      omega
    have h1 : (RDT_SLOT_MAX * s + RDT_SLOT_CBV) % U32 = 3 * s + 1 := by
      unfold RDT_SLOT_CBV RDT_SLOT_MAX U32
      omega
    rw [h0, h1]
    exact ⟨not_mem_vdesc_setlayout_binding n _ ty hn32 (by omega),
      not_mem_vdesc_setlayout_binding n _ ty hn32 (by omega)⟩

/-- Witness of `layout_covers_bindings`: with the eight shader slots of the
sample the loop is defined and the layout has the bindings 0 to 23; slot 7
writes the bindings 21 and 22, which are in the layout, and slot 8 writes 24
and 25, which are not. -/
theorem layout_covers_bindings_witness :
    layout_bindings ShaderSlotMax = some (vdesc_setlayout_binding ShaderSlotMax) ∧
    (vdesc_setlayout_binding ShaderSlotMax).map Prod.fst = List.range (3 * ShaderSlotMax) ∧
    (((RDT_SLOT_MAX * 7 + RDT_SLOT_SRV) % U32, VkDescriptorType.COMBINED_IMAGE_SAMPLER) ∈
        vdesc_setlayout_binding ShaderSlotMax ∧
      ((RDT_SLOT_MAX * 7 + RDT_SLOT_CBV) % U32, VkDescriptorType.UNIFORM_BUFFER) ∈
        vdesc_setlayout_binding ShaderSlotMax) ∧
    (((RDT_SLOT_MAX * 8 + RDT_SLOT_SRV) % U32, VkDescriptorType.COMBINED_IMAGE_SAMPLER) ∉
        vdesc_setlayout_binding ShaderSlotMax ∧
      ((RDT_SLOT_MAX * 8 + RDT_SLOT_CBV) % U32, VkDescriptorType.COMBINED_IMAGE_SAMPLER) ∉
        vdesc_setlayout_binding ShaderSlotMax) :=
  ⟨by decide,
    ((layout_covers_bindings sample_env).2.2 ShaderSlotMax _ (by decide)).2.2.1,
    ((layout_covers_bindings sample_env).2.2 ShaderSlotMax _ (by decide)).2.2.2.2.1 7
      (by decide),
    ((layout_covers_bindings sample_env).2.2 ShaderSlotMax _ (by decide)).2.2.2.2.2 8 _
      (by decide) (by decide)⟩

/-- C28 fails on the code for a slot count whose loop leaves the range of
`int`: 715827884 is a value of the `uint32_t` parameter `slotmax`; the loop
`for (int i = 0 ; i < slotmax; i++)` then reaches `i = 715827883`, whose
product `i * RDT_SLOT_MAX` exceeds `INT_MAX`, so that the bindings are
undefined, and the first call passes undefined bindings to
`vkCreateDescriptorSetLayout` where the claim has `3n` bindings numbered from
0. -/
theorem layout_loop_overflows :
    overflow_call.slotmax = 715827884 ∧ overflow_call.slotmax < U32 ∧
    715827883 < overflow_call.slotmax ∧ INT_MAX < 715827883 * RDT_SLOT_MAX ∧
    layout_bindings overflow_call.slotmax = none ∧
    (frame_start sample_env overflow_call State.initial).trace[16]? =
      some (.vkCreateDescriptorSetLayout none 18) :=
  ⟨by decide, by decide, by decide, by decide, by decide, by rfl⟩

/-! ### C21: the viewport, the scissor and the render area -/

/-- What the handler of `CMD_SET_RENDER_TARGET` adds to the calls that set the
viewport or the scissor or begin a render pass: the viewport with
origin `(0, 0)` and extent `((float)w, (float)h)`, the scissor with origin
`(0, 0)` and extent `(w, h)`, and at most one begin of a render pass, with
extent `(w, h)`. -/
theorem area_set_render_target (E : Env) (c : cmd) (st : Interp) :
    ∃ rp fb : Nat,
      (cmd_set_render_target E c st).st.s.trace.filter Op.is_area =
        st.s.trace.filter Op.is_area ++
          ([.vkCmdSetViewport st.s.ref.cmdbuf 0 0 (float_of_nat c.set_render_target_rect.w)
              (float_of_nat c.set_render_target_rect.h),
            .vkCmdSetScissor st.s.ref.cmdbuf 0 0 c.set_render_target_rect.w
              c.set_render_target_rect.h] ++
           (if rp ≠ 0 ∧ fb ≠ 0 then
              [.vkCmdBeginRenderPass st.s.ref.cmdbuf rp fb c.set_render_target_rect.w
                c.set_render_target_rect.h]
            else [])) := by
  unfold cmd_set_render_target
  simp only [st_ite]
  split <;> rename_i hx <;> clear hx
  · simp only [trace_emit, trace_resolve_descriptor_set, trace_begin_pass,
      trace_resolve_framebuffer, trace_resolve_renderpass, trace_resolve_image_view,
      trace_ensure_image_memory, trace_resolve_image, trace_end_open_pass,
      List.filter_append, filter_ite_ops]
    simp only [Op.is_area, List.filter_cons, List.filter_nil, Bool.false_eq_true,
      if_false, if_true, ite_self, List.append_nil, List.append_assoc, List.nil_append,
      List.cons_append, List.append_cancel_left_eq]
    exact ⟨_, _, rfl⟩
  · simp only [trace_emit, trace_resolve_descriptor_set, trace_begin_pass,
      trace_resolve_framebuffer, trace_resolve_renderpass, trace_resolve_image_view,
      trace_ensure_image_memory, trace_resolve_image, trace_end_open_pass,
      List.filter_append, filter_ite_ops]
    simp only [Op.is_area, List.filter_cons, List.filter_nil, Bool.false_eq_true,
      if_false, if_true, ite_self, List.append_nil, List.append_assoc, List.nil_append,
      List.cons_append, List.append_cancel_left_eq]
    exact ⟨_, _, rfl⟩

theorem float_exponent_small (k n : Nat) (h : n < 2 ^ 24) : float_exponent k n = 0 := by
  cases k with
  | zero => rfl
  | succ k =>
    unfold float_exponent
    rw [if_pos h]

/-- The conversion to `float` is exact up to `2 ^ 24`. -/
theorem float_of_nat_exact (n : Nat) (h : n ≤ 2 ^ 24) : float_of_nat n = n := by
  rcases Nat.lt_or_ge n (2 ^ 24) with hlt | hge
  · unfold float_of_nat
    simp only [float_exponent_small n n hlt, Nat.pow_zero, Nat.mod_one, Nat.div_one,
      Nat.mul_one, Nat.mul_zero]
    simp
  · have e : n = 2 ^ 24 := Nat.le_antisymm h hge
    rw [e]
    decide

/-- C21 (viewport, scissor and render area), as the code has it: a
`SetRenderTarget(name, rect)` records a viewport whose origin is `(0, 0)` and
whose extent is `((float)rect.w, (float)rect.h)`, and a scissor whose origin
is `(0, 0)` and whose extent is `(rect.w, rect.h)`, whatever `rect.x` and
`rect.y` are (they are read and not used); when it begins a render pass, at
most one, the render area of that pass has extent `(rect.w, rect.h)`.  It
records no other viewport, scissor or begin of a pass.  The conversion to
`float` changes no value up to `2^24`, so that up to there the extent of the
viewport is `(rect.w, rect.h)`. -/
theorem viewport_ignores_origin (E : Env) (c : cmd) (st : Interp)
    (hty : c.type = .CMD_SET_RENDER_TARGET) :
    (∃ rp fb : Nat,
      (proc_command E c st).st.s.trace.filter Op.is_area =
        st.s.trace.filter Op.is_area ++
          ([.vkCmdSetViewport st.s.ref.cmdbuf 0 0 (float_of_nat c.set_render_target_rect.w)
              (float_of_nat c.set_render_target_rect.h),
            .vkCmdSetScissor st.s.ref.cmdbuf 0 0 c.set_render_target_rect.w
              c.set_render_target_rect.h] ++
           (if rp ≠ 0 ∧ fb ≠ 0 then
              [.vkCmdBeginRenderPass st.s.ref.cmdbuf rp fb c.set_render_target_rect.w
                c.set_render_target_rect.h]
            else []))) ∧
    (c.set_render_target_rect.w ≤ 2 ^ 24 →
      float_of_nat c.set_render_target_rect.w = c.set_render_target_rect.w) ∧
    (c.set_render_target_rect.h ≤ 2 ^ 24 →
      float_of_nat c.set_render_target_rect.h = c.set_render_target_rect.h) := by
  refine ⟨?_, float_of_nat_exact _, float_of_nat_exact _⟩
  rw [proc_command_render_target E c st hty]
  exact area_set_render_target E c ⟨st.s, st.rec_, st.cmd_index + 1⟩

/-- Witness of `viewport_ignores_origin`: `SetRenderTarget("rt0", 64x64)` at
the start of the loop of a first call with the sample driver. -/
theorem viewport_ignores_origin_witness :
    (∃ rp fb : Nat,
      (proc_command sample_env rt0_large sample_loop).st.s.trace.filter Op.is_area =
        sample_loop.s.trace.filter Op.is_area ++
          ([.vkCmdSetViewport sample_loop.s.ref.cmdbuf 0 0
              (float_of_nat rt0_large.set_render_target_rect.w)
              (float_of_nat rt0_large.set_render_target_rect.h),
            .vkCmdSetScissor sample_loop.s.ref.cmdbuf 0 0 rt0_large.set_render_target_rect.w
              rt0_large.set_render_target_rect.h] ++
           (if rp ≠ 0 ∧ fb ≠ 0 then
              [.vkCmdBeginRenderPass sample_loop.s.ref.cmdbuf rp fb
                rt0_large.set_render_target_rect.w rt0_large.set_render_target_rect.h]
            else []))) ∧
    float_of_nat rt0_large.set_render_target_rect.w = rt0_large.set_render_target_rect.w ∧
    (proc_command sample_env rt0_large sample_loop).st.s.trace.filterMap Op.viewport_rect =
      [⟨0, 0, 64, 64⟩] :=
  ⟨(viewport_ignores_origin sample_env rt0_large sample_loop rfl).1,
    (viewport_ignores_origin sample_env rt0_large sample_loop rfl).2.1 (by decide),
    by decide⟩

/-- C21 as stated fails: with the sample driver, `SetRenderTarget("rt0", rect)`
with `rect = (8, 16, 64, 64)` records a viewport and a scissor of origin
`(0, 0)` and extent `(64, 64)`, not of origin `(8, 16)`; and with
`rect = (0, 0, 16777217, 64)` it records a viewport of width `16777216`, the
float nearest to the width, and a scissor of width `16777217`. -/
theorem viewport_origin_is_zero :
    rt0_offset.set_render_target_rect = ⟨8, 16, 64, 64⟩ ∧
    (proc_command sample_env rt0_offset sample_loop).st.s.trace.filterMap Op.viewport_rect =
      [⟨0, 0, 64, 64⟩] ∧
    (proc_command sample_env rt0_offset sample_loop).st.s.trace.filterMap Op.scissor_rect =
      [⟨0, 0, 64, 64⟩] ∧
    rt0_wide.set_render_target_rect = ⟨0, 0, 16777217, 64⟩ ∧
    (proc_command sample_env rt0_wide sample_loop).st.s.trace.filterMap Op.viewport_rect =
      [⟨0, 0, 16777216, 64⟩] ∧
    (proc_command sample_env rt0_wide sample_loop).st.s.trace.filterMap Op.scissor_rect =
      [⟨0, 0, 16777217, 64⟩] :=
  ⟨by decide, by decide, by decide, by decide, by decide, by decide⟩

/-! ### C22: when a texture command uploads -/

theorem devicebuffer_resolve_image (E : Env) (name : String) (w h f u : Nat) (s : State) :
    (resolve_image E name w h f u s).2.devicebuffer = s.devicebuffer ∧
    (resolve_image E name w h f u s).2.backbuffer_index = s.backbuffer_index := by
  unfold resolve_image
  split <;> exact ⟨rfl, rfl⟩

theorem devicebuffer_resolve_image_view (E : Env) (name : String) (i f a : Nat) (s : State) :
    (resolve_image_view E name i f a s).2.devicebuffer = s.devicebuffer ∧
    (resolve_image_view E name i f a s).2.backbuffer_index = s.backbuffer_index := by
  unfold resolve_image_view
  split <;> exact ⟨rfl, rfl⟩

theorem devicebuffer_image_memory (E : Env) (name : String) (image : Nat) (s : State) :
    (image_memory E name image s).devicebuffer = s.devicebuffer ∧
    (image_memory E name image s).backbuffer_index = s.backbuffer_index := by
  unfold image_memory
  simp only [devicebuffer_emit, index_emit, (devicebuffer_alloc_devmem _ _ _ _ _ _).1,
    (devicebuffer_alloc_devmem _ _ _ _ _ _).2, devicebuffer_call, index_call, and_self]

theorem staging_resolve_image (E : Env) (name : String) (w h f u : Nat) (s : State) :
    (resolve_image E name w h f u s).2.trace.filter Op.is_staging =
      s.trace.filter Op.is_staging := by
  rw [trace_resolve_image, List.filter_append]
  split <;> simp [List.filter_cons, Op.is_staging]

theorem staging_resolve_image_view (E : Env) (name : String) (i f a : Nat) (s : State) :
    (resolve_image_view E name i f a s).2.trace.filter Op.is_staging =
      s.trace.filter Op.is_staging := by
  rw [trace_resolve_image_view, List.filter_append]
  split <;> simp [List.filter_cons, Op.is_staging]

/-- The memory block of a texture: under a name without recorded requirements
it creates a scratch buffer of the size of the payload, registers it and its
memory on the current slot, maps the memory, copies the payload when the map
succeeded, and records the buffer-to-image copy; under a name with recorded
requirements it does nothing. -/
theorem staging_ensure_texture_memory (E : Env) (c : cmd) (cb image w h : Nat) (s : State) :
    (s.mmemreqs c.name = none →
      ∃ b m sz dest : Nat,
        (ensure_texture_memory E c cb image w h s).trace.filter Op.is_staging =
          s.trace.filter Op.is_staging ++
            (.vkCreateBuffer c.set_texture_size b :: .vkMapMemory m sz dest ::
              ((if dest ≠ 0 then [.memcpy dest c.set_texture_data c.set_texture_size] else []) ++
                [.vkCmdCopyBufferToImage cb b image .TRANSFER_DST_OPTIMAL w h 1])) ∧
        ∀ i : Nat, (ensure_texture_memory E c cb image w h s).scratch i =
          if i = s.backbuffer_index ∧ i < s.devicebuffer.length then
            ((s.scratch i).1 ++ [b], (s.scratch i).2 ++ [m])
          else s.scratch i) ∧
    (s.mmemreqs c.name ≠ none → ensure_texture_memory E c cb image w h s = s) := by
  constructor
  · intro hm
    refine ⟨E.handle (image_memory E c.name image s).tick,
      E.handle ((image_memory E c.name image s).tick + 2),
      round_size (E.memreqs ((image_memory E c.name image s).tick + 1)).size
        (E.memreqs ((image_memory E c.name image s).tick + 1)).alignment,
      E.handle ((image_memory E c.name image s).tick + 3), ?_, fun i => ?_⟩
    · unfold ensure_texture_memory
      rw [if_pos hm, trace_texture_staging, trace_image_memory]
      generalize image_memory E c.name image s = S
      by_cases hd : E.handle (S.tick + 3) ≠ 0
      · rw [if_pos hd, if_pos hd]
        simp [List.filter_append, List.filter_cons, Op.is_staging]
      · rw [if_neg hd, if_neg hd]
        simp [List.filter_append, List.filter_cons, Op.is_staging]
    · unfold ensure_texture_memory
      rw [if_pos hm, scratch_texture_staging, (devicebuffer_image_memory E c.name image s).1,
        (devicebuffer_image_memory E c.name image s).2,
        scratch_of_devicebuffer (devicebuffer_image_memory E c.name image s).1]
  · intro hm
    unfold ensure_texture_memory
    rw [if_neg hm]

/-- The staging steps and the scratch lists after the handler of
`CMD_SET_TEXTURE` are those after its memory block. -/
theorem staging_cmd_set_texture (E : Env) (c : cmd) (st : Interp) :
    (cmd_set_texture E c st).st.s.trace.filter Op.is_staging =
      (ensure_texture_memory E c st.s.ref.cmdbuf
        (resolve_image E c.name (c.set_texture_rect.w % U32) (c.set_texture_rect.h % U32)
          VK_FORMAT_B8G8R8A8_UNORM
          (VK_IMAGE_USAGE_INPUT_ATTACHMENT_BIT ||| VK_IMAGE_USAGE_COLOR_ATTACHMENT_BIT |||
            VK_IMAGE_USAGE_SAMPLED_BIT) st.s).1
        (c.set_texture_rect.w % U32) (c.set_texture_rect.h % U32)
        (resolve_image E c.name (c.set_texture_rect.w % U32) (c.set_texture_rect.h % U32)
          VK_FORMAT_B8G8R8A8_UNORM
          (VK_IMAGE_USAGE_INPUT_ATTACHMENT_BIT ||| VK_IMAGE_USAGE_COLOR_ATTACHMENT_BIT |||
            VK_IMAGE_USAGE_SAMPLED_BIT) st.s).2).trace.filter Op.is_staging ∧
    (cmd_set_texture E c st).st.s.scratch =
      (ensure_texture_memory E c st.s.ref.cmdbuf
        (resolve_image E c.name (c.set_texture_rect.w % U32) (c.set_texture_rect.h % U32)
          VK_FORMAT_B8G8R8A8_UNORM
          (VK_IMAGE_USAGE_INPUT_ATTACHMENT_BIT ||| VK_IMAGE_USAGE_COLOR_ATTACHMENT_BIT |||
            VK_IMAGE_USAGE_SAMPLED_BIT) st.s).1
        (c.set_texture_rect.w % U32) (c.set_texture_rect.h % U32)
        (resolve_image E c.name (c.set_texture_rect.w % U32) (c.set_texture_rect.h % U32)
          VK_FORMAT_B8G8R8A8_UNORM
          (VK_IMAGE_USAGE_INPUT_ATTACHMENT_BIT ||| VK_IMAGE_USAGE_COLOR_ATTACHMENT_BIT |||
            VK_IMAGE_USAGE_SAMPLED_BIT) st.s).2).scratch := by
  unfold cmd_set_texture
  simp only [st_ite]
  split <;> rename_i hx <;> clear hx
  · exact ⟨staging_resolve_image_view _ _ _ _ _ _,
      scratch_of_devicebuffer (devicebuffer_resolve_image_view _ _ _ _ _ _).1⟩
  · refine ⟨?_, ?_⟩
    · rw [trace_emit, List.filter_append, staging_resolve_image_view]
      simp [List.filter_cons, Op.is_staging]
    · exact (scratch_of_devicebuffer (devicebuffer_emit _ _)).trans
        (scratch_of_devicebuffer (devicebuffer_resolve_image_view _ _ _ _ _ _).1)

/-- C22 (texture upload condition), as the code has it: a `SetTexture` or
`SetTextureUAV` performs the staging upload exactly when no memory
requirements are recorded under its name, whether or not it supplies data.
Then it creates a scratch buffer of the size of the payload, maps its memory,
copies the payload when the map succeeded, records the buffer-to-image copy of
extent `(w, h, 1)`, and registers the scratch buffer and its memory on the
lists of the current slot.  When requirements are recorded under the name it
performs none of these steps and leaves the scratch lists as they are, also
when it creates the image. -/
theorem texture_upload_condition (E : Env) (c : cmd) (st : Interp)
    (hty : c.type = .CMD_SET_TEXTURE ∨ c.type = .CMD_SET_TEXTURE_UAV) :
    (st.s.mmemreqs c.name = none →
      ∃ image b m sz dest : Nat,
        (proc_command E c st).st.s.trace.filter Op.is_staging =
          st.s.trace.filter Op.is_staging ++
            (.vkCreateBuffer c.set_texture_size b :: .vkMapMemory m sz dest ::
              ((if dest ≠ 0 then [.memcpy dest c.set_texture_data c.set_texture_size] else []) ++
                [.vkCmdCopyBufferToImage st.s.ref.cmdbuf b image .TRANSFER_DST_OPTIMAL
                  (c.set_texture_rect.w % U32) (c.set_texture_rect.h % U32) 1])) ∧
        ∀ i : Nat, (proc_command E c st).st.s.scratch i =
          if i = st.s.backbuffer_index ∧ i < st.s.devicebuffer.length then
            ((st.s.scratch i).1 ++ [b], (st.s.scratch i).2 ++ [m])
          else st.s.scratch i) ∧
    (st.s.mmemreqs c.name ≠ none →
      (proc_command E c st).st.s.trace.filter Op.is_staging = st.s.trace.filter Op.is_staging ∧
      (proc_command E c st).st.s.scratch = st.s.scratch) := by
  rw [proc_command_texture E c st hty]
  obtain ⟨ht, hs⟩ := staging_cmd_set_texture E c ⟨st.s, st.rec_, st.cmd_index + 1⟩
  dsimp only at ht hs
  rw [ht, hs]
  have hm := memreqs_resolve_image E c.name (c.set_texture_rect.w % U32)
    (c.set_texture_rect.h % U32) VK_FORMAT_B8G8R8A8_UNORM
    (VK_IMAGE_USAGE_INPUT_ATTACHMENT_BIT ||| VK_IMAGE_USAGE_COLOR_ATTACHMENT_BIT |||
      VK_IMAGE_USAGE_SAMPLED_BIT) st.s
  have hf := staging_resolve_image E c.name (c.set_texture_rect.w % U32)
    (c.set_texture_rect.h % U32) VK_FORMAT_B8G8R8A8_UNORM
    (VK_IMAGE_USAGE_INPUT_ATTACHMENT_BIT ||| VK_IMAGE_USAGE_COLOR_ATTACHMENT_BIT |||
      VK_IMAGE_USAGE_SAMPLED_BIT) st.s
  have hd := devicebuffer_resolve_image E c.name (c.set_texture_rect.w % U32)
    (c.set_texture_rect.h % U32) VK_FORMAT_B8G8R8A8_UNORM
    (VK_IMAGE_USAGE_INPUT_ATTACHMENT_BIT ||| VK_IMAGE_USAGE_COLOR_ATTACHMENT_BIT |||
      VK_IMAGE_USAGE_SAMPLED_BIT) st.s
  generalize resolve_image E c.name (c.set_texture_rect.w % U32)
    (c.set_texture_rect.h % U32) VK_FORMAT_B8G8R8A8_UNORM
    (VK_IMAGE_USAGE_INPUT_ATTACHMENT_BIT ||| VK_IMAGE_USAGE_COLOR_ATTACHMENT_BIT |||
      VK_IMAGE_USAGE_SAMPLED_BIT) st.s = rc at hm hf hd ⊢
  obtain ⟨k1, k2⟩ := staging_ensure_texture_memory E c st.s.ref.cmdbuf rc.1
    (c.set_texture_rect.w % U32) (c.set_texture_rect.h % U32) rc.2
  rw [hm] at k1 k2
  constructor
  · intro hn
    obtain ⟨b, m, sz, dest, e1, e2⟩ := k1 hn
    refine ⟨rc.1, b, m, sz, dest, ?_, fun i => ?_⟩
    · rw [e1, hf]
    · rw [e2 i, hd.1, hd.2, scratch_of_devicebuffer hd.1]
  · intro hn
    rw [k2 hn]
    exact ⟨hf, scratch_of_devicebuffer hd.1⟩

/-- Witness of `texture_upload_condition`: with the sample driver, after
`SetRenderTarget("rt0")` in a first call, a second `SetTexture("tex")` (the
name has recorded requirements after the first one) performs no staging step
and registers nothing. -/
theorem texture_upload_condition_witness :
    ((proc_commands sample_env [rt0_large, tex_first] sample_loop).st.s.mmemreqs
      tex_second.name).isSome = true ∧
    (proc_command sample_env tex_second
        (proc_commands sample_env [rt0_large, tex_first] sample_loop).st).st.s.trace.filter
        Op.is_staging =
      (proc_commands sample_env [rt0_large, tex_first] sample_loop).st.s.trace.filter
        Op.is_staging ∧
    (proc_command sample_env tex_second
        (proc_commands sample_env [rt0_large, tex_first] sample_loop).st).st.s.scratch =
      (proc_commands sample_env [rt0_large, tex_first] sample_loop).st.s.scratch :=
  ⟨by decide,
    (texture_upload_condition sample_env tex_second
      (proc_commands sample_env [rt0_large, tex_first] sample_loop).st (Or.inl rfl)).2
      (by decide)⟩

/-- C22 as stated fails: with the sample driver, in a first call
`SetRenderTarget("rt0")` followed by a `SetTexture("tex")` that supplies no
data (null pointer, size 0) under a name not yet in the directory, the call
returns and the upload is performed all the same: a scratch buffer of size 0
is created (handle 36), its memory is mapped, `memcpy` is called with the null
payload and size 0, the buffer-to-image copy is recorded, and the scratch
buffer and memory are registered on slot 0. -/
theorem upload_without_data :
    tex_nodata.set_texture_data = none ∧ tex_nodata.set_texture_size = 0 ∧
    (present_calls sample_env [nodata_call] State.initial).returns = true ∧
    (present_calls sample_env [nodata_call] State.initial).state.trace.filterMap
      Op.created_buffer = [36] ∧
    (present_calls sample_env [nodata_call] State.initial).state.trace.filter Op.is_staging =
      [.vkCreateBuffer 0 36, .vkMapMemory 38 16 39, .memcpy 39 none 0,
        .vkCmdCopyBufferToImage 11 36 33 .TRANSFER_DST_OPTIMAL 0 0 1] ∧
    (present_calls sample_env [nodata_call] State.initial).state.scratch 0 = ([36], [38]) :=
  ⟨by decide, by decide, by decide, by decide, by rfl, by decide⟩

/-! ### C25: the commands of an upload -/

/-- The commands that the staging part of a texture upload records, in order:
a barrier from `PREINITIALIZED` to `TRANSFER_DST_OPTIMAL` (destination access
transfer-write), the copy of extent `(w, h, 1)` from the scratch buffer into
the image in layout `TRANSFER_DST_OPTIMAL`, and a barrier from
`TRANSFER_DST_OPTIMAL` to `SHADER_READ_ONLY_OPTIMAL` (source access
transfer-write, destination access shader-read and input-attachment-read). -/
theorem commands_texture_staging (E : Env) (c : cmd) (cb image w h : Nat) (s : State) :
    (texture_staging E c cb image w h s).trace.filter Op.is_command =
      s.trace.filter Op.is_command ++
        [.vkCmdPipelineBarrier cb VK_PIPELINE_STAGE_TOP_OF_PIPE_BIT VK_PIPELINE_STAGE_TRANSFER_BIT
            { srcAccessMask := 0
              dstAccessMask := VK_ACCESS_TRANSFER_WRITE_BIT
              oldLayout := .PREINITIALIZED
              newLayout := .TRANSFER_DST_OPTIMAL
              image := image
              aspectMask := VK_IMAGE_ASPECT_COLOR_BIT },
          .vkCmdCopyBufferToImage cb (E.handle s.tick) image .TRANSFER_DST_OPTIMAL w h 1,
          .vkCmdPipelineBarrier cb VK_PIPELINE_STAGE_TRANSFER_BIT
            VK_PIPELINE_STAGE_FRAGMENT_SHADER_BIT
            { srcAccessMask := VK_ACCESS_TRANSFER_WRITE_BIT
              dstAccessMask := VK_ACCESS_SHADER_READ_BIT ||| VK_ACCESS_INPUT_ATTACHMENT_READ_BIT
              oldLayout := .TRANSFER_DST_OPTIMAL
              newLayout := .SHADER_READ_ONLY_OPTIMAL
              image := image
              aspectMask := VK_IMAGE_ASPECT_COLOR_BIT }] := by
  rw [trace_texture_staging]
  by_cases hd : E.handle (s.tick + 3) ≠ 0
  · rw [if_pos hd]
    simp [List.filter_append, List.filter_cons, Op.is_command, get_barrier]
  · rw [if_neg hd]
    simp [List.filter_append, List.filter_cons, Op.is_command, get_barrier]

/-- C25, the code at `SetRenderTarget("rt0")` followed by
`SetTexture("tex", 4x4, 64 bytes)` in a first call with the sample driver: the
call returns, and the barriers it records are, in order, one on the image of
`tex` (handle 33) from old layout `PREINITIALIZED` to `TRANSFER_DST_OPTIMAL`
with destination access transfer-write, and one from `TRANSFER_DST_OPTIMAL` to
`SHADER_READ_ONLY_OPTIMAL` with source access transfer-write and destination
access shader-read and input-attachment-read; `create_image` creates every
image in layout `UNDEFINED`.  The old layout of the first barrier is not the
`UNDEFINED` of the claim and of the creation. -/
theorem upload_barrier_old_layout :
    (present_calls sample_env [upload_call] State.initial).returns = true ∧
    (present_calls sample_env [upload_call] State.initial).state.trace.filterMap Op.barrier =
      [{ srcAccessMask := 0
         dstAccessMask := VK_ACCESS_TRANSFER_WRITE_BIT
         oldLayout := .PREINITIALIZED
         newLayout := .TRANSFER_DST_OPTIMAL
         image := 33
         aspectMask := VK_IMAGE_ASPECT_COLOR_BIT },
       { srcAccessMask := VK_ACCESS_TRANSFER_WRITE_BIT
         dstAccessMask := VK_ACCESS_SHADER_READ_BIT ||| VK_ACCESS_INPUT_ATTACHMENT_READ_BIT
         oldLayout := .TRANSFER_DST_OPTIMAL
         newLayout := .SHADER_READ_ONLY_OPTIMAL
         image := 33
         aspectMask := VK_IMAGE_ASPECT_COLOR_BIT }] ∧
    create_image_initialLayout = .UNDEFINED ∧
    (present_calls sample_env [upload_call] State.initial).state.mimages "tex" = 33 :=
  ⟨by decide, by decide, rfl, by decide⟩

/-! ### C23: the order of the steps of a call -/

theorem loop_start_eq (E : Env) (a : Args) (s : State) :
    loop_start E a s = ⟨(frame_begin E (frame_start E a s)).2, {}, 0⟩ := rfl

theorem fence_of_fixed {s s1 : State} (h : s1.fixed = s.fixed) :
    s1.ref.fence = s.ref.fence :=
  congrArg FixedPart.fence h

theorem trace_of_next (E : Env) (cmds : List cmd) (st st1 : Interp)
    (h : proc_commands E cmds st = .next st1) :
    ∃ ops : List Op, st1.s.trace = st.s.trace ++ ops ∧ ops.all Op.is_loop_op = true := by
  have hl := loop_proc_commands E cmds st
  rw [h] at hl
  exact hl

/-- C23: a call that returns makes, after the calls of the initialisation
block (which only runs when `inst` is null), these calls in this order: the
poll of the slot's fence, and a wait and a reset of it when the poll reports it
signaled; the acquisition of the next image with the slot's fence; the
destruction of the slot's scratch buffers and the release of its scratch
memories; the reset and the begin of the slot's command buffer; the calls of
the loop over the whole command vector, those of any first part of the vector
before those of the rest; the end of a pass that is still open; the end of the
command buffer; a second poll of the fence (only logged) and the reset of the
fence; the submission of the command buffer with that fence; the presentation
of the image index that the acquisition of this call returned.  The frame
counter is then one more (on 64 bits) and the slot index is the counter modulo
`count`. -/
theorem frame_step_order (E : Env) (a : Args) (s s1 : State)
    (h : oden_present_graphics E a s = .returned s1) :
    Within Op.is_init_op s (frame_start E a s) ∧
    (s.inst ≠ 0 → frame_start E a s = s) ∧
    ∃ (st : Interp) (loop_ops : List Op),
      proc_commands E a.vcmd (loop_start E a s) = .next st ∧
      st.s.trace = (loop_start E a s).s.trace ++ loop_ops ∧
      loop_ops.all Op.is_loop_op = true ∧
      s1.trace = (frame_start E a s).trace ++
        (.vkGetFenceStatus (frame_start E a s).ref.fence
            (E.fence_status (frame_start E a s).tick) ::
          (if E.fence_status (frame_start E a s).tick = .VK_SUCCESS then
            [.vkWaitForFences (frame_start E a s).ref.fence,
             .vkResetFences (frame_start E a s).ref.fence]
           else []) ++
         .vkAcquireNextImageKHR (frame_start E a s).ref.fence
            (E.present_index ((frame_start E a s).tick + 1)) ::
          ((frame_start E a s).ref.vscratch_buffers.map Op.vkDestroyBuffer ++
            (frame_start E a s).ref.vscratch_devmems.map Op.vkFreeMemory) ++
         [.vkResetCommandBuffer (frame_start E a s).ref.cmdbuf,
          .vkBeginCommandBuffer (frame_start E a s).ref.cmdbuf]) ++
        loop_ops ++
        ((if st.rec_.renderpass ≠ 0 then
            [.vkCmdEndRenderPass (frame_start E a s).ref.cmdbuf] else []) ++
         [.vkEndCommandBuffer (frame_start E a s).ref.cmdbuf,
          .vkGetFenceStatus (frame_start E a s).ref.fence (E.fence_status st.s.tick),
          .vkResetFences (frame_start E a s).ref.fence,
          .vkQueueSubmit (frame_start E a s).ref.cmdbuf (frame_start E a s).ref.fence,
          .vkQueuePresentKHR (E.present_index ((frame_start E a s).tick + 1))]) ∧
      (∀ pre post : List cmd, a.vcmd = pre ++ post →
        ∃ (mid : Interp) (pre_ops post_ops : List Op),
          proc_commands E pre (loop_start E a s) = .next mid ∧
          proc_commands E post mid = .next st ∧
          mid.s.trace = (loop_start E a s).s.trace ++ pre_ops ∧
          loop_ops = pre_ops ++ post_ops) ∧
      s1.frame_count = (s.frame_count + 1) % U64 ∧
      s1.backbuffer_index = s1.frame_count % a.count := by
  have hadv := call_advance E a s s1 h
  have hf := frame_start_returned E a s s1 h
  refine ⟨init_frame_start E a s, fun hi => ?_, ?_⟩
  · unfold frame_start
    rw [if_neg hi]
  rw [loop_start_eq]
  generalize frame_start E a s = s0 at hf ⊢
  obtain ⟨_, st, hp, ha⟩ := present_frame_returned E a s0 s1 hf
  obtain ⟨loop_ops, hl1, hl2⟩ := trace_of_next E a.vcmd _ st hp
  have ht := (advance_returned a _ s1 ha).2.2.2.2.2.2.1
  have hfix : st.s.fixed = s0.fixed :=
    (fixed_of_next E a.vcmd _ st hp).trans (fixed_frame_begin E s0)
  refine ⟨st, loop_ops, hp, hl1, hl2, ?_, fun pre post hv => ?_, hadv.2.1, hadv.2.2⟩
  · rw [ht, trace_frame_end, hl1, cmdbuf_of_fixed hfix, fence_of_fixed hfix, fst_frame_begin]
    show (frame_begin E s0).2.trace ++ loop_ops ++ _ = _
    rw [trace_frame_begin]
  · rw [hv] at hp
    obtain ⟨mid, hp1, hp2⟩ := proc_commands_split E pre post _ st hp
    obtain ⟨pre_ops, hm1, _⟩ := trace_of_next E pre _ mid hp1
    obtain ⟨post_ops, hm2, _⟩ := trace_of_next E post mid st hp2
    refine ⟨mid, pre_ops, post_ops, hp1, hp2, hm1, ?_⟩
    rw [hm1, List.append_assoc] at hm2
    exact List.append_cancel_left (hl1.symm.trans hm2)

set_option maxRecDepth 4096 in
/-- The third call of the sample sequence with a driver that reports the fence
signaled: the call returns, the initialisation block is not run, and its calls
are the poll, the wait and the reset of fence 12, the acquisition of image 0
with fence 12, the release of the scratch buffer 36 and memory 38, the reset
and the begin of command buffer 11, the calls of the two commands, the end of
the open pass and of the command buffer, the second poll and the reset, the
submission with fence 12 and the presentation of image 0; the counter is then
three and the slot index one. -/
theorem frame_step_order_witness :
    oden_present_graphics ready_env upload_call
        (present_calls ready_env [upload_call, upload_call] State.initial).state =
      .returned (present_calls ready_env [upload_call, upload_call, upload_call]
        State.initial).state ∧
    frame_start ready_env upload_call
        (present_calls ready_env [upload_call, upload_call] State.initial).state =
      (present_calls ready_env [upload_call, upload_call] State.initial).state ∧
    call_ops ready_env upload_call
        (present_calls ready_env [upload_call, upload_call] State.initial).state =
      [.vkGetFenceStatus 12 .VK_SUCCESS, .vkWaitForFences 12, .vkResetFences 12,
       .vkAcquireNextImageKHR 12 0, .vkDestroyBuffer 36, .vkFreeMemory 38,
       .vkResetCommandBuffer 11, .vkBeginCommandBuffer 11,
       .vkCmdSetViewport 11 0 0 64 64, .vkCmdSetScissor 11 0 0 64 64,
       .vkCmdBeginRenderPass 11 30 31 64 64, .vkCmdBindDescriptorSets 11 32,
       .vkUpdateDescriptorSets 32 0 .COMBINED_IMAGE_SAMPLER 40 0,
       .vkCmdEndRenderPass 11, .vkEndCommandBuffer 11,
       .vkGetFenceStatus 12 .VK_SUCCESS, .vkResetFences 12,
       .vkQueueSubmit 11 12, .vkQueuePresentKHR 0] ∧
    (present_calls ready_env [upload_call, upload_call, upload_call]
      State.initial).state.frame_count = 3 ∧
    (present_calls ready_env [upload_call, upload_call, upload_call]
      State.initial).state.backbuffer_index = 1 :=
  ⟨by rfl,
    (frame_step_order ready_env upload_call _ _
      (show oden_present_graphics ready_env upload_call
          (present_calls ready_env [upload_call, upload_call] State.initial).state =
        .returned (present_calls ready_env [upload_call, upload_call, upload_call]
          State.initial).state from by rfl)).2.1 (by decide),
    by rfl, by decide, by decide⟩

/-! ### C24: the fences of the slots after the initialisation -/

theorem create_frame_resources_succ (E : Env) (k i : Nat) (s : State) :
    create_frame_resources E (k + 1) i s =
      create_frame_resources E k (i + 1)
        { s with tick := s.tick + 2
                 trace := s.trace ++ [.vkAllocateCommandBuffers (E.handle s.tick),
                   .vkCreateFence true (E.handle (s.tick + 1)),
                   .vkResetFences (E.handle (s.tick + 1))]
                 devicebuffer := s.devicebuffer.modify
                   (fun r => { r with cmdbuf := E.handle s.tick, fence := E.handle (s.tick + 1) })
                   i } := by
  simp only [create_frame_resources, State.call, State.emit, List.append_assoc,
    List.cons_append, List.nil_append]

theorem fence_modify_handles (v : List DeviceBuffer) (cb f i j : Nat) :
    ((v.modify (fun r => { r with cmdbuf := cb, fence := f }) i).getD j {}).fence =
      if i = j ∧ j < v.length then f else (v.getD j {}).fence := by
  simp only [List.getD_eq_getElem?_getD, List.getElem?_modify]
  by_cases hj : j < v.length
  · rw [List.getElem?_eq_getElem hj]
    by_cases hij : i = j
    · simp [hij, hj]
    · simp [hij]
  · rw [List.getElem?_eq_none (Nat.not_lt.mp hj)]
    simp [hj]

/-- The loop over the slots `i, i + 1, ...` leaves the fence of a slot before
`i` as it is. -/
theorem fence_create_frame_resources_lt (E : Env) (k i : Nat) (s : State) (j : Nat)
    (hj : j < i) :
    ((create_frame_resources E k i s).devicebuffer.getD j {}).fence =
      (s.devicebuffer.getD j {}).fence := by
  induction k generalizing i s with
  | zero => rfl
  | succ k ih =>
    rw [create_frame_resources_succ, ih _ _ (Nat.lt_succ_of_lt hj)]
    show ((s.devicebuffer.modify _ i).getD j {}).fence = _
    rw [fence_modify_handles, if_neg (fun hx => absurd hx.1 (Nat.ne_of_gt hj))]

theorem fence_set_append (l1 l2 : List Op) (f : Nat) :
    fence_set (l1 ++ l2) f = (fence_set l2 f).or (fence_set l1 f) := by
  unfold fence_set
  rw [List.filterMap_append, List.getLast?_append]

theorem fence_set_create_reset (c g f : Nat) :
    fence_set [.vkAllocateCommandBuffers c, .vkCreateFence true g, .vkResetFences g] f ≠
      some true := by
  unfold fence_set
  by_cases h : g = f
  · simp [List.filterMap_cons, Op.sets_fence, h]
  · simp [List.filterMap_cons, Op.sets_fence, h]

/-- The calls of the loop over the slots leave no fence signaled: the loop
extends the trace by calls whose last one on any fence, if there is one, is a
reset. -/
theorem resets_create_frame_resources (E : Env) (k i : Nat) (s : State) :
    ∃ l : List Op, (create_frame_resources E k i s).trace = s.trace ++ l ∧
      ∀ f : Nat, fence_set l f ≠ some true := by
  induction k generalizing i s with
  | zero => exact ⟨[], (List.append_nil _).symm, fun f => by simp [fence_set]⟩
  | succ k ih =>
    rw [create_frame_resources_succ]
    obtain ⟨l, hl, hf⟩ := ih (i + 1) _
    refine ⟨[.vkAllocateCommandBuffers (E.handle s.tick),
      .vkCreateFence true (E.handle (s.tick + 1)),
      .vkResetFences (E.handle (s.tick + 1))] ++ l, ?_, fun f => ?_⟩
    · rw [hl]
      exact List.append_assoc _ _ _
    rw [fence_set_append]
    have h1 := hf f
    have h2 := fence_set_create_reset (E.handle s.tick) (E.handle (s.tick + 1)) f
    cases hx : fence_set l f with
    | none => exact h2
    | some b =>
      rw [hx] at h1
      exact h1

/-- A trace in which the fence `f` is created signaled and reset at once, and
whose later calls do not leave it signaled, leaves `f` unsignaled. -/
theorem fence_set_of_create_reset (pre post : List Op) (f : Nat)
    (h : fence_set post f ≠ some true) :
    fence_set (pre ++ .vkCreateFence true f :: .vkResetFences f :: post) f = some false := by
  have e : pre ++ .vkCreateFence true f :: .vkResetFences f :: post =
      (pre ++ [.vkCreateFence true f, .vkResetFences f]) ++ post := by
    simp
  rw [e, fence_set_append]
  have h1 : fence_set (pre ++ [.vkCreateFence true f, .vkResetFences f]) f = some false := by
    rw [fence_set_append]
    simp [fence_set, List.filterMap_cons, Op.sets_fence]
  rw [h1]
  cases hx : fence_set post f with
  | none => rfl
  | some b =>
    rw [hx] at h
    cases b with
    | false => rfl
    | true => exact absurd rfl h

/-- The loop over the slots `i, ..., i + k - 1`: the fence of each of these
slots is created signaled and reset by the next call, and no later call of the
loop leaves it signaled. -/
theorem fences_create_frame_resources (E : Env) (k i : Nat) (s : State) (j : Nat)
    (h1 : i ≤ j) (h2 : j < i + k) (h3 : j < s.devicebuffer.length) :
    ∃ pre post : List Op,
      (create_frame_resources E k i s).trace =
        pre ++ .vkCreateFence true ((create_frame_resources E k i s).devicebuffer.getD j {}).fence ::
          .vkResetFences ((create_frame_resources E k i s).devicebuffer.getD j {}).fence :: post ∧
      ∀ f : Nat, fence_set post f ≠ some true := by
  induction k generalizing i s with
  | zero => omega
  | succ k ih =>
    rw [create_frame_resources_succ]
    by_cases hij : i = j
    · subst hij
      rw [fence_create_frame_resources_lt _ _ _ _ _ (Nat.lt_succ_self i)]
      obtain ⟨l, hl, hf⟩ := resets_create_frame_resources E k (i + 1)
        { s with tick := s.tick + 2
                 trace := s.trace ++ [.vkAllocateCommandBuffers (E.handle s.tick),
                   .vkCreateFence true (E.handle (s.tick + 1)),
                   .vkResetFences (E.handle (s.tick + 1))]
                 devicebuffer := s.devicebuffer.modify
                   (fun r => { r with cmdbuf := E.handle s.tick, fence := E.handle (s.tick + 1) })
                   i }
      refine ⟨s.trace ++ [.vkAllocateCommandBuffers (E.handle s.tick)], l, ?_, hf⟩
      rw [hl]
      show _ = _ ++ Op.vkCreateFence true ((s.devicebuffer.modify _ i).getD i {}).fence ::
        Op.vkResetFences ((s.devicebuffer.modify _ i).getD i {}).fence :: l
      rw [fence_modify_handles, if_pos ⟨rfl, h3⟩]
      simp
    · refine ih (i + 1) _ (by omega) (by omega) ?_
      show j < (s.devicebuffer.modify _ i).length
      rw [List.length_modify]
      exact h3

theorem trace_init_descriptors (E : Env) (a : Args) (s : State) :
    (init_descriptors E a s).trace = s.trace ++
      [.vkCreateSampler false (E.handle s.tick),
       .vkCreateSampler true (E.handle (s.tick + 1)),
       .vkCreateDescriptorPool a.heapcount (E.handle (s.tick + 2)),
       .vkCreateDescriptorSetLayout (layout_bindings a.slotmax) (E.handle (s.tick + 3)),
       .vkCreatePipelineLayout (E.handle (s.tick + 4))] := rfl

theorem devicebuffer_init_descriptors (E : Env) (a : Args) (s : State) :
    (init_descriptors E a s).devicebuffer = s.devicebuffer := rfl

theorem init_block_eq_of_returned (E : Env) (a : Args) (s s0 : State)
    (h : init_block E a s = .returned s0) :
    s0 = init_descriptors E a (init_slots E a
      (init_swapchain E a (init_device E (init_instance E s).2))) := by
  unfold init_block at h
  dsimp only at h
  split at h
  · cases h
  · injection h with h
    exact h.symm

theorem main_loop_succ (E : Env) (build : Nat → Nat → List cmd) (hwnd n frame : Nat)
    (s : State) :
    main_loop E build hwnd (n + 1) frame s =
      (frame % BufferMax, s) ::
        match oden_present_graphics E (main_args (build frame (frame % BufferMax)) hwnd) s with
        | .returned s1 => main_loop E build hwnd n ((frame + 1) % U64) s1
        | _ => [] := rfl

/-- The invariant of the main loop: the producer's counter is the core's
counter and the core's slot index is the counter modulo `BufferMax`. -/
theorem main_loop_in_step (E : Env) (build : Nat → Nat → List cmd) (hwnd n frame : Nat)
    (s : State) (hc : s.frame_count = frame) (hb : s.backbuffer_index = frame % BufferMax)
    (p : Nat × State) (hp : p ∈ main_loop E build hwnd n frame s) :
    p.1 = p.2.backbuffer_index ∧ p.1 = p.2.frame_count % BufferMax := by
  induction n generalizing frame s with
  | zero => cases hp
  | succ n ih =>
    rw [main_loop_succ] at hp
    rcases List.mem_cons.mp hp with e | hm
    · subst e
      exact ⟨hb.symm, by rw [hc]⟩
    · cases ho : oden_present_graphics E (main_args (build frame (frame % BufferMax)) hwnd) s with
      | returned s1 =>
        rw [ho] at hm
        obtain ⟨_, h1, h2⟩ := call_advance E _ s s1 ho
        rw [hc] at h1
        refine ih _ s1 h1 ?_ hm
        rw [h2, h1]
        rfl
      | exited s1 =>
        rw [ho] at hm
        cases hm
      | undefined =>
        rw [ho] at hm
        cases hm

/-- The slot index during the loop of a call is the slot index at the call. -/
theorem index_loop (E : Env) (a : Args) (cmds : List cmd) (s : State) :
    (proc_commands E cmds (loop_start E a s)).st.s.backbuffer_index = s.backbuffer_index := by
  rw [loop_start_eq, backbuffer_index_of_fixed (fixed_proc_commands E cmds _)]
  show (frame_begin E (frame_start E a s)).2.backbuffer_index = _
  rw [backbuffer_index_of_fixed (fixed_frame_begin E _), index_init_block]

/-- C29: in the main loop of the sample, started as `main` starts it (the
counter `frame` at zero, the statics of the core zero), at every iteration that
is reached the producer's `buffer_index = frame % BufferMax` is the core's
`backbuffer_index` at the start of the call, and is the core's counter modulo
`BufferMax`; during the loop of that call, after any commands, the slot index
is still `buffer_index`, so that the backbuffer name the handler of
`SetRenderTarget` compares the target with is the backbuffer name of the
producer's `buffer_index`. -/
theorem producer_in_step (E : Env) (build : Nat → Nat → List cmd) (hwnd n : Nat)
    (p : Nat × State) (hp : p ∈ main_loop E build hwnd n 0 State.initial) :
    p.1 = p.2.backbuffer_index ∧
    p.1 = p.2.frame_count % BufferMax ∧
    ∀ (a : Args) (cmds : List cmd),
      (proc_commands E cmds (loop_start E a p.2)).st.s.backbuffer_index = p.1 ∧
      E.oden_get_backbuffer_name
          (proc_commands E cmds (loop_start E a p.2)).st.s.backbuffer_index =
        E.oden_get_backbuffer_name p.1 := by
  obtain ⟨h1, h2⟩ := main_loop_in_step E build hwnd n 0 State.initial rfl rfl p hp
  refine ⟨h1, h2, fun a cmds => ?_⟩
  have e := index_loop E a cmds p.2
  rw [← h1] at e
  exact ⟨e, by rw [e]⟩

/-- Two iterations of the main loop with the sample driver, the producer
building the commands of `upload_call`: the second iteration is reached with
`buffer_index` one, and the core's slot index is one. -/
theorem producer_in_step_witness :
    (1, (present_calls sample_env [main_args upload_call.vcmd 0] State.initial).state) ∈
      main_loop sample_env (fun _ _ => upload_call.vcmd) 0 2 0 State.initial ∧
    (present_calls sample_env [main_args upload_call.vcmd 0]
      State.initial).state.backbuffer_index = 1 :=
  ⟨List.mem_cons_of_mem _ (List.mem_cons_self _ _),
    ((producer_in_step sample_env (fun _ _ => upload_call.vcmd) 0 2 _
      (List.mem_cons_of_mem _ (List.mem_cons_self _ _))).1).symm⟩

/-! ### C3: name identity -/

/-- The registration of the backbuffer images writes `mimages` under
backbuffer names only, and no other map of bindings. -/
theorem maps_register_backbuffers (E : Env) (images : List Nat) (i : Nat) (s : State) :
    (register_backbuffers E images i s).mimageviews = s.mimageviews ∧
    (register_backbuffers E images i s).mbuffers = s.mbuffers ∧
    (register_backbuffers E images i s).mrenderpasses = s.mrenderpasses ∧
    (register_backbuffers E images i s).mframebuffers = s.mframebuffers ∧
    (register_backbuffers E images i s).mdescriptor_sets = s.mdescriptor_sets ∧
    ∀ n : String, (∀ j : Nat, E.oden_get_backbuffer_name j ≠ n) →
      (register_backbuffers E images i s).mimages n = s.mimages n := by
  induction images generalizing i s with
  | nil => exact ⟨rfl, rfl, rfl, rfl, rfl, fun _ _ => rfl⟩
  | cons image rest ih =>
    unfold register_backbuffers
    obtain ⟨h1, h2, h3, h4, h5, h6⟩ := ih (i + 1)
      { s with mimages := mset s.mimages (E.oden_get_backbuffer_name i) image
               mmemreqs := mset s.mmemreqs (E.oden_get_backbuffer_name i) (some {}) }
    refine ⟨h1, h2, h3, h4, h5, fun n hn => ?_⟩
    rw [h6 n hn]
    show mset s.mimages (E.oden_get_backbuffer_name i) image n = s.mimages n
    unfold mset
    rw [if_neg (fun e => hn i e.symm)]

theorem maps_create_frame_resources (E : Env) (k i : Nat) (s : State) :
    (create_frame_resources E k i s).mimages = s.mimages ∧
    (create_frame_resources E k i s).mimageviews = s.mimageviews ∧
    (create_frame_resources E k i s).mbuffers = s.mbuffers ∧
    (create_frame_resources E k i s).mrenderpasses = s.mrenderpasses ∧
    (create_frame_resources E k i s).mframebuffers = s.mframebuffers ∧
    (create_frame_resources E k i s).mdescriptor_sets = s.mdescriptor_sets := by
  induction k generalizing i s with
  | zero => exact ⟨rfl, rfl, rfl, rfl, rfl, rfl⟩
  | succ k ih =>
    rw [create_frame_resources_succ]
    exact ih (i + 1) _

/-- The initialisation block writes `mimages` under backbuffer names only, and
no other map of bindings. -/
theorem maps_init_block (E : Env) (a : Args) (s : State) :
    (init_block E a s).state.mimageviews = s.mimageviews ∧
    (init_block E a s).state.mbuffers = s.mbuffers ∧
    (init_block E a s).state.mrenderpasses = s.mrenderpasses ∧
    (init_block E a s).state.mframebuffers = s.mframebuffers ∧
    (init_block E a s).state.mdescriptor_sets = s.mdescriptor_sets ∧
    ∀ n : String, (∀ j : Nat, E.oden_get_backbuffer_name j ≠ n) →
      (init_block E a s).state.mimages n = s.mimages n := by
  unfold init_block
  dsimp only
  split
  · exact ⟨rfl, rfl, rfl, rfl, rfl, fun _ _ => rfl⟩
  · generalize hx : init_device E (init_instance E s).2 = x
    have ex : x.mimages = s.mimages ∧ x.mimageviews = s.mimageviews ∧
        x.mbuffers = s.mbuffers ∧ x.mrenderpasses = s.mrenderpasses ∧
        x.mframebuffers = s.mframebuffers ∧ x.mdescriptor_sets = s.mdescriptor_sets := by
      rw [← hx]
      exact ⟨rfl, rfl, rfl, rfl, rfl, rfl⟩
    obtain ⟨x1, x2, x3, x4, x5, x6⟩ := ex
    obtain ⟨c1, c2, c3, c4, c5, c6⟩ := maps_create_frame_resources E a.count 0
      { init_swapchain E a x with
          devicebuffer := resize (init_swapchain E a x).devicebuffer a.count }
    obtain ⟨r1, r2, r3, r4, r5, r6⟩ := maps_register_backbuffers E
      (E.swapchainImages (x.tick + 2)) 0
      { x with surface := E.handle x.tick
               swapchain := E.handle (x.tick + 1)
               tick := x.tick + 3
               trace := x.trace ++ [.vkCreateWin32SurfaceKHR a.handle (E.handle x.tick),
                 .vkCreateSwapchainKHR a.count a.w a.h (E.handle (x.tick + 1)),
                 .vkGetSwapchainImagesKHR (E.swapchainImages (x.tick + 2))] }
    refine ⟨c2.trans (r1.trans x2), c3.trans (r2.trans x3), c4.trans (r3.trans x4),
      c5.trans (r4.trans x5), c6.trans (r5.trans x6), fun n hn => ?_⟩
    exact (congrFun c1 n).trans ((r6 n hn).trans (congrFun x1 n))

theorem keeps_other_of_keeps (E : Env) {s s1 : State} (h : keeps_bindings s s1) :
    keeps_other_bindings E s s1 := by
  intro n
  obtain ⟨a, b, c, d, e, f⟩ := h n
  exact ⟨fun hn _ => a hn, b, c, d, e, f⟩

theorem keeps_other_trans (E : Env) {s s1 s2 : State} (h1 : keeps_other_bindings E s s1)
    (h2 : keeps_other_bindings E s1 s2) : keeps_other_bindings E s s2 := by
  intro n
  obtain ⟨a1, b1, c1, d1, e1, f1⟩ := h1 n
  obtain ⟨a2, b2, c2, d2, e2, f2⟩ := h2 n
  refine ⟨fun h hn => ?_, fun h => ?_, fun h => ?_, fun h => ?_, fun h => ?_, fun h => ?_⟩
  · rw [a2 (by rw [a1 h hn]; exact h) hn, a1 h hn]
  · rw [b2 (by rw [b1 h]; exact h), b1 h]
  · rw [c2 (by rw [c1 h]; exact h), c1 h]
  · rw [d2 (by rw [d1 h]; exact h), d1 h]
  · rw [e2 (by rw [e1 h]; exact h), e1 h]
  · rw [f2 (by rw [f1 h]; exact h), f1 h]

/-- The state with which the frame of a call starts keeps every binding of the
state at the call, except possibly the images under backbuffer names. -/
theorem keeps_other_frame_start (E : Env) (a : Args) (s : State) :
    keeps_other_bindings E s (frame_start E a s) := by
  unfold frame_start
  split
  · obtain ⟨h1, h2, h3, h4, h5, h6⟩ := maps_init_block E a s
    intro n
    exact ⟨fun _ hn => h6 n hn, fun _ => congrFun h1 n, fun _ => congrFun h2 n,
      fun _ => congrFun h3 n, fun _ => congrFun h4 n, fun _ => congrFun h5 n⟩
  · exact keeps_other_of_keeps E (grows_refl s).1

/-- In a call that returns, the state reached after any first part of the
command vector grows from the state with which the frame starts, and the state
returned grows from it; `inst` is as the frame starts with it. -/
theorem frame_grows (E : Env) (a : Args) (s s1 : State) (pre post : List cmd)
    (hv : a.vcmd = pre ++ post) (h : oden_present_graphics E a s = .returned s1) :
    Grows (frame_start E a s) (proc_commands E pre (loop_start E a s)).st.s ∧
    Grows (proc_commands E pre (loop_start E a s)).st.s s1 ∧
    s1.inst = (frame_start E a s).inst := by
  have hf := frame_start_returned E a s s1 h
  rw [loop_start_eq]
  generalize frame_start E a s = s0 at hf ⊢
  obtain ⟨_, st, hp, ha⟩ := present_frame_returned E a s0 s1 hf
  rw [hv] at hp
  obtain ⟨st1, hp1, hp2⟩ := proc_commands_split E pre post _ st hp
  obtain ⟨_, _, _, hinst, _, _, _, hg⟩ := advance_returned a _ s1 ha
  rw [hp1]
  refine ⟨?_, ?_, ?_⟩
  · exact grows_trans (grows_frame_begin E s0) (grows_of_next E pre _ st1 hp1)
  · exact grows_trans (grows_of_next E post st1 st hp2)
      (grows_trans (grows_frame_end E _ st) hg)
  · rw [hinst, inst_of_fixed (fixed_frame_end E _ st),
      inst_of_fixed (fixed_of_next E post st1 st hp2),
      inst_of_fixed (fixed_of_next E pre _ st1 hp1)]
    exact inst_of_fixed (fixed_frame_begin E s0)

theorem call_keeps_other (E : Env) (a : Args) (s s1 : State)
    (h : oden_present_graphics E a s = .returned s1) : keeps_other_bindings E s s1 := by
  obtain ⟨g1, g2, _⟩ := frame_grows E a s s1 [] a.vcmd rfl h
  exact keeps_other_trans E (keeps_other_frame_start E a s)
    (keeps_other_of_keeps E (grows_trans g1 g2).1)

theorem present_calls_keeps_other (E : Env) (calls : List Args) (s s1 : State)
    (h : present_calls E calls s = .returned s1) : keeps_other_bindings E s s1 := by
  induction calls generalizing s with
  | nil =>
    unfold present_calls at h
    injection h with h
    subst h
    exact keeps_other_of_keeps E (grows_refl s).1
  | cons a rest ih =>
    unfold present_calls at h
    cases hc : oden_present_graphics E a s with
    | returned s2 =>
      rw [hc] at h
      exact keeps_other_trans E (call_keeps_other E a s s2 hc) (ih s2 h)
    | exited s2 => rw [hc] at h; cases h
    | undefined => rw [hc] at h; cases h

end Oden
